import Mathlib

set_option maxRecDepth 4000

/-!
Shallow embedding of the NOVA repository's two game scripts.

`TicTacToe` embeds `src/tic-tac-toe-web-game/script.js`: the board is a list
of cells (`''`, `'X'`, `'O'` become `Cell.E`, `Cell.X`, `Cell.O`), and the
recursive `minimax` function is embedded as `minimaxF`, a fueled function that
threads the board through the computation exactly as the JavaScript mutates
and restores the shared array (`newBoard[spot] = player` … recurse …
`newBoard[spot] = ''`).  `none` models a run that would not return normally
(the fuel ran out, or `moves[bestMove]` would be `undefined`); the
termination theorem shows fuel `emptyCount b + 1` always suffices, so the
wrapper `minimax` runs at that fuel.

`Snake` embeds the power-up state machine of `src/snake-game/script.js`
(`activatePowerUp` / `deactivatePowerUp`) as explicit state passing over the
script's global variables, with `gameSpeed` an exact rational.
-/

namespace TicTacToe

/-- A board cell: empty (`''`), `'X'`, or `'O'`. -/
inductive Cell
  | E
  | X
  | O
deriving DecidableEq, Repr

/-- `const board = ['', '', …]` is an array of 9 cells; the functions under
verification take the board as an argument, so we model it as a list. -/
abbrev Board := List Cell

/-- `const humanPlayer = 'X'` (script.js line 2). -/
def humanPlayer : Cell := Cell.X

/-- `const aiPlayer = 'O'` (script.js line 3). -/
def aiPlayer : Cell := Cell.O

/-- `winningConditions` (script.js lines 13–22). -/
def winningConditions : List (List Nat) :=
  [[0, 1, 2], [3, 4, 5], [6, 7, 8],
   [0, 3, 6], [1, 4, 7], [2, 5, 8],
   [0, 4, 8], [2, 4, 6]]

/-- `checkWin(currentBoard, player)` (script.js lines 153–159):
`winningConditions.some(condition => condition.every(index =>
currentBoard[index] === player))`.  An out-of-range read (`undefined` in JS)
compares unequal to `'X'`/`'O'`; `getD … Cell.E` matches this for the two
players the script ever passes. -/
def checkWin (currentBoard : Board) (player : Cell) : Bool :=
  winningConditions.any fun condition =>
    condition.all fun index => currentBoard.getD index Cell.E == player

/-- Helper for the `map`/`filter` index computation, generalized over the
start offset so that facts about it can be proved by list induction. -/
def availFrom (k : Nat) (b : Board) : List Nat :=
  (List.enumFrom k b).filterMap fun is => if is.2 = Cell.E then some is.1 else none

/-- `newBoard.map((s, i) => (s === '' ? i : null)).filter(s => s !== null)`
(script.js line 103): the indices of the empty cells, in ascending order. -/
def availableSpots (b : Board) : List Nat := availFrom 0 b

/-- `getAvailableSpots(currentBoard)` (script.js lines 161–163); its body is
the same expression as line 103. -/
def getAvailableSpots (currentBoard : Board) : List Nat := availFrom 0 currentBoard

/-- One entry of the `moves` array built inside `minimax`: `{index, score}`. -/
structure ScoredMove where
  index : Nat
  score : Int
deriving DecidableEq, Repr

/-- What `minimax` returns: `{score}` at a terminal board (no index), or
`moves[bestMove]` (index and score). -/
structure SearchResult where
  index : Option Nat
  score : Int
deriving DecidableEq, Repr

/-- The opponent handed to the recursive call (script.js lines 119–125):
`player === aiPlayer` recurses with `humanPlayer`, otherwise with `aiPlayer`. -/
def other (player : Cell) : Cell :=
  if player == aiPlayer then humanPlayer else aiPlayer

/-- The strict comparison of the selection loops (lines 135 and 143):
`moves[i].score > bestScore` for the maximizing `aiPlayer`,
`moves[i].score < bestScore` for the minimizing branch. -/
def isBetter (player : Cell) (a c : Int) : Bool :=
  if player == aiPlayer then c < a else a < c

/-- The running state of the selection loop (script.js lines 131–148).  The
accumulator `none` models the initial `bestScore = ∓Infinity, bestMove =
undefined` state: any real (integer) score strictly beats the infinite
sentinel, so the first element always replaces it. -/
def bestLoop (player : Cell) : List ScoredMove → Option ScoredMove → Option ScoredMove
  | [], best => best
  | m :: rest, none => bestLoop player rest (some m)
  | m :: rest, some bm =>
      if isBetter player m.score bm.score then bestLoop player rest (some m)
      else bestLoop player rest (some bm)

/-- Lines 131–150: scan `moves`, keeping the first entry that strictly beats
the running best; `minimax` returns `moves[bestMove]`. -/
def selectBest (player : Cell) (moves : List ScoredMove) : Option ScoredMove :=
  bestLoop player moves none

/-- The `for` loop of `minimax` (script.js lines 114–129): for each available
spot, write `player` into the board, recurse with the opponent, reset the
spot to `''`, and record `{index: spot, score: result.score}`.  The board is
threaded explicitly, mirroring the in-place mutation of the shared array. -/
def movesLoop (mm : Board → Cell → Option (SearchResult × Board)) (player : Cell) :
    List Nat → Board → Option (List ScoredMove × Board)
  | [], b => some ([], b)
  | spot :: rest, b =>
      match mm (b.set spot player) (other player) with
      | none => none
      | some (result, b2) =>
          match movesLoop mm player rest (b2.set spot Cell.E) with
          | none => none
          | some (ms, bf) => some (⟨spot, result.score⟩ :: ms, bf)

/-- `minimax(newBoard, player)` (script.js lines 102–151), with explicit fuel
bounding the recursion depth.  Terminal boards return `{score: -10}`,
`{score: 10}` or `{score: 0}` with no index (lines 105–111); otherwise the
children are scored by `movesLoop` and the best is selected by the strict
comparison loops (lines 131–150). -/
def minimaxF : Nat → Board → Cell → Option (SearchResult × Board)
  | 0, _, _ => none
  | fuel + 1, newBoard, player =>
      let spots := availableSpots newBoard
      if checkWin newBoard humanPlayer then some (⟨none, -10⟩, newBoard)
      else if checkWin newBoard aiPlayer then some (⟨none, 10⟩, newBoard)
      else if spots.length = 0 then some (⟨none, 0⟩, newBoard)
      else
        match movesLoop (minimaxF fuel) player spots newBoard with
        | none => none
        | some (ms, bf) =>
            match selectBest player ms with
            | none => none
            | some m => some (⟨some m.index, m.score⟩, bf)

/-- The number of empty cells of the board. -/
def emptyCount (b : Board) : Nat := b.count Cell.E

/-- The JavaScript `minimax` call: by the termination theorem, fuel
`emptyCount b + 1` is always enough for the players the script passes, so
this is the embedding of the full (unfueled) recursion. -/
def minimax (newBoard : Board) (player : Cell) : Option (SearchResult × Board) :=
  minimaxF (emptyCount newBoard + 1) newBoard player

/-- `const board = ['', '', '', '', '', '', '', '', '']` (script.js line 1):
the initial, empty board. -/
def board : Board :=
  [Cell.E, Cell.E, Cell.E, Cell.E, Cell.E, Cell.E, Cell.E, Cell.E, Cell.E]

/-- The score of a search outcome (`0` as a don't-care value for an abnormal
run); proof device used to state facts about the children of a position. -/
def scoreOf : Option (SearchResult × Board) → Int
  | none => 0
  | some (r, _) => r.score

/-- The minimax value of the position reached by playing `s`: what the
opponent, searching optimally afterwards, can force from there. -/
def childScore (b : Board) (player : Cell) (s : Nat) : Int :=
  scoreOf (minimax (b.set s player) (other player))

/-- The game has ended: some player completed a line, or no cell is free
(the terminal tests of `minimax`, lines 105–111). -/
def gameOver (b : Board) : Bool :=
  checkWin b humanPlayer || checkWin b aiPlayer || (availableSpots b).length == 0

/-- Self-play harness for the optimality property: starting from `b` with
`player` to move, repeatedly play the Move chosen by `minimax` for the side
to move until the game is over. -/
def selfPlay : Nat → Board → Cell → Board
  | 0, b, _ => b
  | fuel + 1, b, player =>
      if gameOver b then b
      else
        match minimax b player with
        | some (r, _) =>
            match r.index with
            | some m => selfPlay fuel (b.set m player) (other player)
            | none => b
        | none => b

/-- Certificate evaluator for the lower bound of the game value: `oGuar fuel
b p = true` certifies that with `p` to move on `b`, the player `'O'` can
force an outcome that is a win for `'O'` or a draw (score `≥ 0`): at an
`'X'`-to-move position every reply must keep the guarantee, at an
`'O'`-to-move position some move must. -/
def oGuar : Nat → Board → Cell → Bool
  | 0, _, _ => false
  | fuel + 1, b, p =>
      if checkWin b humanPlayer then false
      else if checkWin b aiPlayer then true
      else if (availableSpots b).length = 0 then true
      else if p == humanPlayer then
        (availableSpots b).all fun s => oGuar fuel (b.set s humanPlayer) aiPlayer
      else
        (availableSpots b).any fun s => oGuar fuel (b.set s aiPlayer) humanPlayer

/-- Certificate evaluator for the upper bound of the game value: `xGuar fuel
b p = true` certifies that with `p` to move on `b`, the player `'X'` can
force a win for `'X'` or a draw (score `≤ 0`). -/
def xGuar : Nat → Board → Cell → Bool
  | 0, _, _ => false
  | fuel + 1, b, p =>
      if checkWin b humanPlayer then true
      else if checkWin b aiPlayer then false
      else if (availableSpots b).length = 0 then true
      else if p == humanPlayer then
        (availableSpots b).any fun s => xGuar fuel (b.set s humanPlayer) aiPlayer
      else
        (availableSpots b).all fun s => xGuar fuel (b.set s aiPlayer) humanPlayer

/-- The difficulty setting of the dropdown (`'easy' | 'medium' | 'hard'`). -/
inductive Difficulty
  | easy
  | medium
  | hard
deriving DecidableEq, Repr

/-- The `bestSpot` computation of `handleAIMove` (script.js lines 165–198).
`rand` models the stream of `Math.floor(Math.random() * …)` draws: the value
`rand` is reduced modulo the number of available spots where the script
indexes by a random number (`none` models the `undefined` index of an empty
list).  The `'medium'` tier tries each spot on a copy of the board
(`tempBoard = [...board]`), first to win, then to block; the `'hard'` tier
runs `minimax(board, aiPlayer)` and takes its `index`, consulting no
randomness. -/
def handleAIMoveSpot (difficulty : Difficulty) (rand : Nat) (b : Board) : Option Nat :=
  let availableSpots := getAvailableSpots b
  match difficulty with
  | .easy => availableSpots.get? (rand % availableSpots.length)
  | .medium =>
      match availableSpots.find? (fun s => checkWin (b.set s aiPlayer) aiPlayer) with
      | some s => some s
      | none =>
          match availableSpots.find? (fun s => checkWin (b.set s humanPlayer) humanPlayer) with
          | some s => some s
          | none => availableSpots.get? (rand % availableSpots.length)
  | .hard =>
      match minimax b aiPlayer with
      | some (r, _) => r.index
      | none => none

end TicTacToe

namespace Snake

/-- The name of a power-up (`powerUpTypes[i].name`, script.js lines 18–22). -/
inductive PowerUpName
  | speedBoost
  | scoreMultiplier
  | growthInhibitor
deriving DecidableEq, Repr

/-- One entry of `powerUpTypes` (script.js lines 18–22). -/
structure PowerUpType where
  name : PowerUpName
  color : String
  duration : Int
deriving DecidableEq, Repr

/-- `const powerUpTypes = [ … ]` (script.js lines 18–22). -/
def powerUpTypes : List PowerUpType :=
  [⟨PowerUpName.speedBoost, "cyan", 5000⟩,
   ⟨PowerUpName.scoreMultiplier, "gold", 7000⟩,
   ⟨PowerUpName.growthInhibitor, "magenta", 3⟩]

/-- The `activePowerUp` object: `{ name: type.name }`, plus the `count`
field added only in the `growthInhibitor` case (script.js lines 172, 185). -/
structure ActivePowerUp where
  name : PowerUpName
  count : Option Int
deriving DecidableEq, Repr

/-- The global mutable variables touched by `activatePowerUp` /
`deactivatePowerUp` (script.js lines 11–16), as an explicit state record;
`gameSpeed` is an exact rational.  The `setInterval` / `clearInterval`
churn re-arms the frame timer with the current `gameSpeed` and carries no
further state. -/
structure GameState where
  gameSpeed : ℚ
  scoreMultiplier : Int
  activePowerUp : Option ActivePowerUp
  powerUpTimer : Int
  growthInhibitorCount : Int
deriving DecidableEq, Repr

/-- `activatePowerUp(type)` (script.js lines 171–194): records the active
power-up and its timer (`type.duration || 0`), then dispatches on the name:
`speedBoost` halves `gameSpeed` (`gameSpeed /= 2`), `scoreMultiplier` sets
the multiplier to 2, `growthInhibitor` uses `duration` as an eat count and
clears the timer. -/
def activatePowerUp (type : PowerUpType) (st : GameState) : GameState :=
  let st := { st with
    activePowerUp := some ⟨type.name, none⟩,
    powerUpTimer := type.duration }
  match type.name with
  | PowerUpName.speedBoost => { st with gameSpeed := st.gameSpeed / 2 }
  | PowerUpName.scoreMultiplier => { st with scoreMultiplier := 2 }
  | PowerUpName.growthInhibitor =>
      { st with
        activePowerUp := some ⟨type.name, some type.duration⟩,
        growthInhibitorCount := type.duration,
        powerUpTimer := 0 }

/-- `deactivatePowerUp()` (script.js lines 196–212): if no power-up is
active, returns unchanged; otherwise `speedBoost` doubles `gameSpeed` back
(`gameSpeed *= 2`), `scoreMultiplier` resets the multiplier, and in every
case the active power-up and timer are cleared. -/
def deactivatePowerUp (st : GameState) : GameState :=
  match st.activePowerUp with
  | none => st
  | some active =>
      let st :=
        match active.name with
        | PowerUpName.speedBoost => { st with gameSpeed := st.gameSpeed * 2 }
        | PowerUpName.scoreMultiplier => { st with scoreMultiplier := 1 }
        | PowerUpName.growthInhibitor => st
      { st with activePowerUp := none, powerUpTimer := 0 }

end Snake

namespace TicTacToe

theorem availFrom_nil (k : Nat) : availFrom k [] = [] := rfl

theorem availFrom_cons (k : Nat) (c : Cell) (t : Board) :
    availFrom k (c :: t) =
      if c = Cell.E then k :: availFrom (k + 1) t else availFrom (k + 1) t := by
  by_cases hc : c = Cell.E <;>
    simp [availFrom, List.enumFrom, List.filterMap_cons, hc]

theorem mem_availFrom : ∀ (b : Board) (k s : Nat),
    s ∈ availFrom k b ↔ ∃ j, j < b.length ∧ s = k + j ∧ b.getD j Cell.E = Cell.E := by
  intro b
  induction b with
  | nil => intro k s; simp [availFrom_nil]
  | cons c t ih =>
      intro k s
      rw [availFrom_cons]
      constructor
      · intro h
        by_cases hc : c = Cell.E
        · rw [if_pos hc] at h
          rcases List.mem_cons.mp h with h | h
          · exact ⟨0, by simp, by omega, by rw [List.getD_cons_zero]; exact hc⟩
          · rcases (ih (k + 1) s).mp h with ⟨j, hj, hs, hg⟩
            exact ⟨j + 1, by simp; omega, by omega, by rw [List.getD_cons_succ]; exact hg⟩
        · rw [if_neg hc] at h
          rcases (ih (k + 1) s).mp h with ⟨j, hj, hs, hg⟩
          exact ⟨j + 1, by simp; omega, by omega, by rw [List.getD_cons_succ]; exact hg⟩
      · rintro ⟨j, hj, hs, hg⟩
        cases j with
        | zero =>
            rw [List.getD_cons_zero] at hg
            rw [if_pos hg]
            have : s = k := by omega
            rw [this]
            exact List.mem_cons_self _ _
        | succ n =>
            rw [List.getD_cons_succ] at hg
            have hmem : s ∈ availFrom (k + 1) t :=
              (ih (k + 1) s).mpr ⟨n, by simp at hj; omega, by omega, hg⟩
            by_cases hc : c = Cell.E
            · rw [if_pos hc]; exact List.mem_cons_of_mem _ hmem
            · rw [if_neg hc]; exact hmem

theorem mem_availableSpots (b : Board) (s : Nat) :
    s ∈ availableSpots b ↔ s < b.length ∧ b.getD s Cell.E = Cell.E := by
  rw [availableSpots, mem_availFrom]
  constructor
  · rintro ⟨j, hj, hs, hg⟩
    have : s = j := by omega
    subst this
    exact ⟨hj, hg⟩
  · rintro ⟨h1, h2⟩
    exact ⟨s, h1, by omega, h2⟩

theorem availFrom_length : ∀ (b : Board) (k : Nat),
    (availFrom k b).length = b.count Cell.E := by
  intro b
  induction b with
  | nil => intro k; rfl
  | cons c t ih =>
      intro k
      rw [availFrom_cons, List.count_cons]
      by_cases hc : c = Cell.E
      · rw [if_pos hc]
        simp [hc, ih]
      · rw [if_neg hc]
        have : (c == Cell.E) = false := by simp [hc]
        simp [this, ih]

theorem availableSpots_length (b : Board) :
    (availableSpots b).length = emptyCount b :=
  availFrom_length b 0

theorem set_getD_self : ∀ (b : Board) (s : Nat),
    b.getD s Cell.E = Cell.E → b.set s Cell.E = b := by
  intro b
  induction b with
  | nil => intro s _; rfl
  | cons c t ih =>
      intro s h
      cases s with
      | zero =>
          rw [List.getD_cons_zero] at h
          rw [show (c :: t).set 0 Cell.E = Cell.E :: t from rfl, h]
      | succ n =>
          rw [List.getD_cons_succ] at h
          rw [show (c :: t).set (n + 1) Cell.E = c :: t.set n Cell.E from rfl, ih n h]

theorem count_set_decr : ∀ (b : Board) (s : Nat) (p : Cell),
    s < b.length → b.getD s Cell.E = Cell.E → p ≠ Cell.E →
    (b.set s p).count Cell.E + 1 = b.count Cell.E := by
  intro b
  induction b with
  | nil => intro s p h; simp at h
  | cons c t ih =>
      intro s p hlen hget hp
      cases s with
      | zero =>
          rw [List.getD_cons_zero] at hget
          rw [show (c :: t).set 0 p = p :: t from rfl, List.count_cons, List.count_cons]
          have h1 : (p == Cell.E) = false := by simp [hp]
          have h2 : (c == Cell.E) = true := by simp [hget]
          rw [h1, h2, if_pos rfl]
          simp only [Bool.false_eq_true, if_false]
      | succ n =>
          rw [List.getD_cons_succ] at hget
          simp only [List.length_cons] at hlen
          have h' := ih n p (by omega) hget hp
          rw [show (c :: t).set (n + 1) p = c :: t.set n p from rfl,
            List.count_cons, List.count_cons]
          by_cases hc : c = Cell.E
          · have hb : (c == Cell.E) = true := by simp [hc]
            rw [hb, if_pos rfl]
            omega
          · have hb : (c == Cell.E) = false := by simp [hc]
            rw [hb]
            simp only [Bool.false_eq_true, if_false]
            omega

theorem emptyCount_set (b : Board) (s : Nat) (p : Cell)
    (hs : s ∈ availableSpots b) (hp : p ≠ Cell.E) :
    emptyCount (b.set s p) + 1 = emptyCount b := by
  rcases (mem_availableSpots b s).mp hs with ⟨h1, h2⟩
  exact count_set_decr b s p h1 h2 hp

theorem set_e_noop (b : Board) (s : Nat) (hs : s ∈ availableSpots b) :
    b.set s Cell.E = b := by
  rcases (mem_availableSpots b s).mp hs with ⟨_, h2⟩
  exact set_getD_self b s h2

end TicTacToe

namespace TicTacToe

theorem movesLoop_restores
    (mm : Board → Cell → Option (SearchResult × Board))
    (hmm : ∀ b p r b2, mm b p = some (r, b2) → b2 = b) (player : Cell) :
    ∀ (spots : List Nat) (b : Board) (ms : List ScoredMove) (bf : Board),
      (∀ s ∈ spots, b.set s Cell.E = b) →
      movesLoop mm player spots b = some (ms, bf) → bf = b := by
  intro spots
  induction spots with
  | nil =>
      intro b ms bf _ h
      simp only [movesLoop, Option.some.injEq, Prod.mk.injEq] at h
      exact h.2.symm
  | cons s rest ih =>
      intro b ms bf hset h
      rw [movesLoop] at h
      rcases hmb : mm (b.set s player) (other player) with _ | ⟨res, b2⟩
      · rw [hmb] at h; exact absurd h (by simp)
      · rw [hmb] at h
        dsimp only at h
        have hb2 : b2 = b.set s player := hmm _ _ _ _ hmb
        have hre : b2.set s Cell.E = b := by
          rw [hb2, List.set_set]
          exact hset s (List.mem_cons_self _ _)
        rw [hre] at h
        rcases hml : movesLoop mm player rest b with _ | ⟨ms2, bf2⟩
        · rw [hml] at h; exact absurd h (by simp)
        · rw [hml] at h
          dsimp only at h
          simp only [Option.some.injEq, Prod.mk.injEq] at h
          rw [← h.2]
          exact ih b ms2 bf2 (fun t ht => hset t (List.mem_cons_of_mem _ ht)) hml

theorem minimaxF_restores : ∀ (fuel : Nat) (b : Board) (p : Cell)
    (r : SearchResult) (b2 : Board), minimaxF fuel b p = some (r, b2) → b2 = b := by
  intro fuel
  induction fuel with
  | zero => intro b p r b2 h; exact absurd h (by simp [minimaxF])
  | succ fuel ih =>
      intro b p r b2 h
      rw [minimaxF] at h
      by_cases h1 : checkWin b humanPlayer
      · rw [if_pos h1] at h
        simp only [Option.some.injEq, Prod.mk.injEq] at h
        exact h.2.symm
      · rw [if_neg h1] at h
        by_cases h2 : checkWin b aiPlayer
        · rw [if_pos h2] at h
          simp only [Option.some.injEq, Prod.mk.injEq] at h
          exact h.2.symm
        · rw [if_neg h2] at h
          by_cases h3 : (availableSpots b).length = 0
          · rw [if_pos h3] at h
            simp only [Option.some.injEq, Prod.mk.injEq] at h
            exact h.2.symm
          · rw [if_neg h3] at h
            rcases hml : movesLoop (minimaxF fuel) p (availableSpots b) b with _ | ⟨ms, bf⟩
            · rw [hml] at h; exact absurd h (by simp)
            · rw [hml] at h
              dsimp only at h
              rcases hsb : selectBest p ms with _ | m
              · rw [hsb] at h; exact absurd h (by simp)
              · rw [hsb] at h
                dsimp only at h
                simp only [Option.some.injEq, Prod.mk.injEq] at h
                rw [← h.2]
                exact movesLoop_restores (minimaxF fuel) (ih) p (availableSpots b) b ms bf
                  (fun s hs => set_e_noop b s hs) hml

end TicTacToe

namespace TicTacToe

theorem movesLoop_eq
    (mm : Board → Cell → Option (SearchResult × Board))
    (hmm : ∀ b p r b2, mm b p = some (r, b2) → b2 = b) (player : Cell) :
    ∀ (spots : List Nat) (b : Board),
      (∀ s ∈ spots, b.set s Cell.E = b) →
      (∀ s ∈ spots, (mm (b.set s player) (other player)).isSome = true) →
      movesLoop mm player spots b =
        some (spots.map fun s => ⟨s, scoreOf (mm (b.set s player) (other player))⟩, b) := by
  intro spots
  induction spots with
  | nil => intro b _ _; rfl
  | cons s rest ih =>
      intro b hset htot
      have h0 := htot s (List.mem_cons_self _ _)
      rcases hmb : mm (b.set s player) (other player) with _ | ⟨res, b2⟩
      · rw [hmb] at h0; exact absurd h0 (by simp)
      · have hb2 : b2 = b.set s player := hmm _ _ _ _ hmb
        have hre : b2.set s Cell.E = b := by
          rw [hb2, List.set_set]; exact hset s (List.mem_cons_self _ _)
        rw [movesLoop, hmb]
        dsimp only
        rw [hre, ih b (fun t ht => hset t (List.mem_cons_of_mem _ ht))
          (fun t ht => htot t (List.mem_cons_of_mem _ ht))]
        dsimp only
        rw [List.map_cons, hmb]
        rfl

theorem bestLoop_isSome (player : Cell) :
    ∀ (ms : List ScoredMove) (bm : ScoredMove),
      ∃ r, bestLoop player ms (some bm) = some r := by
  intro ms
  induction ms with
  | nil => intro bm; exact ⟨bm, rfl⟩
  | cons m rest ih =>
      intro bm
      rw [bestLoop]
      by_cases hb : isBetter player m.score bm.score = true
      · rw [if_pos hb]; exact ih m
      · rw [if_neg hb]; exact ih bm

theorem selectBest_isSome (player : Cell) (ms : List ScoredMove) (h : ms ≠ []) :
    ∃ r, selectBest player ms = some r := by
  cases ms with
  | nil => exact absurd rfl h
  | cons m rest => exact bestLoop_isSome player rest m

theorem other_ne_e (p : Cell) : other p = humanPlayer ∨ other p = aiPlayer := by
  rw [other]
  split
  · exact Or.inl rfl
  · exact Or.inr rfl

theorem player_ne_e (p : Cell) (hp : p = humanPlayer ∨ p = aiPlayer) : p ≠ Cell.E := by
  rcases hp with h | h <;> subst h <;> simp [humanPlayer, aiPlayer]

theorem minimaxF_total : ∀ (fuel : Nat) (b : Board) (p : Cell),
    (p = humanPlayer ∨ p = aiPlayer) → emptyCount b < fuel →
    ∃ r, minimaxF fuel b p = some (r, b) := by
  intro fuel
  induction fuel with
  | zero => intro b p _ h; omega
  | succ fuel ih =>
      intro b p hp hfuel
      by_cases h1 : checkWin b humanPlayer = true
      · exact ⟨⟨none, -10⟩, by rw [minimaxF, if_pos h1]⟩
      · by_cases h2 : checkWin b aiPlayer = true
        · exact ⟨⟨none, 10⟩, by rw [minimaxF, if_neg h1, if_pos h2]⟩
        · by_cases h3 : (availableSpots b).length = 0
          · exact ⟨⟨none, 0⟩, by rw [minimaxF, if_neg h1, if_neg h2, if_pos h3]⟩
          · have hpE : p ≠ Cell.E := player_ne_e p hp
            have htot : ∀ s ∈ availableSpots b,
                (minimaxF fuel (b.set s p) (other p)).isSome = true := by
              intro s hs
              have hec := emptyCount_set b s p hs hpE
              rcases ih (b.set s p) (other p) (other_ne_e p) (by omega) with ⟨r, hr⟩
              rw [hr]; rfl
            have hml := movesLoop_eq (minimaxF fuel) (minimaxF_restores fuel) p
              (availableSpots b) b (fun s hs => set_e_noop b s hs) htot
            have hmsne : ((availableSpots b).map fun s =>
                (⟨s, scoreOf (minimaxF fuel (b.set s p) (other p))⟩ : ScoredMove)) ≠ [] := by
              intro hc
              rw [List.map_eq_nil_iff] at hc
              exact h3 (by rw [hc]; rfl)
            obtain ⟨m, hm⟩ := selectBest_isSome p _ hmsne
            refine ⟨⟨some m.index, m.score⟩, ?_⟩
            rw [minimaxF, if_neg h1, if_neg h2, if_neg h3]
            rw [hml]
            dsimp only
            rw [hm]

end TicTacToe

namespace TicTacToe

theorem isBetter_irrefl (player : Cell) (a : Int) : isBetter player a a = false := by
  rw [isBetter]; split <;> simp

theorem isBetter_asymm (player : Cell) (a c : Int) (h : isBetter player a c = true) :
    isBetter player c a = false := by
  by_cases hp : (player == aiPlayer) = true
  · rw [isBetter, if_pos hp] at h ⊢; simp at h ⊢; omega
  · rw [isBetter, if_neg hp] at h
    rw [isBetter, if_neg hp]
    simp at h ⊢; omega

theorem isBetter_trans (player : Cell) (a b c : Int) (h1 : isBetter player a b = true)
    (h2 : isBetter player b c = true) : isBetter player a c = true := by
  by_cases hp : (player == aiPlayer) = true
  · rw [isBetter, if_pos hp] at h1 h2 ⊢; simp at h1 h2 ⊢; omega
  · rw [isBetter, if_neg hp] at h1 h2
    rw [isBetter, if_neg hp]
    simp at h1 h2 ⊢; omega

theorem isBetter_trans_not (player : Cell) (a b c : Int) (h1 : isBetter player a b = true)
    (h2 : isBetter player c b = false) : isBetter player a c = true := by
  by_cases hp : (player == aiPlayer) = true
  · rw [isBetter, if_pos hp] at h1 h2 ⊢; simp at h1 h2 ⊢; omega
  · rw [isBetter, if_neg hp] at h1 h2
    rw [isBetter, if_neg hp]
    simp at h1 h2 ⊢; omega

theorem bestLoop_split (player : Cell) :
    ∀ (ms : List ScoredMove) (bm r : ScoredMove),
      bestLoop player ms (some bm) = some r →
      (r = bm ∧ ∀ m ∈ ms, isBetter player m.score bm.score = false) ∨
      (∃ pre post, ms = pre ++ r :: post ∧ isBetter player r.score bm.score = true ∧
        (∀ m ∈ pre, isBetter player r.score m.score = true) ∧
        (∀ m ∈ post, isBetter player m.score r.score = false)) := by
  intro ms
  induction ms with
  | nil =>
      intro bm r h
      rw [bestLoop] at h
      left
      refine ⟨by injection h with h; exact h.symm, ?_⟩
      intro m hm
      exact absurd hm (List.not_mem_nil m)
  | cons m rest ih =>
      intro bm r h
      rw [bestLoop] at h
      by_cases hb : isBetter player m.score bm.score = true
      · rw [if_pos hb] at h
        rcases ih m r h with ⟨h1, hall⟩ | ⟨pre, post, heq, hbr, hpre, hpost⟩
        · right
          refine ⟨[], rest, by rw [h1]; rfl, by rw [h1]; exact hb, ?_, ?_⟩
          · intro x hx; exact absurd hx (List.not_mem_nil x)
          · intro x hx; rw [h1]; exact hall x hx
        · right
          refine ⟨m :: pre, post, by rw [heq]; rfl, isBetter_trans player _ _ _ hbr hb, ?_, hpost⟩
          intro x hx
          rcases List.mem_cons.mp hx with hx | hx
          · rw [hx]; exact hbr
          · exact hpre x hx
      · rw [if_neg hb] at h
        have hbf : isBetter player m.score bm.score = false := by
          rwa [Bool.not_eq_true] at hb
        rcases ih bm r h with ⟨h1, hall⟩ | ⟨pre, post, heq, hbr, hpre, hpost⟩
        · left
          refine ⟨h1, ?_⟩
          intro x hx
          rcases List.mem_cons.mp hx with hx | hx
          · rw [hx]; exact hbf
          · exact hall x hx
        · right
          refine ⟨m :: pre, post, by rw [heq]; rfl, hbr, ?_, hpost⟩
          intro x hx
          rcases List.mem_cons.mp hx with hx | hx
          · rw [hx]; exact isBetter_trans_not player _ _ _ hbr hbf
          · exact hpre x hx

theorem selectBest_split (player : Cell) (ms : List ScoredMove) (r : ScoredMove)
    (h : selectBest player ms = some r) :
    ∃ pre post, ms = pre ++ r :: post ∧
      (∀ m ∈ pre, isBetter player r.score m.score = true) ∧
      (∀ m ∈ ms, isBetter player m.score r.score = false) := by
  cases ms with
  | nil => exact absurd h (by rw [selectBest, bestLoop]; simp)
  | cons m rest =>
      rw [selectBest, bestLoop] at h
      rcases bestLoop_split player rest m r h with ⟨h1, hall⟩ | ⟨pre, post, heq, hbr, hpre, hpost⟩
      · refine ⟨[], rest, by rw [h1]; rfl, ?_, ?_⟩
        · intro x hx; exact absurd hx (List.not_mem_nil x)
        · intro x hx
          rcases List.mem_cons.mp hx with hx | hx
          · rw [hx, h1]; exact isBetter_irrefl player _
          · rw [h1]; exact hall x hx
      · refine ⟨m :: pre, post, by rw [heq]; rfl, ?_, ?_⟩
        · intro x hx
          rcases List.mem_cons.mp hx with hx | hx
          · rw [hx]; exact hbr
          · exact hpre x hx
        · intro x hx
          rcases List.mem_cons.mp hx with hx | hx
          · rw [hx]; exact isBetter_asymm player _ _ hbr
          · rw [heq] at hx
            rcases List.mem_append.mp hx with hx | hx
            · exact isBetter_asymm player _ _ (hpre x hx)
            · rcases List.mem_cons.mp hx with hx | hx
              · rw [hx]; exact isBetter_irrefl player _
              · exact hpost x hx

theorem selectBest_mem (player : Cell) (ms : List ScoredMove) (r : ScoredMove)
    (h : selectBest player ms = some r) : r ∈ ms := by
  rcases selectBest_split player ms r h with ⟨pre, post, heq, _, _⟩
  rw [heq]
  exact List.mem_append.mpr (Or.inr (List.mem_cons_self _ _))

end TicTacToe

namespace TicTacToe

theorem movesLoop_children_some
    (mm : Board → Cell → Option (SearchResult × Board))
    (hmm : ∀ b p r b2, mm b p = some (r, b2) → b2 = b) (player : Cell) :
    ∀ (spots : List Nat) (b : Board) (ms : List ScoredMove) (bf : Board),
      (∀ s ∈ spots, b.set s Cell.E = b) →
      movesLoop mm player spots b = some (ms, bf) →
      ∀ s ∈ spots, (mm (b.set s player) (other player)).isSome = true := by
  intro spots
  induction spots with
  | nil => intro b ms bf _ _ s hs; exact absurd hs (List.not_mem_nil s)
  | cons s rest ih =>
      intro b ms bf hset h t ht
      rw [movesLoop] at h
      rcases hmb : mm (b.set s player) (other player) with _ | ⟨res, b2⟩
      · rw [hmb] at h; exact absurd h (by simp)
      · have hb2 : b2 = b.set s player := hmm _ _ _ _ hmb
        have hre : b2.set s Cell.E = b := by
          rw [hb2, List.set_set]
          exact hset s (List.mem_cons_self _ _)
        rw [hmb] at h
        dsimp only at h
        rw [hre] at h
        rcases List.mem_cons.mp ht with ht | ht
        · rw [ht, hmb]; rfl
        · rcases hml : movesLoop mm player rest b with _ | ⟨ms2, bf2⟩
          · rw [hml] at h; exact absurd h (by simp)
          · exact ih b ms2 bf2 (fun u hu => hset u (List.mem_cons_of_mem _ hu)) hml t ht

theorem minimaxF_succ_eq (fuel : Nat) (b : Board) (p : Cell) (r : SearchResult) (b2 : Board)
    (h1 : checkWin b humanPlayer = false) (h2 : checkWin b aiPlayer = false)
    (h3 : ¬(availableSpots b).length = 0)
    (h : minimaxF (fuel + 1) b p = some (r, b2)) :
    b2 = b ∧
    (∀ s ∈ availableSpots b, (minimaxF fuel (b.set s p) (other p)).isSome = true) ∧
    ∃ m, selectBest p ((availableSpots b).map fun s =>
        (⟨s, scoreOf (minimaxF fuel (b.set s p) (other p))⟩ : ScoredMove)) = some m ∧
      r = ⟨some m.index, m.score⟩ := by
  rw [minimaxF, if_neg (by rw [h1]; simp), if_neg (by rw [h2]; simp), if_neg h3] at h
  rcases hml : movesLoop (minimaxF fuel) p (availableSpots b) b with _ | ⟨ms, bf⟩
  · rw [hml] at h; exact absurd h (by simp)
  · rw [hml] at h
    dsimp only at h
    have htot := movesLoop_children_some (minimaxF fuel) (minimaxF_restores fuel) p
      (availableSpots b) b ms bf (fun s hs => set_e_noop b s hs) hml
    have hcan := movesLoop_eq (minimaxF fuel) (minimaxF_restores fuel) p
      (availableSpots b) b (fun s hs => set_e_noop b s hs) htot
    rw [hml] at hcan
    simp only [Option.some.injEq, Prod.mk.injEq] at hcan
    have hms := hcan.1
    have hbf := hcan.2
    rcases hsb : selectBest p ms with _ | m
    · rw [hsb] at h; exact absurd h (by simp)
    · rw [hsb] at h
      dsimp only at h
      simp only [Option.some.injEq, Prod.mk.injEq] at h
      refine ⟨by rw [← h.2, hbf], htot, m, by rw [← hms]; exact hsb, h.1.symm⟩

theorem minimaxF_win_x (fuel : Nat) (b : Board) (p : Cell)
    (h1 : checkWin b humanPlayer = true) :
    minimaxF (fuel + 1) b p = some (⟨none, -10⟩, b) := by
  rw [minimaxF, if_pos h1]

theorem minimaxF_win_o (fuel : Nat) (b : Board) (p : Cell)
    (h1 : checkWin b humanPlayer = false) (h2 : checkWin b aiPlayer = true) :
    minimaxF (fuel + 1) b p = some (⟨none, 10⟩, b) := by
  rw [minimaxF, if_neg (by rw [h1]; simp), if_pos h2]

theorem minimaxF_draw (fuel : Nat) (b : Board) (p : Cell)
    (h1 : checkWin b humanPlayer = false) (h2 : checkWin b aiPlayer = false)
    (h3 : (availableSpots b).length = 0) :
    minimaxF (fuel + 1) b p = some (⟨none, 0⟩, b) := by
  rw [minimaxF, if_neg (by rw [h1]; simp), if_neg (by rw [h2]; simp), if_pos h3]

theorem minimax_eq_minimaxF (b : Board) (p : Cell) :
    minimax b p = minimaxF (emptyCount b + 1) b p := rfl

end TicTacToe

namespace TicTacToe

/-- C1: on the board `[X,X,_, O,O,_, _,_,_]` with `'O'` to move, `minimax`
searching for `'O'` returns the Move with index 2 (blocking the top row),
and the returned Score is not the fixed lost score `-10` of the side `'O'`
opposes (it is `10`: both index 2 and index 5 force a win for `'O'`, and the
tie-break keeps the first enumerated spot, index 2). -/
theorem claim_C1_block_scenario :
    minimax [Cell.X, Cell.X, Cell.E, Cell.O, Cell.O, Cell.E, Cell.E, Cell.E, Cell.E]
        aiPlayer =
      some (⟨some 2, 10⟩,
        [Cell.X, Cell.X, Cell.E, Cell.O, Cell.O, Cell.E, Cell.E, Cell.E, Cell.E]) ∧
    (10 : Int) ≠ -10 := by
  exact ⟨by decide, by decide⟩

/-- C3 (amended): on a terminal board `minimax` returns no Move and the
fixed score, but the two win cases are tested in order: `-10` whenever the
minimizing `'X'` has a completed line (regardless of `'O'`), `10` when `'O'`
has a line and `'X'` has none, and `0` when the board is full with no
winner; no depth-adjusted scoring is applied. -/
theorem claim_C3_terminal_scores (b : Board) (p : Cell) :
    (checkWin b humanPlayer = true → minimax b p = some (⟨none, -10⟩, b)) ∧
    (checkWin b humanPlayer = false → checkWin b aiPlayer = true →
      minimax b p = some (⟨none, 10⟩, b)) ∧
    (checkWin b humanPlayer = false → checkWin b aiPlayer = false →
      availableSpots b = [] → minimax b p = some (⟨none, 0⟩, b)) := by
  refine ⟨fun h1 => ?_, fun h1 h2 => ?_, fun h1 h2 h3 => ?_⟩
  · rw [minimax_eq_minimaxF]; exact minimaxF_win_x _ b p h1
  · rw [minimax_eq_minimaxF]; exact minimaxF_win_o _ b p h1 h2
  · rw [minimax_eq_minimaxF]; exact minimaxF_draw _ b p h1 h2 (by rw [h3]; rfl)

/-- C3 fails as stated on a board where both players have completed lines:
that board is terminal and the maximizing `'O'` has won, yet `minimax`
returns the fixed negative score `-10`, not the positive one. -/
theorem claim_C3_counterexample :
    checkWin [Cell.O, Cell.O, Cell.O, Cell.X, Cell.X, Cell.X, Cell.E, Cell.E, Cell.E]
        aiPlayer = true ∧
    minimax [Cell.O, Cell.O, Cell.O, Cell.X, Cell.X, Cell.X, Cell.E, Cell.E, Cell.E]
        humanPlayer =
      some (⟨none, -10⟩,
        [Cell.O, Cell.O, Cell.O, Cell.X, Cell.X, Cell.X, Cell.E, Cell.E, Cell.E]) ∧
    (⟨none, -10⟩ : SearchResult) ≠ ⟨none, 10⟩ := by
  exact ⟨by decide, by decide, by decide⟩

/-- C3 witness: the three amended cases at concrete boards (an `'X'` win, an
`'O'` win, and a full drawn board). -/
theorem claim_C3_terminal_scores_witness :
    (checkWin [Cell.X, Cell.X, Cell.X, Cell.O, Cell.O, Cell.E, Cell.E, Cell.E, Cell.E]
        humanPlayer = true ∧
      minimax [Cell.X, Cell.X, Cell.X, Cell.O, Cell.O, Cell.E, Cell.E, Cell.E, Cell.E]
          aiPlayer =
        some (⟨none, -10⟩,
          [Cell.X, Cell.X, Cell.X, Cell.O, Cell.O, Cell.E, Cell.E, Cell.E, Cell.E])) ∧
    (minimax [Cell.O, Cell.O, Cell.O, Cell.X, Cell.X, Cell.E, Cell.X, Cell.E, Cell.E]
        humanPlayer =
      some (⟨none, 10⟩,
        [Cell.O, Cell.O, Cell.O, Cell.X, Cell.X, Cell.E, Cell.X, Cell.E, Cell.E])) ∧
    (minimax [Cell.X, Cell.X, Cell.O, Cell.O, Cell.O, Cell.X, Cell.X, Cell.O, Cell.X]
        humanPlayer =
      some (⟨none, 0⟩,
        [Cell.X, Cell.X, Cell.O, Cell.O, Cell.O, Cell.X, Cell.X, Cell.O, Cell.X])) := by
  refine ⟨⟨by decide, (claim_C3_terminal_scores _ aiPlayer).1 (by decide)⟩, ?_, ?_⟩
  · exact (claim_C3_terminal_scores _ humanPlayer).2.1 (by decide) (by decide)
  · exact (claim_C3_terminal_scores _ humanPlayer).2.2 (by decide) (by decide) (by decide)

/-- C4: `minimax` restores the board: whenever a call returns normally, the
board it hands back is exactly the board it was given, through arbitrary
recursion depth (each candidate move is applied and then undone). -/
theorem claim_C4_board_restored (b : Board) (p : Cell) (r : SearchResult) (b2 : Board)
    (h : minimax b p = some (r, b2)) : b2 = b :=
  minimaxF_restores _ b p r b2 h

/-- C4 witness: a concrete call returns the untouched board. -/
theorem claim_C4_board_restored_witness :
    minimax [Cell.E] aiPlayer = some (⟨some 0, 0⟩, [Cell.E]) ∧ ([Cell.E] : Board) = [Cell.E] :=
  ⟨by decide, claim_C4_board_restored [Cell.E] aiPlayer ⟨some 0, 0⟩ [Cell.E] (by decide)⟩

/-- C6: `minimax` terminates for every board and player: the number of empty
cells strictly decreases at each recursion level, so any fuel exceeding the
number of empty cells at call time is enough for the recursion to complete
(and the board comes back unchanged); in particular the `minimax` wrapper,
running at fuel `emptyCount b + 1`, always returns. -/
theorem claim_C6_termination (b : Board) (p : Cell)
    (hp : p = humanPlayer ∨ p = aiPlayer) :
    (∀ fuel, emptyCount b < fuel → ∃ r, minimaxF fuel b p = some (r, b)) ∧
    ∃ r, minimax b p = some (r, b) := by
  refine ⟨fun fuel hf => minimaxF_total fuel b p hp hf, ?_⟩
  rw [minimax_eq_minimaxF]
  exact minimaxF_total _ b p hp (by omega)

/-- C6 witness: termination at the empty board with `'X'` to move. -/
theorem claim_C6_termination_witness :
    (humanPlayer = humanPlayer ∨ humanPlayer = aiPlayer) ∧
    ∃ r, minimax board humanPlayer = some (r, board) :=
  ⟨Or.inl rfl, (claim_C6_termination board humanPlayer (Or.inl rfl)).2⟩

/-- C7 (amended): `minimax` does not fail on a board whose terminal
classification coexists with remaining legal moves (a completed winning
line while empty cells remain): there is no `InvalidState` error anywhere in
the script; the call returns a normal `SearchResult` with no Move and the
fixed terminal score. -/
theorem claim_C7_no_invalid_state_error (b : Board) (p : Cell)
    (h : checkWin b humanPlayer = true ∨
      (checkWin b humanPlayer = false ∧ checkWin b aiPlayer = true))
    (hlegal : availableSpots b ≠ []) :
    ∃ r b2, minimax b p = some (r, b2) ∧ r.index = none := by
  rcases h with h | ⟨h1, h2⟩
  · exact ⟨⟨none, -10⟩, b, by rw [minimax_eq_minimaxF]; exact minimaxF_win_x _ b p h, rfl⟩
  · exact ⟨⟨none, 10⟩, b, by rw [minimax_eq_minimaxF]; exact minimaxF_win_o _ b p h1 h2, rfl⟩

/-- C7 fails as stated: on a board with a completed `'X'` line and four
empty cells (legal moves remain), `minimax` surfaces no error at all — it
returns the normal terminal `SearchResult`. -/
theorem claim_C7_counterexample :
    checkWin [Cell.X, Cell.X, Cell.X, Cell.O, Cell.O, Cell.E, Cell.E, Cell.E, Cell.E]
        humanPlayer = true ∧
    availableSpots
        [Cell.X, Cell.X, Cell.X, Cell.O, Cell.O, Cell.E, Cell.E, Cell.E, Cell.E] ≠ [] ∧
    minimax [Cell.X, Cell.X, Cell.X, Cell.O, Cell.O, Cell.E, Cell.E, Cell.E, Cell.E]
        aiPlayer =
      some (⟨none, -10⟩,
        [Cell.X, Cell.X, Cell.X, Cell.O, Cell.O, Cell.E, Cell.E, Cell.E, Cell.E]) := by
  exact ⟨by decide, by decide, by decide⟩

/-- C7 witness: the amended no-failure behaviour at the same board. -/
theorem claim_C7_no_invalid_state_error_witness :
    (checkWin [Cell.X, Cell.X, Cell.X, Cell.O, Cell.O, Cell.E, Cell.O, Cell.E, Cell.E]
        humanPlayer = true ∨
      (checkWin [Cell.X, Cell.X, Cell.X, Cell.O, Cell.O, Cell.E, Cell.O, Cell.E, Cell.E]
          humanPlayer = false ∧
        checkWin [Cell.X, Cell.X, Cell.X, Cell.O, Cell.O, Cell.E, Cell.O, Cell.E, Cell.E]
          aiPlayer = true)) ∧
    availableSpots
      [Cell.X, Cell.X, Cell.X, Cell.O, Cell.O, Cell.E, Cell.O, Cell.E, Cell.E] ≠ [] ∧
    ∃ r b2,
      minimax [Cell.X, Cell.X, Cell.X, Cell.O, Cell.O, Cell.E, Cell.O, Cell.E, Cell.E]
          aiPlayer = some (r, b2) ∧ r.index = none :=
  ⟨Or.inl (by decide), by decide,
    claim_C7_no_invalid_state_error _ aiPlayer (Or.inl (by decide)) (by decide)⟩

/-- C8: the hard tier is deterministic: the `bestSpot` chosen by
`handleAIMove` at `'hard'` difficulty does not depend on the random stream
(unlike the `'easy'` and `'medium'` tiers, the `minimax` path consults no
randomness), so two calls on the identical board return the identical
choice, and `minimax` itself is a pure function of board and player. -/
theorem claim_C8_deterministic (b : Board) (r1 r2 : Nat) :
    handleAIMoveSpot Difficulty.hard r1 b = handleAIMoveSpot Difficulty.hard r2 b :=
  rfl

/-- C9: when both players have completed winning lines simultaneously,
`minimax` returns the fixed negative score `-10` with no Move: the
`humanPlayer` win check at line 105 takes precedence over the `aiPlayer`
check at line 107. -/
theorem claim_C9_x_check_precedence (b : Board) (p : Cell)
    (h1 : checkWin b humanPlayer = true) (h2 : checkWin b aiPlayer = true) :
    minimax b p = some (⟨none, -10⟩, b) := by
  rw [minimax_eq_minimaxF]
  exact minimaxF_win_x _ b p h1

/-- C9 witness: a double-win board where the `'X'` result is returned. -/
theorem claim_C9_x_check_precedence_witness :
    checkWin [Cell.X, Cell.X, Cell.X, Cell.O, Cell.O, Cell.O, Cell.E, Cell.E, Cell.E]
        humanPlayer = true ∧
    checkWin [Cell.X, Cell.X, Cell.X, Cell.O, Cell.O, Cell.O, Cell.E, Cell.E, Cell.E]
        aiPlayer = true ∧
    minimax [Cell.X, Cell.X, Cell.X, Cell.O, Cell.O, Cell.O, Cell.E, Cell.E, Cell.E]
        aiPlayer =
      some (⟨none, -10⟩,
        [Cell.X, Cell.X, Cell.X, Cell.O, Cell.O, Cell.O, Cell.E, Cell.E, Cell.E]) :=
  ⟨by decide, by decide,
    claim_C9_x_check_precedence _ aiPlayer (by decide) (by decide)⟩

end TicTacToe

/-- C10: activating the `speedBoost` power-up halves `gameSpeed` and a
single subsequent deactivation doubles it back, so the round trip restores
`gameSpeed` exactly (exact rational arithmetic). -/
theorem claim_C10_speed_boost_roundtrip (t : Snake.PowerUpType) (st : Snake.GameState)
    (h : t.name = Snake.PowerUpName.speedBoost) :
    (Snake.activatePowerUp t st).gameSpeed = st.gameSpeed / 2 ∧
    (Snake.deactivatePowerUp (Snake.activatePowerUp t st)).gameSpeed = st.gameSpeed := by
  rcases t with ⟨name, color, dur⟩
  simp only at h
  subst h
  constructor
  · rfl
  · show st.gameSpeed / 2 * 2 = st.gameSpeed
    rw [div_mul_cancel₀]
    norm_num

/-- C10 witness: the round trip at the script's initial state
(`gameSpeed = 150`) with the `speedBoost` entry of `powerUpTypes`. -/
theorem claim_C10_speed_boost_roundtrip_witness :
    (⟨Snake.PowerUpName.speedBoost, "cyan", 5000⟩ : Snake.PowerUpType).name =
      Snake.PowerUpName.speedBoost ∧
    (Snake.activatePowerUp ⟨Snake.PowerUpName.speedBoost, "cyan", 5000⟩
        ⟨150, 1, none, 0, 0⟩).gameSpeed = (150 : ℚ) / 2 ∧
    (Snake.deactivatePowerUp (Snake.activatePowerUp
        ⟨Snake.PowerUpName.speedBoost, "cyan", 5000⟩ ⟨150, 1, none, 0, 0⟩)).gameSpeed =
      (150 : ℚ) :=
  ⟨rfl, claim_C10_speed_boost_roundtrip _ ⟨150, 1, none, 0, 0⟩ rfl⟩

namespace TicTacToe

theorem map_split {α β : Type} (f : α → β) :
    ∀ (l : List α) (pre post : List β) (r : β),
      l.map f = pre ++ r :: post →
      ∃ pl x sl, l = pl ++ x :: sl ∧ pl.map f = pre ∧ f x = r ∧ sl.map f = post := by
  intro l
  induction l with
  | nil =>
      intro pre post r h
      rw [List.map_nil] at h
      cases pre <;> simp at h
  | cons a t ih =>
      intro pre post r h
      cases pre with
      | nil =>
          rw [List.map_cons, List.nil_append] at h
          injection h with h1 h2
          exact ⟨[], a, t, rfl, rfl, h1, h2⟩
      | cons p ps =>
          rw [List.map_cons, List.cons_append] at h
          injection h with h1 h2
          rcases ih ps post r h2 with ⟨pl, x, sl, hsp, hpl, hx, hsl⟩
          exact ⟨a :: pl, x, sl, by rw [hsp]; rfl, by rw [List.map_cons, hpl, h1], hx, hsl⟩

theorem minimax_select (b : Board) (p : Cell) (r : SearchResult) (b2 : Board)
    (hp : p = humanPlayer ∨ p = aiPlayer)
    (h1 : checkWin b humanPlayer = false) (h2 : checkWin b aiPlayer = false)
    (h3 : availableSpots b ≠ [])
    (h : minimax b p = some (r, b2)) :
    ∃ m, selectBest p ((availableSpots b).map fun s =>
        (⟨s, childScore b p s⟩ : ScoredMove)) = some m ∧
      r = ⟨some m.index, m.score⟩ := by
  rw [minimax_eq_minimaxF] at h
  obtain ⟨hb2, htot, m0, hsel, hr⟩ := minimaxF_succ_eq (emptyCount b) b p r b2 h1 h2
    (fun hlen => h3 (List.length_eq_zero.mp hlen)) h
  have hchild : ∀ s ∈ availableSpots b,
      minimaxF (emptyCount b) (b.set s p) (other p) = minimax (b.set s p) (other p) := by
    intro s hs
    rw [minimax_eq_minimaxF, emptyCount_set b s p hs (player_ne_e p hp)]
  have hmap : ((availableSpots b).map fun s =>
        (⟨s, scoreOf (minimaxF (emptyCount b) (b.set s p) (other p))⟩ : ScoredMove)) =
      (availableSpots b).map fun s => (⟨s, childScore b p s⟩ : ScoredMove) := by
    apply List.map_congr_left
    intro s hs
    rw [childScore, hchild s hs]
  rw [hmap] at hsel
  exact ⟨m0, hsel, hr⟩

/-- C5: on a non-terminal board, when several candidate moves share the
extremal child score, `minimax` returns the FIRST such candidate in
legal-move enumeration order (ascending cell index): the returned Move `m`
lies in `availableSpots`, every spot enumerated before `m` is strictly worse
for the searching player, and no spot at all is strictly better. -/
theorem claim_C5_first_tiebreak (b : Board) (p : Cell) (r : SearchResult) (b2 : Board)
    (hp : p = humanPlayer ∨ p = aiPlayer)
    (h1 : checkWin b humanPlayer = false) (h2 : checkWin b aiPlayer = false)
    (h3 : availableSpots b ≠ [])
    (h : minimax b p = some (r, b2)) :
    ∃ m pre post,
      r = ⟨some m, childScore b p m⟩ ∧
      availableSpots b = pre ++ m :: post ∧
      (∀ s ∈ pre, isBetter p (childScore b p m) (childScore b p s) = true) ∧
      (∀ s ∈ availableSpots b, isBetter p (childScore b p s) (childScore b p m) = false) := by
  obtain ⟨m0, hsel, hr⟩ := minimax_select b p r b2 hp h1 h2 h3 h
  obtain ⟨pre, post, heq, hpre, hall⟩ := selectBest_split p _ m0 hsel
  obtain ⟨pl, x, sl, hsplit, hplm, hxm, hslm⟩ :=
    map_split (fun s => (⟨s, childScore b p s⟩ : ScoredMove)) (availableSpots b)
      pre post m0 heq
  refine ⟨x, pl, sl, ?_, hsplit, ?_, ?_⟩
  · rw [hr, ← hxm]
  · intro s hs
    have hmem : (⟨s, childScore b p s⟩ : ScoredMove) ∈ pre := by
      rw [← hplm]
      exact List.mem_map_of_mem _ hs
    have := hpre _ hmem
    rw [← hxm] at this
    exact this
  · intro s hs
    have hmem : (⟨s, childScore b p s⟩ : ScoredMove) ∈
        (availableSpots b).map fun s => (⟨s, childScore b p s⟩ : ScoredMove) :=
      List.mem_map_of_mem _ hs
    have := hall _ hmem
    rw [← hxm] at this
    exact this

end TicTacToe

namespace TicTacToe

theorem all_nil_true (f : Nat → Bool) : ([] : List Nat).all f = true := rfl

theorem all_cons_intro (f : Nat → Bool) (s : Nat) (l : List Nat)
    (h1 : f s = true) (h2 : l.all f = true) : (s :: l).all f = true := by
  rw [List.all_cons, h1, h2]; rfl

theorem oGuar_winO_intro (fuel : Nat) (b : Board) (p : Cell)
    (h1 : checkWin b humanPlayer = false) (h2 : checkWin b aiPlayer = true) :
    oGuar (fuel + 1) b p = true := by
  rw [oGuar, if_neg (by rw [h1]; simp), if_pos h2]

theorem oGuar_draw_intro (fuel : Nat) (b : Board) (p : Cell)
    (h1 : checkWin b humanPlayer = false) (h2 : checkWin b aiPlayer = false)
    (h3 : (availableSpots b).length = 0) :
    oGuar (fuel + 1) b p = true := by
  rw [oGuar, if_neg (by rw [h1]; simp), if_neg (by rw [h2]; simp), if_pos h3]

theorem oGuar_any_intro (fuel : Nat) (b : Board) (s : Nat)
    (h1 : checkWin b humanPlayer = false) (h2 : checkWin b aiPlayer = false)
    (hs : s ∈ availableSpots b)
    (hc : oGuar fuel (b.set s aiPlayer) humanPlayer = true) :
    oGuar (fuel + 1) b aiPlayer = true := by
  rw [oGuar, if_neg (by rw [h1]; simp), if_neg (by rw [h2]; simp)]
  by_cases h3 : (availableSpots b).length = 0
  · rw [if_pos h3]
  · rw [if_neg h3, if_neg (by decide)]
    exact List.any_eq_true.mpr ⟨s, hs, hc⟩

theorem oGuar_all_intro (fuel : Nat) (b : Board)
    (h1 : checkWin b humanPlayer = false) (h2 : checkWin b aiPlayer = false)
    (hall : ((availableSpots b).all fun s =>
      oGuar fuel (b.set s humanPlayer) aiPlayer) = true) :
    oGuar (fuel + 1) b humanPlayer = true := by
  rw [oGuar, if_neg (by rw [h1]; simp), if_neg (by rw [h2]; simp)]
  by_cases h3 : (availableSpots b).length = 0
  · rw [if_pos h3]
  · rw [if_neg h3, if_pos (by decide)]
    exact hall

theorem xGuar_winX_intro (fuel : Nat) (b : Board) (p : Cell)
    (h1 : checkWin b humanPlayer = true) :
    xGuar (fuel + 1) b p = true := by
  rw [xGuar, if_pos h1]

theorem xGuar_draw_intro (fuel : Nat) (b : Board) (p : Cell)
    (h1 : checkWin b humanPlayer = false) (h2 : checkWin b aiPlayer = false)
    (h3 : (availableSpots b).length = 0) :
    xGuar (fuel + 1) b p = true := by
  rw [xGuar, if_neg (by rw [h1]; simp), if_neg (by rw [h2]; simp), if_pos h3]

theorem xGuar_any_intro (fuel : Nat) (b : Board) (s : Nat)
    (h1 : checkWin b humanPlayer = false) (h2 : checkWin b aiPlayer = false)
    (hs : s ∈ availableSpots b)
    (hc : xGuar fuel (b.set s humanPlayer) aiPlayer = true) :
    xGuar (fuel + 1) b humanPlayer = true := by
  rw [xGuar, if_neg (by rw [h1]; simp), if_neg (by rw [h2]; simp)]
  by_cases h3 : (availableSpots b).length = 0
  · rw [if_pos h3]
  · rw [if_neg h3, if_pos (by decide)]
    exact List.any_eq_true.mpr ⟨s, hs, hc⟩

theorem xGuar_all_intro (fuel : Nat) (b : Board)
    (h1 : checkWin b humanPlayer = false) (h2 : checkWin b aiPlayer = false)
    (hall : ((availableSpots b).all fun s =>
      xGuar fuel (b.set s aiPlayer) humanPlayer) = true) :
    xGuar (fuel + 1) b aiPlayer = true := by
  rw [xGuar, if_neg (by rw [h1]; simp), if_neg (by rw [h2]; simp)]
  by_cases h3 : (availableSpots b).length = 0
  · rw [if_pos h3]
  · rw [if_neg h3, if_neg (by decide)]
    exact hall

theorem isBetter_ai_false {a c : Int} (h : isBetter aiPlayer a c = false) : a ≤ c := by
  rw [isBetter] at h
  rw [if_pos (by decide)] at h
  simp at h
  omega

theorem isBetter_human_false {a c : Int} (h : isBetter humanPlayer a c = false) : c ≤ a := by
  rw [isBetter] at h
  rw [if_neg (by decide)] at h
  simp at h
  omega

end TicTacToe

namespace TicTacToe

theorem oGuar_bound : ∀ (fuel : Nat) (b : Board) (p : Cell),
    (p = humanPlayer ∨ p = aiPlayer) → oGuar fuel b p = true →
    ∀ r b2, minimaxF fuel b p = some (r, b2) → 0 ≤ r.score := by
  intro fuel
  induction fuel with
  | zero => intro b p _ hg; exact absurd hg (by rw [oGuar]; simp)
  | succ fuel ih =>
      intro b p hp hg r b2 h
      by_cases h1 : checkWin b humanPlayer = true
      · rw [oGuar, if_pos h1] at hg; exact absurd hg (by simp)
      · have h1f : checkWin b humanPlayer = false := by rwa [Bool.not_eq_true] at h1
        by_cases h2 : checkWin b aiPlayer = true
        · rw [minimaxF_win_o fuel b p h1f h2] at h
          simp only [Option.some.injEq, Prod.mk.injEq] at h
          rw [← h.1]
          all_goals decide
        · have h2f : checkWin b aiPlayer = false := by rwa [Bool.not_eq_true] at h2
          by_cases h3 : (availableSpots b).length = 0
          · rw [minimaxF_draw fuel b p h1f h2f h3] at h
            simp only [Option.some.injEq, Prod.mk.injEq] at h
            rw [← h.1]
            all_goals decide
          · obtain ⟨hb2, htot, m0, hsel, hr⟩ := minimaxF_succ_eq fuel b p r b2 h1f h2f h3 h
            rcases hp with rfl | rfl
            · rw [oGuar, if_neg (by rw [h1f]; simp), if_neg (by rw [h2f]; simp),
                if_neg h3, if_pos (by decide)] at hg
              have hmem := selectBest_mem _ _ m0 hsel
              obtain ⟨s, hs, hseq⟩ := List.mem_map.mp hmem
              have hchild := htot s hs
              rcases hcs : minimaxF fuel (b.set s humanPlayer) (other humanPlayer)
                with _ | ⟨r', b2'⟩
              · rw [hcs] at hchild; exact absurd hchild (by simp)
              · have hgs : oGuar fuel (b.set s humanPlayer) aiPlayer = true :=
                  List.all_eq_true.mp hg s hs
                have hother : other humanPlayer = aiPlayer := by decide
                have hscore := ih (b.set s humanPlayer) aiPlayer (Or.inr rfl) hgs r' b2'
                  (by rw [← hother, hcs])
                rw [hr]
                show (0 : Int) ≤ m0.score
                rw [← hseq]
                show (0 : Int) ≤ scoreOf (minimaxF fuel (b.set s humanPlayer) (other humanPlayer))
                rw [hcs]
                exact hscore
            · rw [oGuar, if_neg (by rw [h1f]; simp), if_neg (by rw [h2f]; simp),
                if_neg h3, if_neg (by decide)] at hg
              obtain ⟨s, hs, hgs⟩ := List.any_eq_true.mp hg
              have hchild := htot s hs
              rcases hcs : minimaxF fuel (b.set s aiPlayer) (other aiPlayer)
                with _ | ⟨r', b2'⟩
              · rw [hcs] at hchild; exact absurd hchild (by simp)
              · have hother : other aiPlayer = humanPlayer := by decide
                have hscore := ih (b.set s aiPlayer) humanPlayer (Or.inl rfl) hgs r' b2'
                  (by rw [← hother, hcs])
                obtain ⟨pre, post, heq, hpre, hall⟩ := selectBest_split _ _ m0 hsel
                have hms := List.mem_map_of_mem
                  (fun s => (⟨s, scoreOf (minimaxF fuel (b.set s aiPlayer)
                    (other aiPlayer))⟩ : ScoredMove)) hs
                have hbet := hall _ hms
                have hle := isBetter_ai_false hbet
                rw [hr]
                show (0 : Int) ≤ m0.score
                calc (0 : Int) ≤ r'.score := hscore
                  _ = scoreOf (minimaxF fuel (b.set s aiPlayer) (other aiPlayer)) := by
                      rw [hcs]; rfl
                  _ ≤ m0.score := hle

theorem xGuar_bound : ∀ (fuel : Nat) (b : Board) (p : Cell),
    (p = humanPlayer ∨ p = aiPlayer) → xGuar fuel b p = true →
    ∀ r b2, minimaxF fuel b p = some (r, b2) → r.score ≤ 0 := by
  intro fuel
  induction fuel with
  | zero => intro b p _ hg; exact absurd hg (by rw [xGuar]; simp)
  | succ fuel ih =>
      intro b p hp hg r b2 h
      by_cases h1 : checkWin b humanPlayer = true
      · rw [minimaxF_win_x fuel b p h1] at h
        simp only [Option.some.injEq, Prod.mk.injEq] at h
        rw [← h.1]
        decide
      · have h1f : checkWin b humanPlayer = false := by rwa [Bool.not_eq_true] at h1
        by_cases h2 : checkWin b aiPlayer = true
        · rw [xGuar, if_neg (by rw [h1f]; simp), if_pos h2] at hg
          exact absurd hg (by simp)
        · have h2f : checkWin b aiPlayer = false := by rwa [Bool.not_eq_true] at h2
          by_cases h3 : (availableSpots b).length = 0
          · rw [minimaxF_draw fuel b p h1f h2f h3] at h
            simp only [Option.some.injEq, Prod.mk.injEq] at h
            rw [← h.1]
            all_goals decide
          · obtain ⟨hb2, htot, m0, hsel, hr⟩ := minimaxF_succ_eq fuel b p r b2 h1f h2f h3 h
            rcases hp with rfl | rfl
            · rw [xGuar, if_neg (by rw [h1f]; simp), if_neg (by rw [h2f]; simp),
                if_neg h3, if_pos (by decide)] at hg
              obtain ⟨s, hs, hgs⟩ := List.any_eq_true.mp hg
              have hchild := htot s hs
              rcases hcs : minimaxF fuel (b.set s humanPlayer) (other humanPlayer)
                with _ | ⟨r', b2'⟩
              · rw [hcs] at hchild; exact absurd hchild (by simp)
              · have hother : other humanPlayer = aiPlayer := by decide
                have hscore := ih (b.set s humanPlayer) aiPlayer (Or.inr rfl) hgs r' b2'
                  (by rw [← hother, hcs])
                obtain ⟨pre, post, heq, hpre, hall⟩ := selectBest_split _ _ m0 hsel
                have hms := List.mem_map_of_mem
                  (fun s => (⟨s, scoreOf (minimaxF fuel (b.set s humanPlayer)
                    (other humanPlayer))⟩ : ScoredMove)) hs
                have hbet := hall _ hms
                have hle := isBetter_human_false hbet
                rw [hr]
                show m0.score ≤ (0 : Int)
                calc m0.score
                    ≤ scoreOf (minimaxF fuel (b.set s humanPlayer) (other humanPlayer)) := hle
                  _ = r'.score := by rw [hcs]; rfl
                  _ ≤ 0 := hscore
            · rw [xGuar, if_neg (by rw [h1f]; simp), if_neg (by rw [h2f]; simp),
                if_neg h3, if_neg (by decide)] at hg
              have hmem := selectBest_mem _ _ m0 hsel
              obtain ⟨s, hs, hseq⟩ := List.mem_map.mp hmem
              have hchild := htot s hs
              rcases hcs : minimaxF fuel (b.set s aiPlayer) (other aiPlayer)
                with _ | ⟨r', b2'⟩
              · rw [hcs] at hchild; exact absurd hchild (by simp)
              · have hgs : xGuar fuel (b.set s aiPlayer) humanPlayer = true :=
                  List.all_eq_true.mp hg s hs
                have hother : other aiPlayer = humanPlayer := by decide
                have hscore := ih (b.set s aiPlayer) humanPlayer (Or.inl rfl) hgs r' b2'
                  (by rw [← hother, hcs])
                rw [hr]
                show m0.score ≤ (0 : Int)
                rw [← hseq]
                show scoreOf (minimaxF fuel (b.set s aiPlayer) (other aiPlayer)) ≤ (0 : Int)
                rw [hcs]
                exact hscore

end TicTacToe

namespace TicTacToe

theorem minimax_step (b : Board) (p : Cell) (r : SearchResult) (b2 : Board)
    (hp : p = humanPlayer ∨ p = aiPlayer)
    (h1 : checkWin b humanPlayer = false) (h2 : checkWin b aiPlayer = false)
    (h3 : availableSpots b ≠ []) (h : minimax b p = some (r, b2)) :
    ∃ m, r.index = some m ∧ m ∈ availableSpots b ∧
      scoreOf (minimax (b.set m p) (other p)) = r.score := by
  obtain ⟨m0, hsel, hr⟩ := minimax_select b p r b2 hp h1 h2 h3 h
  have hmem := selectBest_mem _ _ m0 hsel
  obtain ⟨s, hs, hseq⟩ := List.mem_map.mp hmem
  refine ⟨s, ?_, hs, ?_⟩
  · rw [hr, ← hseq]
  · rw [hr, ← hseq]
    rfl

theorem score_zero_not_win (b : Board) (p : Cell) (r : SearchResult)
    (hmm : minimax b p = some (r, b)) (hscore : r.score = 0) :
    checkWin b humanPlayer = false ∧ checkWin b aiPlayer = false := by
  constructor
  · by_cases hcx : checkWin b humanPlayer = true
    · exfalso
      rw [minimax_eq_minimaxF, minimaxF_win_x (emptyCount b) b p hcx] at hmm
      simp only [Option.some.injEq, Prod.mk.injEq] at hmm
      rw [← hmm.1] at hscore
      exact absurd hscore (by decide)
    · rwa [Bool.not_eq_true] at hcx
  · by_cases hco : checkWin b aiPlayer = true
    · exfalso
      by_cases hcx : checkWin b humanPlayer = true
      · rw [minimax_eq_minimaxF, minimaxF_win_x (emptyCount b) b p hcx] at hmm
        simp only [Option.some.injEq, Prod.mk.injEq] at hmm
        rw [← hmm.1] at hscore
        exact absurd hscore (by decide)
      · have hcxf : checkWin b humanPlayer = false := by rwa [Bool.not_eq_true] at hcx
        rw [minimax_eq_minimaxF, minimaxF_win_o (emptyCount b) b p hcxf hco] at hmm
        simp only [Option.some.injEq, Prod.mk.injEq] at hmm
        rw [← hmm.1] at hscore
        exact absurd hscore (by decide)
    · rwa [Bool.not_eq_true] at hco

theorem gameOver_false_elim (b : Board) (h : gameOver b = false) :
    checkWin b humanPlayer = false ∧ checkWin b aiPlayer = false ∧
    availableSpots b ≠ [] := by
  rw [gameOver] at h
  simp only [Bool.or_eq_false_iff] at h
  refine ⟨h.1.1, h.1.2, fun hc => ?_⟩
  have := h.2
  rw [hc] at this
  exact absurd this (by simp)

theorem selfPlay_draw : ∀ (fuel : Nat) (b : Board) (p : Cell),
    (p = humanPlayer ∨ p = aiPlayer) → emptyCount b ≤ fuel →
    (∀ r b2, minimax b p = some (r, b2) → r.score = 0) →
    checkWin (selfPlay fuel b p) humanPlayer = false ∧
    checkWin (selfPlay fuel b p) aiPlayer = false ∧
    availableSpots (selfPlay fuel b p) = [] := by
  intro fuel
  induction fuel with
  | zero =>
      intro b p hp hfuel hval
      obtain ⟨r, hr⟩ := minimaxF_total (emptyCount b + 1) b p hp (by omega)
      have hmm : minimax b p = some (r, b) := hr
      have hscore := hval r b hmm
      obtain ⟨hcx, hco⟩ := score_zero_not_win b p r hmm hscore
      have havail : availableSpots b = [] := by
        have hlen := availableSpots_length b
        have hec : emptyCount b = 0 := by omega
        rw [hec] at hlen
        exact List.length_eq_zero.mp hlen
      rw [selfPlay]
      exact ⟨hcx, hco, havail⟩
  | succ fuel ih =>
      intro b p hp hfuel hval
      obtain ⟨r, hr⟩ := minimaxF_total (emptyCount b + 1) b p hp (by omega)
      have hmm : minimax b p = some (r, b) := hr
      have hscore := hval r b hmm
      by_cases hgo : gameOver b = true
      · rw [selfPlay, if_pos hgo]
        obtain ⟨hcx, hco⟩ := score_zero_not_win b p r hmm hscore
        have hfull : availableSpots b = [] := by
          rw [gameOver, hcx, hco] at hgo
          simp only [Bool.false_or] at hgo
          have : (availableSpots b).length = 0 := by
            simpa using hgo
          exact List.length_eq_zero.mp this
        exact ⟨hcx, hco, hfull⟩
      · have hgo' : gameOver b = false := by rwa [Bool.not_eq_true] at hgo
        obtain ⟨hcx, hco, hne⟩ := gameOver_false_elim b hgo'
        obtain ⟨m, hidx, hmem, hcs⟩ := minimax_step b p r b hp hcx hco hne hmm
        rw [selfPlay, if_neg hgo, hmm]
        dsimp only
        rw [hidx]
        dsimp only
        apply ih (b.set m p) (other p) (other_ne_e p)
        · have := emptyCount_set b m p hmem (player_ne_e p hp)
          omega
        · intro r' b2' hr'
          have h0 : scoreOf (minimax (b.set m p) (other p)) = 0 := by rw [hcs, hscore]
          rw [hr'] at h0
          exact h0

end TicTacToe

namespace TicTacToe


theorem og0 : oGuar 4 [Cell.X, Cell.X, Cell.O, Cell.X, Cell.O, Cell.E, Cell.O, Cell.E, Cell.E] humanPlayer = true :=
  oGuar_winO_intro 3 _ _ (by decide) (by decide)

theorem og1 : oGuar 5 [Cell.X, Cell.X, Cell.O, Cell.X, Cell.O, Cell.E, Cell.E, Cell.E, Cell.E] aiPlayer = true :=
  oGuar_any_intro 4 _ 6 (by decide) (by decide) (by decide) og0

theorem og2 : oGuar 1 [Cell.X, Cell.X, Cell.O, Cell.O, Cell.O, Cell.X, Cell.X, Cell.O, Cell.X] aiPlayer = true :=
  oGuar_draw_intro 0 _ _ (by decide) (by decide) (by decide)

theorem og3 : oGuar 2 [Cell.X, Cell.X, Cell.O, Cell.O, Cell.O, Cell.X, Cell.X, Cell.O, Cell.E] humanPlayer = true :=
  oGuar_all_intro 1 _ (by decide) (by decide)
    (all_cons_intro _ _ _ og2 (all_nil_true _))

theorem og4 : oGuar 3 [Cell.X, Cell.X, Cell.O, Cell.O, Cell.O, Cell.X, Cell.X, Cell.E, Cell.E] aiPlayer = true :=
  oGuar_any_intro 2 _ 7 (by decide) (by decide) (by decide) og3

theorem og5 : oGuar 2 [Cell.X, Cell.X, Cell.O, Cell.O, Cell.O, Cell.X, Cell.O, Cell.X, Cell.E] humanPlayer = true :=
  oGuar_winO_intro 1 _ _ (by decide) (by decide)

theorem og6 : oGuar 3 [Cell.X, Cell.X, Cell.O, Cell.O, Cell.O, Cell.X, Cell.E, Cell.X, Cell.E] aiPlayer = true :=
  oGuar_any_intro 2 _ 6 (by decide) (by decide) (by decide) og5

theorem og7 : oGuar 2 [Cell.X, Cell.X, Cell.O, Cell.O, Cell.O, Cell.X, Cell.O, Cell.E, Cell.X] humanPlayer = true :=
  oGuar_winO_intro 1 _ _ (by decide) (by decide)

theorem og8 : oGuar 3 [Cell.X, Cell.X, Cell.O, Cell.O, Cell.O, Cell.X, Cell.E, Cell.E, Cell.X] aiPlayer = true :=
  oGuar_any_intro 2 _ 6 (by decide) (by decide) (by decide) og7

theorem og9 : oGuar 4 [Cell.X, Cell.X, Cell.O, Cell.O, Cell.O, Cell.X, Cell.E, Cell.E, Cell.E] humanPlayer = true :=
  oGuar_all_intro 3 _ (by decide) (by decide)
    (all_cons_intro _ _ _ og4 (all_cons_intro _ _ _ og6 (all_cons_intro _ _ _ og8 (all_nil_true _))))

theorem og10 : oGuar 5 [Cell.X, Cell.X, Cell.O, Cell.E, Cell.O, Cell.X, Cell.E, Cell.E, Cell.E] aiPlayer = true :=
  oGuar_any_intro 4 _ 3 (by decide) (by decide) (by decide) og9

theorem og11 : oGuar 2 [Cell.X, Cell.X, Cell.O, Cell.O, Cell.O, Cell.O, Cell.X, Cell.X, Cell.E] humanPlayer = true :=
  oGuar_winO_intro 1 _ _ (by decide) (by decide)

theorem og12 : oGuar 3 [Cell.X, Cell.X, Cell.O, Cell.O, Cell.O, Cell.E, Cell.X, Cell.X, Cell.E] aiPlayer = true :=
  oGuar_any_intro 2 _ 5 (by decide) (by decide) (by decide) og11

theorem og13 : oGuar 2 [Cell.X, Cell.X, Cell.O, Cell.O, Cell.O, Cell.O, Cell.X, Cell.E, Cell.X] humanPlayer = true :=
  oGuar_winO_intro 1 _ _ (by decide) (by decide)

theorem og14 : oGuar 3 [Cell.X, Cell.X, Cell.O, Cell.O, Cell.O, Cell.E, Cell.X, Cell.E, Cell.X] aiPlayer = true :=
  oGuar_any_intro 2 _ 5 (by decide) (by decide) (by decide) og13

theorem og15 : oGuar 4 [Cell.X, Cell.X, Cell.O, Cell.O, Cell.O, Cell.E, Cell.X, Cell.E, Cell.E] humanPlayer = true :=
  oGuar_all_intro 3 _ (by decide) (by decide)
    (all_cons_intro _ _ _ og4 (all_cons_intro _ _ _ og12 (all_cons_intro _ _ _ og14 (all_nil_true _))))

theorem og16 : oGuar 5 [Cell.X, Cell.X, Cell.O, Cell.E, Cell.O, Cell.E, Cell.X, Cell.E, Cell.E] aiPlayer = true :=
  oGuar_any_intro 4 _ 3 (by decide) (by decide) (by decide) og15

theorem og17 : oGuar 2 [Cell.X, Cell.X, Cell.O, Cell.O, Cell.O, Cell.O, Cell.E, Cell.X, Cell.X] humanPlayer = true :=
  oGuar_winO_intro 1 _ _ (by decide) (by decide)

theorem og18 : oGuar 3 [Cell.X, Cell.X, Cell.O, Cell.O, Cell.O, Cell.E, Cell.E, Cell.X, Cell.X] aiPlayer = true :=
  oGuar_any_intro 2 _ 5 (by decide) (by decide) (by decide) og17

theorem og19 : oGuar 4 [Cell.X, Cell.X, Cell.O, Cell.O, Cell.O, Cell.E, Cell.E, Cell.X, Cell.E] humanPlayer = true :=
  oGuar_all_intro 3 _ (by decide) (by decide)
    (all_cons_intro _ _ _ og6 (all_cons_intro _ _ _ og12 (all_cons_intro _ _ _ og18 (all_nil_true _))))

theorem og20 : oGuar 5 [Cell.X, Cell.X, Cell.O, Cell.E, Cell.O, Cell.E, Cell.E, Cell.X, Cell.E] aiPlayer = true :=
  oGuar_any_intro 4 _ 3 (by decide) (by decide) (by decide) og19

theorem og21 : oGuar 4 [Cell.X, Cell.X, Cell.O, Cell.O, Cell.O, Cell.E, Cell.E, Cell.E, Cell.X] humanPlayer = true :=
  oGuar_all_intro 3 _ (by decide) (by decide)
    (all_cons_intro _ _ _ og8 (all_cons_intro _ _ _ og14 (all_cons_intro _ _ _ og18 (all_nil_true _))))

theorem og22 : oGuar 5 [Cell.X, Cell.X, Cell.O, Cell.E, Cell.O, Cell.E, Cell.E, Cell.E, Cell.X] aiPlayer = true :=
  oGuar_any_intro 4 _ 3 (by decide) (by decide) (by decide) og21

theorem og23 : oGuar 6 [Cell.X, Cell.X, Cell.O, Cell.E, Cell.O, Cell.E, Cell.E, Cell.E, Cell.E] humanPlayer = true :=
  oGuar_all_intro 5 _ (by decide) (by decide)
    (all_cons_intro _ _ _ og1 (all_cons_intro _ _ _ og10 (all_cons_intro _ _ _ og16 (all_cons_intro _ _ _ og20 (all_cons_intro _ _ _ og22 (all_nil_true _))))))

theorem og24 : oGuar 7 [Cell.X, Cell.X, Cell.E, Cell.E, Cell.O, Cell.E, Cell.E, Cell.E, Cell.E] aiPlayer = true :=
  oGuar_any_intro 6 _ 2 (by decide) (by decide) (by decide) og23

theorem og25 : oGuar 2 [Cell.X, Cell.O, Cell.X, Cell.X, Cell.O, Cell.X, Cell.O, Cell.O, Cell.E] humanPlayer = true :=
  oGuar_winO_intro 1 _ _ (by decide) (by decide)

theorem og26 : oGuar 3 [Cell.X, Cell.O, Cell.X, Cell.X, Cell.O, Cell.X, Cell.O, Cell.E, Cell.E] aiPlayer = true :=
  oGuar_any_intro 2 _ 7 (by decide) (by decide) (by decide) og25

theorem og27 : oGuar 1 [Cell.X, Cell.O, Cell.X, Cell.X, Cell.O, Cell.O, Cell.O, Cell.X, Cell.X] aiPlayer = true :=
  oGuar_draw_intro 0 _ _ (by decide) (by decide) (by decide)

theorem og28 : oGuar 2 [Cell.X, Cell.O, Cell.X, Cell.X, Cell.O, Cell.O, Cell.O, Cell.X, Cell.E] humanPlayer = true :=
  oGuar_all_intro 1 _ (by decide) (by decide)
    (all_cons_intro _ _ _ og27 (all_nil_true _))

theorem og29 : oGuar 3 [Cell.X, Cell.O, Cell.X, Cell.X, Cell.O, Cell.E, Cell.O, Cell.X, Cell.E] aiPlayer = true :=
  oGuar_any_intro 2 _ 5 (by decide) (by decide) (by decide) og28

theorem og30 : oGuar 2 [Cell.X, Cell.O, Cell.X, Cell.X, Cell.O, Cell.O, Cell.O, Cell.E, Cell.X] humanPlayer = true :=
  oGuar_all_intro 1 _ (by decide) (by decide)
    (all_cons_intro _ _ _ og27 (all_nil_true _))

theorem og31 : oGuar 3 [Cell.X, Cell.O, Cell.X, Cell.X, Cell.O, Cell.E, Cell.O, Cell.E, Cell.X] aiPlayer = true :=
  oGuar_any_intro 2 _ 5 (by decide) (by decide) (by decide) og30

theorem og32 : oGuar 4 [Cell.X, Cell.O, Cell.X, Cell.X, Cell.O, Cell.E, Cell.O, Cell.E, Cell.E] humanPlayer = true :=
  oGuar_all_intro 3 _ (by decide) (by decide)
    (all_cons_intro _ _ _ og26 (all_cons_intro _ _ _ og29 (all_cons_intro _ _ _ og31 (all_nil_true _))))

theorem og33 : oGuar 5 [Cell.X, Cell.O, Cell.X, Cell.X, Cell.O, Cell.E, Cell.E, Cell.E, Cell.E] aiPlayer = true :=
  oGuar_any_intro 4 _ 6 (by decide) (by decide) (by decide) og32

theorem og34 : oGuar 4 [Cell.X, Cell.O, Cell.X, Cell.E, Cell.O, Cell.X, Cell.E, Cell.O, Cell.E] humanPlayer = true :=
  oGuar_winO_intro 3 _ _ (by decide) (by decide)

theorem og35 : oGuar 5 [Cell.X, Cell.O, Cell.X, Cell.E, Cell.O, Cell.X, Cell.E, Cell.E, Cell.E] aiPlayer = true :=
  oGuar_any_intro 4 _ 7 (by decide) (by decide) (by decide) og34

theorem og36 : oGuar 2 [Cell.X, Cell.O, Cell.X, Cell.O, Cell.O, Cell.X, Cell.X, Cell.O, Cell.E] humanPlayer = true :=
  oGuar_winO_intro 1 _ _ (by decide) (by decide)

theorem og37 : oGuar 3 [Cell.X, Cell.O, Cell.X, Cell.O, Cell.O, Cell.X, Cell.X, Cell.E, Cell.E] aiPlayer = true :=
  oGuar_any_intro 2 _ 7 (by decide) (by decide) (by decide) og36

theorem og38 : oGuar 2 [Cell.X, Cell.O, Cell.X, Cell.O, Cell.O, Cell.O, Cell.X, Cell.X, Cell.E] humanPlayer = true :=
  oGuar_winO_intro 1 _ _ (by decide) (by decide)

theorem og39 : oGuar 3 [Cell.X, Cell.O, Cell.X, Cell.O, Cell.O, Cell.E, Cell.X, Cell.X, Cell.E] aiPlayer = true :=
  oGuar_any_intro 2 _ 5 (by decide) (by decide) (by decide) og38

theorem og40 : oGuar 2 [Cell.X, Cell.O, Cell.X, Cell.O, Cell.O, Cell.O, Cell.X, Cell.E, Cell.X] humanPlayer = true :=
  oGuar_winO_intro 1 _ _ (by decide) (by decide)

theorem og41 : oGuar 3 [Cell.X, Cell.O, Cell.X, Cell.O, Cell.O, Cell.E, Cell.X, Cell.E, Cell.X] aiPlayer = true :=
  oGuar_any_intro 2 _ 5 (by decide) (by decide) (by decide) og40

theorem og42 : oGuar 4 [Cell.X, Cell.O, Cell.X, Cell.O, Cell.O, Cell.E, Cell.X, Cell.E, Cell.E] humanPlayer = true :=
  oGuar_all_intro 3 _ (by decide) (by decide)
    (all_cons_intro _ _ _ og37 (all_cons_intro _ _ _ og39 (all_cons_intro _ _ _ og41 (all_nil_true _))))

theorem og43 : oGuar 5 [Cell.X, Cell.O, Cell.X, Cell.E, Cell.O, Cell.E, Cell.X, Cell.E, Cell.E] aiPlayer = true :=
  oGuar_any_intro 4 _ 3 (by decide) (by decide) (by decide) og42

theorem og44 : oGuar 1 [Cell.X, Cell.O, Cell.X, Cell.O, Cell.O, Cell.X, Cell.X, Cell.X, Cell.O] aiPlayer = true :=
  oGuar_draw_intro 0 _ _ (by decide) (by decide) (by decide)

theorem og45 : oGuar 2 [Cell.X, Cell.O, Cell.X, Cell.O, Cell.O, Cell.X, Cell.E, Cell.X, Cell.O] humanPlayer = true :=
  oGuar_all_intro 1 _ (by decide) (by decide)
    (all_cons_intro _ _ _ og44 (all_nil_true _))

theorem og46 : oGuar 3 [Cell.X, Cell.O, Cell.X, Cell.O, Cell.O, Cell.X, Cell.E, Cell.X, Cell.E] aiPlayer = true :=
  oGuar_any_intro 2 _ 8 (by decide) (by decide) (by decide) og45

theorem og47 : oGuar 2 [Cell.X, Cell.O, Cell.X, Cell.O, Cell.O, Cell.O, Cell.E, Cell.X, Cell.X] humanPlayer = true :=
  oGuar_winO_intro 1 _ _ (by decide) (by decide)

theorem og48 : oGuar 3 [Cell.X, Cell.O, Cell.X, Cell.O, Cell.O, Cell.E, Cell.E, Cell.X, Cell.X] aiPlayer = true :=
  oGuar_any_intro 2 _ 5 (by decide) (by decide) (by decide) og47

theorem og49 : oGuar 4 [Cell.X, Cell.O, Cell.X, Cell.O, Cell.O, Cell.E, Cell.E, Cell.X, Cell.E] humanPlayer = true :=
  oGuar_all_intro 3 _ (by decide) (by decide)
    (all_cons_intro _ _ _ og46 (all_cons_intro _ _ _ og39 (all_cons_intro _ _ _ og48 (all_nil_true _))))

theorem og50 : oGuar 5 [Cell.X, Cell.O, Cell.X, Cell.E, Cell.O, Cell.E, Cell.E, Cell.X, Cell.E] aiPlayer = true :=
  oGuar_any_intro 4 _ 3 (by decide) (by decide) (by decide) og49

theorem og51 : oGuar 3 [Cell.X, Cell.O, Cell.X, Cell.X, Cell.O, Cell.O, Cell.E, Cell.E, Cell.X] aiPlayer = true :=
  oGuar_any_intro 2 _ 6 (by decide) (by decide) (by decide) og30

theorem og52 : oGuar 3 [Cell.X, Cell.O, Cell.X, Cell.E, Cell.O, Cell.O, Cell.X, Cell.E, Cell.X] aiPlayer = true :=
  oGuar_any_intro 2 _ 3 (by decide) (by decide) (by decide) og40

theorem og53 : oGuar 3 [Cell.X, Cell.O, Cell.X, Cell.E, Cell.O, Cell.O, Cell.E, Cell.X, Cell.X] aiPlayer = true :=
  oGuar_any_intro 2 _ 3 (by decide) (by decide) (by decide) og47

theorem og54 : oGuar 4 [Cell.X, Cell.O, Cell.X, Cell.E, Cell.O, Cell.O, Cell.E, Cell.E, Cell.X] humanPlayer = true :=
  oGuar_all_intro 3 _ (by decide) (by decide)
    (all_cons_intro _ _ _ og51 (all_cons_intro _ _ _ og52 (all_cons_intro _ _ _ og53 (all_nil_true _))))

theorem og55 : oGuar 5 [Cell.X, Cell.O, Cell.X, Cell.E, Cell.O, Cell.E, Cell.E, Cell.E, Cell.X] aiPlayer = true :=
  oGuar_any_intro 4 _ 5 (by decide) (by decide) (by decide) og54

theorem og56 : oGuar 6 [Cell.X, Cell.O, Cell.X, Cell.E, Cell.O, Cell.E, Cell.E, Cell.E, Cell.E] humanPlayer = true :=
  oGuar_all_intro 5 _ (by decide) (by decide)
    (all_cons_intro _ _ _ og33 (all_cons_intro _ _ _ og35 (all_cons_intro _ _ _ og43 (all_cons_intro _ _ _ og50 (all_cons_intro _ _ _ og55 (all_nil_true _))))))

theorem og57 : oGuar 7 [Cell.X, Cell.E, Cell.X, Cell.E, Cell.O, Cell.E, Cell.E, Cell.E, Cell.E] aiPlayer = true :=
  oGuar_any_intro 6 _ 1 (by decide) (by decide) (by decide) og56

theorem og58 : oGuar 5 [Cell.X, Cell.X, Cell.E, Cell.X, Cell.O, Cell.E, Cell.O, Cell.E, Cell.E] aiPlayer = true :=
  oGuar_any_intro 4 _ 2 (by decide) (by decide) (by decide) og0

theorem og59 : oGuar 5 [Cell.X, Cell.E, Cell.X, Cell.X, Cell.O, Cell.E, Cell.O, Cell.E, Cell.E] aiPlayer = true :=
  oGuar_any_intro 4 _ 1 (by decide) (by decide) (by decide) og32

theorem og60 : oGuar 2 [Cell.X, Cell.O, Cell.O, Cell.X, Cell.O, Cell.X, Cell.O, Cell.X, Cell.E] humanPlayer = true :=
  oGuar_winO_intro 1 _ _ (by decide) (by decide)

theorem og61 : oGuar 3 [Cell.X, Cell.O, Cell.E, Cell.X, Cell.O, Cell.X, Cell.O, Cell.X, Cell.E] aiPlayer = true :=
  oGuar_any_intro 2 _ 2 (by decide) (by decide) (by decide) og60

theorem og62 : oGuar 2 [Cell.X, Cell.O, Cell.O, Cell.X, Cell.O, Cell.X, Cell.O, Cell.E, Cell.X] humanPlayer = true :=
  oGuar_winO_intro 1 _ _ (by decide) (by decide)

theorem og63 : oGuar 3 [Cell.X, Cell.O, Cell.E, Cell.X, Cell.O, Cell.X, Cell.O, Cell.E, Cell.X] aiPlayer = true :=
  oGuar_any_intro 2 _ 2 (by decide) (by decide) (by decide) og62

theorem og64 : oGuar 4 [Cell.X, Cell.O, Cell.E, Cell.X, Cell.O, Cell.X, Cell.O, Cell.E, Cell.E] humanPlayer = true :=
  oGuar_all_intro 3 _ (by decide) (by decide)
    (all_cons_intro _ _ _ og26 (all_cons_intro _ _ _ og61 (all_cons_intro _ _ _ og63 (all_nil_true _))))

theorem og65 : oGuar 5 [Cell.X, Cell.E, Cell.E, Cell.X, Cell.O, Cell.X, Cell.O, Cell.E, Cell.E] aiPlayer = true :=
  oGuar_any_intro 4 _ 1 (by decide) (by decide) (by decide) og64

theorem og66 : oGuar 2 [Cell.X, Cell.O, Cell.O, Cell.X, Cell.O, Cell.E, Cell.O, Cell.X, Cell.X] humanPlayer = true :=
  oGuar_winO_intro 1 _ _ (by decide) (by decide)

theorem og67 : oGuar 3 [Cell.X, Cell.O, Cell.E, Cell.X, Cell.O, Cell.E, Cell.O, Cell.X, Cell.X] aiPlayer = true :=
  oGuar_any_intro 2 _ 2 (by decide) (by decide) (by decide) og66

theorem og68 : oGuar 4 [Cell.X, Cell.O, Cell.E, Cell.X, Cell.O, Cell.E, Cell.O, Cell.X, Cell.E] humanPlayer = true :=
  oGuar_all_intro 3 _ (by decide) (by decide)
    (all_cons_intro _ _ _ og29 (all_cons_intro _ _ _ og61 (all_cons_intro _ _ _ og67 (all_nil_true _))))

theorem og69 : oGuar 5 [Cell.X, Cell.E, Cell.E, Cell.X, Cell.O, Cell.E, Cell.O, Cell.X, Cell.E] aiPlayer = true :=
  oGuar_any_intro 4 _ 1 (by decide) (by decide) (by decide) og68

theorem og70 : oGuar 4 [Cell.X, Cell.O, Cell.E, Cell.X, Cell.O, Cell.E, Cell.O, Cell.E, Cell.X] humanPlayer = true :=
  oGuar_all_intro 3 _ (by decide) (by decide)
    (all_cons_intro _ _ _ og31 (all_cons_intro _ _ _ og63 (all_cons_intro _ _ _ og67 (all_nil_true _))))

theorem og71 : oGuar 5 [Cell.X, Cell.E, Cell.E, Cell.X, Cell.O, Cell.E, Cell.O, Cell.E, Cell.X] aiPlayer = true :=
  oGuar_any_intro 4 _ 1 (by decide) (by decide) (by decide) og70

theorem og72 : oGuar 6 [Cell.X, Cell.E, Cell.E, Cell.X, Cell.O, Cell.E, Cell.O, Cell.E, Cell.E] humanPlayer = true :=
  oGuar_all_intro 5 _ (by decide) (by decide)
    (all_cons_intro _ _ _ og58 (all_cons_intro _ _ _ og59 (all_cons_intro _ _ _ og65 (all_cons_intro _ _ _ og69 (all_cons_intro _ _ _ og71 (all_nil_true _))))))

theorem og73 : oGuar 7 [Cell.X, Cell.E, Cell.E, Cell.X, Cell.O, Cell.E, Cell.E, Cell.E, Cell.E] aiPlayer = true :=
  oGuar_any_intro 6 _ 6 (by decide) (by decide) (by decide) og72

theorem og74 : oGuar 5 [Cell.X, Cell.O, Cell.E, Cell.X, Cell.O, Cell.X, Cell.E, Cell.E, Cell.E] aiPlayer = true :=
  oGuar_any_intro 4 _ 6 (by decide) (by decide) (by decide) og64

theorem og75 : oGuar 2 [Cell.X, Cell.O, Cell.E, Cell.O, Cell.O, Cell.X, Cell.X, Cell.X, Cell.O] humanPlayer = true :=
  oGuar_all_intro 1 _ (by decide) (by decide)
    (all_cons_intro _ _ _ og44 (all_nil_true _))

theorem og76 : oGuar 3 [Cell.X, Cell.O, Cell.E, Cell.O, Cell.O, Cell.X, Cell.X, Cell.X, Cell.E] aiPlayer = true :=
  oGuar_any_intro 2 _ 8 (by decide) (by decide) (by decide) og75

theorem og77 : oGuar 2 [Cell.X, Cell.O, Cell.E, Cell.O, Cell.O, Cell.X, Cell.X, Cell.O, Cell.X] humanPlayer = true :=
  oGuar_winO_intro 1 _ _ (by decide) (by decide)

theorem og78 : oGuar 3 [Cell.X, Cell.O, Cell.E, Cell.O, Cell.O, Cell.X, Cell.X, Cell.E, Cell.X] aiPlayer = true :=
  oGuar_any_intro 2 _ 7 (by decide) (by decide) (by decide) og77

theorem og79 : oGuar 4 [Cell.X, Cell.O, Cell.E, Cell.O, Cell.O, Cell.X, Cell.X, Cell.E, Cell.E] humanPlayer = true :=
  oGuar_all_intro 3 _ (by decide) (by decide)
    (all_cons_intro _ _ _ og37 (all_cons_intro _ _ _ og76 (all_cons_intro _ _ _ og78 (all_nil_true _))))

theorem og80 : oGuar 5 [Cell.X, Cell.O, Cell.E, Cell.E, Cell.O, Cell.X, Cell.X, Cell.E, Cell.E] aiPlayer = true :=
  oGuar_any_intro 4 _ 3 (by decide) (by decide) (by decide) og79

theorem og81 : oGuar 1 [Cell.X, Cell.O, Cell.X, Cell.X, Cell.O, Cell.X, Cell.O, Cell.X, Cell.O] aiPlayer = true :=
  oGuar_draw_intro 0 _ _ (by decide) (by decide) (by decide)

theorem og82 : oGuar 2 [Cell.X, Cell.O, Cell.X, Cell.E, Cell.O, Cell.X, Cell.O, Cell.X, Cell.O] humanPlayer = true :=
  oGuar_all_intro 1 _ (by decide) (by decide)
    (all_cons_intro _ _ _ og81 (all_nil_true _))

theorem og83 : oGuar 3 [Cell.X, Cell.O, Cell.X, Cell.E, Cell.O, Cell.X, Cell.O, Cell.X, Cell.E] aiPlayer = true :=
  oGuar_any_intro 2 _ 8 (by decide) (by decide) (by decide) og82

theorem og84 : oGuar 2 [Cell.X, Cell.O, Cell.O, Cell.E, Cell.O, Cell.X, Cell.O, Cell.X, Cell.X] humanPlayer = true :=
  oGuar_winO_intro 1 _ _ (by decide) (by decide)

theorem og85 : oGuar 3 [Cell.X, Cell.O, Cell.E, Cell.E, Cell.O, Cell.X, Cell.O, Cell.X, Cell.X] aiPlayer = true :=
  oGuar_any_intro 2 _ 2 (by decide) (by decide) (by decide) og84

theorem og86 : oGuar 4 [Cell.X, Cell.O, Cell.E, Cell.E, Cell.O, Cell.X, Cell.O, Cell.X, Cell.E] humanPlayer = true :=
  oGuar_all_intro 3 _ (by decide) (by decide)
    (all_cons_intro _ _ _ og83 (all_cons_intro _ _ _ og61 (all_cons_intro _ _ _ og85 (all_nil_true _))))

theorem og87 : oGuar 5 [Cell.X, Cell.O, Cell.E, Cell.E, Cell.O, Cell.X, Cell.E, Cell.X, Cell.E] aiPlayer = true :=
  oGuar_any_intro 4 _ 6 (by decide) (by decide) (by decide) og86

theorem og88 : oGuar 3 [Cell.X, Cell.O, Cell.O, Cell.X, Cell.O, Cell.X, Cell.E, Cell.E, Cell.X] aiPlayer = true :=
  oGuar_any_intro 2 _ 6 (by decide) (by decide) (by decide) og62

theorem og89 : oGuar 2 [Cell.X, Cell.O, Cell.O, Cell.E, Cell.O, Cell.X, Cell.X, Cell.O, Cell.X] humanPlayer = true :=
  oGuar_winO_intro 1 _ _ (by decide) (by decide)

theorem og90 : oGuar 3 [Cell.X, Cell.O, Cell.O, Cell.E, Cell.O, Cell.X, Cell.X, Cell.E, Cell.X] aiPlayer = true :=
  oGuar_any_intro 2 _ 7 (by decide) (by decide) (by decide) og89

theorem og91 : oGuar 3 [Cell.X, Cell.O, Cell.O, Cell.E, Cell.O, Cell.X, Cell.E, Cell.X, Cell.X] aiPlayer = true :=
  oGuar_any_intro 2 _ 6 (by decide) (by decide) (by decide) og84

theorem og92 : oGuar 4 [Cell.X, Cell.O, Cell.O, Cell.E, Cell.O, Cell.X, Cell.E, Cell.E, Cell.X] humanPlayer = true :=
  oGuar_all_intro 3 _ (by decide) (by decide)
    (all_cons_intro _ _ _ og88 (all_cons_intro _ _ _ og90 (all_cons_intro _ _ _ og91 (all_nil_true _))))

theorem og93 : oGuar 5 [Cell.X, Cell.O, Cell.E, Cell.E, Cell.O, Cell.X, Cell.E, Cell.E, Cell.X] aiPlayer = true :=
  oGuar_any_intro 4 _ 2 (by decide) (by decide) (by decide) og92

theorem og94 : oGuar 6 [Cell.X, Cell.O, Cell.E, Cell.E, Cell.O, Cell.X, Cell.E, Cell.E, Cell.E] humanPlayer = true :=
  oGuar_all_intro 5 _ (by decide) (by decide)
    (all_cons_intro _ _ _ og35 (all_cons_intro _ _ _ og74 (all_cons_intro _ _ _ og80 (all_cons_intro _ _ _ og87 (all_cons_intro _ _ _ og93 (all_nil_true _))))))

theorem og95 : oGuar 7 [Cell.X, Cell.E, Cell.E, Cell.E, Cell.O, Cell.X, Cell.E, Cell.E, Cell.E] aiPlayer = true :=
  oGuar_any_intro 6 _ 1 (by decide) (by decide) (by decide) og94

theorem og96 : oGuar 5 [Cell.X, Cell.X, Cell.E, Cell.O, Cell.O, Cell.E, Cell.X, Cell.E, Cell.E] aiPlayer = true :=
  oGuar_any_intro 4 _ 2 (by decide) (by decide) (by decide) og15

theorem og97 : oGuar 5 [Cell.X, Cell.E, Cell.X, Cell.O, Cell.O, Cell.E, Cell.X, Cell.E, Cell.E] aiPlayer = true :=
  oGuar_any_intro 4 _ 1 (by decide) (by decide) (by decide) og42

theorem og98 : oGuar 5 [Cell.X, Cell.E, Cell.E, Cell.O, Cell.O, Cell.X, Cell.X, Cell.E, Cell.E] aiPlayer = true :=
  oGuar_any_intro 4 _ 1 (by decide) (by decide) (by decide) og79

theorem og99 : oGuar 4 [Cell.X, Cell.E, Cell.E, Cell.O, Cell.O, Cell.O, Cell.X, Cell.X, Cell.E] humanPlayer = true :=
  oGuar_winO_intro 3 _ _ (by decide) (by decide)

theorem og100 : oGuar 5 [Cell.X, Cell.E, Cell.E, Cell.O, Cell.O, Cell.E, Cell.X, Cell.X, Cell.E] aiPlayer = true :=
  oGuar_any_intro 4 _ 5 (by decide) (by decide) (by decide) og99

theorem og101 : oGuar 4 [Cell.X, Cell.E, Cell.E, Cell.O, Cell.O, Cell.O, Cell.X, Cell.E, Cell.X] humanPlayer = true :=
  oGuar_winO_intro 3 _ _ (by decide) (by decide)

theorem og102 : oGuar 5 [Cell.X, Cell.E, Cell.E, Cell.O, Cell.O, Cell.E, Cell.X, Cell.E, Cell.X] aiPlayer = true :=
  oGuar_any_intro 4 _ 5 (by decide) (by decide) (by decide) og101

theorem og103 : oGuar 6 [Cell.X, Cell.E, Cell.E, Cell.O, Cell.O, Cell.E, Cell.X, Cell.E, Cell.E] humanPlayer = true :=
  oGuar_all_intro 5 _ (by decide) (by decide)
    (all_cons_intro _ _ _ og96 (all_cons_intro _ _ _ og97 (all_cons_intro _ _ _ og98 (all_cons_intro _ _ _ og100 (all_cons_intro _ _ _ og102 (all_nil_true _))))))

theorem og104 : oGuar 7 [Cell.X, Cell.E, Cell.E, Cell.E, Cell.O, Cell.E, Cell.X, Cell.E, Cell.E] aiPlayer = true :=
  oGuar_any_intro 6 _ 3 (by decide) (by decide) (by decide) og103

theorem og105 : oGuar 5 [Cell.X, Cell.X, Cell.E, Cell.O, Cell.O, Cell.E, Cell.E, Cell.X, Cell.E] aiPlayer = true :=
  oGuar_any_intro 4 _ 2 (by decide) (by decide) (by decide) og19

theorem og106 : oGuar 5 [Cell.X, Cell.E, Cell.X, Cell.O, Cell.O, Cell.E, Cell.E, Cell.X, Cell.E] aiPlayer = true :=
  oGuar_any_intro 4 _ 1 (by decide) (by decide) (by decide) og49

theorem og107 : oGuar 1 [Cell.X, Cell.X, Cell.O, Cell.O, Cell.O, Cell.X, Cell.X, Cell.X, Cell.O] aiPlayer = true :=
  oGuar_draw_intro 0 _ _ (by decide) (by decide) (by decide)

theorem og108 : oGuar 2 [Cell.X, Cell.E, Cell.O, Cell.O, Cell.O, Cell.X, Cell.X, Cell.X, Cell.O] humanPlayer = true :=
  oGuar_all_intro 1 _ (by decide) (by decide)
    (all_cons_intro _ _ _ og107 (all_nil_true _))

theorem og109 : oGuar 3 [Cell.X, Cell.E, Cell.O, Cell.O, Cell.O, Cell.X, Cell.X, Cell.X, Cell.E] aiPlayer = true :=
  oGuar_any_intro 2 _ 8 (by decide) (by decide) (by decide) og108

theorem og110 : oGuar 2 [Cell.X, Cell.E, Cell.O, Cell.O, Cell.O, Cell.X, Cell.O, Cell.X, Cell.X] humanPlayer = true :=
  oGuar_winO_intro 1 _ _ (by decide) (by decide)

theorem og111 : oGuar 3 [Cell.X, Cell.E, Cell.O, Cell.O, Cell.O, Cell.X, Cell.E, Cell.X, Cell.X] aiPlayer = true :=
  oGuar_any_intro 2 _ 6 (by decide) (by decide) (by decide) og110

theorem og112 : oGuar 4 [Cell.X, Cell.E, Cell.O, Cell.O, Cell.O, Cell.X, Cell.E, Cell.X, Cell.E] humanPlayer = true :=
  oGuar_all_intro 3 _ (by decide) (by decide)
    (all_cons_intro _ _ _ og6 (all_cons_intro _ _ _ og109 (all_cons_intro _ _ _ og111 (all_nil_true _))))

theorem og113 : oGuar 5 [Cell.X, Cell.E, Cell.E, Cell.O, Cell.O, Cell.X, Cell.E, Cell.X, Cell.E] aiPlayer = true :=
  oGuar_any_intro 4 _ 2 (by decide) (by decide) (by decide) og112

theorem og114 : oGuar 4 [Cell.X, Cell.E, Cell.E, Cell.O, Cell.O, Cell.O, Cell.E, Cell.X, Cell.X] humanPlayer = true :=
  oGuar_winO_intro 3 _ _ (by decide) (by decide)

theorem og115 : oGuar 5 [Cell.X, Cell.E, Cell.E, Cell.O, Cell.O, Cell.E, Cell.E, Cell.X, Cell.X] aiPlayer = true :=
  oGuar_any_intro 4 _ 5 (by decide) (by decide) (by decide) og114

theorem og116 : oGuar 6 [Cell.X, Cell.E, Cell.E, Cell.O, Cell.O, Cell.E, Cell.E, Cell.X, Cell.E] humanPlayer = true :=
  oGuar_all_intro 5 _ (by decide) (by decide)
    (all_cons_intro _ _ _ og105 (all_cons_intro _ _ _ og106 (all_cons_intro _ _ _ og113 (all_cons_intro _ _ _ og100 (all_cons_intro _ _ _ og115 (all_nil_true _))))))

theorem og117 : oGuar 7 [Cell.X, Cell.E, Cell.E, Cell.E, Cell.O, Cell.E, Cell.E, Cell.X, Cell.E] aiPlayer = true :=
  oGuar_any_intro 6 _ 3 (by decide) (by decide) (by decide) og116

theorem og118 : oGuar 5 [Cell.X, Cell.O, Cell.E, Cell.X, Cell.O, Cell.E, Cell.E, Cell.E, Cell.X] aiPlayer = true :=
  oGuar_any_intro 4 _ 6 (by decide) (by decide) (by decide) og70

theorem og119 : oGuar 4 [Cell.X, Cell.O, Cell.E, Cell.E, Cell.O, Cell.E, Cell.X, Cell.O, Cell.X] humanPlayer = true :=
  oGuar_winO_intro 3 _ _ (by decide) (by decide)

theorem og120 : oGuar 5 [Cell.X, Cell.O, Cell.E, Cell.E, Cell.O, Cell.E, Cell.X, Cell.E, Cell.X] aiPlayer = true :=
  oGuar_any_intro 4 _ 7 (by decide) (by decide) (by decide) og119

theorem og121 : oGuar 2 [Cell.X, Cell.O, Cell.X, Cell.E, Cell.O, Cell.O, Cell.O, Cell.X, Cell.X] humanPlayer = true :=
  oGuar_all_intro 1 _ (by decide) (by decide)
    (all_cons_intro _ _ _ og27 (all_nil_true _))

theorem og122 : oGuar 3 [Cell.X, Cell.O, Cell.X, Cell.E, Cell.O, Cell.E, Cell.O, Cell.X, Cell.X] aiPlayer = true :=
  oGuar_any_intro 2 _ 5 (by decide) (by decide) (by decide) og121

theorem og123 : oGuar 4 [Cell.X, Cell.O, Cell.E, Cell.E, Cell.O, Cell.E, Cell.O, Cell.X, Cell.X] humanPlayer = true :=
  oGuar_all_intro 3 _ (by decide) (by decide)
    (all_cons_intro _ _ _ og122 (all_cons_intro _ _ _ og67 (all_cons_intro _ _ _ og85 (all_nil_true _))))

theorem og124 : oGuar 5 [Cell.X, Cell.O, Cell.E, Cell.E, Cell.O, Cell.E, Cell.E, Cell.X, Cell.X] aiPlayer = true :=
  oGuar_any_intro 4 _ 6 (by decide) (by decide) (by decide) og123

theorem og125 : oGuar 6 [Cell.X, Cell.O, Cell.E, Cell.E, Cell.O, Cell.E, Cell.E, Cell.E, Cell.X] humanPlayer = true :=
  oGuar_all_intro 5 _ (by decide) (by decide)
    (all_cons_intro _ _ _ og55 (all_cons_intro _ _ _ og118 (all_cons_intro _ _ _ og93 (all_cons_intro _ _ _ og120 (all_cons_intro _ _ _ og124 (all_nil_true _))))))

theorem og126 : oGuar 7 [Cell.X, Cell.E, Cell.E, Cell.E, Cell.O, Cell.E, Cell.E, Cell.E, Cell.X] aiPlayer = true :=
  oGuar_any_intro 6 _ 1 (by decide) (by decide) (by decide) og125

theorem og127 : oGuar 8 [Cell.X, Cell.E, Cell.E, Cell.E, Cell.O, Cell.E, Cell.E, Cell.E, Cell.E] humanPlayer = true :=
  oGuar_all_intro 7 _ (by decide) (by decide)
    (all_cons_intro _ _ _ og24 (all_cons_intro _ _ _ og57 (all_cons_intro _ _ _ og73 (all_cons_intro _ _ _ og95 (all_cons_intro _ _ _ og104 (all_cons_intro _ _ _ og117 (all_cons_intro _ _ _ og126 (all_nil_true _))))))))

theorem og128 : oGuar 9 [Cell.X, Cell.E, Cell.E, Cell.E, Cell.E, Cell.E, Cell.E, Cell.E, Cell.E] aiPlayer = true :=
  oGuar_any_intro 8 _ 4 (by decide) (by decide) (by decide) og127

theorem og129 : oGuar 4 [Cell.O, Cell.X, Cell.X, Cell.O, Cell.X, Cell.E, Cell.O, Cell.E, Cell.E] humanPlayer = true :=
  oGuar_winO_intro 3 _ _ (by decide) (by decide)

theorem og130 : oGuar 5 [Cell.O, Cell.X, Cell.X, Cell.O, Cell.X, Cell.E, Cell.E, Cell.E, Cell.E] aiPlayer = true :=
  oGuar_any_intro 4 _ 6 (by decide) (by decide) (by decide) og129

theorem og131 : oGuar 4 [Cell.O, Cell.X, Cell.X, Cell.O, Cell.E, Cell.X, Cell.O, Cell.E, Cell.E] humanPlayer = true :=
  oGuar_winO_intro 3 _ _ (by decide) (by decide)

theorem og132 : oGuar 5 [Cell.O, Cell.X, Cell.X, Cell.O, Cell.E, Cell.X, Cell.E, Cell.E, Cell.E] aiPlayer = true :=
  oGuar_any_intro 4 _ 6 (by decide) (by decide) (by decide) og131

theorem og133 : oGuar 2 [Cell.O, Cell.X, Cell.X, Cell.O, Cell.O, Cell.X, Cell.X, Cell.E, Cell.O] humanPlayer = true :=
  oGuar_winO_intro 1 _ _ (by decide) (by decide)

theorem og134 : oGuar 3 [Cell.O, Cell.X, Cell.X, Cell.O, Cell.O, Cell.X, Cell.X, Cell.E, Cell.E] aiPlayer = true :=
  oGuar_any_intro 2 _ 8 (by decide) (by decide) (by decide) og133

theorem og135 : oGuar 2 [Cell.O, Cell.X, Cell.X, Cell.O, Cell.O, Cell.O, Cell.X, Cell.X, Cell.E] humanPlayer = true :=
  oGuar_winO_intro 1 _ _ (by decide) (by decide)

theorem og136 : oGuar 3 [Cell.O, Cell.X, Cell.X, Cell.O, Cell.O, Cell.E, Cell.X, Cell.X, Cell.E] aiPlayer = true :=
  oGuar_any_intro 2 _ 5 (by decide) (by decide) (by decide) og135

theorem og137 : oGuar 2 [Cell.O, Cell.X, Cell.X, Cell.O, Cell.O, Cell.O, Cell.X, Cell.E, Cell.X] humanPlayer = true :=
  oGuar_winO_intro 1 _ _ (by decide) (by decide)

theorem og138 : oGuar 3 [Cell.O, Cell.X, Cell.X, Cell.O, Cell.O, Cell.E, Cell.X, Cell.E, Cell.X] aiPlayer = true :=
  oGuar_any_intro 2 _ 5 (by decide) (by decide) (by decide) og137

theorem og139 : oGuar 4 [Cell.O, Cell.X, Cell.X, Cell.O, Cell.O, Cell.E, Cell.X, Cell.E, Cell.E] humanPlayer = true :=
  oGuar_all_intro 3 _ (by decide) (by decide)
    (all_cons_intro _ _ _ og134 (all_cons_intro _ _ _ og136 (all_cons_intro _ _ _ og138 (all_nil_true _))))

theorem og140 : oGuar 5 [Cell.O, Cell.X, Cell.X, Cell.O, Cell.E, Cell.E, Cell.X, Cell.E, Cell.E] aiPlayer = true :=
  oGuar_any_intro 4 _ 4 (by decide) (by decide) (by decide) og139

theorem og141 : oGuar 2 [Cell.O, Cell.X, Cell.X, Cell.O, Cell.O, Cell.X, Cell.O, Cell.X, Cell.E] humanPlayer = true :=
  oGuar_winO_intro 1 _ _ (by decide) (by decide)

theorem og142 : oGuar 3 [Cell.O, Cell.X, Cell.X, Cell.O, Cell.O, Cell.X, Cell.E, Cell.X, Cell.E] aiPlayer = true :=
  oGuar_any_intro 2 _ 6 (by decide) (by decide) (by decide) og141

theorem og143 : oGuar 2 [Cell.O, Cell.X, Cell.X, Cell.O, Cell.O, Cell.O, Cell.E, Cell.X, Cell.X] humanPlayer = true :=
  oGuar_winO_intro 1 _ _ (by decide) (by decide)

theorem og144 : oGuar 3 [Cell.O, Cell.X, Cell.X, Cell.O, Cell.O, Cell.E, Cell.E, Cell.X, Cell.X] aiPlayer = true :=
  oGuar_any_intro 2 _ 5 (by decide) (by decide) (by decide) og143

theorem og145 : oGuar 4 [Cell.O, Cell.X, Cell.X, Cell.O, Cell.O, Cell.E, Cell.E, Cell.X, Cell.E] humanPlayer = true :=
  oGuar_all_intro 3 _ (by decide) (by decide)
    (all_cons_intro _ _ _ og142 (all_cons_intro _ _ _ og136 (all_cons_intro _ _ _ og144 (all_nil_true _))))

theorem og146 : oGuar 5 [Cell.O, Cell.X, Cell.X, Cell.O, Cell.E, Cell.E, Cell.E, Cell.X, Cell.E] aiPlayer = true :=
  oGuar_any_intro 4 _ 4 (by decide) (by decide) (by decide) og145

theorem og147 : oGuar 2 [Cell.O, Cell.X, Cell.X, Cell.O, Cell.X, Cell.O, Cell.O, Cell.E, Cell.X] humanPlayer = true :=
  oGuar_winO_intro 1 _ _ (by decide) (by decide)

theorem og148 : oGuar 3 [Cell.O, Cell.X, Cell.X, Cell.O, Cell.X, Cell.O, Cell.E, Cell.E, Cell.X] aiPlayer = true :=
  oGuar_any_intro 2 _ 6 (by decide) (by decide) (by decide) og147

theorem og149 : oGuar 3 [Cell.O, Cell.X, Cell.X, Cell.O, Cell.E, Cell.O, Cell.X, Cell.E, Cell.X] aiPlayer = true :=
  oGuar_any_intro 2 _ 4 (by decide) (by decide) (by decide) og137

theorem og150 : oGuar 3 [Cell.O, Cell.X, Cell.X, Cell.O, Cell.E, Cell.O, Cell.E, Cell.X, Cell.X] aiPlayer = true :=
  oGuar_any_intro 2 _ 4 (by decide) (by decide) (by decide) og143

theorem og151 : oGuar 4 [Cell.O, Cell.X, Cell.X, Cell.O, Cell.E, Cell.O, Cell.E, Cell.E, Cell.X] humanPlayer = true :=
  oGuar_all_intro 3 _ (by decide) (by decide)
    (all_cons_intro _ _ _ og148 (all_cons_intro _ _ _ og149 (all_cons_intro _ _ _ og150 (all_nil_true _))))

theorem og152 : oGuar 5 [Cell.O, Cell.X, Cell.X, Cell.O, Cell.E, Cell.E, Cell.E, Cell.E, Cell.X] aiPlayer = true :=
  oGuar_any_intro 4 _ 5 (by decide) (by decide) (by decide) og151

theorem og153 : oGuar 6 [Cell.O, Cell.X, Cell.X, Cell.O, Cell.E, Cell.E, Cell.E, Cell.E, Cell.E] humanPlayer = true :=
  oGuar_all_intro 5 _ (by decide) (by decide)
    (all_cons_intro _ _ _ og130 (all_cons_intro _ _ _ og132 (all_cons_intro _ _ _ og140 (all_cons_intro _ _ _ og146 (all_cons_intro _ _ _ og152 (all_nil_true _))))))

theorem og154 : oGuar 7 [Cell.O, Cell.X, Cell.X, Cell.E, Cell.E, Cell.E, Cell.E, Cell.E, Cell.E] aiPlayer = true :=
  oGuar_any_intro 6 _ 3 (by decide) (by decide) (by decide) og153

theorem og155 : oGuar 1 [Cell.O, Cell.X, Cell.X, Cell.X, Cell.O, Cell.O, Cell.X, Cell.O, Cell.X] aiPlayer = true :=
  oGuar_draw_intro 0 _ _ (by decide) (by decide) (by decide)

theorem og156 : oGuar 2 [Cell.O, Cell.X, Cell.X, Cell.X, Cell.O, Cell.O, Cell.X, Cell.O, Cell.E] humanPlayer = true :=
  oGuar_all_intro 1 _ (by decide) (by decide)
    (all_cons_intro _ _ _ og155 (all_nil_true _))

theorem og157 : oGuar 3 [Cell.O, Cell.X, Cell.X, Cell.X, Cell.O, Cell.O, Cell.X, Cell.E, Cell.E] aiPlayer = true :=
  oGuar_any_intro 2 _ 7 (by decide) (by decide) (by decide) og156

theorem og158 : oGuar 1 [Cell.O, Cell.X, Cell.X, Cell.X, Cell.O, Cell.O, Cell.O, Cell.X, Cell.X] aiPlayer = true :=
  oGuar_draw_intro 0 _ _ (by decide) (by decide) (by decide)

theorem og159 : oGuar 2 [Cell.O, Cell.X, Cell.X, Cell.X, Cell.O, Cell.O, Cell.O, Cell.X, Cell.E] humanPlayer = true :=
  oGuar_all_intro 1 _ (by decide) (by decide)
    (all_cons_intro _ _ _ og158 (all_nil_true _))

theorem og160 : oGuar 3 [Cell.O, Cell.X, Cell.X, Cell.X, Cell.O, Cell.O, Cell.E, Cell.X, Cell.E] aiPlayer = true :=
  oGuar_any_intro 2 _ 6 (by decide) (by decide) (by decide) og159

theorem og161 : oGuar 2 [Cell.O, Cell.X, Cell.X, Cell.X, Cell.O, Cell.O, Cell.O, Cell.E, Cell.X] humanPlayer = true :=
  oGuar_all_intro 1 _ (by decide) (by decide)
    (all_cons_intro _ _ _ og158 (all_nil_true _))

theorem og162 : oGuar 3 [Cell.O, Cell.X, Cell.X, Cell.X, Cell.O, Cell.O, Cell.E, Cell.E, Cell.X] aiPlayer = true :=
  oGuar_any_intro 2 _ 6 (by decide) (by decide) (by decide) og161

theorem og163 : oGuar 4 [Cell.O, Cell.X, Cell.X, Cell.X, Cell.O, Cell.O, Cell.E, Cell.E, Cell.E] humanPlayer = true :=
  oGuar_all_intro 3 _ (by decide) (by decide)
    (all_cons_intro _ _ _ og157 (all_cons_intro _ _ _ og160 (all_cons_intro _ _ _ og162 (all_nil_true _))))

theorem og164 : oGuar 5 [Cell.O, Cell.X, Cell.X, Cell.X, Cell.O, Cell.E, Cell.E, Cell.E, Cell.E] aiPlayer = true :=
  oGuar_any_intro 4 _ 5 (by decide) (by decide) (by decide) og163

theorem og165 : oGuar 1 [Cell.O, Cell.X, Cell.O, Cell.X, Cell.O, Cell.X, Cell.X, Cell.O, Cell.X] aiPlayer = true :=
  oGuar_draw_intro 0 _ _ (by decide) (by decide) (by decide)

theorem og166 : oGuar 2 [Cell.O, Cell.X, Cell.O, Cell.X, Cell.O, Cell.X, Cell.X, Cell.O, Cell.E] humanPlayer = true :=
  oGuar_all_intro 1 _ (by decide) (by decide)
    (all_cons_intro _ _ _ og165 (all_nil_true _))

theorem og167 : oGuar 3 [Cell.O, Cell.X, Cell.O, Cell.X, Cell.O, Cell.X, Cell.X, Cell.E, Cell.E] aiPlayer = true :=
  oGuar_any_intro 2 _ 7 (by decide) (by decide) (by decide) og166

theorem og168 : oGuar 2 [Cell.O, Cell.X, Cell.O, Cell.X, Cell.O, Cell.X, Cell.O, Cell.X, Cell.E] humanPlayer = true :=
  oGuar_winO_intro 1 _ _ (by decide) (by decide)

theorem og169 : oGuar 3 [Cell.O, Cell.X, Cell.O, Cell.X, Cell.O, Cell.X, Cell.E, Cell.X, Cell.E] aiPlayer = true :=
  oGuar_any_intro 2 _ 6 (by decide) (by decide) (by decide) og168

theorem og170 : oGuar 2 [Cell.O, Cell.X, Cell.O, Cell.X, Cell.O, Cell.X, Cell.O, Cell.E, Cell.X] humanPlayer = true :=
  oGuar_winO_intro 1 _ _ (by decide) (by decide)

theorem og171 : oGuar 3 [Cell.O, Cell.X, Cell.O, Cell.X, Cell.O, Cell.X, Cell.E, Cell.E, Cell.X] aiPlayer = true :=
  oGuar_any_intro 2 _ 6 (by decide) (by decide) (by decide) og170

theorem og172 : oGuar 4 [Cell.O, Cell.X, Cell.O, Cell.X, Cell.O, Cell.X, Cell.E, Cell.E, Cell.E] humanPlayer = true :=
  oGuar_all_intro 3 _ (by decide) (by decide)
    (all_cons_intro _ _ _ og167 (all_cons_intro _ _ _ og169 (all_cons_intro _ _ _ og171 (all_nil_true _))))

theorem og173 : oGuar 5 [Cell.O, Cell.X, Cell.E, Cell.X, Cell.O, Cell.X, Cell.E, Cell.E, Cell.E] aiPlayer = true :=
  oGuar_any_intro 4 _ 2 (by decide) (by decide) (by decide) og172

theorem og174 : oGuar 2 [Cell.O, Cell.X, Cell.O, Cell.X, Cell.O, Cell.E, Cell.X, Cell.X, Cell.O] humanPlayer = true :=
  oGuar_winO_intro 1 _ _ (by decide) (by decide)

theorem og175 : oGuar 3 [Cell.O, Cell.X, Cell.O, Cell.X, Cell.O, Cell.E, Cell.X, Cell.X, Cell.E] aiPlayer = true :=
  oGuar_any_intro 2 _ 8 (by decide) (by decide) (by decide) og174

theorem og176 : oGuar 2 [Cell.O, Cell.X, Cell.O, Cell.X, Cell.O, Cell.E, Cell.X, Cell.O, Cell.X] humanPlayer = true :=
  oGuar_all_intro 1 _ (by decide) (by decide)
    (all_cons_intro _ _ _ og165 (all_nil_true _))

theorem og177 : oGuar 3 [Cell.O, Cell.X, Cell.O, Cell.X, Cell.O, Cell.E, Cell.X, Cell.E, Cell.X] aiPlayer = true :=
  oGuar_any_intro 2 _ 7 (by decide) (by decide) (by decide) og176

theorem og178 : oGuar 4 [Cell.O, Cell.X, Cell.O, Cell.X, Cell.O, Cell.E, Cell.X, Cell.E, Cell.E] humanPlayer = true :=
  oGuar_all_intro 3 _ (by decide) (by decide)
    (all_cons_intro _ _ _ og167 (all_cons_intro _ _ _ og175 (all_cons_intro _ _ _ og177 (all_nil_true _))))

theorem og179 : oGuar 5 [Cell.O, Cell.X, Cell.E, Cell.X, Cell.O, Cell.E, Cell.X, Cell.E, Cell.E] aiPlayer = true :=
  oGuar_any_intro 4 _ 2 (by decide) (by decide) (by decide) og178

theorem og180 : oGuar 2 [Cell.O, Cell.X, Cell.O, Cell.X, Cell.O, Cell.E, Cell.O, Cell.X, Cell.X] humanPlayer = true :=
  oGuar_winO_intro 1 _ _ (by decide) (by decide)

theorem og181 : oGuar 3 [Cell.O, Cell.X, Cell.O, Cell.X, Cell.O, Cell.E, Cell.E, Cell.X, Cell.X] aiPlayer = true :=
  oGuar_any_intro 2 _ 6 (by decide) (by decide) (by decide) og180

theorem og182 : oGuar 4 [Cell.O, Cell.X, Cell.O, Cell.X, Cell.O, Cell.E, Cell.E, Cell.X, Cell.E] humanPlayer = true :=
  oGuar_all_intro 3 _ (by decide) (by decide)
    (all_cons_intro _ _ _ og169 (all_cons_intro _ _ _ og175 (all_cons_intro _ _ _ og181 (all_nil_true _))))

theorem og183 : oGuar 5 [Cell.O, Cell.X, Cell.E, Cell.X, Cell.O, Cell.E, Cell.E, Cell.X, Cell.E] aiPlayer = true :=
  oGuar_any_intro 4 _ 2 (by decide) (by decide) (by decide) og182

theorem og184 : oGuar 4 [Cell.O, Cell.X, Cell.O, Cell.X, Cell.O, Cell.E, Cell.E, Cell.E, Cell.X] humanPlayer = true :=
  oGuar_all_intro 3 _ (by decide) (by decide)
    (all_cons_intro _ _ _ og171 (all_cons_intro _ _ _ og177 (all_cons_intro _ _ _ og181 (all_nil_true _))))

theorem og185 : oGuar 5 [Cell.O, Cell.X, Cell.E, Cell.X, Cell.O, Cell.E, Cell.E, Cell.E, Cell.X] aiPlayer = true :=
  oGuar_any_intro 4 _ 2 (by decide) (by decide) (by decide) og184

theorem og186 : oGuar 6 [Cell.O, Cell.X, Cell.E, Cell.X, Cell.O, Cell.E, Cell.E, Cell.E, Cell.E] humanPlayer = true :=
  oGuar_all_intro 5 _ (by decide) (by decide)
    (all_cons_intro _ _ _ og164 (all_cons_intro _ _ _ og173 (all_cons_intro _ _ _ og179 (all_cons_intro _ _ _ og183 (all_cons_intro _ _ _ og185 (all_nil_true _))))))

theorem og187 : oGuar 7 [Cell.O, Cell.X, Cell.E, Cell.X, Cell.E, Cell.E, Cell.E, Cell.E, Cell.E] aiPlayer = true :=
  oGuar_any_intro 6 _ 4 (by decide) (by decide) (by decide) og186

theorem og188 : oGuar 1 [Cell.O, Cell.X, Cell.X, Cell.X, Cell.X, Cell.O, Cell.O, Cell.O, Cell.X] aiPlayer = true :=
  oGuar_draw_intro 0 _ _ (by decide) (by decide) (by decide)

theorem og189 : oGuar 2 [Cell.O, Cell.X, Cell.X, Cell.X, Cell.X, Cell.O, Cell.O, Cell.O, Cell.E] humanPlayer = true :=
  oGuar_all_intro 1 _ (by decide) (by decide)
    (all_cons_intro _ _ _ og188 (all_nil_true _))

theorem og190 : oGuar 3 [Cell.O, Cell.X, Cell.X, Cell.X, Cell.X, Cell.E, Cell.O, Cell.O, Cell.E] aiPlayer = true :=
  oGuar_any_intro 2 _ 5 (by decide) (by decide) (by decide) og189

theorem og191 : oGuar 2 [Cell.O, Cell.X, Cell.X, Cell.O, Cell.X, Cell.X, Cell.O, Cell.O, Cell.E] humanPlayer = true :=
  oGuar_winO_intro 1 _ _ (by decide) (by decide)

theorem og192 : oGuar 3 [Cell.O, Cell.X, Cell.X, Cell.E, Cell.X, Cell.X, Cell.O, Cell.O, Cell.E] aiPlayer = true :=
  oGuar_any_intro 2 _ 3 (by decide) (by decide) (by decide) og191

theorem og193 : oGuar 2 [Cell.O, Cell.X, Cell.X, Cell.O, Cell.X, Cell.E, Cell.O, Cell.O, Cell.X] humanPlayer = true :=
  oGuar_winO_intro 1 _ _ (by decide) (by decide)

theorem og194 : oGuar 3 [Cell.O, Cell.X, Cell.X, Cell.E, Cell.X, Cell.E, Cell.O, Cell.O, Cell.X] aiPlayer = true :=
  oGuar_any_intro 2 _ 3 (by decide) (by decide) (by decide) og193

theorem og195 : oGuar 4 [Cell.O, Cell.X, Cell.X, Cell.E, Cell.X, Cell.E, Cell.O, Cell.O, Cell.E] humanPlayer = true :=
  oGuar_all_intro 3 _ (by decide) (by decide)
    (all_cons_intro _ _ _ og190 (all_cons_intro _ _ _ og192 (all_cons_intro _ _ _ og194 (all_nil_true _))))

theorem og196 : oGuar 5 [Cell.O, Cell.X, Cell.X, Cell.E, Cell.X, Cell.E, Cell.E, Cell.O, Cell.E] aiPlayer = true :=
  oGuar_any_intro 4 _ 6 (by decide) (by decide) (by decide) og195

theorem og197 : oGuar 3 [Cell.O, Cell.X, Cell.X, Cell.X, Cell.X, Cell.O, Cell.E, Cell.O, Cell.E] aiPlayer = true :=
  oGuar_any_intro 2 _ 6 (by decide) (by decide) (by decide) og189

theorem og198 : oGuar 1 [Cell.O, Cell.X, Cell.O, Cell.X, Cell.X, Cell.O, Cell.X, Cell.O, Cell.X] aiPlayer = true :=
  oGuar_draw_intro 0 _ _ (by decide) (by decide) (by decide)

theorem og199 : oGuar 2 [Cell.O, Cell.X, Cell.O, Cell.X, Cell.X, Cell.O, Cell.X, Cell.O, Cell.E] humanPlayer = true :=
  oGuar_all_intro 1 _ (by decide) (by decide)
    (all_cons_intro _ _ _ og198 (all_nil_true _))

theorem og200 : oGuar 3 [Cell.O, Cell.X, Cell.E, Cell.X, Cell.X, Cell.O, Cell.X, Cell.O, Cell.E] aiPlayer = true :=
  oGuar_any_intro 2 _ 2 (by decide) (by decide) (by decide) og199

theorem og201 : oGuar 2 [Cell.O, Cell.X, Cell.O, Cell.X, Cell.X, Cell.O, Cell.E, Cell.O, Cell.X] humanPlayer = true :=
  oGuar_all_intro 1 _ (by decide) (by decide)
    (all_cons_intro _ _ _ og198 (all_nil_true _))

theorem og202 : oGuar 3 [Cell.O, Cell.X, Cell.E, Cell.X, Cell.X, Cell.O, Cell.E, Cell.O, Cell.X] aiPlayer = true :=
  oGuar_any_intro 2 _ 2 (by decide) (by decide) (by decide) og201

theorem og203 : oGuar 4 [Cell.O, Cell.X, Cell.E, Cell.X, Cell.X, Cell.O, Cell.E, Cell.O, Cell.E] humanPlayer = true :=
  oGuar_all_intro 3 _ (by decide) (by decide)
    (all_cons_intro _ _ _ og197 (all_cons_intro _ _ _ og200 (all_cons_intro _ _ _ og202 (all_nil_true _))))

theorem og204 : oGuar 5 [Cell.O, Cell.X, Cell.E, Cell.X, Cell.X, Cell.E, Cell.E, Cell.O, Cell.E] aiPlayer = true :=
  oGuar_any_intro 4 _ 5 (by decide) (by decide) (by decide) og203

theorem og205 : oGuar 3 [Cell.O, Cell.X, Cell.X, Cell.O, Cell.X, Cell.X, Cell.E, Cell.O, Cell.E] aiPlayer = true :=
  oGuar_any_intro 2 _ 6 (by decide) (by decide) (by decide) og191

theorem og206 : oGuar 1 [Cell.O, Cell.X, Cell.O, Cell.O, Cell.X, Cell.X, Cell.X, Cell.O, Cell.X] aiPlayer = true :=
  oGuar_draw_intro 0 _ _ (by decide) (by decide) (by decide)

theorem og207 : oGuar 2 [Cell.O, Cell.X, Cell.O, Cell.O, Cell.X, Cell.X, Cell.X, Cell.O, Cell.E] humanPlayer = true :=
  oGuar_all_intro 1 _ (by decide) (by decide)
    (all_cons_intro _ _ _ og206 (all_nil_true _))

theorem og208 : oGuar 3 [Cell.O, Cell.X, Cell.E, Cell.O, Cell.X, Cell.X, Cell.X, Cell.O, Cell.E] aiPlayer = true :=
  oGuar_any_intro 2 _ 2 (by decide) (by decide) (by decide) og207

theorem og209 : oGuar 2 [Cell.O, Cell.X, Cell.O, Cell.O, Cell.X, Cell.X, Cell.E, Cell.O, Cell.X] humanPlayer = true :=
  oGuar_all_intro 1 _ (by decide) (by decide)
    (all_cons_intro _ _ _ og206 (all_nil_true _))

theorem og210 : oGuar 3 [Cell.O, Cell.X, Cell.E, Cell.O, Cell.X, Cell.X, Cell.E, Cell.O, Cell.X] aiPlayer = true :=
  oGuar_any_intro 2 _ 2 (by decide) (by decide) (by decide) og209

theorem og211 : oGuar 4 [Cell.O, Cell.X, Cell.E, Cell.O, Cell.X, Cell.X, Cell.E, Cell.O, Cell.E] humanPlayer = true :=
  oGuar_all_intro 3 _ (by decide) (by decide)
    (all_cons_intro _ _ _ og205 (all_cons_intro _ _ _ og208 (all_cons_intro _ _ _ og210 (all_nil_true _))))

theorem og212 : oGuar 5 [Cell.O, Cell.X, Cell.E, Cell.E, Cell.X, Cell.X, Cell.E, Cell.O, Cell.E] aiPlayer = true :=
  oGuar_any_intro 4 _ 3 (by decide) (by decide) (by decide) og211

theorem og213 : oGuar 3 [Cell.O, Cell.X, Cell.O, Cell.X, Cell.X, Cell.E, Cell.X, Cell.O, Cell.E] aiPlayer = true :=
  oGuar_any_intro 2 _ 5 (by decide) (by decide) (by decide) og199

theorem og214 : oGuar 3 [Cell.O, Cell.X, Cell.O, Cell.E, Cell.X, Cell.X, Cell.X, Cell.O, Cell.E] aiPlayer = true :=
  oGuar_any_intro 2 _ 3 (by decide) (by decide) (by decide) og207

theorem og215 : oGuar 2 [Cell.O, Cell.X, Cell.O, Cell.O, Cell.X, Cell.E, Cell.X, Cell.O, Cell.X] humanPlayer = true :=
  oGuar_all_intro 1 _ (by decide) (by decide)
    (all_cons_intro _ _ _ og206 (all_nil_true _))

theorem og216 : oGuar 3 [Cell.O, Cell.X, Cell.O, Cell.E, Cell.X, Cell.E, Cell.X, Cell.O, Cell.X] aiPlayer = true :=
  oGuar_any_intro 2 _ 3 (by decide) (by decide) (by decide) og215

theorem og217 : oGuar 4 [Cell.O, Cell.X, Cell.O, Cell.E, Cell.X, Cell.E, Cell.X, Cell.O, Cell.E] humanPlayer = true :=
  oGuar_all_intro 3 _ (by decide) (by decide)
    (all_cons_intro _ _ _ og213 (all_cons_intro _ _ _ og214 (all_cons_intro _ _ _ og216 (all_nil_true _))))

theorem og218 : oGuar 5 [Cell.O, Cell.X, Cell.E, Cell.E, Cell.X, Cell.E, Cell.X, Cell.O, Cell.E] aiPlayer = true :=
  oGuar_any_intro 4 _ 2 (by decide) (by decide) (by decide) og217

theorem og219 : oGuar 3 [Cell.O, Cell.X, Cell.O, Cell.X, Cell.X, Cell.E, Cell.E, Cell.O, Cell.X] aiPlayer = true :=
  oGuar_any_intro 2 _ 5 (by decide) (by decide) (by decide) og201

theorem og220 : oGuar 3 [Cell.O, Cell.X, Cell.O, Cell.E, Cell.X, Cell.X, Cell.E, Cell.O, Cell.X] aiPlayer = true :=
  oGuar_any_intro 2 _ 3 (by decide) (by decide) (by decide) og209

theorem og221 : oGuar 4 [Cell.O, Cell.X, Cell.O, Cell.E, Cell.X, Cell.E, Cell.E, Cell.O, Cell.X] humanPlayer = true :=
  oGuar_all_intro 3 _ (by decide) (by decide)
    (all_cons_intro _ _ _ og219 (all_cons_intro _ _ _ og220 (all_cons_intro _ _ _ og216 (all_nil_true _))))

theorem og222 : oGuar 5 [Cell.O, Cell.X, Cell.E, Cell.E, Cell.X, Cell.E, Cell.E, Cell.O, Cell.X] aiPlayer = true :=
  oGuar_any_intro 4 _ 2 (by decide) (by decide) (by decide) og221

theorem og223 : oGuar 6 [Cell.O, Cell.X, Cell.E, Cell.E, Cell.X, Cell.E, Cell.E, Cell.O, Cell.E] humanPlayer = true :=
  oGuar_all_intro 5 _ (by decide) (by decide)
    (all_cons_intro _ _ _ og196 (all_cons_intro _ _ _ og204 (all_cons_intro _ _ _ og212 (all_cons_intro _ _ _ og218 (all_cons_intro _ _ _ og222 (all_nil_true _))))))

theorem og224 : oGuar 7 [Cell.O, Cell.X, Cell.E, Cell.E, Cell.X, Cell.E, Cell.E, Cell.E, Cell.E] aiPlayer = true :=
  oGuar_any_intro 6 _ 7 (by decide) (by decide) (by decide) og223

theorem og225 : oGuar 4 [Cell.O, Cell.X, Cell.X, Cell.E, Cell.O, Cell.X, Cell.E, Cell.E, Cell.O] humanPlayer = true :=
  oGuar_winO_intro 3 _ _ (by decide) (by decide)

theorem og226 : oGuar 5 [Cell.O, Cell.X, Cell.X, Cell.E, Cell.O, Cell.X, Cell.E, Cell.E, Cell.E] aiPlayer = true :=
  oGuar_any_intro 4 _ 8 (by decide) (by decide) (by decide) og225

theorem og227 : oGuar 2 [Cell.O, Cell.X, Cell.O, Cell.E, Cell.O, Cell.X, Cell.X, Cell.X, Cell.O] humanPlayer = true :=
  oGuar_winO_intro 1 _ _ (by decide) (by decide)

theorem og228 : oGuar 3 [Cell.O, Cell.X, Cell.O, Cell.E, Cell.O, Cell.X, Cell.X, Cell.X, Cell.E] aiPlayer = true :=
  oGuar_any_intro 2 _ 8 (by decide) (by decide) (by decide) og227

theorem og229 : oGuar 2 [Cell.O, Cell.X, Cell.O, Cell.E, Cell.O, Cell.X, Cell.X, Cell.O, Cell.X] humanPlayer = true :=
  oGuar_all_intro 1 _ (by decide) (by decide)
    (all_cons_intro _ _ _ og165 (all_nil_true _))

theorem og230 : oGuar 3 [Cell.O, Cell.X, Cell.O, Cell.E, Cell.O, Cell.X, Cell.X, Cell.E, Cell.X] aiPlayer = true :=
  oGuar_any_intro 2 _ 7 (by decide) (by decide) (by decide) og229

theorem og231 : oGuar 4 [Cell.O, Cell.X, Cell.O, Cell.E, Cell.O, Cell.X, Cell.X, Cell.E, Cell.E] humanPlayer = true :=
  oGuar_all_intro 3 _ (by decide) (by decide)
    (all_cons_intro _ _ _ og167 (all_cons_intro _ _ _ og228 (all_cons_intro _ _ _ og230 (all_nil_true _))))

theorem og232 : oGuar 5 [Cell.O, Cell.X, Cell.E, Cell.E, Cell.O, Cell.X, Cell.X, Cell.E, Cell.E] aiPlayer = true :=
  oGuar_any_intro 4 _ 2 (by decide) (by decide) (by decide) og231

theorem og233 : oGuar 2 [Cell.O, Cell.X, Cell.O, Cell.E, Cell.O, Cell.X, Cell.O, Cell.X, Cell.X] humanPlayer = true :=
  oGuar_winO_intro 1 _ _ (by decide) (by decide)

theorem og234 : oGuar 3 [Cell.O, Cell.X, Cell.O, Cell.E, Cell.O, Cell.X, Cell.E, Cell.X, Cell.X] aiPlayer = true :=
  oGuar_any_intro 2 _ 6 (by decide) (by decide) (by decide) og233

theorem og235 : oGuar 4 [Cell.O, Cell.X, Cell.O, Cell.E, Cell.O, Cell.X, Cell.E, Cell.X, Cell.E] humanPlayer = true :=
  oGuar_all_intro 3 _ (by decide) (by decide)
    (all_cons_intro _ _ _ og169 (all_cons_intro _ _ _ og228 (all_cons_intro _ _ _ og234 (all_nil_true _))))

theorem og236 : oGuar 5 [Cell.O, Cell.X, Cell.E, Cell.E, Cell.O, Cell.X, Cell.E, Cell.X, Cell.E] aiPlayer = true :=
  oGuar_any_intro 4 _ 2 (by decide) (by decide) (by decide) og235

theorem og237 : oGuar 4 [Cell.O, Cell.X, Cell.O, Cell.E, Cell.O, Cell.X, Cell.E, Cell.E, Cell.X] humanPlayer = true :=
  oGuar_all_intro 3 _ (by decide) (by decide)
    (all_cons_intro _ _ _ og171 (all_cons_intro _ _ _ og230 (all_cons_intro _ _ _ og234 (all_nil_true _))))

theorem og238 : oGuar 5 [Cell.O, Cell.X, Cell.E, Cell.E, Cell.O, Cell.X, Cell.E, Cell.E, Cell.X] aiPlayer = true :=
  oGuar_any_intro 4 _ 2 (by decide) (by decide) (by decide) og237

theorem og239 : oGuar 6 [Cell.O, Cell.X, Cell.E, Cell.E, Cell.O, Cell.X, Cell.E, Cell.E, Cell.E] humanPlayer = true :=
  oGuar_all_intro 5 _ (by decide) (by decide)
    (all_cons_intro _ _ _ og226 (all_cons_intro _ _ _ og173 (all_cons_intro _ _ _ og232 (all_cons_intro _ _ _ og236 (all_cons_intro _ _ _ og238 (all_nil_true _))))))

theorem og240 : oGuar 7 [Cell.O, Cell.X, Cell.E, Cell.E, Cell.E, Cell.X, Cell.E, Cell.E, Cell.E] aiPlayer = true :=
  oGuar_any_intro 6 _ 4 (by decide) (by decide) (by decide) og239

theorem og241 : oGuar 5 [Cell.O, Cell.X, Cell.X, Cell.E, Cell.O, Cell.E, Cell.X, Cell.E, Cell.E] aiPlayer = true :=
  oGuar_any_intro 4 _ 3 (by decide) (by decide) (by decide) og139

theorem og242 : oGuar 4 [Cell.O, Cell.X, Cell.E, Cell.E, Cell.O, Cell.E, Cell.X, Cell.X, Cell.O] humanPlayer = true :=
  oGuar_winO_intro 3 _ _ (by decide) (by decide)

theorem og243 : oGuar 5 [Cell.O, Cell.X, Cell.E, Cell.E, Cell.O, Cell.E, Cell.X, Cell.X, Cell.E] aiPlayer = true :=
  oGuar_any_intro 4 _ 8 (by decide) (by decide) (by decide) og242

theorem og244 : oGuar 2 [Cell.O, Cell.X, Cell.X, Cell.E, Cell.O, Cell.O, Cell.X, Cell.O, Cell.X] humanPlayer = true :=
  oGuar_all_intro 1 _ (by decide) (by decide)
    (all_cons_intro _ _ _ og155 (all_nil_true _))

theorem og245 : oGuar 3 [Cell.O, Cell.X, Cell.X, Cell.E, Cell.O, Cell.E, Cell.X, Cell.O, Cell.X] aiPlayer = true :=
  oGuar_any_intro 2 _ 5 (by decide) (by decide) (by decide) og244

theorem og246 : oGuar 3 [Cell.O, Cell.X, Cell.E, Cell.X, Cell.O, Cell.E, Cell.X, Cell.O, Cell.X] aiPlayer = true :=
  oGuar_any_intro 2 _ 2 (by decide) (by decide) (by decide) og176

theorem og247 : oGuar 3 [Cell.O, Cell.X, Cell.E, Cell.E, Cell.O, Cell.X, Cell.X, Cell.O, Cell.X] aiPlayer = true :=
  oGuar_any_intro 2 _ 2 (by decide) (by decide) (by decide) og229

theorem og248 : oGuar 4 [Cell.O, Cell.X, Cell.E, Cell.E, Cell.O, Cell.E, Cell.X, Cell.O, Cell.X] humanPlayer = true :=
  oGuar_all_intro 3 _ (by decide) (by decide)
    (all_cons_intro _ _ _ og245 (all_cons_intro _ _ _ og246 (all_cons_intro _ _ _ og247 (all_nil_true _))))

theorem og249 : oGuar 5 [Cell.O, Cell.X, Cell.E, Cell.E, Cell.O, Cell.E, Cell.X, Cell.E, Cell.X] aiPlayer = true :=
  oGuar_any_intro 4 _ 7 (by decide) (by decide) (by decide) og248

theorem og250 : oGuar 6 [Cell.O, Cell.X, Cell.E, Cell.E, Cell.O, Cell.E, Cell.X, Cell.E, Cell.E] humanPlayer = true :=
  oGuar_all_intro 5 _ (by decide) (by decide)
    (all_cons_intro _ _ _ og241 (all_cons_intro _ _ _ og179 (all_cons_intro _ _ _ og232 (all_cons_intro _ _ _ og243 (all_cons_intro _ _ _ og249 (all_nil_true _))))))

theorem og251 : oGuar 7 [Cell.O, Cell.X, Cell.E, Cell.E, Cell.E, Cell.E, Cell.X, Cell.E, Cell.E] aiPlayer = true :=
  oGuar_any_intro 6 _ 4 (by decide) (by decide) (by decide) og250

theorem og252 : oGuar 5 [Cell.O, Cell.X, Cell.X, Cell.E, Cell.O, Cell.E, Cell.E, Cell.X, Cell.E] aiPlayer = true :=
  oGuar_any_intro 4 _ 3 (by decide) (by decide) (by decide) og145

theorem og253 : oGuar 2 [Cell.O, Cell.X, Cell.X, Cell.O, Cell.O, Cell.E, Cell.O, Cell.X, Cell.X] humanPlayer = true :=
  oGuar_winO_intro 1 _ _ (by decide) (by decide)

theorem og254 : oGuar 3 [Cell.O, Cell.X, Cell.X, Cell.E, Cell.O, Cell.E, Cell.O, Cell.X, Cell.X] aiPlayer = true :=
  oGuar_any_intro 2 _ 3 (by decide) (by decide) (by decide) og253

theorem og255 : oGuar 3 [Cell.O, Cell.X, Cell.E, Cell.X, Cell.O, Cell.E, Cell.O, Cell.X, Cell.X] aiPlayer = true :=
  oGuar_any_intro 2 _ 2 (by decide) (by decide) (by decide) og180

theorem og256 : oGuar 3 [Cell.O, Cell.X, Cell.E, Cell.E, Cell.O, Cell.X, Cell.O, Cell.X, Cell.X] aiPlayer = true :=
  oGuar_any_intro 2 _ 2 (by decide) (by decide) (by decide) og233

theorem og257 : oGuar 4 [Cell.O, Cell.X, Cell.E, Cell.E, Cell.O, Cell.E, Cell.O, Cell.X, Cell.X] humanPlayer = true :=
  oGuar_all_intro 3 _ (by decide) (by decide)
    (all_cons_intro _ _ _ og254 (all_cons_intro _ _ _ og255 (all_cons_intro _ _ _ og256 (all_nil_true _))))

theorem og258 : oGuar 5 [Cell.O, Cell.X, Cell.E, Cell.E, Cell.O, Cell.E, Cell.E, Cell.X, Cell.X] aiPlayer = true :=
  oGuar_any_intro 4 _ 6 (by decide) (by decide) (by decide) og257

theorem og259 : oGuar 6 [Cell.O, Cell.X, Cell.E, Cell.E, Cell.O, Cell.E, Cell.E, Cell.X, Cell.E] humanPlayer = true :=
  oGuar_all_intro 5 _ (by decide) (by decide)
    (all_cons_intro _ _ _ og252 (all_cons_intro _ _ _ og183 (all_cons_intro _ _ _ og236 (all_cons_intro _ _ _ og243 (all_cons_intro _ _ _ og258 (all_nil_true _))))))

theorem og260 : oGuar 7 [Cell.O, Cell.X, Cell.E, Cell.E, Cell.E, Cell.E, Cell.E, Cell.X, Cell.E] aiPlayer = true :=
  oGuar_any_intro 6 _ 4 (by decide) (by decide) (by decide) og259

theorem og261 : oGuar 3 [Cell.O, Cell.X, Cell.X, Cell.E, Cell.O, Cell.O, Cell.X, Cell.E, Cell.X] aiPlayer = true :=
  oGuar_any_intro 2 _ 3 (by decide) (by decide) (by decide) og137

theorem og262 : oGuar 3 [Cell.O, Cell.X, Cell.X, Cell.E, Cell.O, Cell.O, Cell.E, Cell.X, Cell.X] aiPlayer = true :=
  oGuar_any_intro 2 _ 3 (by decide) (by decide) (by decide) og143

theorem og263 : oGuar 4 [Cell.O, Cell.X, Cell.X, Cell.E, Cell.O, Cell.O, Cell.E, Cell.E, Cell.X] humanPlayer = true :=
  oGuar_all_intro 3 _ (by decide) (by decide)
    (all_cons_intro _ _ _ og162 (all_cons_intro _ _ _ og261 (all_cons_intro _ _ _ og262 (all_nil_true _))))

theorem og264 : oGuar 5 [Cell.O, Cell.X, Cell.X, Cell.E, Cell.O, Cell.E, Cell.E, Cell.E, Cell.X] aiPlayer = true :=
  oGuar_any_intro 4 _ 5 (by decide) (by decide) (by decide) og263

theorem og265 : oGuar 6 [Cell.O, Cell.X, Cell.E, Cell.E, Cell.O, Cell.E, Cell.E, Cell.E, Cell.X] humanPlayer = true :=
  oGuar_all_intro 5 _ (by decide) (by decide)
    (all_cons_intro _ _ _ og264 (all_cons_intro _ _ _ og185 (all_cons_intro _ _ _ og238 (all_cons_intro _ _ _ og249 (all_cons_intro _ _ _ og258 (all_nil_true _))))))

theorem og266 : oGuar 7 [Cell.O, Cell.X, Cell.E, Cell.E, Cell.E, Cell.E, Cell.E, Cell.E, Cell.X] aiPlayer = true :=
  oGuar_any_intro 6 _ 4 (by decide) (by decide) (by decide) og265

theorem og267 : oGuar 8 [Cell.O, Cell.X, Cell.E, Cell.E, Cell.E, Cell.E, Cell.E, Cell.E, Cell.E] humanPlayer = true :=
  oGuar_all_intro 7 _ (by decide) (by decide)
    (all_cons_intro _ _ _ og154 (all_cons_intro _ _ _ og187 (all_cons_intro _ _ _ og224 (all_cons_intro _ _ _ og240 (all_cons_intro _ _ _ og251 (all_cons_intro _ _ _ og260 (all_cons_intro _ _ _ og266 (all_nil_true _))))))))

theorem og268 : oGuar 9 [Cell.E, Cell.X, Cell.E, Cell.E, Cell.E, Cell.E, Cell.E, Cell.E, Cell.E] aiPlayer = true :=
  oGuar_any_intro 8 _ 0 (by decide) (by decide) (by decide) og267

theorem og269 : oGuar 6 [Cell.O, Cell.X, Cell.X, Cell.E, Cell.O, Cell.E, Cell.E, Cell.E, Cell.E] humanPlayer = true :=
  oGuar_all_intro 5 _ (by decide) (by decide)
    (all_cons_intro _ _ _ og164 (all_cons_intro _ _ _ og226 (all_cons_intro _ _ _ og241 (all_cons_intro _ _ _ og252 (all_cons_intro _ _ _ og264 (all_nil_true _))))))

theorem og270 : oGuar 7 [Cell.E, Cell.X, Cell.X, Cell.E, Cell.O, Cell.E, Cell.E, Cell.E, Cell.E] aiPlayer = true :=
  oGuar_any_intro 6 _ 0 (by decide) (by decide) (by decide) og269

theorem og271 : oGuar 4 [Cell.O, Cell.E, Cell.X, Cell.X, Cell.O, Cell.X, Cell.E, Cell.E, Cell.O] humanPlayer = true :=
  oGuar_winO_intro 3 _ _ (by decide) (by decide)

theorem og272 : oGuar 5 [Cell.O, Cell.E, Cell.X, Cell.X, Cell.O, Cell.X, Cell.E, Cell.E, Cell.E] aiPlayer = true :=
  oGuar_any_intro 4 _ 8 (by decide) (by decide) (by decide) og271

theorem og273 : oGuar 2 [Cell.O, Cell.O, Cell.X, Cell.X, Cell.O, Cell.X, Cell.X, Cell.O, Cell.E] humanPlayer = true :=
  oGuar_winO_intro 1 _ _ (by decide) (by decide)

theorem og274 : oGuar 3 [Cell.O, Cell.O, Cell.X, Cell.X, Cell.O, Cell.X, Cell.X, Cell.E, Cell.E] aiPlayer = true :=
  oGuar_any_intro 2 _ 7 (by decide) (by decide) (by decide) og273

theorem og275 : oGuar 2 [Cell.O, Cell.O, Cell.X, Cell.X, Cell.O, Cell.E, Cell.X, Cell.X, Cell.O] humanPlayer = true :=
  oGuar_winO_intro 1 _ _ (by decide) (by decide)

theorem og276 : oGuar 3 [Cell.O, Cell.O, Cell.X, Cell.X, Cell.O, Cell.E, Cell.X, Cell.X, Cell.E] aiPlayer = true :=
  oGuar_any_intro 2 _ 8 (by decide) (by decide) (by decide) og275

theorem og277 : oGuar 2 [Cell.O, Cell.O, Cell.X, Cell.X, Cell.O, Cell.E, Cell.X, Cell.O, Cell.X] humanPlayer = true :=
  oGuar_winO_intro 1 _ _ (by decide) (by decide)

theorem og278 : oGuar 3 [Cell.O, Cell.O, Cell.X, Cell.X, Cell.O, Cell.E, Cell.X, Cell.E, Cell.X] aiPlayer = true :=
  oGuar_any_intro 2 _ 7 (by decide) (by decide) (by decide) og277

theorem og279 : oGuar 4 [Cell.O, Cell.O, Cell.X, Cell.X, Cell.O, Cell.E, Cell.X, Cell.E, Cell.E] humanPlayer = true :=
  oGuar_all_intro 3 _ (by decide) (by decide)
    (all_cons_intro _ _ _ og274 (all_cons_intro _ _ _ og276 (all_cons_intro _ _ _ og278 (all_nil_true _))))

theorem og280 : oGuar 5 [Cell.O, Cell.E, Cell.X, Cell.X, Cell.O, Cell.E, Cell.X, Cell.E, Cell.E] aiPlayer = true :=
  oGuar_any_intro 4 _ 1 (by decide) (by decide) (by decide) og279

theorem og281 : oGuar 2 [Cell.O, Cell.E, Cell.X, Cell.X, Cell.O, Cell.O, Cell.X, Cell.X, Cell.O] humanPlayer = true :=
  oGuar_winO_intro 1 _ _ (by decide) (by decide)

theorem og282 : oGuar 3 [Cell.O, Cell.E, Cell.X, Cell.X, Cell.O, Cell.O, Cell.X, Cell.X, Cell.E] aiPlayer = true :=
  oGuar_any_intro 2 _ 8 (by decide) (by decide) (by decide) og281

theorem og283 : oGuar 2 [Cell.O, Cell.E, Cell.X, Cell.X, Cell.O, Cell.O, Cell.O, Cell.X, Cell.X] humanPlayer = true :=
  oGuar_all_intro 1 _ (by decide) (by decide)
    (all_cons_intro _ _ _ og158 (all_nil_true _))

theorem og284 : oGuar 3 [Cell.O, Cell.E, Cell.X, Cell.X, Cell.O, Cell.O, Cell.E, Cell.X, Cell.X] aiPlayer = true :=
  oGuar_any_intro 2 _ 6 (by decide) (by decide) (by decide) og283

theorem og285 : oGuar 4 [Cell.O, Cell.E, Cell.X, Cell.X, Cell.O, Cell.O, Cell.E, Cell.X, Cell.E] humanPlayer = true :=
  oGuar_all_intro 3 _ (by decide) (by decide)
    (all_cons_intro _ _ _ og160 (all_cons_intro _ _ _ og282 (all_cons_intro _ _ _ og284 (all_nil_true _))))

theorem og286 : oGuar 5 [Cell.O, Cell.E, Cell.X, Cell.X, Cell.O, Cell.E, Cell.E, Cell.X, Cell.E] aiPlayer = true :=
  oGuar_any_intro 4 _ 5 (by decide) (by decide) (by decide) og285

theorem og287 : oGuar 2 [Cell.O, Cell.E, Cell.X, Cell.X, Cell.O, Cell.O, Cell.X, Cell.O, Cell.X] humanPlayer = true :=
  oGuar_all_intro 1 _ (by decide) (by decide)
    (all_cons_intro _ _ _ og155 (all_nil_true _))

theorem og288 : oGuar 3 [Cell.O, Cell.E, Cell.X, Cell.X, Cell.O, Cell.O, Cell.X, Cell.E, Cell.X] aiPlayer = true :=
  oGuar_any_intro 2 _ 7 (by decide) (by decide) (by decide) og287

theorem og289 : oGuar 4 [Cell.O, Cell.E, Cell.X, Cell.X, Cell.O, Cell.O, Cell.E, Cell.E, Cell.X] humanPlayer = true :=
  oGuar_all_intro 3 _ (by decide) (by decide)
    (all_cons_intro _ _ _ og162 (all_cons_intro _ _ _ og288 (all_cons_intro _ _ _ og284 (all_nil_true _))))

theorem og290 : oGuar 5 [Cell.O, Cell.E, Cell.X, Cell.X, Cell.O, Cell.E, Cell.E, Cell.E, Cell.X] aiPlayer = true :=
  oGuar_any_intro 4 _ 5 (by decide) (by decide) (by decide) og289

theorem og291 : oGuar 6 [Cell.O, Cell.E, Cell.X, Cell.X, Cell.O, Cell.E, Cell.E, Cell.E, Cell.E] humanPlayer = true :=
  oGuar_all_intro 5 _ (by decide) (by decide)
    (all_cons_intro _ _ _ og164 (all_cons_intro _ _ _ og272 (all_cons_intro _ _ _ og280 (all_cons_intro _ _ _ og286 (all_cons_intro _ _ _ og290 (all_nil_true _))))))

theorem og292 : oGuar 7 [Cell.E, Cell.E, Cell.X, Cell.X, Cell.O, Cell.E, Cell.E, Cell.E, Cell.E] aiPlayer = true :=
  oGuar_any_intro 6 _ 0 (by decide) (by decide) (by decide) og291

theorem og293 : oGuar 2 [Cell.X, Cell.O, Cell.X, Cell.X, Cell.O, Cell.X, Cell.O, Cell.E, Cell.O] humanPlayer = true :=
  oGuar_all_intro 1 _ (by decide) (by decide)
    (all_cons_intro _ _ _ og81 (all_nil_true _))

theorem og294 : oGuar 3 [Cell.X, Cell.O, Cell.X, Cell.X, Cell.O, Cell.X, Cell.E, Cell.E, Cell.O] aiPlayer = true :=
  oGuar_any_intro 2 _ 6 (by decide) (by decide) (by decide) og293

theorem og295 : oGuar 2 [Cell.X, Cell.O, Cell.X, Cell.O, Cell.O, Cell.X, Cell.X, Cell.E, Cell.O] humanPlayer = true :=
  oGuar_all_intro 1 _ (by decide) (by decide)
    (all_cons_intro _ _ _ og44 (all_nil_true _))

theorem og296 : oGuar 3 [Cell.X, Cell.O, Cell.X, Cell.E, Cell.O, Cell.X, Cell.X, Cell.E, Cell.O] aiPlayer = true :=
  oGuar_any_intro 2 _ 3 (by decide) (by decide) (by decide) og295

theorem og297 : oGuar 3 [Cell.X, Cell.O, Cell.X, Cell.E, Cell.O, Cell.X, Cell.E, Cell.X, Cell.O] aiPlayer = true :=
  oGuar_any_intro 2 _ 3 (by decide) (by decide) (by decide) og45

theorem og298 : oGuar 4 [Cell.X, Cell.O, Cell.X, Cell.E, Cell.O, Cell.X, Cell.E, Cell.E, Cell.O] humanPlayer = true :=
  oGuar_all_intro 3 _ (by decide) (by decide)
    (all_cons_intro _ _ _ og294 (all_cons_intro _ _ _ og296 (all_cons_intro _ _ _ og297 (all_nil_true _))))

theorem og299 : oGuar 5 [Cell.X, Cell.E, Cell.X, Cell.E, Cell.O, Cell.X, Cell.E, Cell.E, Cell.O] aiPlayer = true :=
  oGuar_any_intro 4 _ 1 (by decide) (by decide) (by decide) og298

theorem og300 : oGuar 5 [Cell.E, Cell.X, Cell.X, Cell.E, Cell.O, Cell.X, Cell.E, Cell.E, Cell.O] aiPlayer = true :=
  oGuar_any_intro 4 _ 0 (by decide) (by decide) (by decide) og225

theorem og301 : oGuar 5 [Cell.E, Cell.E, Cell.X, Cell.X, Cell.O, Cell.X, Cell.E, Cell.E, Cell.O] aiPlayer = true :=
  oGuar_any_intro 4 _ 0 (by decide) (by decide) (by decide) og271

theorem og302 : oGuar 4 [Cell.O, Cell.E, Cell.X, Cell.E, Cell.O, Cell.X, Cell.X, Cell.E, Cell.O] humanPlayer = true :=
  oGuar_winO_intro 3 _ _ (by decide) (by decide)

theorem og303 : oGuar 5 [Cell.E, Cell.E, Cell.X, Cell.E, Cell.O, Cell.X, Cell.X, Cell.E, Cell.O] aiPlayer = true :=
  oGuar_any_intro 4 _ 0 (by decide) (by decide) (by decide) og302

theorem og304 : oGuar 4 [Cell.O, Cell.E, Cell.X, Cell.E, Cell.O, Cell.X, Cell.E, Cell.X, Cell.O] humanPlayer = true :=
  oGuar_winO_intro 3 _ _ (by decide) (by decide)

theorem og305 : oGuar 5 [Cell.E, Cell.E, Cell.X, Cell.E, Cell.O, Cell.X, Cell.E, Cell.X, Cell.O] aiPlayer = true :=
  oGuar_any_intro 4 _ 0 (by decide) (by decide) (by decide) og304

theorem og306 : oGuar 6 [Cell.E, Cell.E, Cell.X, Cell.E, Cell.O, Cell.X, Cell.E, Cell.E, Cell.O] humanPlayer = true :=
  oGuar_all_intro 5 _ (by decide) (by decide)
    (all_cons_intro _ _ _ og299 (all_cons_intro _ _ _ og300 (all_cons_intro _ _ _ og301 (all_cons_intro _ _ _ og303 (all_cons_intro _ _ _ og305 (all_nil_true _))))))

theorem og307 : oGuar 7 [Cell.E, Cell.E, Cell.X, Cell.E, Cell.O, Cell.X, Cell.E, Cell.E, Cell.E] aiPlayer = true :=
  oGuar_any_intro 6 _ 8 (by decide) (by decide) (by decide) og306

theorem og308 : oGuar 5 [Cell.E, Cell.O, Cell.X, Cell.X, Cell.O, Cell.E, Cell.X, Cell.E, Cell.E] aiPlayer = true :=
  oGuar_any_intro 4 _ 0 (by decide) (by decide) (by decide) og279

theorem og309 : oGuar 4 [Cell.E, Cell.O, Cell.X, Cell.E, Cell.O, Cell.X, Cell.X, Cell.O, Cell.E] humanPlayer = true :=
  oGuar_winO_intro 3 _ _ (by decide) (by decide)

theorem og310 : oGuar 5 [Cell.E, Cell.O, Cell.X, Cell.E, Cell.O, Cell.X, Cell.X, Cell.E, Cell.E] aiPlayer = true :=
  oGuar_any_intro 4 _ 7 (by decide) (by decide) (by decide) og309

theorem og311 : oGuar 2 [Cell.X, Cell.O, Cell.X, Cell.O, Cell.O, Cell.E, Cell.X, Cell.X, Cell.O] humanPlayer = true :=
  oGuar_all_intro 1 _ (by decide) (by decide)
    (all_cons_intro _ _ _ og44 (all_nil_true _))

theorem og312 : oGuar 3 [Cell.X, Cell.O, Cell.X, Cell.E, Cell.O, Cell.E, Cell.X, Cell.X, Cell.O] aiPlayer = true :=
  oGuar_any_intro 2 _ 3 (by decide) (by decide) (by decide) og311

theorem og313 : oGuar 3 [Cell.E, Cell.O, Cell.X, Cell.X, Cell.O, Cell.E, Cell.X, Cell.X, Cell.O] aiPlayer = true :=
  oGuar_any_intro 2 _ 0 (by decide) (by decide) (by decide) og275

theorem og314 : oGuar 2 [Cell.O, Cell.O, Cell.X, Cell.E, Cell.O, Cell.X, Cell.X, Cell.X, Cell.O] humanPlayer = true :=
  oGuar_winO_intro 1 _ _ (by decide) (by decide)

theorem og315 : oGuar 3 [Cell.E, Cell.O, Cell.X, Cell.E, Cell.O, Cell.X, Cell.X, Cell.X, Cell.O] aiPlayer = true :=
  oGuar_any_intro 2 _ 0 (by decide) (by decide) (by decide) og314

theorem og316 : oGuar 4 [Cell.E, Cell.O, Cell.X, Cell.E, Cell.O, Cell.E, Cell.X, Cell.X, Cell.O] humanPlayer = true :=
  oGuar_all_intro 3 _ (by decide) (by decide)
    (all_cons_intro _ _ _ og312 (all_cons_intro _ _ _ og313 (all_cons_intro _ _ _ og315 (all_nil_true _))))

theorem og317 : oGuar 5 [Cell.E, Cell.O, Cell.X, Cell.E, Cell.O, Cell.E, Cell.X, Cell.X, Cell.E] aiPlayer = true :=
  oGuar_any_intro 4 _ 8 (by decide) (by decide) (by decide) og316

theorem og318 : oGuar 4 [Cell.E, Cell.O, Cell.X, Cell.E, Cell.O, Cell.E, Cell.X, Cell.O, Cell.X] humanPlayer = true :=
  oGuar_winO_intro 3 _ _ (by decide) (by decide)

theorem og319 : oGuar 5 [Cell.E, Cell.O, Cell.X, Cell.E, Cell.O, Cell.E, Cell.X, Cell.E, Cell.X] aiPlayer = true :=
  oGuar_any_intro 4 _ 7 (by decide) (by decide) (by decide) og318

theorem og320 : oGuar 6 [Cell.E, Cell.O, Cell.X, Cell.E, Cell.O, Cell.E, Cell.X, Cell.E, Cell.E] humanPlayer = true :=
  oGuar_all_intro 5 _ (by decide) (by decide)
    (all_cons_intro _ _ _ og43 (all_cons_intro _ _ _ og308 (all_cons_intro _ _ _ og310 (all_cons_intro _ _ _ og317 (all_cons_intro _ _ _ og319 (all_nil_true _))))))

theorem og321 : oGuar 7 [Cell.E, Cell.E, Cell.X, Cell.E, Cell.O, Cell.E, Cell.X, Cell.E, Cell.E] aiPlayer = true :=
  oGuar_any_intro 6 _ 1 (by decide) (by decide) (by decide) og320

theorem og322 : oGuar 5 [Cell.E, Cell.X, Cell.X, Cell.O, Cell.O, Cell.E, Cell.E, Cell.X, Cell.E] aiPlayer = true :=
  oGuar_any_intro 4 _ 0 (by decide) (by decide) (by decide) og145

theorem og323 : oGuar 3 [Cell.X, Cell.E, Cell.X, Cell.O, Cell.O, Cell.X, Cell.E, Cell.X, Cell.O] aiPlayer = true :=
  oGuar_any_intro 2 _ 1 (by decide) (by decide) (by decide) og45

theorem og324 : oGuar 2 [Cell.O, Cell.X, Cell.X, Cell.O, Cell.O, Cell.X, Cell.E, Cell.X, Cell.O] humanPlayer = true :=
  oGuar_winO_intro 1 _ _ (by decide) (by decide)

theorem og325 : oGuar 3 [Cell.E, Cell.X, Cell.X, Cell.O, Cell.O, Cell.X, Cell.E, Cell.X, Cell.O] aiPlayer = true :=
  oGuar_any_intro 2 _ 0 (by decide) (by decide) (by decide) og324

theorem og326 : oGuar 2 [Cell.O, Cell.E, Cell.X, Cell.O, Cell.O, Cell.X, Cell.X, Cell.X, Cell.O] humanPlayer = true :=
  oGuar_winO_intro 1 _ _ (by decide) (by decide)

theorem og327 : oGuar 3 [Cell.E, Cell.E, Cell.X, Cell.O, Cell.O, Cell.X, Cell.X, Cell.X, Cell.O] aiPlayer = true :=
  oGuar_any_intro 2 _ 0 (by decide) (by decide) (by decide) og326

theorem og328 : oGuar 4 [Cell.E, Cell.E, Cell.X, Cell.O, Cell.O, Cell.X, Cell.E, Cell.X, Cell.O] humanPlayer = true :=
  oGuar_all_intro 3 _ (by decide) (by decide)
    (all_cons_intro _ _ _ og323 (all_cons_intro _ _ _ og325 (all_cons_intro _ _ _ og327 (all_nil_true _))))

theorem og329 : oGuar 5 [Cell.E, Cell.E, Cell.X, Cell.O, Cell.O, Cell.X, Cell.E, Cell.X, Cell.E] aiPlayer = true :=
  oGuar_any_intro 4 _ 8 (by decide) (by decide) (by decide) og328

theorem og330 : oGuar 4 [Cell.E, Cell.E, Cell.X, Cell.O, Cell.O, Cell.O, Cell.X, Cell.X, Cell.E] humanPlayer = true :=
  oGuar_winO_intro 3 _ _ (by decide) (by decide)

theorem og331 : oGuar 5 [Cell.E, Cell.E, Cell.X, Cell.O, Cell.O, Cell.E, Cell.X, Cell.X, Cell.E] aiPlayer = true :=
  oGuar_any_intro 4 _ 5 (by decide) (by decide) (by decide) og330

theorem og332 : oGuar 4 [Cell.E, Cell.E, Cell.X, Cell.O, Cell.O, Cell.O, Cell.E, Cell.X, Cell.X] humanPlayer = true :=
  oGuar_winO_intro 3 _ _ (by decide) (by decide)

theorem og333 : oGuar 5 [Cell.E, Cell.E, Cell.X, Cell.O, Cell.O, Cell.E, Cell.E, Cell.X, Cell.X] aiPlayer = true :=
  oGuar_any_intro 4 _ 5 (by decide) (by decide) (by decide) og332

theorem og334 : oGuar 6 [Cell.E, Cell.E, Cell.X, Cell.O, Cell.O, Cell.E, Cell.E, Cell.X, Cell.E] humanPlayer = true :=
  oGuar_all_intro 5 _ (by decide) (by decide)
    (all_cons_intro _ _ _ og106 (all_cons_intro _ _ _ og322 (all_cons_intro _ _ _ og329 (all_cons_intro _ _ _ og331 (all_cons_intro _ _ _ og333 (all_nil_true _))))))

theorem og335 : oGuar 7 [Cell.E, Cell.E, Cell.X, Cell.E, Cell.O, Cell.E, Cell.E, Cell.X, Cell.E] aiPlayer = true :=
  oGuar_any_intro 6 _ 3 (by decide) (by decide) (by decide) og334

theorem og336 : oGuar 5 [Cell.X, Cell.E, Cell.X, Cell.E, Cell.O, Cell.O, Cell.E, Cell.E, Cell.X] aiPlayer = true :=
  oGuar_any_intro 4 _ 1 (by decide) (by decide) (by decide) og54

theorem og337 : oGuar 5 [Cell.E, Cell.X, Cell.X, Cell.E, Cell.O, Cell.O, Cell.E, Cell.E, Cell.X] aiPlayer = true :=
  oGuar_any_intro 4 _ 0 (by decide) (by decide) (by decide) og263

theorem og338 : oGuar 5 [Cell.E, Cell.E, Cell.X, Cell.X, Cell.O, Cell.O, Cell.E, Cell.E, Cell.X] aiPlayer = true :=
  oGuar_any_intro 4 _ 0 (by decide) (by decide) (by decide) og289

theorem og339 : oGuar 4 [Cell.E, Cell.E, Cell.X, Cell.O, Cell.O, Cell.O, Cell.X, Cell.E, Cell.X] humanPlayer = true :=
  oGuar_winO_intro 3 _ _ (by decide) (by decide)

theorem og340 : oGuar 5 [Cell.E, Cell.E, Cell.X, Cell.E, Cell.O, Cell.O, Cell.X, Cell.E, Cell.X] aiPlayer = true :=
  oGuar_any_intro 4 _ 3 (by decide) (by decide) (by decide) og339

theorem og341 : oGuar 5 [Cell.E, Cell.E, Cell.X, Cell.E, Cell.O, Cell.O, Cell.E, Cell.X, Cell.X] aiPlayer = true :=
  oGuar_any_intro 4 _ 3 (by decide) (by decide) (by decide) og332

theorem og342 : oGuar 6 [Cell.E, Cell.E, Cell.X, Cell.E, Cell.O, Cell.O, Cell.E, Cell.E, Cell.X] humanPlayer = true :=
  oGuar_all_intro 5 _ (by decide) (by decide)
    (all_cons_intro _ _ _ og336 (all_cons_intro _ _ _ og337 (all_cons_intro _ _ _ og338 (all_cons_intro _ _ _ og340 (all_cons_intro _ _ _ og341 (all_nil_true _))))))

theorem og343 : oGuar 7 [Cell.E, Cell.E, Cell.X, Cell.E, Cell.O, Cell.E, Cell.E, Cell.E, Cell.X] aiPlayer = true :=
  oGuar_any_intro 6 _ 5 (by decide) (by decide) (by decide) og342

theorem og344 : oGuar 8 [Cell.E, Cell.E, Cell.X, Cell.E, Cell.O, Cell.E, Cell.E, Cell.E, Cell.E] humanPlayer = true :=
  oGuar_all_intro 7 _ (by decide) (by decide)
    (all_cons_intro _ _ _ og57 (all_cons_intro _ _ _ og270 (all_cons_intro _ _ _ og292 (all_cons_intro _ _ _ og307 (all_cons_intro _ _ _ og321 (all_cons_intro _ _ _ og335 (all_cons_intro _ _ _ og343 (all_nil_true _))))))))

theorem og345 : oGuar 9 [Cell.E, Cell.E, Cell.X, Cell.E, Cell.E, Cell.E, Cell.E, Cell.E, Cell.E] aiPlayer = true :=
  oGuar_any_intro 8 _ 4 (by decide) (by decide) (by decide) og344

theorem og346 : oGuar 7 [Cell.O, Cell.E, Cell.X, Cell.X, Cell.E, Cell.E, Cell.E, Cell.E, Cell.E] aiPlayer = true :=
  oGuar_any_intro 6 _ 4 (by decide) (by decide) (by decide) og291

theorem og347 : oGuar 5 [Cell.O, Cell.X, Cell.E, Cell.X, Cell.X, Cell.O, Cell.E, Cell.E, Cell.E] aiPlayer = true :=
  oGuar_any_intro 4 _ 7 (by decide) (by decide) (by decide) og203

theorem og348 : oGuar 3 [Cell.O, Cell.X, Cell.X, Cell.X, Cell.X, Cell.O, Cell.O, Cell.E, Cell.E] aiPlayer = true :=
  oGuar_any_intro 2 _ 7 (by decide) (by decide) (by decide) og189

theorem og349 : oGuar 1 [Cell.O, Cell.O, Cell.X, Cell.X, Cell.X, Cell.O, Cell.O, Cell.X, Cell.X] aiPlayer = true :=
  oGuar_draw_intro 0 _ _ (by decide) (by decide) (by decide)

theorem og350 : oGuar 2 [Cell.O, Cell.O, Cell.X, Cell.X, Cell.X, Cell.O, Cell.O, Cell.X, Cell.E] humanPlayer = true :=
  oGuar_all_intro 1 _ (by decide) (by decide)
    (all_cons_intro _ _ _ og349 (all_nil_true _))

theorem og351 : oGuar 3 [Cell.O, Cell.E, Cell.X, Cell.X, Cell.X, Cell.O, Cell.O, Cell.X, Cell.E] aiPlayer = true :=
  oGuar_any_intro 2 _ 1 (by decide) (by decide) (by decide) og350

theorem og352 : oGuar 2 [Cell.O, Cell.O, Cell.X, Cell.X, Cell.X, Cell.O, Cell.O, Cell.E, Cell.X] humanPlayer = true :=
  oGuar_all_intro 1 _ (by decide) (by decide)
    (all_cons_intro _ _ _ og349 (all_nil_true _))

theorem og353 : oGuar 3 [Cell.O, Cell.E, Cell.X, Cell.X, Cell.X, Cell.O, Cell.O, Cell.E, Cell.X] aiPlayer = true :=
  oGuar_any_intro 2 _ 1 (by decide) (by decide) (by decide) og352

theorem og354 : oGuar 4 [Cell.O, Cell.E, Cell.X, Cell.X, Cell.X, Cell.O, Cell.O, Cell.E, Cell.E] humanPlayer = true :=
  oGuar_all_intro 3 _ (by decide) (by decide)
    (all_cons_intro _ _ _ og348 (all_cons_intro _ _ _ og351 (all_cons_intro _ _ _ og353 (all_nil_true _))))

theorem og355 : oGuar 5 [Cell.O, Cell.E, Cell.X, Cell.X, Cell.X, Cell.O, Cell.E, Cell.E, Cell.E] aiPlayer = true :=
  oGuar_any_intro 4 _ 6 (by decide) (by decide) (by decide) og354

theorem og356 : oGuar 3 [Cell.O, Cell.X, Cell.O, Cell.X, Cell.X, Cell.O, Cell.X, Cell.E, Cell.E] aiPlayer = true :=
  oGuar_any_intro 2 _ 7 (by decide) (by decide) (by decide) og199

theorem og357 : oGuar 2 [Cell.O, Cell.O, Cell.O, Cell.X, Cell.X, Cell.O, Cell.X, Cell.X, Cell.E] humanPlayer = true :=
  oGuar_winO_intro 1 _ _ (by decide) (by decide)

theorem og358 : oGuar 3 [Cell.O, Cell.E, Cell.O, Cell.X, Cell.X, Cell.O, Cell.X, Cell.X, Cell.E] aiPlayer = true :=
  oGuar_any_intro 2 _ 1 (by decide) (by decide) (by decide) og357

theorem og359 : oGuar 2 [Cell.O, Cell.O, Cell.O, Cell.X, Cell.X, Cell.O, Cell.X, Cell.E, Cell.X] humanPlayer = true :=
  oGuar_winO_intro 1 _ _ (by decide) (by decide)

theorem og360 : oGuar 3 [Cell.O, Cell.E, Cell.O, Cell.X, Cell.X, Cell.O, Cell.X, Cell.E, Cell.X] aiPlayer = true :=
  oGuar_any_intro 2 _ 1 (by decide) (by decide) (by decide) og359

theorem og361 : oGuar 4 [Cell.O, Cell.E, Cell.O, Cell.X, Cell.X, Cell.O, Cell.X, Cell.E, Cell.E] humanPlayer = true :=
  oGuar_all_intro 3 _ (by decide) (by decide)
    (all_cons_intro _ _ _ og356 (all_cons_intro _ _ _ og358 (all_cons_intro _ _ _ og360 (all_nil_true _))))

theorem og362 : oGuar 5 [Cell.O, Cell.E, Cell.E, Cell.X, Cell.X, Cell.O, Cell.X, Cell.E, Cell.E] aiPlayer = true :=
  oGuar_any_intro 4 _ 2 (by decide) (by decide) (by decide) og361

theorem og363 : oGuar 3 [Cell.O, Cell.O, Cell.X, Cell.X, Cell.X, Cell.O, Cell.E, Cell.X, Cell.E] aiPlayer = true :=
  oGuar_any_intro 2 _ 6 (by decide) (by decide) (by decide) og350

theorem og364 : oGuar 3 [Cell.O, Cell.O, Cell.E, Cell.X, Cell.X, Cell.O, Cell.X, Cell.X, Cell.E] aiPlayer = true :=
  oGuar_any_intro 2 _ 2 (by decide) (by decide) (by decide) og357

theorem og365 : oGuar 2 [Cell.O, Cell.O, Cell.O, Cell.X, Cell.X, Cell.O, Cell.E, Cell.X, Cell.X] humanPlayer = true :=
  oGuar_winO_intro 1 _ _ (by decide) (by decide)

theorem og366 : oGuar 3 [Cell.O, Cell.O, Cell.E, Cell.X, Cell.X, Cell.O, Cell.E, Cell.X, Cell.X] aiPlayer = true :=
  oGuar_any_intro 2 _ 2 (by decide) (by decide) (by decide) og365

theorem og367 : oGuar 4 [Cell.O, Cell.O, Cell.E, Cell.X, Cell.X, Cell.O, Cell.E, Cell.X, Cell.E] humanPlayer = true :=
  oGuar_all_intro 3 _ (by decide) (by decide)
    (all_cons_intro _ _ _ og363 (all_cons_intro _ _ _ og364 (all_cons_intro _ _ _ og366 (all_nil_true _))))

theorem og368 : oGuar 5 [Cell.O, Cell.E, Cell.E, Cell.X, Cell.X, Cell.O, Cell.E, Cell.X, Cell.E] aiPlayer = true :=
  oGuar_any_intro 4 _ 1 (by decide) (by decide) (by decide) og367

theorem og369 : oGuar 3 [Cell.O, Cell.O, Cell.X, Cell.X, Cell.X, Cell.O, Cell.E, Cell.E, Cell.X] aiPlayer = true :=
  oGuar_any_intro 2 _ 6 (by decide) (by decide) (by decide) og352

theorem og370 : oGuar 3 [Cell.O, Cell.O, Cell.E, Cell.X, Cell.X, Cell.O, Cell.X, Cell.E, Cell.X] aiPlayer = true :=
  oGuar_any_intro 2 _ 2 (by decide) (by decide) (by decide) og359

theorem og371 : oGuar 4 [Cell.O, Cell.O, Cell.E, Cell.X, Cell.X, Cell.O, Cell.E, Cell.E, Cell.X] humanPlayer = true :=
  oGuar_all_intro 3 _ (by decide) (by decide)
    (all_cons_intro _ _ _ og369 (all_cons_intro _ _ _ og370 (all_cons_intro _ _ _ og366 (all_nil_true _))))

theorem og372 : oGuar 5 [Cell.O, Cell.E, Cell.E, Cell.X, Cell.X, Cell.O, Cell.E, Cell.E, Cell.X] aiPlayer = true :=
  oGuar_any_intro 4 _ 1 (by decide) (by decide) (by decide) og371

theorem og373 : oGuar 6 [Cell.O, Cell.E, Cell.E, Cell.X, Cell.X, Cell.O, Cell.E, Cell.E, Cell.E] humanPlayer = true :=
  oGuar_all_intro 5 _ (by decide) (by decide)
    (all_cons_intro _ _ _ og347 (all_cons_intro _ _ _ og355 (all_cons_intro _ _ _ og362 (all_cons_intro _ _ _ og368 (all_cons_intro _ _ _ og372 (all_nil_true _))))))

theorem og374 : oGuar 7 [Cell.O, Cell.E, Cell.E, Cell.X, Cell.X, Cell.E, Cell.E, Cell.E, Cell.E] aiPlayer = true :=
  oGuar_any_intro 6 _ 5 (by decide) (by decide) (by decide) og373

theorem og375 : oGuar 2 [Cell.O, Cell.O, Cell.O, Cell.X, Cell.O, Cell.X, Cell.X, Cell.X, Cell.E] humanPlayer = true :=
  oGuar_winO_intro 1 _ _ (by decide) (by decide)

theorem og376 : oGuar 3 [Cell.O, Cell.O, Cell.E, Cell.X, Cell.O, Cell.X, Cell.X, Cell.X, Cell.E] aiPlayer = true :=
  oGuar_any_intro 2 _ 2 (by decide) (by decide) (by decide) og375

theorem og377 : oGuar 2 [Cell.O, Cell.O, Cell.O, Cell.X, Cell.O, Cell.X, Cell.X, Cell.E, Cell.X] humanPlayer = true :=
  oGuar_winO_intro 1 _ _ (by decide) (by decide)

theorem og378 : oGuar 3 [Cell.O, Cell.O, Cell.E, Cell.X, Cell.O, Cell.X, Cell.X, Cell.E, Cell.X] aiPlayer = true :=
  oGuar_any_intro 2 _ 2 (by decide) (by decide) (by decide) og377

theorem og379 : oGuar 4 [Cell.O, Cell.O, Cell.E, Cell.X, Cell.O, Cell.X, Cell.X, Cell.E, Cell.E] humanPlayer = true :=
  oGuar_all_intro 3 _ (by decide) (by decide)
    (all_cons_intro _ _ _ og274 (all_cons_intro _ _ _ og376 (all_cons_intro _ _ _ og378 (all_nil_true _))))

theorem og380 : oGuar 5 [Cell.O, Cell.E, Cell.E, Cell.X, Cell.O, Cell.X, Cell.X, Cell.E, Cell.E] aiPlayer = true :=
  oGuar_any_intro 4 _ 1 (by decide) (by decide) (by decide) og379

theorem og381 : oGuar 2 [Cell.O, Cell.O, Cell.X, Cell.X, Cell.O, Cell.X, Cell.E, Cell.X, Cell.O] humanPlayer = true :=
  oGuar_winO_intro 1 _ _ (by decide) (by decide)

theorem og382 : oGuar 3 [Cell.O, Cell.O, Cell.X, Cell.X, Cell.O, Cell.X, Cell.E, Cell.X, Cell.E] aiPlayer = true :=
  oGuar_any_intro 2 _ 8 (by decide) (by decide) (by decide) og381

theorem og383 : oGuar 2 [Cell.O, Cell.O, Cell.O, Cell.X, Cell.O, Cell.X, Cell.E, Cell.X, Cell.X] humanPlayer = true :=
  oGuar_winO_intro 1 _ _ (by decide) (by decide)

theorem og384 : oGuar 3 [Cell.O, Cell.O, Cell.E, Cell.X, Cell.O, Cell.X, Cell.E, Cell.X, Cell.X] aiPlayer = true :=
  oGuar_any_intro 2 _ 2 (by decide) (by decide) (by decide) og383

theorem og385 : oGuar 4 [Cell.O, Cell.O, Cell.E, Cell.X, Cell.O, Cell.X, Cell.E, Cell.X, Cell.E] humanPlayer = true :=
  oGuar_all_intro 3 _ (by decide) (by decide)
    (all_cons_intro _ _ _ og382 (all_cons_intro _ _ _ og376 (all_cons_intro _ _ _ og384 (all_nil_true _))))

theorem og386 : oGuar 5 [Cell.O, Cell.E, Cell.E, Cell.X, Cell.O, Cell.X, Cell.E, Cell.X, Cell.E] aiPlayer = true :=
  oGuar_any_intro 4 _ 1 (by decide) (by decide) (by decide) og385

theorem og387 : oGuar 3 [Cell.O, Cell.E, Cell.O, Cell.X, Cell.O, Cell.X, Cell.X, Cell.E, Cell.X] aiPlayer = true :=
  oGuar_any_intro 2 _ 1 (by decide) (by decide) (by decide) og377

theorem og388 : oGuar 3 [Cell.O, Cell.E, Cell.O, Cell.X, Cell.O, Cell.X, Cell.E, Cell.X, Cell.X] aiPlayer = true :=
  oGuar_any_intro 2 _ 1 (by decide) (by decide) (by decide) og383

theorem og389 : oGuar 4 [Cell.O, Cell.E, Cell.O, Cell.X, Cell.O, Cell.X, Cell.E, Cell.E, Cell.X] humanPlayer = true :=
  oGuar_all_intro 3 _ (by decide) (by decide)
    (all_cons_intro _ _ _ og171 (all_cons_intro _ _ _ og387 (all_cons_intro _ _ _ og388 (all_nil_true _))))

theorem og390 : oGuar 5 [Cell.O, Cell.E, Cell.E, Cell.X, Cell.O, Cell.X, Cell.E, Cell.E, Cell.X] aiPlayer = true :=
  oGuar_any_intro 4 _ 2 (by decide) (by decide) (by decide) og389

theorem og391 : oGuar 6 [Cell.O, Cell.E, Cell.E, Cell.X, Cell.O, Cell.X, Cell.E, Cell.E, Cell.E] humanPlayer = true :=
  oGuar_all_intro 5 _ (by decide) (by decide)
    (all_cons_intro _ _ _ og173 (all_cons_intro _ _ _ og272 (all_cons_intro _ _ _ og380 (all_cons_intro _ _ _ og386 (all_cons_intro _ _ _ og390 (all_nil_true _))))))

theorem og392 : oGuar 7 [Cell.O, Cell.E, Cell.E, Cell.X, Cell.E, Cell.X, Cell.E, Cell.E, Cell.E] aiPlayer = true :=
  oGuar_any_intro 6 _ 4 (by decide) (by decide) (by decide) og391

theorem og393 : oGuar 5 [Cell.O, Cell.O, Cell.X, Cell.X, Cell.E, Cell.E, Cell.X, Cell.E, Cell.E] aiPlayer = true :=
  oGuar_any_intro 4 _ 4 (by decide) (by decide) (by decide) og279

theorem og394 : oGuar 4 [Cell.O, Cell.O, Cell.O, Cell.X, Cell.X, Cell.E, Cell.X, Cell.E, Cell.E] humanPlayer = true :=
  oGuar_winO_intro 3 _ _ (by decide) (by decide)

theorem og395 : oGuar 5 [Cell.O, Cell.O, Cell.E, Cell.X, Cell.X, Cell.E, Cell.X, Cell.E, Cell.E] aiPlayer = true :=
  oGuar_any_intro 4 _ 2 (by decide) (by decide) (by decide) og394

theorem og396 : oGuar 4 [Cell.O, Cell.O, Cell.O, Cell.X, Cell.E, Cell.X, Cell.X, Cell.E, Cell.E] humanPlayer = true :=
  oGuar_winO_intro 3 _ _ (by decide) (by decide)

theorem og397 : oGuar 5 [Cell.O, Cell.O, Cell.E, Cell.X, Cell.E, Cell.X, Cell.X, Cell.E, Cell.E] aiPlayer = true :=
  oGuar_any_intro 4 _ 2 (by decide) (by decide) (by decide) og396

theorem og398 : oGuar 4 [Cell.O, Cell.O, Cell.O, Cell.X, Cell.E, Cell.E, Cell.X, Cell.X, Cell.E] humanPlayer = true :=
  oGuar_winO_intro 3 _ _ (by decide) (by decide)

theorem og399 : oGuar 5 [Cell.O, Cell.O, Cell.E, Cell.X, Cell.E, Cell.E, Cell.X, Cell.X, Cell.E] aiPlayer = true :=
  oGuar_any_intro 4 _ 2 (by decide) (by decide) (by decide) og398

theorem og400 : oGuar 4 [Cell.O, Cell.O, Cell.O, Cell.X, Cell.E, Cell.E, Cell.X, Cell.E, Cell.X] humanPlayer = true :=
  oGuar_winO_intro 3 _ _ (by decide) (by decide)

theorem og401 : oGuar 5 [Cell.O, Cell.O, Cell.E, Cell.X, Cell.E, Cell.E, Cell.X, Cell.E, Cell.X] aiPlayer = true :=
  oGuar_any_intro 4 _ 2 (by decide) (by decide) (by decide) og400

theorem og402 : oGuar 6 [Cell.O, Cell.O, Cell.E, Cell.X, Cell.E, Cell.E, Cell.X, Cell.E, Cell.E] humanPlayer = true :=
  oGuar_all_intro 5 _ (by decide) (by decide)
    (all_cons_intro _ _ _ og393 (all_cons_intro _ _ _ og395 (all_cons_intro _ _ _ og397 (all_cons_intro _ _ _ og399 (all_cons_intro _ _ _ og401 (all_nil_true _))))))

theorem og403 : oGuar 7 [Cell.O, Cell.E, Cell.E, Cell.X, Cell.E, Cell.E, Cell.X, Cell.E, Cell.E] aiPlayer = true :=
  oGuar_any_intro 6 _ 1 (by decide) (by decide) (by decide) og402

theorem og404 : oGuar 5 [Cell.O, Cell.X, Cell.O, Cell.X, Cell.E, Cell.E, Cell.E, Cell.X, Cell.E] aiPlayer = true :=
  oGuar_any_intro 4 _ 4 (by decide) (by decide) (by decide) og182

theorem og405 : oGuar 4 [Cell.O, Cell.O, Cell.O, Cell.X, Cell.X, Cell.E, Cell.E, Cell.X, Cell.E] humanPlayer = true :=
  oGuar_winO_intro 3 _ _ (by decide) (by decide)

theorem og406 : oGuar 5 [Cell.O, Cell.E, Cell.O, Cell.X, Cell.X, Cell.E, Cell.E, Cell.X, Cell.E] aiPlayer = true :=
  oGuar_any_intro 4 _ 1 (by decide) (by decide) (by decide) og405

theorem og407 : oGuar 4 [Cell.O, Cell.O, Cell.O, Cell.X, Cell.E, Cell.X, Cell.E, Cell.X, Cell.E] humanPlayer = true :=
  oGuar_winO_intro 3 _ _ (by decide) (by decide)

theorem og408 : oGuar 5 [Cell.O, Cell.E, Cell.O, Cell.X, Cell.E, Cell.X, Cell.E, Cell.X, Cell.E] aiPlayer = true :=
  oGuar_any_intro 4 _ 1 (by decide) (by decide) (by decide) og407

theorem og409 : oGuar 5 [Cell.O, Cell.E, Cell.O, Cell.X, Cell.E, Cell.E, Cell.X, Cell.X, Cell.E] aiPlayer = true :=
  oGuar_any_intro 4 _ 1 (by decide) (by decide) (by decide) og398

theorem og410 : oGuar 4 [Cell.O, Cell.O, Cell.O, Cell.X, Cell.E, Cell.E, Cell.E, Cell.X, Cell.X] humanPlayer = true :=
  oGuar_winO_intro 3 _ _ (by decide) (by decide)

theorem og411 : oGuar 5 [Cell.O, Cell.E, Cell.O, Cell.X, Cell.E, Cell.E, Cell.E, Cell.X, Cell.X] aiPlayer = true :=
  oGuar_any_intro 4 _ 1 (by decide) (by decide) (by decide) og410

theorem og412 : oGuar 6 [Cell.O, Cell.E, Cell.O, Cell.X, Cell.E, Cell.E, Cell.E, Cell.X, Cell.E] humanPlayer = true :=
  oGuar_all_intro 5 _ (by decide) (by decide)
    (all_cons_intro _ _ _ og404 (all_cons_intro _ _ _ og406 (all_cons_intro _ _ _ og408 (all_cons_intro _ _ _ og409 (all_cons_intro _ _ _ og411 (all_nil_true _))))))

theorem og413 : oGuar 7 [Cell.O, Cell.E, Cell.E, Cell.X, Cell.E, Cell.E, Cell.E, Cell.X, Cell.E] aiPlayer = true :=
  oGuar_any_intro 6 _ 2 (by decide) (by decide) (by decide) og412

theorem og414 : oGuar 5 [Cell.O, Cell.X, Cell.O, Cell.X, Cell.E, Cell.E, Cell.E, Cell.E, Cell.X] aiPlayer = true :=
  oGuar_any_intro 4 _ 4 (by decide) (by decide) (by decide) og184

theorem og415 : oGuar 4 [Cell.O, Cell.O, Cell.O, Cell.X, Cell.X, Cell.E, Cell.E, Cell.E, Cell.X] humanPlayer = true :=
  oGuar_winO_intro 3 _ _ (by decide) (by decide)

theorem og416 : oGuar 5 [Cell.O, Cell.E, Cell.O, Cell.X, Cell.X, Cell.E, Cell.E, Cell.E, Cell.X] aiPlayer = true :=
  oGuar_any_intro 4 _ 1 (by decide) (by decide) (by decide) og415

theorem og417 : oGuar 4 [Cell.O, Cell.O, Cell.O, Cell.X, Cell.E, Cell.X, Cell.E, Cell.E, Cell.X] humanPlayer = true :=
  oGuar_winO_intro 3 _ _ (by decide) (by decide)

theorem og418 : oGuar 5 [Cell.O, Cell.E, Cell.O, Cell.X, Cell.E, Cell.X, Cell.E, Cell.E, Cell.X] aiPlayer = true :=
  oGuar_any_intro 4 _ 1 (by decide) (by decide) (by decide) og417

theorem og419 : oGuar 5 [Cell.O, Cell.E, Cell.O, Cell.X, Cell.E, Cell.E, Cell.X, Cell.E, Cell.X] aiPlayer = true :=
  oGuar_any_intro 4 _ 1 (by decide) (by decide) (by decide) og400

theorem og420 : oGuar 6 [Cell.O, Cell.E, Cell.O, Cell.X, Cell.E, Cell.E, Cell.E, Cell.E, Cell.X] humanPlayer = true :=
  oGuar_all_intro 5 _ (by decide) (by decide)
    (all_cons_intro _ _ _ og414 (all_cons_intro _ _ _ og416 (all_cons_intro _ _ _ og418 (all_cons_intro _ _ _ og419 (all_cons_intro _ _ _ og411 (all_nil_true _))))))

theorem og421 : oGuar 7 [Cell.O, Cell.E, Cell.E, Cell.X, Cell.E, Cell.E, Cell.E, Cell.E, Cell.X] aiPlayer = true :=
  oGuar_any_intro 6 _ 2 (by decide) (by decide) (by decide) og420

theorem og422 : oGuar 8 [Cell.O, Cell.E, Cell.E, Cell.X, Cell.E, Cell.E, Cell.E, Cell.E, Cell.E] humanPlayer = true :=
  oGuar_all_intro 7 _ (by decide) (by decide)
    (all_cons_intro _ _ _ og187 (all_cons_intro _ _ _ og346 (all_cons_intro _ _ _ og374 (all_cons_intro _ _ _ og392 (all_cons_intro _ _ _ og403 (all_cons_intro _ _ _ og413 (all_cons_intro _ _ _ og421 (all_nil_true _))))))))

theorem og423 : oGuar 9 [Cell.E, Cell.E, Cell.E, Cell.X, Cell.E, Cell.E, Cell.E, Cell.E, Cell.E] aiPlayer = true :=
  oGuar_any_intro 8 _ 0 (by decide) (by decide) (by decide) og422

theorem og424 : oGuar 5 [Cell.O, Cell.X, Cell.X, Cell.E, Cell.X, Cell.E, Cell.O, Cell.E, Cell.E] aiPlayer = true :=
  oGuar_any_intro 4 _ 3 (by decide) (by decide) (by decide) og129

theorem og425 : oGuar 5 [Cell.O, Cell.E, Cell.X, Cell.X, Cell.X, Cell.E, Cell.O, Cell.E, Cell.E] aiPlayer = true :=
  oGuar_any_intro 4 _ 5 (by decide) (by decide) (by decide) og354

theorem og426 : oGuar 4 [Cell.O, Cell.E, Cell.X, Cell.O, Cell.X, Cell.X, Cell.O, Cell.E, Cell.E] humanPlayer = true :=
  oGuar_winO_intro 3 _ _ (by decide) (by decide)

theorem og427 : oGuar 5 [Cell.O, Cell.E, Cell.X, Cell.E, Cell.X, Cell.X, Cell.O, Cell.E, Cell.E] aiPlayer = true :=
  oGuar_any_intro 4 _ 3 (by decide) (by decide) (by decide) og426

theorem og428 : oGuar 3 [Cell.O, Cell.O, Cell.X, Cell.X, Cell.X, Cell.E, Cell.O, Cell.X, Cell.E] aiPlayer = true :=
  oGuar_any_intro 2 _ 5 (by decide) (by decide) (by decide) og350

theorem og429 : oGuar 2 [Cell.O, Cell.O, Cell.X, Cell.O, Cell.X, Cell.X, Cell.O, Cell.X, Cell.E] humanPlayer = true :=
  oGuar_winO_intro 1 _ _ (by decide) (by decide)

theorem og430 : oGuar 3 [Cell.O, Cell.O, Cell.X, Cell.E, Cell.X, Cell.X, Cell.O, Cell.X, Cell.E] aiPlayer = true :=
  oGuar_any_intro 2 _ 3 (by decide) (by decide) (by decide) og429

theorem og431 : oGuar 2 [Cell.O, Cell.O, Cell.X, Cell.O, Cell.X, Cell.E, Cell.O, Cell.X, Cell.X] humanPlayer = true :=
  oGuar_winO_intro 1 _ _ (by decide) (by decide)

theorem og432 : oGuar 3 [Cell.O, Cell.O, Cell.X, Cell.E, Cell.X, Cell.E, Cell.O, Cell.X, Cell.X] aiPlayer = true :=
  oGuar_any_intro 2 _ 3 (by decide) (by decide) (by decide) og431

theorem og433 : oGuar 4 [Cell.O, Cell.O, Cell.X, Cell.E, Cell.X, Cell.E, Cell.O, Cell.X, Cell.E] humanPlayer = true :=
  oGuar_all_intro 3 _ (by decide) (by decide)
    (all_cons_intro _ _ _ og428 (all_cons_intro _ _ _ og430 (all_cons_intro _ _ _ og432 (all_nil_true _))))

theorem og434 : oGuar 5 [Cell.O, Cell.E, Cell.X, Cell.E, Cell.X, Cell.E, Cell.O, Cell.X, Cell.E] aiPlayer = true :=
  oGuar_any_intro 4 _ 1 (by decide) (by decide) (by decide) og433

theorem og435 : oGuar 4 [Cell.O, Cell.E, Cell.X, Cell.O, Cell.X, Cell.E, Cell.O, Cell.E, Cell.X] humanPlayer = true :=
  oGuar_winO_intro 3 _ _ (by decide) (by decide)

theorem og436 : oGuar 5 [Cell.O, Cell.E, Cell.X, Cell.E, Cell.X, Cell.E, Cell.O, Cell.E, Cell.X] aiPlayer = true :=
  oGuar_any_intro 4 _ 3 (by decide) (by decide) (by decide) og435

theorem og437 : oGuar 6 [Cell.O, Cell.E, Cell.X, Cell.E, Cell.X, Cell.E, Cell.O, Cell.E, Cell.E] humanPlayer = true :=
  oGuar_all_intro 5 _ (by decide) (by decide)
    (all_cons_intro _ _ _ og424 (all_cons_intro _ _ _ og425 (all_cons_intro _ _ _ og427 (all_cons_intro _ _ _ og434 (all_cons_intro _ _ _ og436 (all_nil_true _))))))

theorem og438 : oGuar 7 [Cell.O, Cell.E, Cell.X, Cell.E, Cell.X, Cell.E, Cell.E, Cell.E, Cell.E] aiPlayer = true :=
  oGuar_any_intro 6 _ 6 (by decide) (by decide) (by decide) og437

theorem og439 : oGuar 4 [Cell.O, Cell.X, Cell.E, Cell.O, Cell.X, Cell.X, Cell.O, Cell.E, Cell.E] humanPlayer = true :=
  oGuar_winO_intro 3 _ _ (by decide) (by decide)

theorem og440 : oGuar 5 [Cell.O, Cell.X, Cell.E, Cell.O, Cell.X, Cell.X, Cell.E, Cell.E, Cell.E] aiPlayer = true :=
  oGuar_any_intro 4 _ 6 (by decide) (by decide) (by decide) og439

theorem og441 : oGuar 5 [Cell.O, Cell.E, Cell.X, Cell.O, Cell.X, Cell.X, Cell.E, Cell.E, Cell.E] aiPlayer = true :=
  oGuar_any_intro 4 _ 6 (by decide) (by decide) (by decide) og426

theorem og442 : oGuar 3 [Cell.O, Cell.X, Cell.O, Cell.O, Cell.X, Cell.X, Cell.X, Cell.E, Cell.E] aiPlayer = true :=
  oGuar_any_intro 2 _ 7 (by decide) (by decide) (by decide) og207

theorem og443 : oGuar 2 [Cell.O, Cell.O, Cell.O, Cell.O, Cell.X, Cell.X, Cell.X, Cell.X, Cell.E] humanPlayer = true :=
  oGuar_winO_intro 1 _ _ (by decide) (by decide)

theorem og444 : oGuar 3 [Cell.O, Cell.E, Cell.O, Cell.O, Cell.X, Cell.X, Cell.X, Cell.X, Cell.E] aiPlayer = true :=
  oGuar_any_intro 2 _ 1 (by decide) (by decide) (by decide) og443

theorem og445 : oGuar 2 [Cell.O, Cell.O, Cell.O, Cell.O, Cell.X, Cell.X, Cell.X, Cell.E, Cell.X] humanPlayer = true :=
  oGuar_winO_intro 1 _ _ (by decide) (by decide)

theorem og446 : oGuar 3 [Cell.O, Cell.E, Cell.O, Cell.O, Cell.X, Cell.X, Cell.X, Cell.E, Cell.X] aiPlayer = true :=
  oGuar_any_intro 2 _ 1 (by decide) (by decide) (by decide) og445

theorem og447 : oGuar 4 [Cell.O, Cell.E, Cell.O, Cell.O, Cell.X, Cell.X, Cell.X, Cell.E, Cell.E] humanPlayer = true :=
  oGuar_all_intro 3 _ (by decide) (by decide)
    (all_cons_intro _ _ _ og442 (all_cons_intro _ _ _ og444 (all_cons_intro _ _ _ og446 (all_nil_true _))))

theorem og448 : oGuar 5 [Cell.O, Cell.E, Cell.E, Cell.O, Cell.X, Cell.X, Cell.X, Cell.E, Cell.E] aiPlayer = true :=
  oGuar_any_intro 4 _ 2 (by decide) (by decide) (by decide) og447

theorem og449 : oGuar 3 [Cell.O, Cell.O, Cell.X, Cell.O, Cell.X, Cell.X, Cell.E, Cell.X, Cell.E] aiPlayer = true :=
  oGuar_any_intro 2 _ 6 (by decide) (by decide) (by decide) og429

theorem og450 : oGuar 3 [Cell.O, Cell.O, Cell.E, Cell.O, Cell.X, Cell.X, Cell.X, Cell.X, Cell.E] aiPlayer = true :=
  oGuar_any_intro 2 _ 2 (by decide) (by decide) (by decide) og443

theorem og451 : oGuar 2 [Cell.O, Cell.O, Cell.O, Cell.O, Cell.X, Cell.X, Cell.E, Cell.X, Cell.X] humanPlayer = true :=
  oGuar_winO_intro 1 _ _ (by decide) (by decide)

theorem og452 : oGuar 3 [Cell.O, Cell.O, Cell.E, Cell.O, Cell.X, Cell.X, Cell.E, Cell.X, Cell.X] aiPlayer = true :=
  oGuar_any_intro 2 _ 2 (by decide) (by decide) (by decide) og451

theorem og453 : oGuar 4 [Cell.O, Cell.O, Cell.E, Cell.O, Cell.X, Cell.X, Cell.E, Cell.X, Cell.E] humanPlayer = true :=
  oGuar_all_intro 3 _ (by decide) (by decide)
    (all_cons_intro _ _ _ og449 (all_cons_intro _ _ _ og450 (all_cons_intro _ _ _ og452 (all_nil_true _))))

theorem og454 : oGuar 5 [Cell.O, Cell.E, Cell.E, Cell.O, Cell.X, Cell.X, Cell.E, Cell.X, Cell.E] aiPlayer = true :=
  oGuar_any_intro 4 _ 1 (by decide) (by decide) (by decide) og453

theorem og455 : oGuar 2 [Cell.O, Cell.X, Cell.O, Cell.O, Cell.X, Cell.X, Cell.O, Cell.E, Cell.X] humanPlayer = true :=
  oGuar_winO_intro 1 _ _ (by decide) (by decide)

theorem og456 : oGuar 3 [Cell.O, Cell.X, Cell.O, Cell.O, Cell.X, Cell.X, Cell.E, Cell.E, Cell.X] aiPlayer = true :=
  oGuar_any_intro 2 _ 6 (by decide) (by decide) (by decide) og455

theorem og457 : oGuar 3 [Cell.O, Cell.E, Cell.O, Cell.O, Cell.X, Cell.X, Cell.E, Cell.X, Cell.X] aiPlayer = true :=
  oGuar_any_intro 2 _ 1 (by decide) (by decide) (by decide) og451

theorem og458 : oGuar 4 [Cell.O, Cell.E, Cell.O, Cell.O, Cell.X, Cell.X, Cell.E, Cell.E, Cell.X] humanPlayer = true :=
  oGuar_all_intro 3 _ (by decide) (by decide)
    (all_cons_intro _ _ _ og456 (all_cons_intro _ _ _ og446 (all_cons_intro _ _ _ og457 (all_nil_true _))))

theorem og459 : oGuar 5 [Cell.O, Cell.E, Cell.E, Cell.O, Cell.X, Cell.X, Cell.E, Cell.E, Cell.X] aiPlayer = true :=
  oGuar_any_intro 4 _ 2 (by decide) (by decide) (by decide) og458

theorem og460 : oGuar 6 [Cell.O, Cell.E, Cell.E, Cell.O, Cell.X, Cell.X, Cell.E, Cell.E, Cell.E] humanPlayer = true :=
  oGuar_all_intro 5 _ (by decide) (by decide)
    (all_cons_intro _ _ _ og440 (all_cons_intro _ _ _ og441 (all_cons_intro _ _ _ og448 (all_cons_intro _ _ _ og454 (all_cons_intro _ _ _ og459 (all_nil_true _))))))

theorem og461 : oGuar 7 [Cell.O, Cell.E, Cell.E, Cell.E, Cell.X, Cell.X, Cell.E, Cell.E, Cell.E] aiPlayer = true :=
  oGuar_any_intro 6 _ 3 (by decide) (by decide) (by decide) og460

theorem og462 : oGuar 5 [Cell.O, Cell.X, Cell.O, Cell.E, Cell.X, Cell.E, Cell.X, Cell.E, Cell.E] aiPlayer = true :=
  oGuar_any_intro 4 _ 7 (by decide) (by decide) (by decide) og217

theorem og463 : oGuar 5 [Cell.O, Cell.E, Cell.O, Cell.X, Cell.X, Cell.E, Cell.X, Cell.E, Cell.E] aiPlayer = true :=
  oGuar_any_intro 4 _ 1 (by decide) (by decide) (by decide) og394

theorem og464 : oGuar 4 [Cell.O, Cell.O, Cell.O, Cell.E, Cell.X, Cell.X, Cell.X, Cell.E, Cell.E] humanPlayer = true :=
  oGuar_winO_intro 3 _ _ (by decide) (by decide)

theorem og465 : oGuar 5 [Cell.O, Cell.E, Cell.O, Cell.E, Cell.X, Cell.X, Cell.X, Cell.E, Cell.E] aiPlayer = true :=
  oGuar_any_intro 4 _ 1 (by decide) (by decide) (by decide) og464

theorem og466 : oGuar 4 [Cell.O, Cell.O, Cell.O, Cell.E, Cell.X, Cell.E, Cell.X, Cell.X, Cell.E] humanPlayer = true :=
  oGuar_winO_intro 3 _ _ (by decide) (by decide)

theorem og467 : oGuar 5 [Cell.O, Cell.E, Cell.O, Cell.E, Cell.X, Cell.E, Cell.X, Cell.X, Cell.E] aiPlayer = true :=
  oGuar_any_intro 4 _ 1 (by decide) (by decide) (by decide) og466

theorem og468 : oGuar 4 [Cell.O, Cell.O, Cell.O, Cell.E, Cell.X, Cell.E, Cell.X, Cell.E, Cell.X] humanPlayer = true :=
  oGuar_winO_intro 3 _ _ (by decide) (by decide)

theorem og469 : oGuar 5 [Cell.O, Cell.E, Cell.O, Cell.E, Cell.X, Cell.E, Cell.X, Cell.E, Cell.X] aiPlayer = true :=
  oGuar_any_intro 4 _ 1 (by decide) (by decide) (by decide) og468

theorem og470 : oGuar 6 [Cell.O, Cell.E, Cell.O, Cell.E, Cell.X, Cell.E, Cell.X, Cell.E, Cell.E] humanPlayer = true :=
  oGuar_all_intro 5 _ (by decide) (by decide)
    (all_cons_intro _ _ _ og462 (all_cons_intro _ _ _ og463 (all_cons_intro _ _ _ og465 (all_cons_intro _ _ _ og467 (all_cons_intro _ _ _ og469 (all_nil_true _))))))

theorem og471 : oGuar 7 [Cell.O, Cell.E, Cell.E, Cell.E, Cell.X, Cell.E, Cell.X, Cell.E, Cell.E] aiPlayer = true :=
  oGuar_any_intro 6 _ 2 (by decide) (by decide) (by decide) og470

theorem og472 : oGuar 5 [Cell.O, Cell.O, Cell.X, Cell.E, Cell.X, Cell.E, Cell.E, Cell.X, Cell.E] aiPlayer = true :=
  oGuar_any_intro 4 _ 6 (by decide) (by decide) (by decide) og433

theorem og473 : oGuar 5 [Cell.O, Cell.O, Cell.E, Cell.X, Cell.X, Cell.E, Cell.E, Cell.X, Cell.E] aiPlayer = true :=
  oGuar_any_intro 4 _ 2 (by decide) (by decide) (by decide) og405

theorem og474 : oGuar 4 [Cell.O, Cell.O, Cell.O, Cell.E, Cell.X, Cell.X, Cell.E, Cell.X, Cell.E] humanPlayer = true :=
  oGuar_winO_intro 3 _ _ (by decide) (by decide)

theorem og475 : oGuar 5 [Cell.O, Cell.O, Cell.E, Cell.E, Cell.X, Cell.X, Cell.E, Cell.X, Cell.E] aiPlayer = true :=
  oGuar_any_intro 4 _ 2 (by decide) (by decide) (by decide) og474

theorem og476 : oGuar 5 [Cell.O, Cell.O, Cell.E, Cell.E, Cell.X, Cell.E, Cell.X, Cell.X, Cell.E] aiPlayer = true :=
  oGuar_any_intro 4 _ 2 (by decide) (by decide) (by decide) og466

theorem og477 : oGuar 4 [Cell.O, Cell.O, Cell.O, Cell.E, Cell.X, Cell.E, Cell.E, Cell.X, Cell.X] humanPlayer = true :=
  oGuar_winO_intro 3 _ _ (by decide) (by decide)

theorem og478 : oGuar 5 [Cell.O, Cell.O, Cell.E, Cell.E, Cell.X, Cell.E, Cell.E, Cell.X, Cell.X] aiPlayer = true :=
  oGuar_any_intro 4 _ 2 (by decide) (by decide) (by decide) og477

theorem og479 : oGuar 6 [Cell.O, Cell.O, Cell.E, Cell.E, Cell.X, Cell.E, Cell.E, Cell.X, Cell.E] humanPlayer = true :=
  oGuar_all_intro 5 _ (by decide) (by decide)
    (all_cons_intro _ _ _ og472 (all_cons_intro _ _ _ og473 (all_cons_intro _ _ _ og475 (all_cons_intro _ _ _ og476 (all_cons_intro _ _ _ og478 (all_nil_true _))))))

theorem og480 : oGuar 7 [Cell.O, Cell.E, Cell.E, Cell.E, Cell.X, Cell.E, Cell.E, Cell.X, Cell.E] aiPlayer = true :=
  oGuar_any_intro 6 _ 1 (by decide) (by decide) (by decide) og479

theorem og481 : oGuar 5 [Cell.O, Cell.X, Cell.O, Cell.E, Cell.X, Cell.E, Cell.E, Cell.E, Cell.X] aiPlayer = true :=
  oGuar_any_intro 4 _ 7 (by decide) (by decide) (by decide) og221

theorem og482 : oGuar 4 [Cell.O, Cell.O, Cell.O, Cell.E, Cell.X, Cell.X, Cell.E, Cell.E, Cell.X] humanPlayer = true :=
  oGuar_winO_intro 3 _ _ (by decide) (by decide)

theorem og483 : oGuar 5 [Cell.O, Cell.E, Cell.O, Cell.E, Cell.X, Cell.X, Cell.E, Cell.E, Cell.X] aiPlayer = true :=
  oGuar_any_intro 4 _ 1 (by decide) (by decide) (by decide) og482

theorem og484 : oGuar 5 [Cell.O, Cell.E, Cell.O, Cell.E, Cell.X, Cell.E, Cell.E, Cell.X, Cell.X] aiPlayer = true :=
  oGuar_any_intro 4 _ 1 (by decide) (by decide) (by decide) og477

theorem og485 : oGuar 6 [Cell.O, Cell.E, Cell.O, Cell.E, Cell.X, Cell.E, Cell.E, Cell.E, Cell.X] humanPlayer = true :=
  oGuar_all_intro 5 _ (by decide) (by decide)
    (all_cons_intro _ _ _ og481 (all_cons_intro _ _ _ og416 (all_cons_intro _ _ _ og483 (all_cons_intro _ _ _ og469 (all_cons_intro _ _ _ og484 (all_nil_true _))))))

theorem og486 : oGuar 7 [Cell.O, Cell.E, Cell.E, Cell.E, Cell.X, Cell.E, Cell.E, Cell.E, Cell.X] aiPlayer = true :=
  oGuar_any_intro 6 _ 2 (by decide) (by decide) (by decide) og485

theorem og487 : oGuar 8 [Cell.O, Cell.E, Cell.E, Cell.E, Cell.X, Cell.E, Cell.E, Cell.E, Cell.E] humanPlayer = true :=
  oGuar_all_intro 7 _ (by decide) (by decide)
    (all_cons_intro _ _ _ og224 (all_cons_intro _ _ _ og438 (all_cons_intro _ _ _ og374 (all_cons_intro _ _ _ og461 (all_cons_intro _ _ _ og471 (all_cons_intro _ _ _ og480 (all_cons_intro _ _ _ og486 (all_nil_true _))))))))

theorem og488 : oGuar 9 [Cell.E, Cell.E, Cell.E, Cell.E, Cell.X, Cell.E, Cell.E, Cell.E, Cell.E] aiPlayer = true :=
  oGuar_any_intro 8 _ 0 (by decide) (by decide) (by decide) og487

theorem og489 : oGuar 5 [Cell.X, Cell.X, Cell.O, Cell.O, Cell.E, Cell.X, Cell.E, Cell.E, Cell.E] aiPlayer = true :=
  oGuar_any_intro 4 _ 4 (by decide) (by decide) (by decide) og9

theorem og490 : oGuar 1 [Cell.X, Cell.X, Cell.O, Cell.O, Cell.X, Cell.X, Cell.X, Cell.O, Cell.O] aiPlayer = true :=
  oGuar_draw_intro 0 _ _ (by decide) (by decide) (by decide)

theorem og491 : oGuar 2 [Cell.X, Cell.X, Cell.O, Cell.O, Cell.X, Cell.X, Cell.E, Cell.O, Cell.O] humanPlayer = true :=
  oGuar_all_intro 1 _ (by decide) (by decide)
    (all_cons_intro _ _ _ og490 (all_nil_true _))

theorem og492 : oGuar 3 [Cell.X, Cell.X, Cell.O, Cell.O, Cell.X, Cell.X, Cell.E, Cell.E, Cell.O] aiPlayer = true :=
  oGuar_any_intro 2 _ 7 (by decide) (by decide) (by decide) og491

theorem og493 : oGuar 1 [Cell.X, Cell.O, Cell.O, Cell.O, Cell.X, Cell.X, Cell.X, Cell.X, Cell.O] aiPlayer = true :=
  oGuar_draw_intro 0 _ _ (by decide) (by decide) (by decide)

theorem og494 : oGuar 2 [Cell.X, Cell.O, Cell.O, Cell.O, Cell.X, Cell.X, Cell.X, Cell.E, Cell.O] humanPlayer = true :=
  oGuar_all_intro 1 _ (by decide) (by decide)
    (all_cons_intro _ _ _ og493 (all_nil_true _))

theorem og495 : oGuar 3 [Cell.X, Cell.E, Cell.O, Cell.O, Cell.X, Cell.X, Cell.X, Cell.E, Cell.O] aiPlayer = true :=
  oGuar_any_intro 2 _ 1 (by decide) (by decide) (by decide) og494

theorem og496 : oGuar 2 [Cell.X, Cell.O, Cell.O, Cell.O, Cell.X, Cell.X, Cell.E, Cell.X, Cell.O] humanPlayer = true :=
  oGuar_all_intro 1 _ (by decide) (by decide)
    (all_cons_intro _ _ _ og493 (all_nil_true _))

theorem og497 : oGuar 3 [Cell.X, Cell.E, Cell.O, Cell.O, Cell.X, Cell.X, Cell.E, Cell.X, Cell.O] aiPlayer = true :=
  oGuar_any_intro 2 _ 1 (by decide) (by decide) (by decide) og496

theorem og498 : oGuar 4 [Cell.X, Cell.E, Cell.O, Cell.O, Cell.X, Cell.X, Cell.E, Cell.E, Cell.O] humanPlayer = true :=
  oGuar_all_intro 3 _ (by decide) (by decide)
    (all_cons_intro _ _ _ og492 (all_cons_intro _ _ _ og495 (all_cons_intro _ _ _ og497 (all_nil_true _))))

theorem og499 : oGuar 5 [Cell.X, Cell.E, Cell.O, Cell.O, Cell.X, Cell.X, Cell.E, Cell.E, Cell.E] aiPlayer = true :=
  oGuar_any_intro 4 _ 8 (by decide) (by decide) (by decide) og498

theorem og500 : oGuar 2 [Cell.X, Cell.E, Cell.O, Cell.O, Cell.O, Cell.X, Cell.X, Cell.O, Cell.X] humanPlayer = true :=
  oGuar_all_intro 1 _ (by decide) (by decide)
    (all_cons_intro _ _ _ og2 (all_nil_true _))

theorem og501 : oGuar 3 [Cell.X, Cell.E, Cell.O, Cell.O, Cell.O, Cell.X, Cell.X, Cell.E, Cell.X] aiPlayer = true :=
  oGuar_any_intro 2 _ 7 (by decide) (by decide) (by decide) og500

theorem og502 : oGuar 4 [Cell.X, Cell.E, Cell.O, Cell.O, Cell.O, Cell.X, Cell.X, Cell.E, Cell.E] humanPlayer = true :=
  oGuar_all_intro 3 _ (by decide) (by decide)
    (all_cons_intro _ _ _ og4 (all_cons_intro _ _ _ og109 (all_cons_intro _ _ _ og501 (all_nil_true _))))

theorem og503 : oGuar 5 [Cell.X, Cell.E, Cell.O, Cell.O, Cell.E, Cell.X, Cell.X, Cell.E, Cell.E] aiPlayer = true :=
  oGuar_any_intro 4 _ 4 (by decide) (by decide) (by decide) og502

theorem og504 : oGuar 5 [Cell.X, Cell.E, Cell.O, Cell.O, Cell.E, Cell.X, Cell.E, Cell.X, Cell.E] aiPlayer = true :=
  oGuar_any_intro 4 _ 4 (by decide) (by decide) (by decide) og112

theorem og505 : oGuar 4 [Cell.X, Cell.E, Cell.O, Cell.O, Cell.O, Cell.X, Cell.E, Cell.E, Cell.X] humanPlayer = true :=
  oGuar_all_intro 3 _ (by decide) (by decide)
    (all_cons_intro _ _ _ og8 (all_cons_intro _ _ _ og501 (all_cons_intro _ _ _ og111 (all_nil_true _))))

theorem og506 : oGuar 5 [Cell.X, Cell.E, Cell.O, Cell.O, Cell.E, Cell.X, Cell.E, Cell.E, Cell.X] aiPlayer = true :=
  oGuar_any_intro 4 _ 4 (by decide) (by decide) (by decide) og505

theorem og507 : oGuar 6 [Cell.X, Cell.E, Cell.O, Cell.O, Cell.E, Cell.X, Cell.E, Cell.E, Cell.E] humanPlayer = true :=
  oGuar_all_intro 5 _ (by decide) (by decide)
    (all_cons_intro _ _ _ og489 (all_cons_intro _ _ _ og499 (all_cons_intro _ _ _ og503 (all_cons_intro _ _ _ og504 (all_cons_intro _ _ _ og506 (all_nil_true _))))))

theorem og508 : oGuar 7 [Cell.X, Cell.E, Cell.O, Cell.E, Cell.E, Cell.X, Cell.E, Cell.E, Cell.E] aiPlayer = true :=
  oGuar_any_intro 6 _ 3 (by decide) (by decide) (by decide) og507

theorem og509 : oGuar 3 [Cell.X, Cell.X, Cell.O, Cell.O, Cell.X, Cell.X, Cell.E, Cell.O, Cell.E] aiPlayer = true :=
  oGuar_any_intro 2 _ 8 (by decide) (by decide) (by decide) og491

theorem og510 : oGuar 3 [Cell.E, Cell.X, Cell.O, Cell.O, Cell.X, Cell.X, Cell.X, Cell.O, Cell.E] aiPlayer = true :=
  oGuar_any_intro 2 _ 0 (by decide) (by decide) (by decide) og207

theorem og511 : oGuar 3 [Cell.E, Cell.X, Cell.O, Cell.O, Cell.X, Cell.X, Cell.E, Cell.O, Cell.X] aiPlayer = true :=
  oGuar_any_intro 2 _ 0 (by decide) (by decide) (by decide) og209

theorem og512 : oGuar 4 [Cell.E, Cell.X, Cell.O, Cell.O, Cell.X, Cell.X, Cell.E, Cell.O, Cell.E] humanPlayer = true :=
  oGuar_all_intro 3 _ (by decide) (by decide)
    (all_cons_intro _ _ _ og509 (all_cons_intro _ _ _ og510 (all_cons_intro _ _ _ og511 (all_nil_true _))))

theorem og513 : oGuar 5 [Cell.E, Cell.X, Cell.O, Cell.O, Cell.X, Cell.X, Cell.E, Cell.E, Cell.E] aiPlayer = true :=
  oGuar_any_intro 4 _ 7 (by decide) (by decide) (by decide) og512

theorem og514 : oGuar 2 [Cell.E, Cell.X, Cell.O, Cell.O, Cell.O, Cell.X, Cell.X, Cell.X, Cell.O] humanPlayer = true :=
  oGuar_all_intro 1 _ (by decide) (by decide)
    (all_cons_intro _ _ _ og107 (all_nil_true _))

theorem og515 : oGuar 3 [Cell.E, Cell.X, Cell.O, Cell.O, Cell.O, Cell.X, Cell.X, Cell.X, Cell.E] aiPlayer = true :=
  oGuar_any_intro 2 _ 8 (by decide) (by decide) (by decide) og514

theorem og516 : oGuar 2 [Cell.E, Cell.X, Cell.O, Cell.O, Cell.O, Cell.X, Cell.X, Cell.O, Cell.X] humanPlayer = true :=
  oGuar_all_intro 1 _ (by decide) (by decide)
    (all_cons_intro _ _ _ og2 (all_nil_true _))

theorem og517 : oGuar 3 [Cell.E, Cell.X, Cell.O, Cell.O, Cell.O, Cell.X, Cell.X, Cell.E, Cell.X] aiPlayer = true :=
  oGuar_any_intro 2 _ 7 (by decide) (by decide) (by decide) og516

theorem og518 : oGuar 4 [Cell.E, Cell.X, Cell.O, Cell.O, Cell.O, Cell.X, Cell.X, Cell.E, Cell.E] humanPlayer = true :=
  oGuar_all_intro 3 _ (by decide) (by decide)
    (all_cons_intro _ _ _ og4 (all_cons_intro _ _ _ og515 (all_cons_intro _ _ _ og517 (all_nil_true _))))

theorem og519 : oGuar 5 [Cell.E, Cell.X, Cell.O, Cell.O, Cell.E, Cell.X, Cell.X, Cell.E, Cell.E] aiPlayer = true :=
  oGuar_any_intro 4 _ 4 (by decide) (by decide) (by decide) og518

theorem og520 : oGuar 2 [Cell.E, Cell.X, Cell.O, Cell.O, Cell.O, Cell.X, Cell.O, Cell.X, Cell.X] humanPlayer = true :=
  oGuar_winO_intro 1 _ _ (by decide) (by decide)

theorem og521 : oGuar 3 [Cell.E, Cell.X, Cell.O, Cell.O, Cell.O, Cell.X, Cell.E, Cell.X, Cell.X] aiPlayer = true :=
  oGuar_any_intro 2 _ 6 (by decide) (by decide) (by decide) og520

theorem og522 : oGuar 4 [Cell.E, Cell.X, Cell.O, Cell.O, Cell.O, Cell.X, Cell.E, Cell.X, Cell.E] humanPlayer = true :=
  oGuar_all_intro 3 _ (by decide) (by decide)
    (all_cons_intro _ _ _ og6 (all_cons_intro _ _ _ og515 (all_cons_intro _ _ _ og521 (all_nil_true _))))

theorem og523 : oGuar 5 [Cell.E, Cell.X, Cell.O, Cell.O, Cell.E, Cell.X, Cell.E, Cell.X, Cell.E] aiPlayer = true :=
  oGuar_any_intro 4 _ 4 (by decide) (by decide) (by decide) og522

theorem og524 : oGuar 2 [Cell.O, Cell.X, Cell.O, Cell.O, Cell.E, Cell.X, Cell.X, Cell.O, Cell.X] humanPlayer = true :=
  oGuar_all_intro 1 _ (by decide) (by decide)
    (all_cons_intro _ _ _ og206 (all_nil_true _))

theorem og525 : oGuar 3 [Cell.O, Cell.X, Cell.O, Cell.O, Cell.E, Cell.X, Cell.X, Cell.E, Cell.X] aiPlayer = true :=
  oGuar_any_intro 2 _ 7 (by decide) (by decide) (by decide) og524

theorem og526 : oGuar 2 [Cell.O, Cell.X, Cell.O, Cell.O, Cell.E, Cell.X, Cell.O, Cell.X, Cell.X] humanPlayer = true :=
  oGuar_winO_intro 1 _ _ (by decide) (by decide)

theorem og527 : oGuar 3 [Cell.O, Cell.X, Cell.O, Cell.O, Cell.E, Cell.X, Cell.E, Cell.X, Cell.X] aiPlayer = true :=
  oGuar_any_intro 2 _ 6 (by decide) (by decide) (by decide) og526

theorem og528 : oGuar 4 [Cell.O, Cell.X, Cell.O, Cell.O, Cell.E, Cell.X, Cell.E, Cell.E, Cell.X] humanPlayer = true :=
  oGuar_all_intro 3 _ (by decide) (by decide)
    (all_cons_intro _ _ _ og456 (all_cons_intro _ _ _ og525 (all_cons_intro _ _ _ og527 (all_nil_true _))))

theorem og529 : oGuar 5 [Cell.E, Cell.X, Cell.O, Cell.O, Cell.E, Cell.X, Cell.E, Cell.E, Cell.X] aiPlayer = true :=
  oGuar_any_intro 4 _ 0 (by decide) (by decide) (by decide) og528

theorem og530 : oGuar 6 [Cell.E, Cell.X, Cell.O, Cell.O, Cell.E, Cell.X, Cell.E, Cell.E, Cell.E] humanPlayer = true :=
  oGuar_all_intro 5 _ (by decide) (by decide)
    (all_cons_intro _ _ _ og489 (all_cons_intro _ _ _ og513 (all_cons_intro _ _ _ og519 (all_cons_intro _ _ _ og523 (all_cons_intro _ _ _ og529 (all_nil_true _))))))

theorem og531 : oGuar 7 [Cell.E, Cell.X, Cell.O, Cell.E, Cell.E, Cell.X, Cell.E, Cell.E, Cell.E] aiPlayer = true :=
  oGuar_any_intro 6 _ 3 (by decide) (by decide) (by decide) og530

theorem og532 : oGuar 4 [Cell.X, Cell.E, Cell.O, Cell.X, Cell.O, Cell.X, Cell.O, Cell.E, Cell.E] humanPlayer = true :=
  oGuar_winO_intro 3 _ _ (by decide) (by decide)

theorem og533 : oGuar 5 [Cell.X, Cell.E, Cell.O, Cell.X, Cell.O, Cell.X, Cell.E, Cell.E, Cell.E] aiPlayer = true :=
  oGuar_any_intro 4 _ 6 (by decide) (by decide) (by decide) og532

theorem og534 : oGuar 5 [Cell.E, Cell.X, Cell.O, Cell.X, Cell.O, Cell.X, Cell.E, Cell.E, Cell.E] aiPlayer = true :=
  oGuar_any_intro 4 _ 0 (by decide) (by decide) (by decide) og172

theorem og535 : oGuar 3 [Cell.O, Cell.E, Cell.O, Cell.X, Cell.O, Cell.X, Cell.X, Cell.X, Cell.E] aiPlayer = true :=
  oGuar_any_intro 2 _ 1 (by decide) (by decide) (by decide) og375

theorem og536 : oGuar 4 [Cell.O, Cell.E, Cell.O, Cell.X, Cell.O, Cell.X, Cell.X, Cell.E, Cell.E] humanPlayer = true :=
  oGuar_all_intro 3 _ (by decide) (by decide)
    (all_cons_intro _ _ _ og167 (all_cons_intro _ _ _ og535 (all_cons_intro _ _ _ og387 (all_nil_true _))))

theorem og537 : oGuar 5 [Cell.E, Cell.E, Cell.O, Cell.X, Cell.O, Cell.X, Cell.X, Cell.E, Cell.E] aiPlayer = true :=
  oGuar_any_intro 4 _ 0 (by decide) (by decide) (by decide) og536

theorem og538 : oGuar 4 [Cell.O, Cell.E, Cell.O, Cell.X, Cell.O, Cell.X, Cell.E, Cell.X, Cell.E] humanPlayer = true :=
  oGuar_all_intro 3 _ (by decide) (by decide)
    (all_cons_intro _ _ _ og169 (all_cons_intro _ _ _ og535 (all_cons_intro _ _ _ og388 (all_nil_true _))))

theorem og539 : oGuar 5 [Cell.E, Cell.E, Cell.O, Cell.X, Cell.O, Cell.X, Cell.E, Cell.X, Cell.E] aiPlayer = true :=
  oGuar_any_intro 4 _ 0 (by decide) (by decide) (by decide) og538

theorem og540 : oGuar 5 [Cell.E, Cell.E, Cell.O, Cell.X, Cell.O, Cell.X, Cell.E, Cell.E, Cell.X] aiPlayer = true :=
  oGuar_any_intro 4 _ 0 (by decide) (by decide) (by decide) og389

theorem og541 : oGuar 6 [Cell.E, Cell.E, Cell.O, Cell.X, Cell.O, Cell.X, Cell.E, Cell.E, Cell.E] humanPlayer = true :=
  oGuar_all_intro 5 _ (by decide) (by decide)
    (all_cons_intro _ _ _ og533 (all_cons_intro _ _ _ og534 (all_cons_intro _ _ _ og537 (all_cons_intro _ _ _ og539 (all_cons_intro _ _ _ og540 (all_nil_true _))))))

theorem og542 : oGuar 7 [Cell.E, Cell.E, Cell.O, Cell.X, Cell.E, Cell.X, Cell.E, Cell.E, Cell.E] aiPlayer = true :=
  oGuar_any_intro 6 _ 4 (by decide) (by decide) (by decide) og541

theorem og543 : oGuar 5 [Cell.E, Cell.E, Cell.O, Cell.O, Cell.X, Cell.X, Cell.X, Cell.E, Cell.E] aiPlayer = true :=
  oGuar_any_intro 4 _ 0 (by decide) (by decide) (by decide) og447

theorem og544 : oGuar 3 [Cell.X, Cell.O, Cell.O, Cell.O, Cell.X, Cell.X, Cell.E, Cell.X, Cell.E] aiPlayer = true :=
  oGuar_any_intro 2 _ 8 (by decide) (by decide) (by decide) og496

theorem og545 : oGuar 3 [Cell.E, Cell.O, Cell.O, Cell.O, Cell.X, Cell.X, Cell.X, Cell.X, Cell.E] aiPlayer = true :=
  oGuar_any_intro 2 _ 0 (by decide) (by decide) (by decide) og443

theorem og546 : oGuar 3 [Cell.E, Cell.O, Cell.O, Cell.O, Cell.X, Cell.X, Cell.E, Cell.X, Cell.X] aiPlayer = true :=
  oGuar_any_intro 2 _ 0 (by decide) (by decide) (by decide) og451

theorem og547 : oGuar 4 [Cell.E, Cell.O, Cell.O, Cell.O, Cell.X, Cell.X, Cell.E, Cell.X, Cell.E] humanPlayer = true :=
  oGuar_all_intro 3 _ (by decide) (by decide)
    (all_cons_intro _ _ _ og544 (all_cons_intro _ _ _ og545 (all_cons_intro _ _ _ og546 (all_nil_true _))))

theorem og548 : oGuar 5 [Cell.E, Cell.E, Cell.O, Cell.O, Cell.X, Cell.X, Cell.E, Cell.X, Cell.E] aiPlayer = true :=
  oGuar_any_intro 4 _ 1 (by decide) (by decide) (by decide) og547

theorem og549 : oGuar 5 [Cell.E, Cell.E, Cell.O, Cell.O, Cell.X, Cell.X, Cell.E, Cell.E, Cell.X] aiPlayer = true :=
  oGuar_any_intro 4 _ 0 (by decide) (by decide) (by decide) og458

theorem og550 : oGuar 6 [Cell.E, Cell.E, Cell.O, Cell.O, Cell.X, Cell.X, Cell.E, Cell.E, Cell.E] humanPlayer = true :=
  oGuar_all_intro 5 _ (by decide) (by decide)
    (all_cons_intro _ _ _ og499 (all_cons_intro _ _ _ og513 (all_cons_intro _ _ _ og543 (all_cons_intro _ _ _ og548 (all_cons_intro _ _ _ og549 (all_nil_true _))))))

theorem og551 : oGuar 7 [Cell.E, Cell.E, Cell.O, Cell.E, Cell.X, Cell.X, Cell.E, Cell.E, Cell.E] aiPlayer = true :=
  oGuar_any_intro 6 _ 3 (by decide) (by decide) (by decide) og550

theorem og552 : oGuar 5 [Cell.O, Cell.X, Cell.O, Cell.E, Cell.E, Cell.X, Cell.X, Cell.E, Cell.E] aiPlayer = true :=
  oGuar_any_intro 4 _ 4 (by decide) (by decide) (by decide) og231

theorem og553 : oGuar 5 [Cell.O, Cell.E, Cell.O, Cell.X, Cell.E, Cell.X, Cell.X, Cell.E, Cell.E] aiPlayer = true :=
  oGuar_any_intro 4 _ 1 (by decide) (by decide) (by decide) og396

theorem og554 : oGuar 4 [Cell.O, Cell.O, Cell.O, Cell.E, Cell.E, Cell.X, Cell.X, Cell.X, Cell.E] humanPlayer = true :=
  oGuar_winO_intro 3 _ _ (by decide) (by decide)

theorem og555 : oGuar 5 [Cell.O, Cell.E, Cell.O, Cell.E, Cell.E, Cell.X, Cell.X, Cell.X, Cell.E] aiPlayer = true :=
  oGuar_any_intro 4 _ 1 (by decide) (by decide) (by decide) og554

theorem og556 : oGuar 4 [Cell.O, Cell.O, Cell.O, Cell.E, Cell.E, Cell.X, Cell.X, Cell.E, Cell.X] humanPlayer = true :=
  oGuar_winO_intro 3 _ _ (by decide) (by decide)

theorem og557 : oGuar 5 [Cell.O, Cell.E, Cell.O, Cell.E, Cell.E, Cell.X, Cell.X, Cell.E, Cell.X] aiPlayer = true :=
  oGuar_any_intro 4 _ 1 (by decide) (by decide) (by decide) og556

theorem og558 : oGuar 6 [Cell.O, Cell.E, Cell.O, Cell.E, Cell.E, Cell.X, Cell.X, Cell.E, Cell.E] humanPlayer = true :=
  oGuar_all_intro 5 _ (by decide) (by decide)
    (all_cons_intro _ _ _ og552 (all_cons_intro _ _ _ og553 (all_cons_intro _ _ _ og465 (all_cons_intro _ _ _ og555 (all_cons_intro _ _ _ og557 (all_nil_true _))))))

theorem og559 : oGuar 7 [Cell.E, Cell.E, Cell.O, Cell.E, Cell.E, Cell.X, Cell.X, Cell.E, Cell.E] aiPlayer = true :=
  oGuar_any_intro 6 _ 0 (by decide) (by decide) (by decide) og558

theorem og560 : oGuar 5 [Cell.O, Cell.X, Cell.O, Cell.E, Cell.E, Cell.X, Cell.E, Cell.X, Cell.E] aiPlayer = true :=
  oGuar_any_intro 4 _ 4 (by decide) (by decide) (by decide) og235

theorem og561 : oGuar 5 [Cell.O, Cell.E, Cell.O, Cell.E, Cell.X, Cell.X, Cell.E, Cell.X, Cell.E] aiPlayer = true :=
  oGuar_any_intro 4 _ 1 (by decide) (by decide) (by decide) og474

theorem og562 : oGuar 4 [Cell.O, Cell.O, Cell.O, Cell.E, Cell.E, Cell.X, Cell.E, Cell.X, Cell.X] humanPlayer = true :=
  oGuar_winO_intro 3 _ _ (by decide) (by decide)

theorem og563 : oGuar 5 [Cell.O, Cell.E, Cell.O, Cell.E, Cell.E, Cell.X, Cell.E, Cell.X, Cell.X] aiPlayer = true :=
  oGuar_any_intro 4 _ 1 (by decide) (by decide) (by decide) og562

theorem og564 : oGuar 6 [Cell.O, Cell.E, Cell.O, Cell.E, Cell.E, Cell.X, Cell.E, Cell.X, Cell.E] humanPlayer = true :=
  oGuar_all_intro 5 _ (by decide) (by decide)
    (all_cons_intro _ _ _ og560 (all_cons_intro _ _ _ og408 (all_cons_intro _ _ _ og561 (all_cons_intro _ _ _ og555 (all_cons_intro _ _ _ og563 (all_nil_true _))))))

theorem og565 : oGuar 7 [Cell.E, Cell.E, Cell.O, Cell.E, Cell.E, Cell.X, Cell.E, Cell.X, Cell.E] aiPlayer = true :=
  oGuar_any_intro 6 _ 0 (by decide) (by decide) (by decide) og564

theorem og566 : oGuar 5 [Cell.O, Cell.X, Cell.O, Cell.E, Cell.E, Cell.X, Cell.E, Cell.E, Cell.X] aiPlayer = true :=
  oGuar_any_intro 4 _ 3 (by decide) (by decide) (by decide) og528

theorem og567 : oGuar 6 [Cell.O, Cell.E, Cell.O, Cell.E, Cell.E, Cell.X, Cell.E, Cell.E, Cell.X] humanPlayer = true :=
  oGuar_all_intro 5 _ (by decide) (by decide)
    (all_cons_intro _ _ _ og566 (all_cons_intro _ _ _ og418 (all_cons_intro _ _ _ og483 (all_cons_intro _ _ _ og557 (all_cons_intro _ _ _ og563 (all_nil_true _))))))

theorem og568 : oGuar 7 [Cell.E, Cell.E, Cell.O, Cell.E, Cell.E, Cell.X, Cell.E, Cell.E, Cell.X] aiPlayer = true :=
  oGuar_any_intro 6 _ 0 (by decide) (by decide) (by decide) og567

theorem og569 : oGuar 8 [Cell.E, Cell.E, Cell.O, Cell.E, Cell.E, Cell.X, Cell.E, Cell.E, Cell.E] humanPlayer = true :=
  oGuar_all_intro 7 _ (by decide) (by decide)
    (all_cons_intro _ _ _ og508 (all_cons_intro _ _ _ og531 (all_cons_intro _ _ _ og542 (all_cons_intro _ _ _ og551 (all_cons_intro _ _ _ og559 (all_cons_intro _ _ _ og565 (all_cons_intro _ _ _ og568 (all_nil_true _))))))))

theorem og570 : oGuar 9 [Cell.E, Cell.E, Cell.E, Cell.E, Cell.E, Cell.X, Cell.E, Cell.E, Cell.E] aiPlayer = true :=
  oGuar_any_intro 8 _ 2 (by decide) (by decide) (by decide) og569

theorem og571 : oGuar 7 [Cell.E, Cell.X, Cell.E, Cell.E, Cell.O, Cell.E, Cell.X, Cell.E, Cell.E] aiPlayer = true :=
  oGuar_any_intro 6 _ 0 (by decide) (by decide) (by decide) og250

theorem og572 : oGuar 4 [Cell.O, Cell.E, Cell.E, Cell.X, Cell.O, Cell.E, Cell.X, Cell.X, Cell.O] humanPlayer = true :=
  oGuar_winO_intro 3 _ _ (by decide) (by decide)

theorem og573 : oGuar 5 [Cell.O, Cell.E, Cell.E, Cell.X, Cell.O, Cell.E, Cell.X, Cell.X, Cell.E] aiPlayer = true :=
  oGuar_any_intro 4 _ 8 (by decide) (by decide) (by decide) og572

theorem og574 : oGuar 3 [Cell.O, Cell.E, Cell.X, Cell.X, Cell.O, Cell.E, Cell.X, Cell.O, Cell.X] aiPlayer = true :=
  oGuar_any_intro 2 _ 1 (by decide) (by decide) (by decide) og277

theorem og575 : oGuar 2 [Cell.O, Cell.O, Cell.E, Cell.X, Cell.O, Cell.X, Cell.X, Cell.O, Cell.X] humanPlayer = true :=
  oGuar_winO_intro 1 _ _ (by decide) (by decide)

theorem og576 : oGuar 3 [Cell.O, Cell.E, Cell.E, Cell.X, Cell.O, Cell.X, Cell.X, Cell.O, Cell.X] aiPlayer = true :=
  oGuar_any_intro 2 _ 1 (by decide) (by decide) (by decide) og575

theorem og577 : oGuar 4 [Cell.O, Cell.E, Cell.E, Cell.X, Cell.O, Cell.E, Cell.X, Cell.O, Cell.X] humanPlayer = true :=
  oGuar_all_intro 3 _ (by decide) (by decide)
    (all_cons_intro _ _ _ og246 (all_cons_intro _ _ _ og574 (all_cons_intro _ _ _ og576 (all_nil_true _))))

theorem og578 : oGuar 5 [Cell.O, Cell.E, Cell.E, Cell.X, Cell.O, Cell.E, Cell.X, Cell.E, Cell.X] aiPlayer = true :=
  oGuar_any_intro 4 _ 7 (by decide) (by decide) (by decide) og577

theorem og579 : oGuar 6 [Cell.O, Cell.E, Cell.E, Cell.X, Cell.O, Cell.E, Cell.X, Cell.E, Cell.E] humanPlayer = true :=
  oGuar_all_intro 5 _ (by decide) (by decide)
    (all_cons_intro _ _ _ og179 (all_cons_intro _ _ _ og280 (all_cons_intro _ _ _ og380 (all_cons_intro _ _ _ og573 (all_cons_intro _ _ _ og578 (all_nil_true _))))))

theorem og580 : oGuar 7 [Cell.E, Cell.E, Cell.E, Cell.X, Cell.O, Cell.E, Cell.X, Cell.E, Cell.E] aiPlayer = true :=
  oGuar_any_intro 6 _ 0 (by decide) (by decide) (by decide) og579

theorem og581 : oGuar 5 [Cell.E, Cell.O, Cell.E, Cell.X, Cell.O, Cell.X, Cell.X, Cell.E, Cell.E] aiPlayer = true :=
  oGuar_any_intro 4 _ 0 (by decide) (by decide) (by decide) og379

theorem og582 : oGuar 3 [Cell.X, Cell.O, Cell.E, Cell.E, Cell.O, Cell.X, Cell.X, Cell.X, Cell.O] aiPlayer = true :=
  oGuar_any_intro 2 _ 3 (by decide) (by decide) (by decide) og75

theorem og583 : oGuar 2 [Cell.O, Cell.O, Cell.E, Cell.X, Cell.O, Cell.X, Cell.X, Cell.X, Cell.O] humanPlayer = true :=
  oGuar_winO_intro 1 _ _ (by decide) (by decide)

theorem og584 : oGuar 3 [Cell.E, Cell.O, Cell.E, Cell.X, Cell.O, Cell.X, Cell.X, Cell.X, Cell.O] aiPlayer = true :=
  oGuar_any_intro 2 _ 0 (by decide) (by decide) (by decide) og583

theorem og585 : oGuar 4 [Cell.E, Cell.O, Cell.E, Cell.E, Cell.O, Cell.X, Cell.X, Cell.X, Cell.O] humanPlayer = true :=
  oGuar_all_intro 3 _ (by decide) (by decide)
    (all_cons_intro _ _ _ og582 (all_cons_intro _ _ _ og315 (all_cons_intro _ _ _ og584 (all_nil_true _))))

theorem og586 : oGuar 5 [Cell.E, Cell.O, Cell.E, Cell.E, Cell.O, Cell.X, Cell.X, Cell.X, Cell.E] aiPlayer = true :=
  oGuar_any_intro 4 _ 8 (by decide) (by decide) (by decide) og585

theorem og587 : oGuar 4 [Cell.E, Cell.O, Cell.E, Cell.E, Cell.O, Cell.X, Cell.X, Cell.O, Cell.X] humanPlayer = true :=
  oGuar_winO_intro 3 _ _ (by decide) (by decide)

theorem og588 : oGuar 5 [Cell.E, Cell.O, Cell.E, Cell.E, Cell.O, Cell.X, Cell.X, Cell.E, Cell.X] aiPlayer = true :=
  oGuar_any_intro 4 _ 7 (by decide) (by decide) (by decide) og587

theorem og589 : oGuar 6 [Cell.E, Cell.O, Cell.E, Cell.E, Cell.O, Cell.X, Cell.X, Cell.E, Cell.E] humanPlayer = true :=
  oGuar_all_intro 5 _ (by decide) (by decide)
    (all_cons_intro _ _ _ og80 (all_cons_intro _ _ _ og310 (all_cons_intro _ _ _ og581 (all_cons_intro _ _ _ og586 (all_cons_intro _ _ _ og588 (all_nil_true _))))))

theorem og590 : oGuar 7 [Cell.E, Cell.E, Cell.E, Cell.E, Cell.O, Cell.X, Cell.X, Cell.E, Cell.E] aiPlayer = true :=
  oGuar_any_intro 6 _ 1 (by decide) (by decide) (by decide) og589

theorem og591 : oGuar 2 [Cell.X, Cell.X, Cell.O, Cell.O, Cell.O, Cell.E, Cell.X, Cell.X, Cell.O] humanPlayer = true :=
  oGuar_all_intro 1 _ (by decide) (by decide)
    (all_cons_intro _ _ _ og107 (all_nil_true _))

theorem og592 : oGuar 3 [Cell.X, Cell.X, Cell.E, Cell.O, Cell.O, Cell.E, Cell.X, Cell.X, Cell.O] aiPlayer = true :=
  oGuar_any_intro 2 _ 2 (by decide) (by decide) (by decide) og591

theorem og593 : oGuar 3 [Cell.X, Cell.E, Cell.X, Cell.O, Cell.O, Cell.E, Cell.X, Cell.X, Cell.O] aiPlayer = true :=
  oGuar_any_intro 2 _ 1 (by decide) (by decide) (by decide) og311

theorem og594 : oGuar 3 [Cell.X, Cell.E, Cell.E, Cell.O, Cell.O, Cell.X, Cell.X, Cell.X, Cell.O] aiPlayer = true :=
  oGuar_any_intro 2 _ 1 (by decide) (by decide) (by decide) og75

theorem og595 : oGuar 4 [Cell.X, Cell.E, Cell.E, Cell.O, Cell.O, Cell.E, Cell.X, Cell.X, Cell.O] humanPlayer = true :=
  oGuar_all_intro 3 _ (by decide) (by decide)
    (all_cons_intro _ _ _ og592 (all_cons_intro _ _ _ og593 (all_cons_intro _ _ _ og594 (all_nil_true _))))

theorem og596 : oGuar 5 [Cell.X, Cell.E, Cell.E, Cell.E, Cell.O, Cell.E, Cell.X, Cell.X, Cell.O] aiPlayer = true :=
  oGuar_any_intro 4 _ 3 (by decide) (by decide) (by decide) og595

theorem og597 : oGuar 5 [Cell.E, Cell.X, Cell.E, Cell.E, Cell.O, Cell.E, Cell.X, Cell.X, Cell.O] aiPlayer = true :=
  oGuar_any_intro 4 _ 0 (by decide) (by decide) (by decide) og242

theorem og598 : oGuar 4 [Cell.O, Cell.E, Cell.X, Cell.E, Cell.O, Cell.E, Cell.X, Cell.X, Cell.O] humanPlayer = true :=
  oGuar_winO_intro 3 _ _ (by decide) (by decide)

theorem og599 : oGuar 5 [Cell.E, Cell.E, Cell.X, Cell.E, Cell.O, Cell.E, Cell.X, Cell.X, Cell.O] aiPlayer = true :=
  oGuar_any_intro 4 _ 0 (by decide) (by decide) (by decide) og598

theorem og600 : oGuar 5 [Cell.E, Cell.E, Cell.E, Cell.X, Cell.O, Cell.E, Cell.X, Cell.X, Cell.O] aiPlayer = true :=
  oGuar_any_intro 4 _ 0 (by decide) (by decide) (by decide) og572

theorem og601 : oGuar 4 [Cell.O, Cell.E, Cell.E, Cell.E, Cell.O, Cell.X, Cell.X, Cell.X, Cell.O] humanPlayer = true :=
  oGuar_winO_intro 3 _ _ (by decide) (by decide)

theorem og602 : oGuar 5 [Cell.E, Cell.E, Cell.E, Cell.E, Cell.O, Cell.X, Cell.X, Cell.X, Cell.O] aiPlayer = true :=
  oGuar_any_intro 4 _ 0 (by decide) (by decide) (by decide) og601

theorem og603 : oGuar 6 [Cell.E, Cell.E, Cell.E, Cell.E, Cell.O, Cell.E, Cell.X, Cell.X, Cell.O] humanPlayer = true :=
  oGuar_all_intro 5 _ (by decide) (by decide)
    (all_cons_intro _ _ _ og596 (all_cons_intro _ _ _ og597 (all_cons_intro _ _ _ og599 (all_cons_intro _ _ _ og600 (all_cons_intro _ _ _ og602 (all_nil_true _))))))

theorem og604 : oGuar 7 [Cell.E, Cell.E, Cell.E, Cell.E, Cell.O, Cell.E, Cell.X, Cell.X, Cell.E] aiPlayer = true :=
  oGuar_any_intro 6 _ 8 (by decide) (by decide) (by decide) og603

theorem og605 : oGuar 5 [Cell.X, Cell.E, Cell.E, Cell.E, Cell.O, Cell.E, Cell.X, Cell.O, Cell.X] aiPlayer = true :=
  oGuar_any_intro 4 _ 1 (by decide) (by decide) (by decide) og119

theorem og606 : oGuar 5 [Cell.E, Cell.X, Cell.E, Cell.E, Cell.O, Cell.E, Cell.X, Cell.O, Cell.X] aiPlayer = true :=
  oGuar_any_intro 4 _ 0 (by decide) (by decide) (by decide) og248

theorem og607 : oGuar 5 [Cell.E, Cell.E, Cell.X, Cell.E, Cell.O, Cell.E, Cell.X, Cell.O, Cell.X] aiPlayer = true :=
  oGuar_any_intro 4 _ 1 (by decide) (by decide) (by decide) og318

theorem og608 : oGuar 5 [Cell.E, Cell.E, Cell.E, Cell.X, Cell.O, Cell.E, Cell.X, Cell.O, Cell.X] aiPlayer = true :=
  oGuar_any_intro 4 _ 0 (by decide) (by decide) (by decide) og577

theorem og609 : oGuar 5 [Cell.E, Cell.E, Cell.E, Cell.E, Cell.O, Cell.X, Cell.X, Cell.O, Cell.X] aiPlayer = true :=
  oGuar_any_intro 4 _ 1 (by decide) (by decide) (by decide) og587

theorem og610 : oGuar 6 [Cell.E, Cell.E, Cell.E, Cell.E, Cell.O, Cell.E, Cell.X, Cell.O, Cell.X] humanPlayer = true :=
  oGuar_all_intro 5 _ (by decide) (by decide)
    (all_cons_intro _ _ _ og605 (all_cons_intro _ _ _ og606 (all_cons_intro _ _ _ og607 (all_cons_intro _ _ _ og608 (all_cons_intro _ _ _ og609 (all_nil_true _))))))

theorem og611 : oGuar 7 [Cell.E, Cell.E, Cell.E, Cell.E, Cell.O, Cell.E, Cell.X, Cell.E, Cell.X] aiPlayer = true :=
  oGuar_any_intro 6 _ 7 (by decide) (by decide) (by decide) og610

theorem og612 : oGuar 8 [Cell.E, Cell.E, Cell.E, Cell.E, Cell.O, Cell.E, Cell.X, Cell.E, Cell.E] humanPlayer = true :=
  oGuar_all_intro 7 _ (by decide) (by decide)
    (all_cons_intro _ _ _ og104 (all_cons_intro _ _ _ og571 (all_cons_intro _ _ _ og321 (all_cons_intro _ _ _ og580 (all_cons_intro _ _ _ og590 (all_cons_intro _ _ _ og604 (all_cons_intro _ _ _ og611 (all_nil_true _))))))))

theorem og613 : oGuar 9 [Cell.E, Cell.E, Cell.E, Cell.E, Cell.E, Cell.E, Cell.X, Cell.E, Cell.E] aiPlayer = true :=
  oGuar_any_intro 8 _ 4 (by decide) (by decide) (by decide) og612

theorem og614 : oGuar 4 [Cell.X, Cell.O, Cell.X, Cell.E, Cell.O, Cell.E, Cell.O, Cell.X, Cell.E] humanPlayer = true :=
  oGuar_all_intro 3 _ (by decide) (by decide)
    (all_cons_intro _ _ _ og29 (all_cons_intro _ _ _ og83 (all_cons_intro _ _ _ og122 (all_nil_true _))))

theorem og615 : oGuar 5 [Cell.X, Cell.O, Cell.X, Cell.E, Cell.E, Cell.E, Cell.O, Cell.X, Cell.E] aiPlayer = true :=
  oGuar_any_intro 4 _ 4 (by decide) (by decide) (by decide) og614

theorem og616 : oGuar 5 [Cell.X, Cell.O, Cell.E, Cell.X, Cell.E, Cell.E, Cell.O, Cell.X, Cell.E] aiPlayer = true :=
  oGuar_any_intro 4 _ 4 (by decide) (by decide) (by decide) og68

theorem og617 : oGuar 1 [Cell.X, Cell.O, Cell.X, Cell.O, Cell.X, Cell.X, Cell.O, Cell.X, Cell.O] aiPlayer = true :=
  oGuar_draw_intro 0 _ _ (by decide) (by decide) (by decide)

theorem og618 : oGuar 2 [Cell.X, Cell.O, Cell.X, Cell.O, Cell.X, Cell.E, Cell.O, Cell.X, Cell.O] humanPlayer = true :=
  oGuar_all_intro 1 _ (by decide) (by decide)
    (all_cons_intro _ _ _ og617 (all_nil_true _))

theorem og619 : oGuar 3 [Cell.X, Cell.O, Cell.X, Cell.E, Cell.X, Cell.E, Cell.O, Cell.X, Cell.O] aiPlayer = true :=
  oGuar_any_intro 2 _ 3 (by decide) (by decide) (by decide) og618

theorem og620 : oGuar 1 [Cell.X, Cell.O, Cell.X, Cell.X, Cell.X, Cell.O, Cell.O, Cell.X, Cell.O] aiPlayer = true :=
  oGuar_draw_intro 0 _ _ (by decide) (by decide) (by decide)

theorem og621 : oGuar 2 [Cell.X, Cell.O, Cell.E, Cell.X, Cell.X, Cell.O, Cell.O, Cell.X, Cell.O] humanPlayer = true :=
  oGuar_all_intro 1 _ (by decide) (by decide)
    (all_cons_intro _ _ _ og620 (all_nil_true _))

theorem og622 : oGuar 3 [Cell.X, Cell.O, Cell.E, Cell.X, Cell.X, Cell.E, Cell.O, Cell.X, Cell.O] aiPlayer = true :=
  oGuar_any_intro 2 _ 5 (by decide) (by decide) (by decide) og621

theorem og623 : oGuar 2 [Cell.X, Cell.O, Cell.E, Cell.O, Cell.X, Cell.X, Cell.O, Cell.X, Cell.O] humanPlayer = true :=
  oGuar_all_intro 1 _ (by decide) (by decide)
    (all_cons_intro _ _ _ og617 (all_nil_true _))

theorem og624 : oGuar 3 [Cell.X, Cell.O, Cell.E, Cell.E, Cell.X, Cell.X, Cell.O, Cell.X, Cell.O] aiPlayer = true :=
  oGuar_any_intro 2 _ 3 (by decide) (by decide) (by decide) og623

theorem og625 : oGuar 4 [Cell.X, Cell.O, Cell.E, Cell.E, Cell.X, Cell.E, Cell.O, Cell.X, Cell.O] humanPlayer = true :=
  oGuar_all_intro 3 _ (by decide) (by decide)
    (all_cons_intro _ _ _ og619 (all_cons_intro _ _ _ og622 (all_cons_intro _ _ _ og624 (all_nil_true _))))

theorem og626 : oGuar 5 [Cell.X, Cell.O, Cell.E, Cell.E, Cell.X, Cell.E, Cell.O, Cell.X, Cell.E] aiPlayer = true :=
  oGuar_any_intro 4 _ 8 (by decide) (by decide) (by decide) og625

theorem og627 : oGuar 5 [Cell.X, Cell.O, Cell.E, Cell.E, Cell.E, Cell.X, Cell.O, Cell.X, Cell.E] aiPlayer = true :=
  oGuar_any_intro 4 _ 4 (by decide) (by decide) (by decide) og86

theorem og628 : oGuar 5 [Cell.X, Cell.O, Cell.E, Cell.E, Cell.E, Cell.E, Cell.O, Cell.X, Cell.X] aiPlayer = true :=
  oGuar_any_intro 4 _ 4 (by decide) (by decide) (by decide) og123

theorem og629 : oGuar 6 [Cell.X, Cell.O, Cell.E, Cell.E, Cell.E, Cell.E, Cell.O, Cell.X, Cell.E] humanPlayer = true :=
  oGuar_all_intro 5 _ (by decide) (by decide)
    (all_cons_intro _ _ _ og615 (all_cons_intro _ _ _ og616 (all_cons_intro _ _ _ og626 (all_cons_intro _ _ _ og627 (all_cons_intro _ _ _ og628 (all_nil_true _))))))

theorem og630 : oGuar 7 [Cell.X, Cell.O, Cell.E, Cell.E, Cell.E, Cell.E, Cell.E, Cell.X, Cell.E] aiPlayer = true :=
  oGuar_any_intro 6 _ 6 (by decide) (by decide) (by decide) og629

theorem og631 : oGuar 2 [Cell.E, Cell.O, Cell.X, Cell.X, Cell.O, Cell.X, Cell.O, Cell.X, Cell.O] humanPlayer = true :=
  oGuar_all_intro 1 _ (by decide) (by decide)
    (all_cons_intro _ _ _ og81 (all_nil_true _))

theorem og632 : oGuar 3 [Cell.E, Cell.O, Cell.X, Cell.X, Cell.O, Cell.X, Cell.O, Cell.X, Cell.E] aiPlayer = true :=
  oGuar_any_intro 2 _ 8 (by decide) (by decide) (by decide) og631

theorem og633 : oGuar 2 [Cell.E, Cell.O, Cell.X, Cell.X, Cell.O, Cell.O, Cell.O, Cell.X, Cell.X] humanPlayer = true :=
  oGuar_all_intro 1 _ (by decide) (by decide)
    (all_cons_intro _ _ _ og27 (all_nil_true _))

theorem og634 : oGuar 3 [Cell.E, Cell.O, Cell.X, Cell.X, Cell.O, Cell.E, Cell.O, Cell.X, Cell.X] aiPlayer = true :=
  oGuar_any_intro 2 _ 5 (by decide) (by decide) (by decide) og633

theorem og635 : oGuar 4 [Cell.E, Cell.O, Cell.X, Cell.X, Cell.O, Cell.E, Cell.O, Cell.X, Cell.E] humanPlayer = true :=
  oGuar_all_intro 3 _ (by decide) (by decide)
    (all_cons_intro _ _ _ og29 (all_cons_intro _ _ _ og632 (all_cons_intro _ _ _ og634 (all_nil_true _))))

theorem og636 : oGuar 5 [Cell.E, Cell.O, Cell.X, Cell.X, Cell.E, Cell.E, Cell.O, Cell.X, Cell.E] aiPlayer = true :=
  oGuar_any_intro 4 _ 4 (by decide) (by decide) (by decide) og635

theorem og637 : oGuar 5 [Cell.E, Cell.O, Cell.X, Cell.E, Cell.X, Cell.E, Cell.O, Cell.X, Cell.E] aiPlayer = true :=
  oGuar_any_intro 4 _ 0 (by decide) (by decide) (by decide) og433

theorem og638 : oGuar 2 [Cell.X, Cell.O, Cell.X, Cell.O, Cell.E, Cell.X, Cell.O, Cell.X, Cell.O] humanPlayer = true :=
  oGuar_all_intro 1 _ (by decide) (by decide)
    (all_cons_intro _ _ _ og617 (all_nil_true _))

theorem og639 : oGuar 3 [Cell.X, Cell.O, Cell.X, Cell.E, Cell.E, Cell.X, Cell.O, Cell.X, Cell.O] aiPlayer = true :=
  oGuar_any_intro 2 _ 3 (by decide) (by decide) (by decide) og638

theorem og640 : oGuar 3 [Cell.E, Cell.O, Cell.X, Cell.X, Cell.E, Cell.X, Cell.O, Cell.X, Cell.O] aiPlayer = true :=
  oGuar_any_intro 2 _ 4 (by decide) (by decide) (by decide) og631

theorem og641 : oGuar 2 [Cell.E, Cell.O, Cell.X, Cell.O, Cell.X, Cell.X, Cell.O, Cell.X, Cell.O] humanPlayer = true :=
  oGuar_all_intro 1 _ (by decide) (by decide)
    (all_cons_intro _ _ _ og617 (all_nil_true _))

theorem og642 : oGuar 3 [Cell.E, Cell.O, Cell.X, Cell.E, Cell.X, Cell.X, Cell.O, Cell.X, Cell.O] aiPlayer = true :=
  oGuar_any_intro 2 _ 3 (by decide) (by decide) (by decide) og641

theorem og643 : oGuar 4 [Cell.E, Cell.O, Cell.X, Cell.E, Cell.E, Cell.X, Cell.O, Cell.X, Cell.O] humanPlayer = true :=
  oGuar_all_intro 3 _ (by decide) (by decide)
    (all_cons_intro _ _ _ og639 (all_cons_intro _ _ _ og640 (all_cons_intro _ _ _ og642 (all_nil_true _))))

theorem og644 : oGuar 5 [Cell.E, Cell.O, Cell.X, Cell.E, Cell.E, Cell.X, Cell.O, Cell.X, Cell.E] aiPlayer = true :=
  oGuar_any_intro 4 _ 8 (by decide) (by decide) (by decide) og643

theorem og645 : oGuar 3 [Cell.X, Cell.O, Cell.X, Cell.E, Cell.E, Cell.O, Cell.O, Cell.X, Cell.X] aiPlayer = true :=
  oGuar_any_intro 2 _ 4 (by decide) (by decide) (by decide) og121

theorem og646 : oGuar 2 [Cell.O, Cell.O, Cell.X, Cell.X, Cell.E, Cell.O, Cell.O, Cell.X, Cell.X] humanPlayer = true :=
  oGuar_all_intro 1 _ (by decide) (by decide)
    (all_cons_intro _ _ _ og349 (all_nil_true _))

theorem og647 : oGuar 3 [Cell.E, Cell.O, Cell.X, Cell.X, Cell.E, Cell.O, Cell.O, Cell.X, Cell.X] aiPlayer = true :=
  oGuar_any_intro 2 _ 0 (by decide) (by decide) (by decide) og646

theorem og648 : oGuar 2 [Cell.O, Cell.O, Cell.X, Cell.E, Cell.X, Cell.O, Cell.O, Cell.X, Cell.X] humanPlayer = true :=
  oGuar_all_intro 1 _ (by decide) (by decide)
    (all_cons_intro _ _ _ og349 (all_nil_true _))

theorem og649 : oGuar 3 [Cell.E, Cell.O, Cell.X, Cell.E, Cell.X, Cell.O, Cell.O, Cell.X, Cell.X] aiPlayer = true :=
  oGuar_any_intro 2 _ 0 (by decide) (by decide) (by decide) og648

theorem og650 : oGuar 4 [Cell.E, Cell.O, Cell.X, Cell.E, Cell.E, Cell.O, Cell.O, Cell.X, Cell.X] humanPlayer = true :=
  oGuar_all_intro 3 _ (by decide) (by decide)
    (all_cons_intro _ _ _ og645 (all_cons_intro _ _ _ og647 (all_cons_intro _ _ _ og649 (all_nil_true _))))

theorem og651 : oGuar 5 [Cell.E, Cell.O, Cell.X, Cell.E, Cell.E, Cell.E, Cell.O, Cell.X, Cell.X] aiPlayer = true :=
  oGuar_any_intro 4 _ 5 (by decide) (by decide) (by decide) og650

theorem og652 : oGuar 6 [Cell.E, Cell.O, Cell.X, Cell.E, Cell.E, Cell.E, Cell.O, Cell.X, Cell.E] humanPlayer = true :=
  oGuar_all_intro 5 _ (by decide) (by decide)
    (all_cons_intro _ _ _ og615 (all_cons_intro _ _ _ og636 (all_cons_intro _ _ _ og637 (all_cons_intro _ _ _ og644 (all_cons_intro _ _ _ og651 (all_nil_true _))))))

theorem og653 : oGuar 7 [Cell.E, Cell.O, Cell.X, Cell.E, Cell.E, Cell.E, Cell.E, Cell.X, Cell.E] aiPlayer = true :=
  oGuar_any_intro 6 _ 6 (by decide) (by decide) (by decide) og652

theorem og654 : oGuar 3 [Cell.X, Cell.O, Cell.E, Cell.X, Cell.X, Cell.O, Cell.O, Cell.X, Cell.E] aiPlayer = true :=
  oGuar_any_intro 2 _ 8 (by decide) (by decide) (by decide) og621

theorem og655 : oGuar 3 [Cell.E, Cell.O, Cell.X, Cell.X, Cell.X, Cell.O, Cell.O, Cell.X, Cell.E] aiPlayer = true :=
  oGuar_any_intro 2 _ 0 (by decide) (by decide) (by decide) og350

theorem og656 : oGuar 2 [Cell.O, Cell.O, Cell.E, Cell.X, Cell.X, Cell.O, Cell.O, Cell.X, Cell.X] humanPlayer = true :=
  oGuar_all_intro 1 _ (by decide) (by decide)
    (all_cons_intro _ _ _ og349 (all_nil_true _))

theorem og657 : oGuar 3 [Cell.E, Cell.O, Cell.E, Cell.X, Cell.X, Cell.O, Cell.O, Cell.X, Cell.X] aiPlayer = true :=
  oGuar_any_intro 2 _ 0 (by decide) (by decide) (by decide) og656

theorem og658 : oGuar 4 [Cell.E, Cell.O, Cell.E, Cell.X, Cell.X, Cell.O, Cell.O, Cell.X, Cell.E] humanPlayer = true :=
  oGuar_all_intro 3 _ (by decide) (by decide)
    (all_cons_intro _ _ _ og654 (all_cons_intro _ _ _ og655 (all_cons_intro _ _ _ og657 (all_nil_true _))))

theorem og659 : oGuar 5 [Cell.E, Cell.O, Cell.E, Cell.X, Cell.X, Cell.E, Cell.O, Cell.X, Cell.E] aiPlayer = true :=
  oGuar_any_intro 4 _ 5 (by decide) (by decide) (by decide) og658

theorem og660 : oGuar 2 [Cell.E, Cell.O, Cell.O, Cell.X, Cell.O, Cell.X, Cell.O, Cell.X, Cell.X] humanPlayer = true :=
  oGuar_winO_intro 1 _ _ (by decide) (by decide)

theorem og661 : oGuar 3 [Cell.E, Cell.O, Cell.E, Cell.X, Cell.O, Cell.X, Cell.O, Cell.X, Cell.X] aiPlayer = true :=
  oGuar_any_intro 2 _ 2 (by decide) (by decide) (by decide) og660

theorem og662 : oGuar 4 [Cell.E, Cell.O, Cell.E, Cell.X, Cell.O, Cell.X, Cell.O, Cell.X, Cell.E] humanPlayer = true :=
  oGuar_all_intro 3 _ (by decide) (by decide)
    (all_cons_intro _ _ _ og61 (all_cons_intro _ _ _ og632 (all_cons_intro _ _ _ og661 (all_nil_true _))))

theorem og663 : oGuar 5 [Cell.E, Cell.O, Cell.E, Cell.X, Cell.E, Cell.X, Cell.O, Cell.X, Cell.E] aiPlayer = true :=
  oGuar_any_intro 4 _ 4 (by decide) (by decide) (by decide) og662

theorem og664 : oGuar 3 [Cell.O, Cell.O, Cell.X, Cell.X, Cell.E, Cell.E, Cell.O, Cell.X, Cell.X] aiPlayer = true :=
  oGuar_any_intro 2 _ 5 (by decide) (by decide) (by decide) og646

theorem og665 : oGuar 2 [Cell.O, Cell.O, Cell.O, Cell.X, Cell.X, Cell.E, Cell.O, Cell.X, Cell.X] humanPlayer = true :=
  oGuar_winO_intro 1 _ _ (by decide) (by decide)

theorem og666 : oGuar 3 [Cell.O, Cell.O, Cell.E, Cell.X, Cell.X, Cell.E, Cell.O, Cell.X, Cell.X] aiPlayer = true :=
  oGuar_any_intro 2 _ 2 (by decide) (by decide) (by decide) og665

theorem og667 : oGuar 2 [Cell.O, Cell.O, Cell.O, Cell.X, Cell.E, Cell.X, Cell.O, Cell.X, Cell.X] humanPlayer = true :=
  oGuar_winO_intro 1 _ _ (by decide) (by decide)

theorem og668 : oGuar 3 [Cell.O, Cell.O, Cell.E, Cell.X, Cell.E, Cell.X, Cell.O, Cell.X, Cell.X] aiPlayer = true :=
  oGuar_any_intro 2 _ 2 (by decide) (by decide) (by decide) og667

theorem og669 : oGuar 4 [Cell.O, Cell.O, Cell.E, Cell.X, Cell.E, Cell.E, Cell.O, Cell.X, Cell.X] humanPlayer = true :=
  oGuar_all_intro 3 _ (by decide) (by decide)
    (all_cons_intro _ _ _ og664 (all_cons_intro _ _ _ og666 (all_cons_intro _ _ _ og668 (all_nil_true _))))

theorem og670 : oGuar 5 [Cell.E, Cell.O, Cell.E, Cell.X, Cell.E, Cell.E, Cell.O, Cell.X, Cell.X] aiPlayer = true :=
  oGuar_any_intro 4 _ 0 (by decide) (by decide) (by decide) og669

theorem og671 : oGuar 6 [Cell.E, Cell.O, Cell.E, Cell.X, Cell.E, Cell.E, Cell.O, Cell.X, Cell.E] humanPlayer = true :=
  oGuar_all_intro 5 _ (by decide) (by decide)
    (all_cons_intro _ _ _ og616 (all_cons_intro _ _ _ og636 (all_cons_intro _ _ _ og659 (all_cons_intro _ _ _ og663 (all_cons_intro _ _ _ og670 (all_nil_true _))))))

theorem og672 : oGuar 7 [Cell.E, Cell.O, Cell.E, Cell.X, Cell.E, Cell.E, Cell.E, Cell.X, Cell.E] aiPlayer = true :=
  oGuar_any_intro 6 _ 6 (by decide) (by decide) (by decide) og671

theorem og673 : oGuar 7 [Cell.E, Cell.O, Cell.E, Cell.E, Cell.X, Cell.E, Cell.E, Cell.X, Cell.E] aiPlayer = true :=
  oGuar_any_intro 6 _ 0 (by decide) (by decide) (by decide) og479

theorem og674 : oGuar 3 [Cell.X, Cell.O, Cell.E, Cell.O, Cell.X, Cell.X, Cell.O, Cell.X, Cell.E] aiPlayer = true :=
  oGuar_any_intro 2 _ 8 (by decide) (by decide) (by decide) og623

theorem og675 : oGuar 3 [Cell.E, Cell.O, Cell.X, Cell.O, Cell.X, Cell.X, Cell.O, Cell.X, Cell.E] aiPlayer = true :=
  oGuar_any_intro 2 _ 0 (by decide) (by decide) (by decide) og429

theorem og676 : oGuar 2 [Cell.O, Cell.O, Cell.E, Cell.O, Cell.X, Cell.X, Cell.O, Cell.X, Cell.X] humanPlayer = true :=
  oGuar_winO_intro 1 _ _ (by decide) (by decide)

theorem og677 : oGuar 3 [Cell.E, Cell.O, Cell.E, Cell.O, Cell.X, Cell.X, Cell.O, Cell.X, Cell.X] aiPlayer = true :=
  oGuar_any_intro 2 _ 0 (by decide) (by decide) (by decide) og676

theorem og678 : oGuar 4 [Cell.E, Cell.O, Cell.E, Cell.O, Cell.X, Cell.X, Cell.O, Cell.X, Cell.E] humanPlayer = true :=
  oGuar_all_intro 3 _ (by decide) (by decide)
    (all_cons_intro _ _ _ og674 (all_cons_intro _ _ _ og675 (all_cons_intro _ _ _ og677 (all_nil_true _))))

theorem og679 : oGuar 5 [Cell.E, Cell.O, Cell.E, Cell.E, Cell.X, Cell.X, Cell.O, Cell.X, Cell.E] aiPlayer = true :=
  oGuar_any_intro 4 _ 3 (by decide) (by decide) (by decide) og678

theorem og680 : oGuar 3 [Cell.X, Cell.O, Cell.O, Cell.E, Cell.E, Cell.X, Cell.O, Cell.X, Cell.X] aiPlayer = true :=
  oGuar_any_intro 2 _ 4 (by decide) (by decide) (by decide) og84

theorem og681 : oGuar 3 [Cell.E, Cell.O, Cell.O, Cell.X, Cell.E, Cell.X, Cell.O, Cell.X, Cell.X] aiPlayer = true :=
  oGuar_any_intro 2 _ 0 (by decide) (by decide) (by decide) og667

theorem og682 : oGuar 2 [Cell.O, Cell.O, Cell.O, Cell.E, Cell.X, Cell.X, Cell.O, Cell.X, Cell.X] humanPlayer = true :=
  oGuar_winO_intro 1 _ _ (by decide) (by decide)

theorem og683 : oGuar 3 [Cell.E, Cell.O, Cell.O, Cell.E, Cell.X, Cell.X, Cell.O, Cell.X, Cell.X] aiPlayer = true :=
  oGuar_any_intro 2 _ 0 (by decide) (by decide) (by decide) og682

theorem og684 : oGuar 4 [Cell.E, Cell.O, Cell.O, Cell.E, Cell.E, Cell.X, Cell.O, Cell.X, Cell.X] humanPlayer = true :=
  oGuar_all_intro 3 _ (by decide) (by decide)
    (all_cons_intro _ _ _ og680 (all_cons_intro _ _ _ og681 (all_cons_intro _ _ _ og683 (all_nil_true _))))

theorem og685 : oGuar 5 [Cell.E, Cell.O, Cell.E, Cell.E, Cell.E, Cell.X, Cell.O, Cell.X, Cell.X] aiPlayer = true :=
  oGuar_any_intro 4 _ 2 (by decide) (by decide) (by decide) og684

theorem og686 : oGuar 6 [Cell.E, Cell.O, Cell.E, Cell.E, Cell.E, Cell.X, Cell.O, Cell.X, Cell.E] humanPlayer = true :=
  oGuar_all_intro 5 _ (by decide) (by decide)
    (all_cons_intro _ _ _ og627 (all_cons_intro _ _ _ og644 (all_cons_intro _ _ _ og663 (all_cons_intro _ _ _ og679 (all_cons_intro _ _ _ og685 (all_nil_true _))))))

theorem og687 : oGuar 7 [Cell.E, Cell.O, Cell.E, Cell.E, Cell.E, Cell.X, Cell.E, Cell.X, Cell.E] aiPlayer = true :=
  oGuar_any_intro 6 _ 6 (by decide) (by decide) (by decide) og686

theorem og688 : oGuar 3 [Cell.X, Cell.O, Cell.X, Cell.O, Cell.E, Cell.E, Cell.X, Cell.X, Cell.O] aiPlayer = true :=
  oGuar_any_intro 2 _ 4 (by decide) (by decide) (by decide) og311

theorem og689 : oGuar 2 [Cell.X, Cell.O, Cell.O, Cell.O, Cell.X, Cell.E, Cell.X, Cell.X, Cell.O] humanPlayer = true :=
  oGuar_all_intro 1 _ (by decide) (by decide)
    (all_cons_intro _ _ _ og493 (all_nil_true _))

theorem og690 : oGuar 3 [Cell.X, Cell.O, Cell.E, Cell.O, Cell.X, Cell.E, Cell.X, Cell.X, Cell.O] aiPlayer = true :=
  oGuar_any_intro 2 _ 2 (by decide) (by decide) (by decide) og689

theorem og691 : oGuar 2 [Cell.X, Cell.O, Cell.O, Cell.O, Cell.E, Cell.X, Cell.X, Cell.X, Cell.O] humanPlayer = true :=
  oGuar_all_intro 1 _ (by decide) (by decide)
    (all_cons_intro _ _ _ og493 (all_nil_true _))

theorem og692 : oGuar 3 [Cell.X, Cell.O, Cell.E, Cell.O, Cell.E, Cell.X, Cell.X, Cell.X, Cell.O] aiPlayer = true :=
  oGuar_any_intro 2 _ 2 (by decide) (by decide) (by decide) og691

theorem og693 : oGuar 4 [Cell.X, Cell.O, Cell.E, Cell.O, Cell.E, Cell.E, Cell.X, Cell.X, Cell.O] humanPlayer = true :=
  oGuar_all_intro 3 _ (by decide) (by decide)
    (all_cons_intro _ _ _ og688 (all_cons_intro _ _ _ og690 (all_cons_intro _ _ _ og692 (all_nil_true _))))

theorem og694 : oGuar 5 [Cell.X, Cell.O, Cell.E, Cell.E, Cell.E, Cell.E, Cell.X, Cell.X, Cell.O] aiPlayer = true :=
  oGuar_any_intro 4 _ 3 (by decide) (by decide) (by decide) og693

theorem og695 : oGuar 5 [Cell.E, Cell.O, Cell.X, Cell.E, Cell.E, Cell.E, Cell.X, Cell.X, Cell.O] aiPlayer = true :=
  oGuar_any_intro 4 _ 4 (by decide) (by decide) (by decide) og316

theorem og696 : oGuar 3 [Cell.O, Cell.O, Cell.X, Cell.X, Cell.E, Cell.E, Cell.X, Cell.X, Cell.O] aiPlayer = true :=
  oGuar_any_intro 2 _ 4 (by decide) (by decide) (by decide) og275

theorem og697 : oGuar 2 [Cell.O, Cell.O, Cell.O, Cell.X, Cell.X, Cell.E, Cell.X, Cell.X, Cell.O] humanPlayer = true :=
  oGuar_winO_intro 1 _ _ (by decide) (by decide)

theorem og698 : oGuar 3 [Cell.O, Cell.O, Cell.E, Cell.X, Cell.X, Cell.E, Cell.X, Cell.X, Cell.O] aiPlayer = true :=
  oGuar_any_intro 2 _ 2 (by decide) (by decide) (by decide) og697

theorem og699 : oGuar 2 [Cell.O, Cell.O, Cell.O, Cell.X, Cell.E, Cell.X, Cell.X, Cell.X, Cell.O] humanPlayer = true :=
  oGuar_winO_intro 1 _ _ (by decide) (by decide)

theorem og700 : oGuar 3 [Cell.O, Cell.O, Cell.E, Cell.X, Cell.E, Cell.X, Cell.X, Cell.X, Cell.O] aiPlayer = true :=
  oGuar_any_intro 2 _ 2 (by decide) (by decide) (by decide) og699

theorem og701 : oGuar 4 [Cell.O, Cell.O, Cell.E, Cell.X, Cell.E, Cell.E, Cell.X, Cell.X, Cell.O] humanPlayer = true :=
  oGuar_all_intro 3 _ (by decide) (by decide)
    (all_cons_intro _ _ _ og696 (all_cons_intro _ _ _ og698 (all_cons_intro _ _ _ og700 (all_nil_true _))))

theorem og702 : oGuar 5 [Cell.E, Cell.O, Cell.E, Cell.X, Cell.E, Cell.E, Cell.X, Cell.X, Cell.O] aiPlayer = true :=
  oGuar_any_intro 4 _ 0 (by decide) (by decide) (by decide) og701

theorem og703 : oGuar 3 [Cell.X, Cell.O, Cell.O, Cell.E, Cell.X, Cell.E, Cell.X, Cell.X, Cell.O] aiPlayer = true :=
  oGuar_any_intro 2 _ 3 (by decide) (by decide) (by decide) og689

theorem og704 : oGuar 3 [Cell.E, Cell.O, Cell.O, Cell.X, Cell.X, Cell.E, Cell.X, Cell.X, Cell.O] aiPlayer = true :=
  oGuar_any_intro 2 _ 0 (by decide) (by decide) (by decide) og697

theorem og705 : oGuar 2 [Cell.O, Cell.O, Cell.O, Cell.E, Cell.X, Cell.X, Cell.X, Cell.X, Cell.O] humanPlayer = true :=
  oGuar_winO_intro 1 _ _ (by decide) (by decide)

theorem og706 : oGuar 3 [Cell.E, Cell.O, Cell.O, Cell.E, Cell.X, Cell.X, Cell.X, Cell.X, Cell.O] aiPlayer = true :=
  oGuar_any_intro 2 _ 0 (by decide) (by decide) (by decide) og705

theorem og707 : oGuar 4 [Cell.E, Cell.O, Cell.O, Cell.E, Cell.X, Cell.E, Cell.X, Cell.X, Cell.O] humanPlayer = true :=
  oGuar_all_intro 3 _ (by decide) (by decide)
    (all_cons_intro _ _ _ og703 (all_cons_intro _ _ _ og704 (all_cons_intro _ _ _ og706 (all_nil_true _))))

theorem og708 : oGuar 5 [Cell.E, Cell.O, Cell.E, Cell.E, Cell.X, Cell.E, Cell.X, Cell.X, Cell.O] aiPlayer = true :=
  oGuar_any_intro 4 _ 2 (by decide) (by decide) (by decide) og707

theorem og709 : oGuar 3 [Cell.O, Cell.O, Cell.X, Cell.E, Cell.E, Cell.X, Cell.X, Cell.X, Cell.O] aiPlayer = true :=
  oGuar_any_intro 2 _ 4 (by decide) (by decide) (by decide) og314

theorem og710 : oGuar 3 [Cell.O, Cell.O, Cell.E, Cell.E, Cell.X, Cell.X, Cell.X, Cell.X, Cell.O] aiPlayer = true :=
  oGuar_any_intro 2 _ 2 (by decide) (by decide) (by decide) og705

theorem og711 : oGuar 4 [Cell.O, Cell.O, Cell.E, Cell.E, Cell.E, Cell.X, Cell.X, Cell.X, Cell.O] humanPlayer = true :=
  oGuar_all_intro 3 _ (by decide) (by decide)
    (all_cons_intro _ _ _ og709 (all_cons_intro _ _ _ og700 (all_cons_intro _ _ _ og710 (all_nil_true _))))

theorem og712 : oGuar 5 [Cell.E, Cell.O, Cell.E, Cell.E, Cell.E, Cell.X, Cell.X, Cell.X, Cell.O] aiPlayer = true :=
  oGuar_any_intro 4 _ 0 (by decide) (by decide) (by decide) og711

theorem og713 : oGuar 6 [Cell.E, Cell.O, Cell.E, Cell.E, Cell.E, Cell.E, Cell.X, Cell.X, Cell.O] humanPlayer = true :=
  oGuar_all_intro 5 _ (by decide) (by decide)
    (all_cons_intro _ _ _ og694 (all_cons_intro _ _ _ og695 (all_cons_intro _ _ _ og702 (all_cons_intro _ _ _ og708 (all_cons_intro _ _ _ og712 (all_nil_true _))))))

theorem og714 : oGuar 7 [Cell.E, Cell.O, Cell.E, Cell.E, Cell.E, Cell.E, Cell.X, Cell.X, Cell.E] aiPlayer = true :=
  oGuar_any_intro 6 _ 8 (by decide) (by decide) (by decide) og713

theorem og715 : oGuar 3 [Cell.O, Cell.O, Cell.E, Cell.E, Cell.X, Cell.X, Cell.O, Cell.X, Cell.X] aiPlayer = true :=
  oGuar_any_intro 2 _ 2 (by decide) (by decide) (by decide) og682

theorem og716 : oGuar 4 [Cell.O, Cell.O, Cell.E, Cell.E, Cell.X, Cell.E, Cell.O, Cell.X, Cell.X] humanPlayer = true :=
  oGuar_all_intro 3 _ (by decide) (by decide)
    (all_cons_intro _ _ _ og432 (all_cons_intro _ _ _ og666 (all_cons_intro _ _ _ og715 (all_nil_true _))))

theorem og717 : oGuar 5 [Cell.E, Cell.O, Cell.E, Cell.E, Cell.X, Cell.E, Cell.O, Cell.X, Cell.X] aiPlayer = true :=
  oGuar_any_intro 4 _ 0 (by decide) (by decide) (by decide) og716

theorem og718 : oGuar 6 [Cell.E, Cell.O, Cell.E, Cell.E, Cell.E, Cell.E, Cell.O, Cell.X, Cell.X] humanPlayer = true :=
  oGuar_all_intro 5 _ (by decide) (by decide)
    (all_cons_intro _ _ _ og628 (all_cons_intro _ _ _ og651 (all_cons_intro _ _ _ og670 (all_cons_intro _ _ _ og717 (all_cons_intro _ _ _ og685 (all_nil_true _))))))

theorem og719 : oGuar 7 [Cell.E, Cell.O, Cell.E, Cell.E, Cell.E, Cell.E, Cell.E, Cell.X, Cell.X] aiPlayer = true :=
  oGuar_any_intro 6 _ 6 (by decide) (by decide) (by decide) og718

theorem og720 : oGuar 8 [Cell.E, Cell.O, Cell.E, Cell.E, Cell.E, Cell.E, Cell.E, Cell.X, Cell.E] humanPlayer = true :=
  oGuar_all_intro 7 _ (by decide) (by decide)
    (all_cons_intro _ _ _ og630 (all_cons_intro _ _ _ og653 (all_cons_intro _ _ _ og672 (all_cons_intro _ _ _ og673 (all_cons_intro _ _ _ og687 (all_cons_intro _ _ _ og714 (all_cons_intro _ _ _ og719 (all_nil_true _))))))))

theorem og721 : oGuar 9 [Cell.E, Cell.E, Cell.E, Cell.E, Cell.E, Cell.E, Cell.E, Cell.X, Cell.E] aiPlayer = true :=
  oGuar_any_intro 8 _ 1 (by decide) (by decide) (by decide) og720

theorem og722 : oGuar 7 [Cell.E, Cell.X, Cell.E, Cell.E, Cell.O, Cell.E, Cell.E, Cell.E, Cell.X] aiPlayer = true :=
  oGuar_any_intro 6 _ 0 (by decide) (by decide) (by decide) og265

theorem og723 : oGuar 3 [Cell.O, Cell.E, Cell.X, Cell.X, Cell.O, Cell.E, Cell.O, Cell.X, Cell.X] aiPlayer = true :=
  oGuar_any_intro 2 _ 5 (by decide) (by decide) (by decide) og283

theorem og724 : oGuar 2 [Cell.O, Cell.E, Cell.O, Cell.X, Cell.O, Cell.X, Cell.O, Cell.X, Cell.X] humanPlayer = true :=
  oGuar_winO_intro 1 _ _ (by decide) (by decide)

theorem og725 : oGuar 3 [Cell.O, Cell.E, Cell.E, Cell.X, Cell.O, Cell.X, Cell.O, Cell.X, Cell.X] aiPlayer = true :=
  oGuar_any_intro 2 _ 2 (by decide) (by decide) (by decide) og724

theorem og726 : oGuar 4 [Cell.O, Cell.E, Cell.E, Cell.X, Cell.O, Cell.E, Cell.O, Cell.X, Cell.X] humanPlayer = true :=
  oGuar_all_intro 3 _ (by decide) (by decide)
    (all_cons_intro _ _ _ og255 (all_cons_intro _ _ _ og723 (all_cons_intro _ _ _ og725 (all_nil_true _))))

theorem og727 : oGuar 5 [Cell.O, Cell.E, Cell.E, Cell.X, Cell.O, Cell.E, Cell.E, Cell.X, Cell.X] aiPlayer = true :=
  oGuar_any_intro 4 _ 6 (by decide) (by decide) (by decide) og726

theorem og728 : oGuar 6 [Cell.O, Cell.E, Cell.E, Cell.X, Cell.O, Cell.E, Cell.E, Cell.E, Cell.X] humanPlayer = true :=
  oGuar_all_intro 5 _ (by decide) (by decide)
    (all_cons_intro _ _ _ og185 (all_cons_intro _ _ _ og290 (all_cons_intro _ _ _ og390 (all_cons_intro _ _ _ og578 (all_cons_intro _ _ _ og727 (all_nil_true _))))))

theorem og729 : oGuar 7 [Cell.E, Cell.E, Cell.E, Cell.X, Cell.O, Cell.E, Cell.E, Cell.E, Cell.X] aiPlayer = true :=
  oGuar_any_intro 6 _ 0 (by decide) (by decide) (by decide) og728

theorem og730 : oGuar 5 [Cell.X, Cell.E, Cell.O, Cell.E, Cell.O, Cell.X, Cell.E, Cell.E, Cell.X] aiPlayer = true :=
  oGuar_any_intro 4 _ 1 (by decide) (by decide) (by decide) og92

theorem og731 : oGuar 5 [Cell.E, Cell.X, Cell.O, Cell.E, Cell.O, Cell.X, Cell.E, Cell.E, Cell.X] aiPlayer = true :=
  oGuar_any_intro 4 _ 0 (by decide) (by decide) (by decide) og237

theorem og732 : oGuar 3 [Cell.X, Cell.E, Cell.O, Cell.E, Cell.O, Cell.X, Cell.X, Cell.O, Cell.X] aiPlayer = true :=
  oGuar_any_intro 2 _ 1 (by decide) (by decide) (by decide) og89

theorem og733 : oGuar 3 [Cell.E, Cell.X, Cell.O, Cell.E, Cell.O, Cell.X, Cell.X, Cell.O, Cell.X] aiPlayer = true :=
  oGuar_any_intro 2 _ 0 (by decide) (by decide) (by decide) og229

theorem og734 : oGuar 2 [Cell.O, Cell.E, Cell.O, Cell.X, Cell.O, Cell.X, Cell.X, Cell.O, Cell.X] humanPlayer = true :=
  oGuar_all_intro 1 _ (by decide) (by decide)
    (all_cons_intro _ _ _ og165 (all_nil_true _))

theorem og735 : oGuar 3 [Cell.E, Cell.E, Cell.O, Cell.X, Cell.O, Cell.X, Cell.X, Cell.O, Cell.X] aiPlayer = true :=
  oGuar_any_intro 2 _ 0 (by decide) (by decide) (by decide) og734

theorem og736 : oGuar 4 [Cell.E, Cell.E, Cell.O, Cell.E, Cell.O, Cell.X, Cell.X, Cell.O, Cell.X] humanPlayer = true :=
  oGuar_all_intro 3 _ (by decide) (by decide)
    (all_cons_intro _ _ _ og732 (all_cons_intro _ _ _ og733 (all_cons_intro _ _ _ og735 (all_nil_true _))))

theorem og737 : oGuar 5 [Cell.E, Cell.E, Cell.O, Cell.E, Cell.O, Cell.X, Cell.X, Cell.E, Cell.X] aiPlayer = true :=
  oGuar_any_intro 4 _ 7 (by decide) (by decide) (by decide) og736

theorem og738 : oGuar 4 [Cell.E, Cell.E, Cell.O, Cell.E, Cell.O, Cell.X, Cell.O, Cell.X, Cell.X] humanPlayer = true :=
  oGuar_winO_intro 3 _ _ (by decide) (by decide)

theorem og739 : oGuar 5 [Cell.E, Cell.E, Cell.O, Cell.E, Cell.O, Cell.X, Cell.E, Cell.X, Cell.X] aiPlayer = true :=
  oGuar_any_intro 4 _ 6 (by decide) (by decide) (by decide) og738

theorem og740 : oGuar 6 [Cell.E, Cell.E, Cell.O, Cell.E, Cell.O, Cell.X, Cell.E, Cell.E, Cell.X] humanPlayer = true :=
  oGuar_all_intro 5 _ (by decide) (by decide)
    (all_cons_intro _ _ _ og730 (all_cons_intro _ _ _ og731 (all_cons_intro _ _ _ og540 (all_cons_intro _ _ _ og737 (all_cons_intro _ _ _ og739 (all_nil_true _))))))

theorem og741 : oGuar 7 [Cell.E, Cell.E, Cell.E, Cell.E, Cell.O, Cell.X, Cell.E, Cell.E, Cell.X] aiPlayer = true :=
  oGuar_any_intro 6 _ 2 (by decide) (by decide) (by decide) og740

theorem og742 : oGuar 5 [Cell.X, Cell.E, Cell.E, Cell.E, Cell.O, Cell.E, Cell.O, Cell.X, Cell.X] aiPlayer = true :=
  oGuar_any_intro 4 _ 1 (by decide) (by decide) (by decide) og123

theorem og743 : oGuar 5 [Cell.E, Cell.X, Cell.E, Cell.E, Cell.O, Cell.E, Cell.O, Cell.X, Cell.X] aiPlayer = true :=
  oGuar_any_intro 4 _ 0 (by decide) (by decide) (by decide) og257

theorem og744 : oGuar 3 [Cell.X, Cell.E, Cell.X, Cell.E, Cell.O, Cell.O, Cell.O, Cell.X, Cell.X] aiPlayer = true :=
  oGuar_any_intro 2 _ 1 (by decide) (by decide) (by decide) og121

theorem og745 : oGuar 2 [Cell.O, Cell.X, Cell.X, Cell.E, Cell.O, Cell.O, Cell.O, Cell.X, Cell.X] humanPlayer = true :=
  oGuar_all_intro 1 _ (by decide) (by decide)
    (all_cons_intro _ _ _ og158 (all_nil_true _))

theorem og746 : oGuar 3 [Cell.E, Cell.X, Cell.X, Cell.E, Cell.O, Cell.O, Cell.O, Cell.X, Cell.X] aiPlayer = true :=
  oGuar_any_intro 2 _ 0 (by decide) (by decide) (by decide) og745

theorem og747 : oGuar 3 [Cell.E, Cell.E, Cell.X, Cell.X, Cell.O, Cell.O, Cell.O, Cell.X, Cell.X] aiPlayer = true :=
  oGuar_any_intro 2 _ 0 (by decide) (by decide) (by decide) og283

theorem og748 : oGuar 4 [Cell.E, Cell.E, Cell.X, Cell.E, Cell.O, Cell.O, Cell.O, Cell.X, Cell.X] humanPlayer = true :=
  oGuar_all_intro 3 _ (by decide) (by decide)
    (all_cons_intro _ _ _ og744 (all_cons_intro _ _ _ og746 (all_cons_intro _ _ _ og747 (all_nil_true _))))

theorem og749 : oGuar 5 [Cell.E, Cell.E, Cell.X, Cell.E, Cell.O, Cell.E, Cell.O, Cell.X, Cell.X] aiPlayer = true :=
  oGuar_any_intro 4 _ 5 (by decide) (by decide) (by decide) og748

theorem og750 : oGuar 5 [Cell.E, Cell.E, Cell.E, Cell.X, Cell.O, Cell.E, Cell.O, Cell.X, Cell.X] aiPlayer = true :=
  oGuar_any_intro 4 _ 0 (by decide) (by decide) (by decide) og726

theorem og751 : oGuar 5 [Cell.E, Cell.E, Cell.E, Cell.E, Cell.O, Cell.X, Cell.O, Cell.X, Cell.X] aiPlayer = true :=
  oGuar_any_intro 4 _ 2 (by decide) (by decide) (by decide) og738

theorem og752 : oGuar 6 [Cell.E, Cell.E, Cell.E, Cell.E, Cell.O, Cell.E, Cell.O, Cell.X, Cell.X] humanPlayer = true :=
  oGuar_all_intro 5 _ (by decide) (by decide)
    (all_cons_intro _ _ _ og742 (all_cons_intro _ _ _ og743 (all_cons_intro _ _ _ og749 (all_cons_intro _ _ _ og750 (all_cons_intro _ _ _ og751 (all_nil_true _))))))

theorem og753 : oGuar 7 [Cell.E, Cell.E, Cell.E, Cell.E, Cell.O, Cell.E, Cell.E, Cell.X, Cell.X] aiPlayer = true :=
  oGuar_any_intro 6 _ 6 (by decide) (by decide) (by decide) og752

theorem og754 : oGuar 8 [Cell.E, Cell.E, Cell.E, Cell.E, Cell.O, Cell.E, Cell.E, Cell.E, Cell.X] humanPlayer = true :=
  oGuar_all_intro 7 _ (by decide) (by decide)
    (all_cons_intro _ _ _ og126 (all_cons_intro _ _ _ og722 (all_cons_intro _ _ _ og343 (all_cons_intro _ _ _ og729 (all_cons_intro _ _ _ og741 (all_cons_intro _ _ _ og611 (all_cons_intro _ _ _ og753 (all_nil_true _))))))))

theorem og755 : oGuar 9 [Cell.E, Cell.E, Cell.E, Cell.E, Cell.E, Cell.E, Cell.E, Cell.E, Cell.X] aiPlayer = true :=
  oGuar_any_intro 8 _ 4 (by decide) (by decide) (by decide) og754

theorem og756 : oGuar 10 [Cell.E, Cell.E, Cell.E, Cell.E, Cell.E, Cell.E, Cell.E, Cell.E, Cell.E] humanPlayer = true :=
  oGuar_all_intro 9 _ (by decide) (by decide)
    (all_cons_intro _ _ _ og128 (all_cons_intro _ _ _ og268 (all_cons_intro _ _ _ og345 (all_cons_intro _ _ _ og423 (all_cons_intro _ _ _ og488 (all_cons_intro _ _ _ og570 (all_cons_intro _ _ _ og613 (all_cons_intro _ _ _ og721 (all_cons_intro _ _ _ og755 (all_nil_true _))))))))))

theorem og757 : oGuar 3 [Cell.O, Cell.X, Cell.O, Cell.X, Cell.O, Cell.X, Cell.O, Cell.E, Cell.E] humanPlayer = true :=
  oGuar_winO_intro 2 _ _ (by decide) (by decide)

theorem og758 : oGuar 4 [Cell.O, Cell.X, Cell.O, Cell.X, Cell.O, Cell.X, Cell.E, Cell.E, Cell.E] aiPlayer = true :=
  oGuar_any_intro 3 _ 6 (by decide) (by decide) (by decide) og757

theorem og759 : oGuar 1 [Cell.O, Cell.X, Cell.O, Cell.X, Cell.O, Cell.O, Cell.X, Cell.X, Cell.O] humanPlayer = true :=
  oGuar_winO_intro 0 _ _ (by decide) (by decide)

theorem og760 : oGuar 2 [Cell.O, Cell.X, Cell.O, Cell.X, Cell.O, Cell.O, Cell.X, Cell.X, Cell.E] aiPlayer = true :=
  oGuar_any_intro 1 _ 8 (by decide) (by decide) (by decide) og759

theorem og761 : oGuar 1 [Cell.O, Cell.X, Cell.O, Cell.X, Cell.O, Cell.O, Cell.X, Cell.O, Cell.X] humanPlayer = true :=
  oGuar_draw_intro 0 _ _ (by decide) (by decide) (by decide)

theorem og762 : oGuar 2 [Cell.O, Cell.X, Cell.O, Cell.X, Cell.O, Cell.O, Cell.X, Cell.E, Cell.X] aiPlayer = true :=
  oGuar_any_intro 1 _ 7 (by decide) (by decide) (by decide) og761

theorem og763 : oGuar 3 [Cell.O, Cell.X, Cell.O, Cell.X, Cell.O, Cell.O, Cell.X, Cell.E, Cell.E] humanPlayer = true :=
  oGuar_all_intro 2 _ (by decide) (by decide)
    (all_cons_intro _ _ _ og760 (all_cons_intro _ _ _ og762 (all_nil_true _)))

theorem og764 : oGuar 4 [Cell.O, Cell.X, Cell.O, Cell.X, Cell.O, Cell.E, Cell.X, Cell.E, Cell.E] aiPlayer = true :=
  oGuar_any_intro 3 _ 5 (by decide) (by decide) (by decide) og763

theorem og765 : oGuar 1 [Cell.O, Cell.X, Cell.O, Cell.X, Cell.O, Cell.O, Cell.O, Cell.X, Cell.X] humanPlayer = true :=
  oGuar_winO_intro 0 _ _ (by decide) (by decide)

theorem og766 : oGuar 2 [Cell.O, Cell.X, Cell.O, Cell.X, Cell.O, Cell.O, Cell.E, Cell.X, Cell.X] aiPlayer = true :=
  oGuar_any_intro 1 _ 6 (by decide) (by decide) (by decide) og765

theorem og767 : oGuar 3 [Cell.O, Cell.X, Cell.O, Cell.X, Cell.O, Cell.O, Cell.E, Cell.X, Cell.E] humanPlayer = true :=
  oGuar_all_intro 2 _ (by decide) (by decide)
    (all_cons_intro _ _ _ og760 (all_cons_intro _ _ _ og766 (all_nil_true _)))

theorem og768 : oGuar 4 [Cell.O, Cell.X, Cell.O, Cell.X, Cell.O, Cell.E, Cell.E, Cell.X, Cell.E] aiPlayer = true :=
  oGuar_any_intro 3 _ 5 (by decide) (by decide) (by decide) og767

theorem og769 : oGuar 3 [Cell.O, Cell.X, Cell.O, Cell.X, Cell.O, Cell.O, Cell.E, Cell.E, Cell.X] humanPlayer = true :=
  oGuar_all_intro 2 _ (by decide) (by decide)
    (all_cons_intro _ _ _ og762 (all_cons_intro _ _ _ og766 (all_nil_true _)))

theorem og770 : oGuar 4 [Cell.O, Cell.X, Cell.O, Cell.X, Cell.O, Cell.E, Cell.E, Cell.E, Cell.X] aiPlayer = true :=
  oGuar_any_intro 3 _ 5 (by decide) (by decide) (by decide) og769

theorem og771 : oGuar 5 [Cell.O, Cell.X, Cell.O, Cell.X, Cell.O, Cell.E, Cell.E, Cell.E, Cell.E] humanPlayer = true :=
  oGuar_all_intro 4 _ (by decide) (by decide)
    (all_cons_intro _ _ _ og758 (all_cons_intro _ _ _ og764 (all_cons_intro _ _ _ og768 (all_cons_intro _ _ _ og770 (all_nil_true _)))))

theorem og772 : oGuar 6 [Cell.O, Cell.X, Cell.O, Cell.X, Cell.E, Cell.E, Cell.E, Cell.E, Cell.E] aiPlayer = true :=
  oGuar_any_intro 5 _ 4 (by decide) (by decide) (by decide) og771

theorem og773 : oGuar 1 [Cell.O, Cell.X, Cell.O, Cell.X, Cell.X, Cell.O, Cell.X, Cell.O, Cell.O] humanPlayer = true :=
  oGuar_winO_intro 0 _ _ (by decide) (by decide)

theorem og774 : oGuar 2 [Cell.O, Cell.X, Cell.O, Cell.X, Cell.X, Cell.O, Cell.X, Cell.O, Cell.E] aiPlayer = true :=
  oGuar_any_intro 1 _ 8 (by decide) (by decide) (by decide) og773

theorem og775 : oGuar 1 [Cell.O, Cell.X, Cell.O, Cell.X, Cell.X, Cell.O, Cell.O, Cell.O, Cell.X] humanPlayer = true :=
  oGuar_draw_intro 0 _ _ (by decide) (by decide) (by decide)

theorem og776 : oGuar 2 [Cell.O, Cell.X, Cell.O, Cell.X, Cell.X, Cell.O, Cell.E, Cell.O, Cell.X] aiPlayer = true :=
  oGuar_any_intro 1 _ 6 (by decide) (by decide) (by decide) og775

theorem og777 : oGuar 3 [Cell.O, Cell.X, Cell.O, Cell.X, Cell.X, Cell.O, Cell.E, Cell.O, Cell.E] humanPlayer = true :=
  oGuar_all_intro 2 _ (by decide) (by decide)
    (all_cons_intro _ _ _ og774 (all_cons_intro _ _ _ og776 (all_nil_true _)))

theorem og778 : oGuar 4 [Cell.O, Cell.X, Cell.O, Cell.X, Cell.X, Cell.E, Cell.E, Cell.O, Cell.E] aiPlayer = true :=
  oGuar_any_intro 3 _ 5 (by decide) (by decide) (by decide) og777

theorem og779 : oGuar 1 [Cell.O, Cell.X, Cell.O, Cell.O, Cell.X, Cell.X, Cell.X, Cell.O, Cell.O] humanPlayer = true :=
  oGuar_draw_intro 0 _ _ (by decide) (by decide) (by decide)

theorem og780 : oGuar 2 [Cell.O, Cell.X, Cell.O, Cell.O, Cell.X, Cell.X, Cell.X, Cell.O, Cell.E] aiPlayer = true :=
  oGuar_any_intro 1 _ 8 (by decide) (by decide) (by decide) og779

theorem og781 : oGuar 1 [Cell.O, Cell.X, Cell.O, Cell.O, Cell.X, Cell.X, Cell.O, Cell.O, Cell.X] humanPlayer = true :=
  oGuar_winO_intro 0 _ _ (by decide) (by decide)

theorem og782 : oGuar 2 [Cell.O, Cell.X, Cell.O, Cell.O, Cell.X, Cell.X, Cell.E, Cell.O, Cell.X] aiPlayer = true :=
  oGuar_any_intro 1 _ 6 (by decide) (by decide) (by decide) og781

theorem og783 : oGuar 3 [Cell.O, Cell.X, Cell.O, Cell.O, Cell.X, Cell.X, Cell.E, Cell.O, Cell.E] humanPlayer = true :=
  oGuar_all_intro 2 _ (by decide) (by decide)
    (all_cons_intro _ _ _ og780 (all_cons_intro _ _ _ og782 (all_nil_true _)))

theorem og784 : oGuar 4 [Cell.O, Cell.X, Cell.O, Cell.E, Cell.X, Cell.X, Cell.E, Cell.O, Cell.E] aiPlayer = true :=
  oGuar_any_intro 3 _ 3 (by decide) (by decide) (by decide) og783

theorem og785 : oGuar 1 [Cell.O, Cell.X, Cell.O, Cell.O, Cell.X, Cell.O, Cell.X, Cell.O, Cell.X] humanPlayer = true :=
  oGuar_draw_intro 0 _ _ (by decide) (by decide) (by decide)

theorem og786 : oGuar 2 [Cell.O, Cell.X, Cell.O, Cell.O, Cell.X, Cell.E, Cell.X, Cell.O, Cell.X] aiPlayer = true :=
  oGuar_any_intro 1 _ 5 (by decide) (by decide) (by decide) og785

theorem og787 : oGuar 3 [Cell.O, Cell.X, Cell.O, Cell.O, Cell.X, Cell.E, Cell.X, Cell.O, Cell.E] humanPlayer = true :=
  oGuar_all_intro 2 _ (by decide) (by decide)
    (all_cons_intro _ _ _ og780 (all_cons_intro _ _ _ og786 (all_nil_true _)))

theorem og788 : oGuar 4 [Cell.O, Cell.X, Cell.O, Cell.E, Cell.X, Cell.E, Cell.X, Cell.O, Cell.E] aiPlayer = true :=
  oGuar_any_intro 3 _ 3 (by decide) (by decide) (by decide) og787

theorem og789 : oGuar 3 [Cell.O, Cell.X, Cell.O, Cell.O, Cell.X, Cell.E, Cell.E, Cell.O, Cell.X] humanPlayer = true :=
  oGuar_all_intro 2 _ (by decide) (by decide)
    (all_cons_intro _ _ _ og782 (all_cons_intro _ _ _ og786 (all_nil_true _)))

theorem og790 : oGuar 4 [Cell.O, Cell.X, Cell.O, Cell.E, Cell.X, Cell.E, Cell.E, Cell.O, Cell.X] aiPlayer = true :=
  oGuar_any_intro 3 _ 3 (by decide) (by decide) (by decide) og789

theorem og791 : oGuar 5 [Cell.O, Cell.X, Cell.O, Cell.E, Cell.X, Cell.E, Cell.E, Cell.O, Cell.E] humanPlayer = true :=
  oGuar_all_intro 4 _ (by decide) (by decide)
    (all_cons_intro _ _ _ og778 (all_cons_intro _ _ _ og784 (all_cons_intro _ _ _ og788 (all_cons_intro _ _ _ og790 (all_nil_true _)))))

theorem og792 : oGuar 6 [Cell.O, Cell.X, Cell.O, Cell.E, Cell.X, Cell.E, Cell.E, Cell.E, Cell.E] aiPlayer = true :=
  oGuar_any_intro 5 _ 7 (by decide) (by decide) (by decide) og791

theorem og793 : oGuar 3 [Cell.O, Cell.X, Cell.O, Cell.O, Cell.X, Cell.X, Cell.O, Cell.E, Cell.E] humanPlayer = true :=
  oGuar_winO_intro 2 _ _ (by decide) (by decide)

theorem og794 : oGuar 4 [Cell.O, Cell.X, Cell.O, Cell.O, Cell.X, Cell.X, Cell.E, Cell.E, Cell.E] aiPlayer = true :=
  oGuar_any_intro 3 _ 6 (by decide) (by decide) (by decide) og793

theorem og795 : oGuar 1 [Cell.O, Cell.X, Cell.O, Cell.O, Cell.O, Cell.X, Cell.X, Cell.X, Cell.O] humanPlayer = true :=
  oGuar_winO_intro 0 _ _ (by decide) (by decide)

theorem og796 : oGuar 2 [Cell.O, Cell.X, Cell.O, Cell.O, Cell.O, Cell.X, Cell.X, Cell.X, Cell.E] aiPlayer = true :=
  oGuar_any_intro 1 _ 8 (by decide) (by decide) (by decide) og795

theorem og797 : oGuar 1 [Cell.O, Cell.X, Cell.O, Cell.O, Cell.O, Cell.X, Cell.X, Cell.O, Cell.X] humanPlayer = true :=
  oGuar_draw_intro 0 _ _ (by decide) (by decide) (by decide)

theorem og798 : oGuar 2 [Cell.O, Cell.X, Cell.O, Cell.O, Cell.O, Cell.X, Cell.X, Cell.E, Cell.X] aiPlayer = true :=
  oGuar_any_intro 1 _ 7 (by decide) (by decide) (by decide) og797

theorem og799 : oGuar 3 [Cell.O, Cell.X, Cell.O, Cell.O, Cell.O, Cell.X, Cell.X, Cell.E, Cell.E] humanPlayer = true :=
  oGuar_all_intro 2 _ (by decide) (by decide)
    (all_cons_intro _ _ _ og796 (all_cons_intro _ _ _ og798 (all_nil_true _)))

theorem og800 : oGuar 4 [Cell.O, Cell.X, Cell.O, Cell.O, Cell.E, Cell.X, Cell.X, Cell.E, Cell.E] aiPlayer = true :=
  oGuar_any_intro 3 _ 4 (by decide) (by decide) (by decide) og799

theorem og801 : oGuar 1 [Cell.O, Cell.X, Cell.O, Cell.O, Cell.O, Cell.X, Cell.O, Cell.X, Cell.X] humanPlayer = true :=
  oGuar_winO_intro 0 _ _ (by decide) (by decide)

theorem og802 : oGuar 2 [Cell.O, Cell.X, Cell.O, Cell.O, Cell.O, Cell.X, Cell.E, Cell.X, Cell.X] aiPlayer = true :=
  oGuar_any_intro 1 _ 6 (by decide) (by decide) (by decide) og801

theorem og803 : oGuar 3 [Cell.O, Cell.X, Cell.O, Cell.O, Cell.O, Cell.X, Cell.E, Cell.X, Cell.E] humanPlayer = true :=
  oGuar_all_intro 2 _ (by decide) (by decide)
    (all_cons_intro _ _ _ og796 (all_cons_intro _ _ _ og802 (all_nil_true _)))

theorem og804 : oGuar 4 [Cell.O, Cell.X, Cell.O, Cell.O, Cell.E, Cell.X, Cell.E, Cell.X, Cell.E] aiPlayer = true :=
  oGuar_any_intro 3 _ 4 (by decide) (by decide) (by decide) og803

theorem og805 : oGuar 3 [Cell.O, Cell.X, Cell.O, Cell.O, Cell.O, Cell.X, Cell.E, Cell.E, Cell.X] humanPlayer = true :=
  oGuar_all_intro 2 _ (by decide) (by decide)
    (all_cons_intro _ _ _ og798 (all_cons_intro _ _ _ og802 (all_nil_true _)))

theorem og806 : oGuar 4 [Cell.O, Cell.X, Cell.O, Cell.O, Cell.E, Cell.X, Cell.E, Cell.E, Cell.X] aiPlayer = true :=
  oGuar_any_intro 3 _ 4 (by decide) (by decide) (by decide) og805

theorem og807 : oGuar 5 [Cell.O, Cell.X, Cell.O, Cell.O, Cell.E, Cell.X, Cell.E, Cell.E, Cell.E] humanPlayer = true :=
  oGuar_all_intro 4 _ (by decide) (by decide)
    (all_cons_intro _ _ _ og794 (all_cons_intro _ _ _ og800 (all_cons_intro _ _ _ og804 (all_cons_intro _ _ _ og806 (all_nil_true _)))))

theorem og808 : oGuar 6 [Cell.O, Cell.X, Cell.O, Cell.E, Cell.E, Cell.X, Cell.E, Cell.E, Cell.E] aiPlayer = true :=
  oGuar_any_intro 5 _ 3 (by decide) (by decide) (by decide) og807

theorem og809 : oGuar 4 [Cell.O, Cell.X, Cell.O, Cell.E, Cell.O, Cell.X, Cell.X, Cell.E, Cell.E] aiPlayer = true :=
  oGuar_any_intro 3 _ 3 (by decide) (by decide) (by decide) og799

theorem og810 : oGuar 3 [Cell.O, Cell.X, Cell.O, Cell.E, Cell.O, Cell.E, Cell.X, Cell.X, Cell.O] humanPlayer = true :=
  oGuar_winO_intro 2 _ _ (by decide) (by decide)

theorem og811 : oGuar 4 [Cell.O, Cell.X, Cell.O, Cell.E, Cell.O, Cell.E, Cell.X, Cell.X, Cell.E] aiPlayer = true :=
  oGuar_any_intro 3 _ 8 (by decide) (by decide) (by decide) og810

theorem og812 : oGuar 2 [Cell.O, Cell.X, Cell.O, Cell.X, Cell.O, Cell.E, Cell.X, Cell.O, Cell.X] aiPlayer = true :=
  oGuar_any_intro 1 _ 5 (by decide) (by decide) (by decide) og761

theorem og813 : oGuar 2 [Cell.O, Cell.X, Cell.O, Cell.E, Cell.O, Cell.X, Cell.X, Cell.O, Cell.X] aiPlayer = true :=
  oGuar_any_intro 1 _ 3 (by decide) (by decide) (by decide) og797

theorem og814 : oGuar 3 [Cell.O, Cell.X, Cell.O, Cell.E, Cell.O, Cell.E, Cell.X, Cell.O, Cell.X] humanPlayer = true :=
  oGuar_all_intro 2 _ (by decide) (by decide)
    (all_cons_intro _ _ _ og812 (all_cons_intro _ _ _ og813 (all_nil_true _)))

theorem og815 : oGuar 4 [Cell.O, Cell.X, Cell.O, Cell.E, Cell.O, Cell.E, Cell.X, Cell.E, Cell.X] aiPlayer = true :=
  oGuar_any_intro 3 _ 7 (by decide) (by decide) (by decide) og814

theorem og816 : oGuar 5 [Cell.O, Cell.X, Cell.O, Cell.E, Cell.O, Cell.E, Cell.X, Cell.E, Cell.E] humanPlayer = true :=
  oGuar_all_intro 4 _ (by decide) (by decide)
    (all_cons_intro _ _ _ og764 (all_cons_intro _ _ _ og809 (all_cons_intro _ _ _ og811 (all_cons_intro _ _ _ og815 (all_nil_true _)))))

theorem og817 : oGuar 6 [Cell.O, Cell.X, Cell.O, Cell.E, Cell.E, Cell.E, Cell.X, Cell.E, Cell.E] aiPlayer = true :=
  oGuar_any_intro 5 _ 4 (by decide) (by decide) (by decide) og816

theorem og818 : oGuar 4 [Cell.O, Cell.X, Cell.O, Cell.E, Cell.O, Cell.X, Cell.E, Cell.X, Cell.E] aiPlayer = true :=
  oGuar_any_intro 3 _ 3 (by decide) (by decide) (by decide) og803

theorem og819 : oGuar 3 [Cell.O, Cell.X, Cell.O, Cell.E, Cell.O, Cell.E, Cell.O, Cell.X, Cell.X] humanPlayer = true :=
  oGuar_winO_intro 2 _ _ (by decide) (by decide)

theorem og820 : oGuar 4 [Cell.O, Cell.X, Cell.O, Cell.E, Cell.O, Cell.E, Cell.E, Cell.X, Cell.X] aiPlayer = true :=
  oGuar_any_intro 3 _ 6 (by decide) (by decide) (by decide) og819

theorem og821 : oGuar 5 [Cell.O, Cell.X, Cell.O, Cell.E, Cell.O, Cell.E, Cell.E, Cell.X, Cell.E] humanPlayer = true :=
  oGuar_all_intro 4 _ (by decide) (by decide)
    (all_cons_intro _ _ _ og768 (all_cons_intro _ _ _ og818 (all_cons_intro _ _ _ og811 (all_cons_intro _ _ _ og820 (all_nil_true _)))))

theorem og822 : oGuar 6 [Cell.O, Cell.X, Cell.O, Cell.E, Cell.E, Cell.E, Cell.E, Cell.X, Cell.E] aiPlayer = true :=
  oGuar_any_intro 5 _ 4 (by decide) (by decide) (by decide) og821

theorem og823 : oGuar 3 [Cell.O, Cell.X, Cell.O, Cell.O, Cell.X, Cell.E, Cell.O, Cell.E, Cell.X] humanPlayer = true :=
  oGuar_winO_intro 2 _ _ (by decide) (by decide)

theorem og824 : oGuar 4 [Cell.O, Cell.X, Cell.O, Cell.O, Cell.X, Cell.E, Cell.E, Cell.E, Cell.X] aiPlayer = true :=
  oGuar_any_intro 3 _ 6 (by decide) (by decide) (by decide) og823

theorem og825 : oGuar 2 [Cell.O, Cell.X, Cell.O, Cell.O, Cell.E, Cell.X, Cell.X, Cell.O, Cell.X] aiPlayer = true :=
  oGuar_any_intro 1 _ 4 (by decide) (by decide) (by decide) og797

theorem og826 : oGuar 3 [Cell.O, Cell.X, Cell.O, Cell.O, Cell.E, Cell.E, Cell.X, Cell.O, Cell.X] humanPlayer = true :=
  oGuar_all_intro 2 _ (by decide) (by decide)
    (all_cons_intro _ _ _ og786 (all_cons_intro _ _ _ og825 (all_nil_true _)))

theorem og827 : oGuar 4 [Cell.O, Cell.X, Cell.O, Cell.O, Cell.E, Cell.E, Cell.X, Cell.E, Cell.X] aiPlayer = true :=
  oGuar_any_intro 3 _ 7 (by decide) (by decide) (by decide) og826

theorem og828 : oGuar 3 [Cell.O, Cell.X, Cell.O, Cell.O, Cell.E, Cell.E, Cell.O, Cell.X, Cell.X] humanPlayer = true :=
  oGuar_winO_intro 2 _ _ (by decide) (by decide)

theorem og829 : oGuar 4 [Cell.O, Cell.X, Cell.O, Cell.O, Cell.E, Cell.E, Cell.E, Cell.X, Cell.X] aiPlayer = true :=
  oGuar_any_intro 3 _ 6 (by decide) (by decide) (by decide) og828

theorem og830 : oGuar 5 [Cell.O, Cell.X, Cell.O, Cell.O, Cell.E, Cell.E, Cell.E, Cell.E, Cell.X] humanPlayer = true :=
  oGuar_all_intro 4 _ (by decide) (by decide)
    (all_cons_intro _ _ _ og824 (all_cons_intro _ _ _ og806 (all_cons_intro _ _ _ og827 (all_cons_intro _ _ _ og829 (all_nil_true _)))))

theorem og831 : oGuar 6 [Cell.O, Cell.X, Cell.O, Cell.E, Cell.E, Cell.E, Cell.E, Cell.E, Cell.X] aiPlayer = true :=
  oGuar_any_intro 5 _ 3 (by decide) (by decide) (by decide) og830

theorem og832 : oGuar 7 [Cell.O, Cell.X, Cell.O, Cell.E, Cell.E, Cell.E, Cell.E, Cell.E, Cell.E] humanPlayer = true :=
  oGuar_all_intro 6 _ (by decide) (by decide)
    (all_cons_intro _ _ _ og772 (all_cons_intro _ _ _ og792 (all_cons_intro _ _ _ og808 (all_cons_intro _ _ _ og817 (all_cons_intro _ _ _ og822 (all_cons_intro _ _ _ og831 (all_nil_true _)))))))

theorem og833 : oGuar 8 [Cell.O, Cell.X, Cell.E, Cell.E, Cell.E, Cell.E, Cell.E, Cell.E, Cell.E] aiPlayer = true :=
  oGuar_any_intro 7 _ 2 (by decide) (by decide) (by decide) og832

theorem og834 : oGuar 3 [Cell.O, Cell.X, Cell.X, Cell.O, Cell.O, Cell.X, Cell.O, Cell.E, Cell.E] humanPlayer = true :=
  oGuar_winO_intro 2 _ _ (by decide) (by decide)

theorem og835 : oGuar 4 [Cell.O, Cell.X, Cell.X, Cell.O, Cell.O, Cell.X, Cell.E, Cell.E, Cell.E] aiPlayer = true :=
  oGuar_any_intro 3 _ 6 (by decide) (by decide) (by decide) og834

theorem og836 : oGuar 3 [Cell.O, Cell.X, Cell.X, Cell.O, Cell.O, Cell.O, Cell.X, Cell.E, Cell.E] humanPlayer = true :=
  oGuar_winO_intro 2 _ _ (by decide) (by decide)

theorem og837 : oGuar 4 [Cell.O, Cell.X, Cell.X, Cell.O, Cell.O, Cell.E, Cell.X, Cell.E, Cell.E] aiPlayer = true :=
  oGuar_any_intro 3 _ 5 (by decide) (by decide) (by decide) og836

theorem og838 : oGuar 3 [Cell.O, Cell.X, Cell.X, Cell.O, Cell.O, Cell.O, Cell.E, Cell.X, Cell.E] humanPlayer = true :=
  oGuar_winO_intro 2 _ _ (by decide) (by decide)

theorem og839 : oGuar 4 [Cell.O, Cell.X, Cell.X, Cell.O, Cell.O, Cell.E, Cell.E, Cell.X, Cell.E] aiPlayer = true :=
  oGuar_any_intro 3 _ 5 (by decide) (by decide) (by decide) og838

theorem og840 : oGuar 3 [Cell.O, Cell.X, Cell.X, Cell.O, Cell.O, Cell.O, Cell.E, Cell.E, Cell.X] humanPlayer = true :=
  oGuar_winO_intro 2 _ _ (by decide) (by decide)

theorem og841 : oGuar 4 [Cell.O, Cell.X, Cell.X, Cell.O, Cell.O, Cell.E, Cell.E, Cell.E, Cell.X] aiPlayer = true :=
  oGuar_any_intro 3 _ 5 (by decide) (by decide) (by decide) og840

theorem og842 : oGuar 5 [Cell.O, Cell.X, Cell.X, Cell.O, Cell.O, Cell.E, Cell.E, Cell.E, Cell.E] humanPlayer = true :=
  oGuar_all_intro 4 _ (by decide) (by decide)
    (all_cons_intro _ _ _ og835 (all_cons_intro _ _ _ og837 (all_cons_intro _ _ _ og839 (all_cons_intro _ _ _ og841 (all_nil_true _)))))

theorem og843 : oGuar 6 [Cell.O, Cell.X, Cell.X, Cell.O, Cell.E, Cell.E, Cell.E, Cell.E, Cell.E] aiPlayer = true :=
  oGuar_any_intro 5 _ 4 (by decide) (by decide) (by decide) og842

theorem og844 : oGuar 5 [Cell.O, Cell.E, Cell.X, Cell.O, Cell.X, Cell.E, Cell.O, Cell.E, Cell.E] humanPlayer = true :=
  oGuar_winO_intro 4 _ _ (by decide) (by decide)

theorem og845 : oGuar 6 [Cell.O, Cell.E, Cell.X, Cell.O, Cell.X, Cell.E, Cell.E, Cell.E, Cell.E] aiPlayer = true :=
  oGuar_any_intro 5 _ 6 (by decide) (by decide) (by decide) og844

theorem og846 : oGuar 5 [Cell.O, Cell.E, Cell.X, Cell.O, Cell.E, Cell.X, Cell.O, Cell.E, Cell.E] humanPlayer = true :=
  oGuar_winO_intro 4 _ _ (by decide) (by decide)

theorem og847 : oGuar 6 [Cell.O, Cell.E, Cell.X, Cell.O, Cell.E, Cell.X, Cell.E, Cell.E, Cell.E] aiPlayer = true :=
  oGuar_any_intro 5 _ 6 (by decide) (by decide) (by decide) og846

theorem og848 : oGuar 3 [Cell.O, Cell.E, Cell.X, Cell.O, Cell.O, Cell.X, Cell.X, Cell.E, Cell.O] humanPlayer = true :=
  oGuar_winO_intro 2 _ _ (by decide) (by decide)

theorem og849 : oGuar 4 [Cell.O, Cell.E, Cell.X, Cell.O, Cell.O, Cell.X, Cell.X, Cell.E, Cell.E] aiPlayer = true :=
  oGuar_any_intro 3 _ 8 (by decide) (by decide) (by decide) og848

theorem og850 : oGuar 3 [Cell.O, Cell.E, Cell.X, Cell.O, Cell.O, Cell.O, Cell.X, Cell.X, Cell.E] humanPlayer = true :=
  oGuar_winO_intro 2 _ _ (by decide) (by decide)

theorem og851 : oGuar 4 [Cell.O, Cell.E, Cell.X, Cell.O, Cell.O, Cell.E, Cell.X, Cell.X, Cell.E] aiPlayer = true :=
  oGuar_any_intro 3 _ 5 (by decide) (by decide) (by decide) og850

theorem og852 : oGuar 3 [Cell.O, Cell.E, Cell.X, Cell.O, Cell.O, Cell.O, Cell.X, Cell.E, Cell.X] humanPlayer = true :=
  oGuar_winO_intro 2 _ _ (by decide) (by decide)

theorem og853 : oGuar 4 [Cell.O, Cell.E, Cell.X, Cell.O, Cell.O, Cell.E, Cell.X, Cell.E, Cell.X] aiPlayer = true :=
  oGuar_any_intro 3 _ 5 (by decide) (by decide) (by decide) og852

theorem og854 : oGuar 5 [Cell.O, Cell.E, Cell.X, Cell.O, Cell.O, Cell.E, Cell.X, Cell.E, Cell.E] humanPlayer = true :=
  oGuar_all_intro 4 _ (by decide) (by decide)
    (all_cons_intro _ _ _ og837 (all_cons_intro _ _ _ og849 (all_cons_intro _ _ _ og851 (all_cons_intro _ _ _ og853 (all_nil_true _)))))

theorem og855 : oGuar 6 [Cell.O, Cell.E, Cell.X, Cell.O, Cell.E, Cell.E, Cell.X, Cell.E, Cell.E] aiPlayer = true :=
  oGuar_any_intro 5 _ 4 (by decide) (by decide) (by decide) og854

theorem og856 : oGuar 3 [Cell.O, Cell.E, Cell.X, Cell.O, Cell.O, Cell.X, Cell.O, Cell.X, Cell.E] humanPlayer = true :=
  oGuar_winO_intro 2 _ _ (by decide) (by decide)

theorem og857 : oGuar 4 [Cell.O, Cell.E, Cell.X, Cell.O, Cell.O, Cell.X, Cell.E, Cell.X, Cell.E] aiPlayer = true :=
  oGuar_any_intro 3 _ 6 (by decide) (by decide) (by decide) og856

theorem og858 : oGuar 3 [Cell.O, Cell.E, Cell.X, Cell.O, Cell.O, Cell.O, Cell.E, Cell.X, Cell.X] humanPlayer = true :=
  oGuar_winO_intro 2 _ _ (by decide) (by decide)

theorem og859 : oGuar 4 [Cell.O, Cell.E, Cell.X, Cell.O, Cell.O, Cell.E, Cell.E, Cell.X, Cell.X] aiPlayer = true :=
  oGuar_any_intro 3 _ 5 (by decide) (by decide) (by decide) og858

theorem og860 : oGuar 5 [Cell.O, Cell.E, Cell.X, Cell.O, Cell.O, Cell.E, Cell.E, Cell.X, Cell.E] humanPlayer = true :=
  oGuar_all_intro 4 _ (by decide) (by decide)
    (all_cons_intro _ _ _ og839 (all_cons_intro _ _ _ og857 (all_cons_intro _ _ _ og851 (all_cons_intro _ _ _ og859 (all_nil_true _)))))

theorem og861 : oGuar 6 [Cell.O, Cell.E, Cell.X, Cell.O, Cell.E, Cell.E, Cell.E, Cell.X, Cell.E] aiPlayer = true :=
  oGuar_any_intro 5 _ 4 (by decide) (by decide) (by decide) og860

theorem og862 : oGuar 4 [Cell.O, Cell.X, Cell.X, Cell.O, Cell.E, Cell.O, Cell.E, Cell.E, Cell.X] aiPlayer = true :=
  oGuar_any_intro 3 _ 4 (by decide) (by decide) (by decide) og840

theorem og863 : oGuar 3 [Cell.O, Cell.E, Cell.X, Cell.O, Cell.X, Cell.O, Cell.O, Cell.E, Cell.X] humanPlayer = true :=
  oGuar_winO_intro 2 _ _ (by decide) (by decide)

theorem og864 : oGuar 4 [Cell.O, Cell.E, Cell.X, Cell.O, Cell.X, Cell.O, Cell.E, Cell.E, Cell.X] aiPlayer = true :=
  oGuar_any_intro 3 _ 6 (by decide) (by decide) (by decide) og863

theorem og865 : oGuar 4 [Cell.O, Cell.E, Cell.X, Cell.O, Cell.E, Cell.O, Cell.X, Cell.E, Cell.X] aiPlayer = true :=
  oGuar_any_intro 3 _ 4 (by decide) (by decide) (by decide) og852

theorem og866 : oGuar 4 [Cell.O, Cell.E, Cell.X, Cell.O, Cell.E, Cell.O, Cell.E, Cell.X, Cell.X] aiPlayer = true :=
  oGuar_any_intro 3 _ 4 (by decide) (by decide) (by decide) og858

theorem og867 : oGuar 5 [Cell.O, Cell.E, Cell.X, Cell.O, Cell.E, Cell.O, Cell.E, Cell.E, Cell.X] humanPlayer = true :=
  oGuar_all_intro 4 _ (by decide) (by decide)
    (all_cons_intro _ _ _ og862 (all_cons_intro _ _ _ og864 (all_cons_intro _ _ _ og865 (all_cons_intro _ _ _ og866 (all_nil_true _)))))

theorem og868 : oGuar 6 [Cell.O, Cell.E, Cell.X, Cell.O, Cell.E, Cell.E, Cell.E, Cell.E, Cell.X] aiPlayer = true :=
  oGuar_any_intro 5 _ 5 (by decide) (by decide) (by decide) og867

theorem og869 : oGuar 7 [Cell.O, Cell.E, Cell.X, Cell.O, Cell.E, Cell.E, Cell.E, Cell.E, Cell.E] humanPlayer = true :=
  oGuar_all_intro 6 _ (by decide) (by decide)
    (all_cons_intro _ _ _ og843 (all_cons_intro _ _ _ og845 (all_cons_intro _ _ _ og847 (all_cons_intro _ _ _ og855 (all_cons_intro _ _ _ og861 (all_cons_intro _ _ _ og868 (all_nil_true _)))))))

theorem og870 : oGuar 8 [Cell.O, Cell.E, Cell.X, Cell.E, Cell.E, Cell.E, Cell.E, Cell.E, Cell.E] aiPlayer = true :=
  oGuar_any_intro 7 _ 3 (by decide) (by decide) (by decide) og869

theorem og871 : oGuar 3 [Cell.O, Cell.O, Cell.X, Cell.X, Cell.O, Cell.X, Cell.E, Cell.O, Cell.E] humanPlayer = true :=
  oGuar_winO_intro 2 _ _ (by decide) (by decide)

theorem og872 : oGuar 4 [Cell.O, Cell.O, Cell.X, Cell.X, Cell.O, Cell.X, Cell.E, Cell.E, Cell.E] aiPlayer = true :=
  oGuar_any_intro 3 _ 7 (by decide) (by decide) (by decide) og871

theorem og873 : oGuar 1 [Cell.O, Cell.O, Cell.X, Cell.X, Cell.O, Cell.O, Cell.X, Cell.X, Cell.O] humanPlayer = true :=
  oGuar_winO_intro 0 _ _ (by decide) (by decide)

theorem og874 : oGuar 2 [Cell.O, Cell.O, Cell.X, Cell.X, Cell.O, Cell.O, Cell.X, Cell.X, Cell.E] aiPlayer = true :=
  oGuar_any_intro 1 _ 8 (by decide) (by decide) (by decide) og873

theorem og875 : oGuar 1 [Cell.O, Cell.O, Cell.X, Cell.X, Cell.O, Cell.O, Cell.X, Cell.O, Cell.X] humanPlayer = true :=
  oGuar_winO_intro 0 _ _ (by decide) (by decide)

theorem og876 : oGuar 2 [Cell.O, Cell.O, Cell.X, Cell.X, Cell.O, Cell.O, Cell.X, Cell.E, Cell.X] aiPlayer = true :=
  oGuar_any_intro 1 _ 7 (by decide) (by decide) (by decide) og875

theorem og877 : oGuar 3 [Cell.O, Cell.O, Cell.X, Cell.X, Cell.O, Cell.O, Cell.X, Cell.E, Cell.E] humanPlayer = true :=
  oGuar_all_intro 2 _ (by decide) (by decide)
    (all_cons_intro _ _ _ og874 (all_cons_intro _ _ _ og876 (all_nil_true _)))

theorem og878 : oGuar 4 [Cell.O, Cell.O, Cell.X, Cell.X, Cell.O, Cell.E, Cell.X, Cell.E, Cell.E] aiPlayer = true :=
  oGuar_any_intro 3 _ 5 (by decide) (by decide) (by decide) og877

theorem og879 : oGuar 1 [Cell.O, Cell.O, Cell.X, Cell.X, Cell.O, Cell.O, Cell.O, Cell.X, Cell.X] humanPlayer = true :=
  oGuar_draw_intro 0 _ _ (by decide) (by decide) (by decide)

theorem og880 : oGuar 2 [Cell.O, Cell.O, Cell.X, Cell.X, Cell.O, Cell.O, Cell.E, Cell.X, Cell.X] aiPlayer = true :=
  oGuar_any_intro 1 _ 6 (by decide) (by decide) (by decide) og879

theorem og881 : oGuar 3 [Cell.O, Cell.O, Cell.X, Cell.X, Cell.O, Cell.O, Cell.E, Cell.X, Cell.E] humanPlayer = true :=
  oGuar_all_intro 2 _ (by decide) (by decide)
    (all_cons_intro _ _ _ og874 (all_cons_intro _ _ _ og880 (all_nil_true _)))

theorem og882 : oGuar 4 [Cell.O, Cell.O, Cell.X, Cell.X, Cell.O, Cell.E, Cell.E, Cell.X, Cell.E] aiPlayer = true :=
  oGuar_any_intro 3 _ 5 (by decide) (by decide) (by decide) og881

theorem og883 : oGuar 3 [Cell.O, Cell.O, Cell.X, Cell.X, Cell.O, Cell.O, Cell.E, Cell.E, Cell.X] humanPlayer = true :=
  oGuar_all_intro 2 _ (by decide) (by decide)
    (all_cons_intro _ _ _ og876 (all_cons_intro _ _ _ og880 (all_nil_true _)))

theorem og884 : oGuar 4 [Cell.O, Cell.O, Cell.X, Cell.X, Cell.O, Cell.E, Cell.E, Cell.E, Cell.X] aiPlayer = true :=
  oGuar_any_intro 3 _ 5 (by decide) (by decide) (by decide) og883

theorem og885 : oGuar 5 [Cell.O, Cell.O, Cell.X, Cell.X, Cell.O, Cell.E, Cell.E, Cell.E, Cell.E] humanPlayer = true :=
  oGuar_all_intro 4 _ (by decide) (by decide)
    (all_cons_intro _ _ _ og872 (all_cons_intro _ _ _ og878 (all_cons_intro _ _ _ og882 (all_cons_intro _ _ _ og884 (all_nil_true _)))))

theorem og886 : oGuar 6 [Cell.O, Cell.O, Cell.X, Cell.X, Cell.E, Cell.E, Cell.E, Cell.E, Cell.E] aiPlayer = true :=
  oGuar_any_intro 5 _ 4 (by decide) (by decide) (by decide) og885

theorem og887 : oGuar 5 [Cell.O, Cell.O, Cell.O, Cell.X, Cell.X, Cell.E, Cell.E, Cell.E, Cell.E] humanPlayer = true :=
  oGuar_winO_intro 4 _ _ (by decide) (by decide)

theorem og888 : oGuar 6 [Cell.O, Cell.O, Cell.E, Cell.X, Cell.X, Cell.E, Cell.E, Cell.E, Cell.E] aiPlayer = true :=
  oGuar_any_intro 5 _ 2 (by decide) (by decide) (by decide) og887

theorem og889 : oGuar 5 [Cell.O, Cell.O, Cell.O, Cell.X, Cell.E, Cell.X, Cell.E, Cell.E, Cell.E] humanPlayer = true :=
  oGuar_winO_intro 4 _ _ (by decide) (by decide)

theorem og890 : oGuar 6 [Cell.O, Cell.O, Cell.E, Cell.X, Cell.E, Cell.X, Cell.E, Cell.E, Cell.E] aiPlayer = true :=
  oGuar_any_intro 5 _ 2 (by decide) (by decide) (by decide) og889

theorem og891 : oGuar 5 [Cell.O, Cell.O, Cell.O, Cell.X, Cell.E, Cell.E, Cell.X, Cell.E, Cell.E] humanPlayer = true :=
  oGuar_winO_intro 4 _ _ (by decide) (by decide)

theorem og892 : oGuar 6 [Cell.O, Cell.O, Cell.E, Cell.X, Cell.E, Cell.E, Cell.X, Cell.E, Cell.E] aiPlayer = true :=
  oGuar_any_intro 5 _ 2 (by decide) (by decide) (by decide) og891

theorem og893 : oGuar 5 [Cell.O, Cell.O, Cell.O, Cell.X, Cell.E, Cell.E, Cell.E, Cell.X, Cell.E] humanPlayer = true :=
  oGuar_winO_intro 4 _ _ (by decide) (by decide)

theorem og894 : oGuar 6 [Cell.O, Cell.O, Cell.E, Cell.X, Cell.E, Cell.E, Cell.E, Cell.X, Cell.E] aiPlayer = true :=
  oGuar_any_intro 5 _ 2 (by decide) (by decide) (by decide) og893

theorem og895 : oGuar 5 [Cell.O, Cell.O, Cell.O, Cell.X, Cell.E, Cell.E, Cell.E, Cell.E, Cell.X] humanPlayer = true :=
  oGuar_winO_intro 4 _ _ (by decide) (by decide)

theorem og896 : oGuar 6 [Cell.O, Cell.O, Cell.E, Cell.X, Cell.E, Cell.E, Cell.E, Cell.E, Cell.X] aiPlayer = true :=
  oGuar_any_intro 5 _ 2 (by decide) (by decide) (by decide) og895

theorem og897 : oGuar 7 [Cell.O, Cell.O, Cell.E, Cell.X, Cell.E, Cell.E, Cell.E, Cell.E, Cell.E] humanPlayer = true :=
  oGuar_all_intro 6 _ (by decide) (by decide)
    (all_cons_intro _ _ _ og886 (all_cons_intro _ _ _ og888 (all_cons_intro _ _ _ og890 (all_cons_intro _ _ _ og892 (all_cons_intro _ _ _ og894 (all_cons_intro _ _ _ og896 (all_nil_true _)))))))

theorem og898 : oGuar 8 [Cell.O, Cell.E, Cell.E, Cell.X, Cell.E, Cell.E, Cell.E, Cell.E, Cell.E] aiPlayer = true :=
  oGuar_any_intro 7 _ 1 (by decide) (by decide) (by decide) og897

theorem og899 : oGuar 1 [Cell.O, Cell.O, Cell.X, Cell.X, Cell.X, Cell.O, Cell.O, Cell.X, Cell.O] humanPlayer = true :=
  oGuar_draw_intro 0 _ _ (by decide) (by decide) (by decide)

theorem og900 : oGuar 2 [Cell.O, Cell.O, Cell.X, Cell.X, Cell.X, Cell.O, Cell.O, Cell.X, Cell.E] aiPlayer = true :=
  oGuar_any_intro 1 _ 8 (by decide) (by decide) (by decide) og899

theorem og901 : oGuar 1 [Cell.O, Cell.O, Cell.X, Cell.X, Cell.X, Cell.O, Cell.O, Cell.O, Cell.X] humanPlayer = true :=
  oGuar_draw_intro 0 _ _ (by decide) (by decide) (by decide)

theorem og902 : oGuar 2 [Cell.O, Cell.O, Cell.X, Cell.X, Cell.X, Cell.O, Cell.O, Cell.E, Cell.X] aiPlayer = true :=
  oGuar_any_intro 1 _ 7 (by decide) (by decide) (by decide) og901

theorem og903 : oGuar 3 [Cell.O, Cell.O, Cell.X, Cell.X, Cell.X, Cell.O, Cell.O, Cell.E, Cell.E] humanPlayer = true :=
  oGuar_all_intro 2 _ (by decide) (by decide)
    (all_cons_intro _ _ _ og900 (all_cons_intro _ _ _ og902 (all_nil_true _)))

theorem og904 : oGuar 4 [Cell.O, Cell.O, Cell.X, Cell.X, Cell.X, Cell.E, Cell.O, Cell.E, Cell.E] aiPlayer = true :=
  oGuar_any_intro 3 _ 5 (by decide) (by decide) (by decide) og903

theorem og905 : oGuar 3 [Cell.O, Cell.O, Cell.X, Cell.O, Cell.X, Cell.X, Cell.O, Cell.E, Cell.E] humanPlayer = true :=
  oGuar_winO_intro 2 _ _ (by decide) (by decide)

theorem og906 : oGuar 4 [Cell.O, Cell.O, Cell.X, Cell.E, Cell.X, Cell.X, Cell.O, Cell.E, Cell.E] aiPlayer = true :=
  oGuar_any_intro 3 _ 3 (by decide) (by decide) (by decide) og905

theorem og907 : oGuar 3 [Cell.O, Cell.O, Cell.X, Cell.O, Cell.X, Cell.E, Cell.O, Cell.X, Cell.E] humanPlayer = true :=
  oGuar_winO_intro 2 _ _ (by decide) (by decide)

theorem og908 : oGuar 4 [Cell.O, Cell.O, Cell.X, Cell.E, Cell.X, Cell.E, Cell.O, Cell.X, Cell.E] aiPlayer = true :=
  oGuar_any_intro 3 _ 3 (by decide) (by decide) (by decide) og907

theorem og909 : oGuar 3 [Cell.O, Cell.O, Cell.X, Cell.O, Cell.X, Cell.E, Cell.O, Cell.E, Cell.X] humanPlayer = true :=
  oGuar_winO_intro 2 _ _ (by decide) (by decide)

theorem og910 : oGuar 4 [Cell.O, Cell.O, Cell.X, Cell.E, Cell.X, Cell.E, Cell.O, Cell.E, Cell.X] aiPlayer = true :=
  oGuar_any_intro 3 _ 3 (by decide) (by decide) (by decide) og909

theorem og911 : oGuar 5 [Cell.O, Cell.O, Cell.X, Cell.E, Cell.X, Cell.E, Cell.O, Cell.E, Cell.E] humanPlayer = true :=
  oGuar_all_intro 4 _ (by decide) (by decide)
    (all_cons_intro _ _ _ og904 (all_cons_intro _ _ _ og906 (all_cons_intro _ _ _ og908 (all_cons_intro _ _ _ og910 (all_nil_true _)))))

theorem og912 : oGuar 6 [Cell.O, Cell.O, Cell.X, Cell.E, Cell.X, Cell.E, Cell.E, Cell.E, Cell.E] aiPlayer = true :=
  oGuar_any_intro 5 _ 6 (by decide) (by decide) (by decide) og911

theorem og913 : oGuar 5 [Cell.O, Cell.O, Cell.O, Cell.E, Cell.X, Cell.X, Cell.E, Cell.E, Cell.E] humanPlayer = true :=
  oGuar_winO_intro 4 _ _ (by decide) (by decide)

theorem og914 : oGuar 6 [Cell.O, Cell.O, Cell.E, Cell.E, Cell.X, Cell.X, Cell.E, Cell.E, Cell.E] aiPlayer = true :=
  oGuar_any_intro 5 _ 2 (by decide) (by decide) (by decide) og913

theorem og915 : oGuar 5 [Cell.O, Cell.O, Cell.O, Cell.E, Cell.X, Cell.E, Cell.X, Cell.E, Cell.E] humanPlayer = true :=
  oGuar_winO_intro 4 _ _ (by decide) (by decide)

theorem og916 : oGuar 6 [Cell.O, Cell.O, Cell.E, Cell.E, Cell.X, Cell.E, Cell.X, Cell.E, Cell.E] aiPlayer = true :=
  oGuar_any_intro 5 _ 2 (by decide) (by decide) (by decide) og915

theorem og917 : oGuar 5 [Cell.O, Cell.O, Cell.O, Cell.E, Cell.X, Cell.E, Cell.E, Cell.X, Cell.E] humanPlayer = true :=
  oGuar_winO_intro 4 _ _ (by decide) (by decide)

theorem og918 : oGuar 6 [Cell.O, Cell.O, Cell.E, Cell.E, Cell.X, Cell.E, Cell.E, Cell.X, Cell.E] aiPlayer = true :=
  oGuar_any_intro 5 _ 2 (by decide) (by decide) (by decide) og917

theorem og919 : oGuar 5 [Cell.O, Cell.O, Cell.O, Cell.E, Cell.X, Cell.E, Cell.E, Cell.E, Cell.X] humanPlayer = true :=
  oGuar_winO_intro 4 _ _ (by decide) (by decide)

theorem og920 : oGuar 6 [Cell.O, Cell.O, Cell.E, Cell.E, Cell.X, Cell.E, Cell.E, Cell.E, Cell.X] aiPlayer = true :=
  oGuar_any_intro 5 _ 2 (by decide) (by decide) (by decide) og919

theorem og921 : oGuar 7 [Cell.O, Cell.O, Cell.E, Cell.E, Cell.X, Cell.E, Cell.E, Cell.E, Cell.E] humanPlayer = true :=
  oGuar_all_intro 6 _ (by decide) (by decide)
    (all_cons_intro _ _ _ og912 (all_cons_intro _ _ _ og888 (all_cons_intro _ _ _ og914 (all_cons_intro _ _ _ og916 (all_cons_intro _ _ _ og918 (all_cons_intro _ _ _ og920 (all_nil_true _)))))))

theorem og922 : oGuar 8 [Cell.O, Cell.E, Cell.E, Cell.E, Cell.X, Cell.E, Cell.E, Cell.E, Cell.E] aiPlayer = true :=
  oGuar_any_intro 7 _ 1 (by decide) (by decide) (by decide) og921

theorem og923 : oGuar 6 [Cell.O, Cell.E, Cell.O, Cell.X, Cell.E, Cell.X, Cell.E, Cell.E, Cell.E] aiPlayer = true :=
  oGuar_any_intro 5 _ 1 (by decide) (by decide) (by decide) og889

theorem og924 : oGuar 6 [Cell.O, Cell.E, Cell.O, Cell.E, Cell.X, Cell.X, Cell.E, Cell.E, Cell.E] aiPlayer = true :=
  oGuar_any_intro 5 _ 1 (by decide) (by decide) (by decide) og913

theorem og925 : oGuar 5 [Cell.O, Cell.O, Cell.O, Cell.E, Cell.E, Cell.X, Cell.X, Cell.E, Cell.E] humanPlayer = true :=
  oGuar_winO_intro 4 _ _ (by decide) (by decide)

theorem og926 : oGuar 6 [Cell.O, Cell.E, Cell.O, Cell.E, Cell.E, Cell.X, Cell.X, Cell.E, Cell.E] aiPlayer = true :=
  oGuar_any_intro 5 _ 1 (by decide) (by decide) (by decide) og925

theorem og927 : oGuar 5 [Cell.O, Cell.O, Cell.O, Cell.E, Cell.E, Cell.X, Cell.E, Cell.X, Cell.E] humanPlayer = true :=
  oGuar_winO_intro 4 _ _ (by decide) (by decide)

theorem og928 : oGuar 6 [Cell.O, Cell.E, Cell.O, Cell.E, Cell.E, Cell.X, Cell.E, Cell.X, Cell.E] aiPlayer = true :=
  oGuar_any_intro 5 _ 1 (by decide) (by decide) (by decide) og927

theorem og929 : oGuar 5 [Cell.O, Cell.O, Cell.O, Cell.E, Cell.E, Cell.X, Cell.E, Cell.E, Cell.X] humanPlayer = true :=
  oGuar_winO_intro 4 _ _ (by decide) (by decide)

theorem og930 : oGuar 6 [Cell.O, Cell.E, Cell.O, Cell.E, Cell.E, Cell.X, Cell.E, Cell.E, Cell.X] aiPlayer = true :=
  oGuar_any_intro 5 _ 1 (by decide) (by decide) (by decide) og929

theorem og931 : oGuar 7 [Cell.O, Cell.E, Cell.O, Cell.E, Cell.E, Cell.X, Cell.E, Cell.E, Cell.E] humanPlayer = true :=
  oGuar_all_intro 6 _ (by decide) (by decide)
    (all_cons_intro _ _ _ og808 (all_cons_intro _ _ _ og923 (all_cons_intro _ _ _ og924 (all_cons_intro _ _ _ og926 (all_cons_intro _ _ _ og928 (all_cons_intro _ _ _ og930 (all_nil_true _)))))))

theorem og932 : oGuar 8 [Cell.O, Cell.E, Cell.E, Cell.E, Cell.E, Cell.X, Cell.E, Cell.E, Cell.E] aiPlayer = true :=
  oGuar_any_intro 7 _ 2 (by decide) (by decide) (by decide) og931

theorem og933 : oGuar 3 [Cell.O, Cell.O, Cell.X, Cell.E, Cell.O, Cell.X, Cell.X, Cell.O, Cell.E] humanPlayer = true :=
  oGuar_winO_intro 2 _ _ (by decide) (by decide)

theorem og934 : oGuar 4 [Cell.O, Cell.O, Cell.X, Cell.E, Cell.O, Cell.X, Cell.X, Cell.E, Cell.E] aiPlayer = true :=
  oGuar_any_intro 3 _ 7 (by decide) (by decide) (by decide) og933

theorem og935 : oGuar 3 [Cell.O, Cell.O, Cell.X, Cell.E, Cell.O, Cell.E, Cell.X, Cell.X, Cell.O] humanPlayer = true :=
  oGuar_winO_intro 2 _ _ (by decide) (by decide)

theorem og936 : oGuar 4 [Cell.O, Cell.O, Cell.X, Cell.E, Cell.O, Cell.E, Cell.X, Cell.X, Cell.E] aiPlayer = true :=
  oGuar_any_intro 3 _ 8 (by decide) (by decide) (by decide) og935

theorem og937 : oGuar 3 [Cell.O, Cell.O, Cell.X, Cell.E, Cell.O, Cell.E, Cell.X, Cell.O, Cell.X] humanPlayer = true :=
  oGuar_winO_intro 2 _ _ (by decide) (by decide)

theorem og938 : oGuar 4 [Cell.O, Cell.O, Cell.X, Cell.E, Cell.O, Cell.E, Cell.X, Cell.E, Cell.X] aiPlayer = true :=
  oGuar_any_intro 3 _ 7 (by decide) (by decide) (by decide) og937

theorem og939 : oGuar 5 [Cell.O, Cell.O, Cell.X, Cell.E, Cell.O, Cell.E, Cell.X, Cell.E, Cell.E] humanPlayer = true :=
  oGuar_all_intro 4 _ (by decide) (by decide)
    (all_cons_intro _ _ _ og878 (all_cons_intro _ _ _ og934 (all_cons_intro _ _ _ og936 (all_cons_intro _ _ _ og938 (all_nil_true _)))))

theorem og940 : oGuar 6 [Cell.O, Cell.O, Cell.X, Cell.E, Cell.E, Cell.E, Cell.X, Cell.E, Cell.E] aiPlayer = true :=
  oGuar_any_intro 5 _ 4 (by decide) (by decide) (by decide) og939

theorem og941 : oGuar 6 [Cell.O, Cell.O, Cell.E, Cell.E, Cell.E, Cell.X, Cell.X, Cell.E, Cell.E] aiPlayer = true :=
  oGuar_any_intro 5 _ 2 (by decide) (by decide) (by decide) og925

theorem og942 : oGuar 5 [Cell.O, Cell.O, Cell.O, Cell.E, Cell.E, Cell.E, Cell.X, Cell.X, Cell.E] humanPlayer = true :=
  oGuar_winO_intro 4 _ _ (by decide) (by decide)

theorem og943 : oGuar 6 [Cell.O, Cell.O, Cell.E, Cell.E, Cell.E, Cell.E, Cell.X, Cell.X, Cell.E] aiPlayer = true :=
  oGuar_any_intro 5 _ 2 (by decide) (by decide) (by decide) og942

theorem og944 : oGuar 5 [Cell.O, Cell.O, Cell.O, Cell.E, Cell.E, Cell.E, Cell.X, Cell.E, Cell.X] humanPlayer = true :=
  oGuar_winO_intro 4 _ _ (by decide) (by decide)

theorem og945 : oGuar 6 [Cell.O, Cell.O, Cell.E, Cell.E, Cell.E, Cell.E, Cell.X, Cell.E, Cell.X] aiPlayer = true :=
  oGuar_any_intro 5 _ 2 (by decide) (by decide) (by decide) og944

theorem og946 : oGuar 7 [Cell.O, Cell.O, Cell.E, Cell.E, Cell.E, Cell.E, Cell.X, Cell.E, Cell.E] humanPlayer = true :=
  oGuar_all_intro 6 _ (by decide) (by decide)
    (all_cons_intro _ _ _ og940 (all_cons_intro _ _ _ og892 (all_cons_intro _ _ _ og916 (all_cons_intro _ _ _ og941 (all_cons_intro _ _ _ og943 (all_cons_intro _ _ _ og945 (all_nil_true _)))))))

theorem og947 : oGuar 8 [Cell.O, Cell.E, Cell.E, Cell.E, Cell.E, Cell.E, Cell.X, Cell.E, Cell.E] aiPlayer = true :=
  oGuar_any_intro 7 _ 1 (by decide) (by decide) (by decide) og946

theorem og948 : oGuar 1 [Cell.O, Cell.O, Cell.X, Cell.X, Cell.O, Cell.X, Cell.O, Cell.X, Cell.O] humanPlayer = true :=
  oGuar_winO_intro 0 _ _ (by decide) (by decide)

theorem og949 : oGuar 2 [Cell.O, Cell.O, Cell.X, Cell.X, Cell.O, Cell.X, Cell.O, Cell.X, Cell.E] aiPlayer = true :=
  oGuar_any_intro 1 _ 8 (by decide) (by decide) (by decide) og948

theorem og950 : oGuar 2 [Cell.O, Cell.O, Cell.X, Cell.X, Cell.O, Cell.E, Cell.O, Cell.X, Cell.X] aiPlayer = true :=
  oGuar_any_intro 1 _ 5 (by decide) (by decide) (by decide) og879

theorem og951 : oGuar 3 [Cell.O, Cell.O, Cell.X, Cell.X, Cell.O, Cell.E, Cell.O, Cell.X, Cell.E] humanPlayer = true :=
  oGuar_all_intro 2 _ (by decide) (by decide)
    (all_cons_intro _ _ _ og949 (all_cons_intro _ _ _ og950 (all_nil_true _)))

theorem og952 : oGuar 4 [Cell.O, Cell.O, Cell.X, Cell.X, Cell.E, Cell.E, Cell.O, Cell.X, Cell.E] aiPlayer = true :=
  oGuar_any_intro 3 _ 4 (by decide) (by decide) (by decide) og951

theorem og953 : oGuar 3 [Cell.O, Cell.O, Cell.X, Cell.O, Cell.E, Cell.X, Cell.O, Cell.X, Cell.E] humanPlayer = true :=
  oGuar_winO_intro 2 _ _ (by decide) (by decide)

theorem og954 : oGuar 4 [Cell.O, Cell.O, Cell.X, Cell.E, Cell.E, Cell.X, Cell.O, Cell.X, Cell.E] aiPlayer = true :=
  oGuar_any_intro 3 _ 3 (by decide) (by decide) (by decide) og953

theorem og955 : oGuar 3 [Cell.O, Cell.O, Cell.X, Cell.O, Cell.E, Cell.E, Cell.O, Cell.X, Cell.X] humanPlayer = true :=
  oGuar_winO_intro 2 _ _ (by decide) (by decide)

theorem og956 : oGuar 4 [Cell.O, Cell.O, Cell.X, Cell.E, Cell.E, Cell.E, Cell.O, Cell.X, Cell.X] aiPlayer = true :=
  oGuar_any_intro 3 _ 3 (by decide) (by decide) (by decide) og955

theorem og957 : oGuar 5 [Cell.O, Cell.O, Cell.X, Cell.E, Cell.E, Cell.E, Cell.O, Cell.X, Cell.E] humanPlayer = true :=
  oGuar_all_intro 4 _ (by decide) (by decide)
    (all_cons_intro _ _ _ og952 (all_cons_intro _ _ _ og908 (all_cons_intro _ _ _ og954 (all_cons_intro _ _ _ og956 (all_nil_true _)))))

theorem og958 : oGuar 6 [Cell.O, Cell.O, Cell.X, Cell.E, Cell.E, Cell.E, Cell.E, Cell.X, Cell.E] aiPlayer = true :=
  oGuar_any_intro 5 _ 6 (by decide) (by decide) (by decide) og957

theorem og959 : oGuar 6 [Cell.O, Cell.O, Cell.E, Cell.E, Cell.E, Cell.X, Cell.E, Cell.X, Cell.E] aiPlayer = true :=
  oGuar_any_intro 5 _ 2 (by decide) (by decide) (by decide) og927

theorem og960 : oGuar 5 [Cell.O, Cell.O, Cell.O, Cell.E, Cell.E, Cell.E, Cell.E, Cell.X, Cell.X] humanPlayer = true :=
  oGuar_winO_intro 4 _ _ (by decide) (by decide)

theorem og961 : oGuar 6 [Cell.O, Cell.O, Cell.E, Cell.E, Cell.E, Cell.E, Cell.E, Cell.X, Cell.X] aiPlayer = true :=
  oGuar_any_intro 5 _ 2 (by decide) (by decide) (by decide) og960

theorem og962 : oGuar 7 [Cell.O, Cell.O, Cell.E, Cell.E, Cell.E, Cell.E, Cell.E, Cell.X, Cell.E] humanPlayer = true :=
  oGuar_all_intro 6 _ (by decide) (by decide)
    (all_cons_intro _ _ _ og958 (all_cons_intro _ _ _ og894 (all_cons_intro _ _ _ og918 (all_cons_intro _ _ _ og959 (all_cons_intro _ _ _ og943 (all_cons_intro _ _ _ og961 (all_nil_true _)))))))

theorem og963 : oGuar 8 [Cell.O, Cell.E, Cell.E, Cell.E, Cell.E, Cell.E, Cell.E, Cell.X, Cell.E] aiPlayer = true :=
  oGuar_any_intro 7 _ 1 (by decide) (by decide) (by decide) og962

theorem og964 : oGuar 6 [Cell.O, Cell.E, Cell.O, Cell.X, Cell.E, Cell.E, Cell.E, Cell.E, Cell.X] aiPlayer = true :=
  oGuar_any_intro 5 _ 1 (by decide) (by decide) (by decide) og895

theorem og965 : oGuar 6 [Cell.O, Cell.E, Cell.O, Cell.E, Cell.X, Cell.E, Cell.E, Cell.E, Cell.X] aiPlayer = true :=
  oGuar_any_intro 5 _ 1 (by decide) (by decide) (by decide) og919

theorem og966 : oGuar 6 [Cell.O, Cell.E, Cell.O, Cell.E, Cell.E, Cell.E, Cell.X, Cell.E, Cell.X] aiPlayer = true :=
  oGuar_any_intro 5 _ 1 (by decide) (by decide) (by decide) og944

theorem og967 : oGuar 6 [Cell.O, Cell.E, Cell.O, Cell.E, Cell.E, Cell.E, Cell.E, Cell.X, Cell.X] aiPlayer = true :=
  oGuar_any_intro 5 _ 1 (by decide) (by decide) (by decide) og960

theorem og968 : oGuar 7 [Cell.O, Cell.E, Cell.O, Cell.E, Cell.E, Cell.E, Cell.E, Cell.E, Cell.X] humanPlayer = true :=
  oGuar_all_intro 6 _ (by decide) (by decide)
    (all_cons_intro _ _ _ og831 (all_cons_intro _ _ _ og964 (all_cons_intro _ _ _ og965 (all_cons_intro _ _ _ og930 (all_cons_intro _ _ _ og966 (all_cons_intro _ _ _ og967 (all_nil_true _)))))))

theorem og969 : oGuar 8 [Cell.O, Cell.E, Cell.E, Cell.E, Cell.E, Cell.E, Cell.E, Cell.E, Cell.X] aiPlayer = true :=
  oGuar_any_intro 7 _ 2 (by decide) (by decide) (by decide) og968

theorem og970 : oGuar 9 [Cell.O, Cell.E, Cell.E, Cell.E, Cell.E, Cell.E, Cell.E, Cell.E, Cell.E] humanPlayer = true :=
  oGuar_all_intro 8 _ (by decide) (by decide)
    (all_cons_intro _ _ _ og833 (all_cons_intro _ _ _ og870 (all_cons_intro _ _ _ og898 (all_cons_intro _ _ _ og922 (all_cons_intro _ _ _ og932 (all_cons_intro _ _ _ og947 (all_cons_intro _ _ _ og963 (all_cons_intro _ _ _ og969 (all_nil_true _)))))))))

theorem og971 : oGuar 10 [Cell.E, Cell.E, Cell.E, Cell.E, Cell.E, Cell.E, Cell.E, Cell.E, Cell.E] aiPlayer = true :=
  oGuar_any_intro 9 _ 0 (by decide) (by decide) (by decide) og970

theorem xg0 : xGuar 3 [Cell.X, Cell.O, Cell.X, Cell.O, Cell.X, Cell.O, Cell.X, Cell.E, Cell.E] aiPlayer = true :=
  xGuar_winX_intro 2 _ _ (by decide)

theorem xg1 : xGuar 4 [Cell.X, Cell.O, Cell.X, Cell.O, Cell.X, Cell.O, Cell.E, Cell.E, Cell.E] humanPlayer = true :=
  xGuar_any_intro 3 _ 6 (by decide) (by decide) (by decide) xg0

theorem xg2 : xGuar 1 [Cell.X, Cell.O, Cell.X, Cell.O, Cell.X, Cell.X, Cell.O, Cell.O, Cell.X] aiPlayer = true :=
  xGuar_winX_intro 0 _ _ (by decide)

theorem xg3 : xGuar 2 [Cell.X, Cell.O, Cell.X, Cell.O, Cell.X, Cell.X, Cell.O, Cell.O, Cell.E] humanPlayer = true :=
  xGuar_any_intro 1 _ 8 (by decide) (by decide) (by decide) xg2

theorem xg4 : xGuar 1 [Cell.X, Cell.O, Cell.X, Cell.O, Cell.X, Cell.X, Cell.O, Cell.X, Cell.O] aiPlayer = true :=
  xGuar_draw_intro 0 _ _ (by decide) (by decide) (by decide)

theorem xg5 : xGuar 2 [Cell.X, Cell.O, Cell.X, Cell.O, Cell.X, Cell.X, Cell.O, Cell.E, Cell.O] humanPlayer = true :=
  xGuar_any_intro 1 _ 7 (by decide) (by decide) (by decide) xg4

theorem xg6 : xGuar 3 [Cell.X, Cell.O, Cell.X, Cell.O, Cell.X, Cell.X, Cell.O, Cell.E, Cell.E] aiPlayer = true :=
  xGuar_all_intro 2 _ (by decide) (by decide)
    (all_cons_intro _ _ _ xg3 (all_cons_intro _ _ _ xg5 (all_nil_true _)))

theorem xg7 : xGuar 4 [Cell.X, Cell.O, Cell.X, Cell.O, Cell.X, Cell.E, Cell.O, Cell.E, Cell.E] humanPlayer = true :=
  xGuar_any_intro 3 _ 5 (by decide) (by decide) (by decide) xg6

theorem xg8 : xGuar 1 [Cell.X, Cell.O, Cell.X, Cell.O, Cell.X, Cell.X, Cell.X, Cell.O, Cell.O] aiPlayer = true :=
  xGuar_winX_intro 0 _ _ (by decide)

theorem xg9 : xGuar 2 [Cell.X, Cell.O, Cell.X, Cell.O, Cell.X, Cell.X, Cell.E, Cell.O, Cell.O] humanPlayer = true :=
  xGuar_any_intro 1 _ 6 (by decide) (by decide) (by decide) xg8

theorem xg10 : xGuar 3 [Cell.X, Cell.O, Cell.X, Cell.O, Cell.X, Cell.X, Cell.E, Cell.O, Cell.E] aiPlayer = true :=
  xGuar_all_intro 2 _ (by decide) (by decide)
    (all_cons_intro _ _ _ xg3 (all_cons_intro _ _ _ xg9 (all_nil_true _)))

theorem xg11 : xGuar 4 [Cell.X, Cell.O, Cell.X, Cell.O, Cell.X, Cell.E, Cell.E, Cell.O, Cell.E] humanPlayer = true :=
  xGuar_any_intro 3 _ 5 (by decide) (by decide) (by decide) xg10

theorem xg12 : xGuar 3 [Cell.X, Cell.O, Cell.X, Cell.O, Cell.X, Cell.X, Cell.E, Cell.E, Cell.O] aiPlayer = true :=
  xGuar_all_intro 2 _ (by decide) (by decide)
    (all_cons_intro _ _ _ xg5 (all_cons_intro _ _ _ xg9 (all_nil_true _)))

theorem xg13 : xGuar 4 [Cell.X, Cell.O, Cell.X, Cell.O, Cell.X, Cell.E, Cell.E, Cell.E, Cell.O] humanPlayer = true :=
  xGuar_any_intro 3 _ 5 (by decide) (by decide) (by decide) xg12

theorem xg14 : xGuar 5 [Cell.X, Cell.O, Cell.X, Cell.O, Cell.X, Cell.E, Cell.E, Cell.E, Cell.E] aiPlayer = true :=
  xGuar_all_intro 4 _ (by decide) (by decide)
    (all_cons_intro _ _ _ xg1 (all_cons_intro _ _ _ xg7 (all_cons_intro _ _ _ xg11 (all_cons_intro _ _ _ xg13 (all_nil_true _)))))

theorem xg15 : xGuar 6 [Cell.X, Cell.O, Cell.X, Cell.O, Cell.E, Cell.E, Cell.E, Cell.E, Cell.E] humanPlayer = true :=
  xGuar_any_intro 5 _ 4 (by decide) (by decide) (by decide) xg14

theorem xg16 : xGuar 1 [Cell.X, Cell.O, Cell.X, Cell.O, Cell.O, Cell.X, Cell.O, Cell.X, Cell.X] aiPlayer = true :=
  xGuar_winX_intro 0 _ _ (by decide)

theorem xg17 : xGuar 2 [Cell.X, Cell.O, Cell.X, Cell.O, Cell.O, Cell.X, Cell.O, Cell.X, Cell.E] humanPlayer = true :=
  xGuar_any_intro 1 _ 8 (by decide) (by decide) (by decide) xg16

theorem xg18 : xGuar 1 [Cell.X, Cell.O, Cell.X, Cell.O, Cell.O, Cell.X, Cell.X, Cell.X, Cell.O] aiPlayer = true :=
  xGuar_draw_intro 0 _ _ (by decide) (by decide) (by decide)

theorem xg19 : xGuar 2 [Cell.X, Cell.O, Cell.X, Cell.O, Cell.O, Cell.X, Cell.E, Cell.X, Cell.O] humanPlayer = true :=
  xGuar_any_intro 1 _ 6 (by decide) (by decide) (by decide) xg18

theorem xg20 : xGuar 3 [Cell.X, Cell.O, Cell.X, Cell.O, Cell.O, Cell.X, Cell.E, Cell.X, Cell.E] aiPlayer = true :=
  xGuar_all_intro 2 _ (by decide) (by decide)
    (all_cons_intro _ _ _ xg17 (all_cons_intro _ _ _ xg19 (all_nil_true _)))

theorem xg21 : xGuar 4 [Cell.X, Cell.O, Cell.X, Cell.O, Cell.O, Cell.E, Cell.E, Cell.X, Cell.E] humanPlayer = true :=
  xGuar_any_intro 3 _ 5 (by decide) (by decide) (by decide) xg20

theorem xg22 : xGuar 1 [Cell.X, Cell.O, Cell.X, Cell.X, Cell.O, Cell.O, Cell.O, Cell.X, Cell.X] aiPlayer = true :=
  xGuar_draw_intro 0 _ _ (by decide) (by decide) (by decide)

theorem xg23 : xGuar 2 [Cell.X, Cell.O, Cell.X, Cell.X, Cell.O, Cell.O, Cell.O, Cell.X, Cell.E] humanPlayer = true :=
  xGuar_any_intro 1 _ 8 (by decide) (by decide) (by decide) xg22

theorem xg24 : xGuar 1 [Cell.X, Cell.O, Cell.X, Cell.X, Cell.O, Cell.O, Cell.X, Cell.X, Cell.O] aiPlayer = true :=
  xGuar_winX_intro 0 _ _ (by decide)

theorem xg25 : xGuar 2 [Cell.X, Cell.O, Cell.X, Cell.X, Cell.O, Cell.O, Cell.E, Cell.X, Cell.O] humanPlayer = true :=
  xGuar_any_intro 1 _ 6 (by decide) (by decide) (by decide) xg24

theorem xg26 : xGuar 3 [Cell.X, Cell.O, Cell.X, Cell.X, Cell.O, Cell.O, Cell.E, Cell.X, Cell.E] aiPlayer = true :=
  xGuar_all_intro 2 _ (by decide) (by decide)
    (all_cons_intro _ _ _ xg23 (all_cons_intro _ _ _ xg25 (all_nil_true _)))

theorem xg27 : xGuar 4 [Cell.X, Cell.O, Cell.X, Cell.E, Cell.O, Cell.O, Cell.E, Cell.X, Cell.E] humanPlayer = true :=
  xGuar_any_intro 3 _ 3 (by decide) (by decide) (by decide) xg26

theorem xg28 : xGuar 1 [Cell.X, Cell.O, Cell.X, Cell.X, Cell.O, Cell.X, Cell.O, Cell.X, Cell.O] aiPlayer = true :=
  xGuar_draw_intro 0 _ _ (by decide) (by decide) (by decide)

theorem xg29 : xGuar 2 [Cell.X, Cell.O, Cell.X, Cell.X, Cell.O, Cell.E, Cell.O, Cell.X, Cell.O] humanPlayer = true :=
  xGuar_any_intro 1 _ 5 (by decide) (by decide) (by decide) xg28

theorem xg30 : xGuar 3 [Cell.X, Cell.O, Cell.X, Cell.X, Cell.O, Cell.E, Cell.O, Cell.X, Cell.E] aiPlayer = true :=
  xGuar_all_intro 2 _ (by decide) (by decide)
    (all_cons_intro _ _ _ xg23 (all_cons_intro _ _ _ xg29 (all_nil_true _)))

theorem xg31 : xGuar 4 [Cell.X, Cell.O, Cell.X, Cell.E, Cell.O, Cell.E, Cell.O, Cell.X, Cell.E] humanPlayer = true :=
  xGuar_any_intro 3 _ 3 (by decide) (by decide) (by decide) xg30

theorem xg32 : xGuar 3 [Cell.X, Cell.O, Cell.X, Cell.X, Cell.O, Cell.E, Cell.E, Cell.X, Cell.O] aiPlayer = true :=
  xGuar_all_intro 2 _ (by decide) (by decide)
    (all_cons_intro _ _ _ xg25 (all_cons_intro _ _ _ xg29 (all_nil_true _)))

theorem xg33 : xGuar 4 [Cell.X, Cell.O, Cell.X, Cell.E, Cell.O, Cell.E, Cell.E, Cell.X, Cell.O] humanPlayer = true :=
  xGuar_any_intro 3 _ 3 (by decide) (by decide) (by decide) xg32

theorem xg34 : xGuar 5 [Cell.X, Cell.O, Cell.X, Cell.E, Cell.O, Cell.E, Cell.E, Cell.X, Cell.E] aiPlayer = true :=
  xGuar_all_intro 4 _ (by decide) (by decide)
    (all_cons_intro _ _ _ xg21 (all_cons_intro _ _ _ xg27 (all_cons_intro _ _ _ xg31 (all_cons_intro _ _ _ xg33 (all_nil_true _)))))

theorem xg35 : xGuar 6 [Cell.X, Cell.O, Cell.X, Cell.E, Cell.O, Cell.E, Cell.E, Cell.E, Cell.E] humanPlayer = true :=
  xGuar_any_intro 5 _ 7 (by decide) (by decide) (by decide) xg34

theorem xg36 : xGuar 3 [Cell.X, Cell.O, Cell.X, Cell.X, Cell.O, Cell.O, Cell.X, Cell.E, Cell.E] aiPlayer = true :=
  xGuar_winX_intro 2 _ _ (by decide)

theorem xg37 : xGuar 4 [Cell.X, Cell.O, Cell.X, Cell.X, Cell.O, Cell.O, Cell.E, Cell.E, Cell.E] humanPlayer = true :=
  xGuar_any_intro 3 _ 6 (by decide) (by decide) (by decide) xg36

theorem xg38 : xGuar 1 [Cell.X, Cell.O, Cell.X, Cell.X, Cell.X, Cell.O, Cell.O, Cell.O, Cell.X] aiPlayer = true :=
  xGuar_winX_intro 0 _ _ (by decide)

theorem xg39 : xGuar 2 [Cell.X, Cell.O, Cell.X, Cell.X, Cell.X, Cell.O, Cell.O, Cell.O, Cell.E] humanPlayer = true :=
  xGuar_any_intro 1 _ 8 (by decide) (by decide) (by decide) xg38

theorem xg40 : xGuar 1 [Cell.X, Cell.O, Cell.X, Cell.X, Cell.X, Cell.O, Cell.O, Cell.X, Cell.O] aiPlayer = true :=
  xGuar_draw_intro 0 _ _ (by decide) (by decide) (by decide)

theorem xg41 : xGuar 2 [Cell.X, Cell.O, Cell.X, Cell.X, Cell.X, Cell.O, Cell.O, Cell.E, Cell.O] humanPlayer = true :=
  xGuar_any_intro 1 _ 7 (by decide) (by decide) (by decide) xg40

theorem xg42 : xGuar 3 [Cell.X, Cell.O, Cell.X, Cell.X, Cell.X, Cell.O, Cell.O, Cell.E, Cell.E] aiPlayer = true :=
  xGuar_all_intro 2 _ (by decide) (by decide)
    (all_cons_intro _ _ _ xg39 (all_cons_intro _ _ _ xg41 (all_nil_true _)))

theorem xg43 : xGuar 4 [Cell.X, Cell.O, Cell.X, Cell.X, Cell.E, Cell.O, Cell.O, Cell.E, Cell.E] humanPlayer = true :=
  xGuar_any_intro 3 _ 4 (by decide) (by decide) (by decide) xg42

theorem xg44 : xGuar 1 [Cell.X, Cell.O, Cell.X, Cell.X, Cell.X, Cell.O, Cell.X, Cell.O, Cell.O] aiPlayer = true :=
  xGuar_winX_intro 0 _ _ (by decide)

theorem xg45 : xGuar 2 [Cell.X, Cell.O, Cell.X, Cell.X, Cell.X, Cell.O, Cell.E, Cell.O, Cell.O] humanPlayer = true :=
  xGuar_any_intro 1 _ 6 (by decide) (by decide) (by decide) xg44

theorem xg46 : xGuar 3 [Cell.X, Cell.O, Cell.X, Cell.X, Cell.X, Cell.O, Cell.E, Cell.O, Cell.E] aiPlayer = true :=
  xGuar_all_intro 2 _ (by decide) (by decide)
    (all_cons_intro _ _ _ xg39 (all_cons_intro _ _ _ xg45 (all_nil_true _)))

theorem xg47 : xGuar 4 [Cell.X, Cell.O, Cell.X, Cell.X, Cell.E, Cell.O, Cell.E, Cell.O, Cell.E] humanPlayer = true :=
  xGuar_any_intro 3 _ 4 (by decide) (by decide) (by decide) xg46

theorem xg48 : xGuar 3 [Cell.X, Cell.O, Cell.X, Cell.X, Cell.X, Cell.O, Cell.E, Cell.E, Cell.O] aiPlayer = true :=
  xGuar_all_intro 2 _ (by decide) (by decide)
    (all_cons_intro _ _ _ xg41 (all_cons_intro _ _ _ xg45 (all_nil_true _)))

theorem xg49 : xGuar 4 [Cell.X, Cell.O, Cell.X, Cell.X, Cell.E, Cell.O, Cell.E, Cell.E, Cell.O] humanPlayer = true :=
  xGuar_any_intro 3 _ 4 (by decide) (by decide) (by decide) xg48

theorem xg50 : xGuar 5 [Cell.X, Cell.O, Cell.X, Cell.X, Cell.E, Cell.O, Cell.E, Cell.E, Cell.E] aiPlayer = true :=
  xGuar_all_intro 4 _ (by decide) (by decide)
    (all_cons_intro _ _ _ xg37 (all_cons_intro _ _ _ xg43 (all_cons_intro _ _ _ xg47 (all_cons_intro _ _ _ xg49 (all_nil_true _)))))

theorem xg51 : xGuar 6 [Cell.X, Cell.O, Cell.X, Cell.E, Cell.E, Cell.O, Cell.E, Cell.E, Cell.E] humanPlayer = true :=
  xGuar_any_intro 5 _ 3 (by decide) (by decide) (by decide) xg50

theorem xg52 : xGuar 4 [Cell.X, Cell.O, Cell.X, Cell.E, Cell.X, Cell.O, Cell.O, Cell.E, Cell.E] humanPlayer = true :=
  xGuar_any_intro 3 _ 3 (by decide) (by decide) (by decide) xg42

theorem xg53 : xGuar 3 [Cell.X, Cell.O, Cell.X, Cell.E, Cell.X, Cell.E, Cell.O, Cell.O, Cell.X] aiPlayer = true :=
  xGuar_winX_intro 2 _ _ (by decide)

theorem xg54 : xGuar 4 [Cell.X, Cell.O, Cell.X, Cell.E, Cell.X, Cell.E, Cell.O, Cell.O, Cell.E] humanPlayer = true :=
  xGuar_any_intro 3 _ 8 (by decide) (by decide) (by decide) xg53

theorem xg55 : xGuar 2 [Cell.X, Cell.O, Cell.X, Cell.O, Cell.X, Cell.E, Cell.O, Cell.X, Cell.O] humanPlayer = true :=
  xGuar_any_intro 1 _ 5 (by decide) (by decide) (by decide) xg4

theorem xg56 : xGuar 2 [Cell.X, Cell.O, Cell.X, Cell.E, Cell.X, Cell.O, Cell.O, Cell.X, Cell.O] humanPlayer = true :=
  xGuar_any_intro 1 _ 3 (by decide) (by decide) (by decide) xg40

theorem xg57 : xGuar 3 [Cell.X, Cell.O, Cell.X, Cell.E, Cell.X, Cell.E, Cell.O, Cell.X, Cell.O] aiPlayer = true :=
  xGuar_all_intro 2 _ (by decide) (by decide)
    (all_cons_intro _ _ _ xg55 (all_cons_intro _ _ _ xg56 (all_nil_true _)))

theorem xg58 : xGuar 4 [Cell.X, Cell.O, Cell.X, Cell.E, Cell.X, Cell.E, Cell.O, Cell.E, Cell.O] humanPlayer = true :=
  xGuar_any_intro 3 _ 7 (by decide) (by decide) (by decide) xg57

theorem xg59 : xGuar 5 [Cell.X, Cell.O, Cell.X, Cell.E, Cell.X, Cell.E, Cell.O, Cell.E, Cell.E] aiPlayer = true :=
  xGuar_all_intro 4 _ (by decide) (by decide)
    (all_cons_intro _ _ _ xg7 (all_cons_intro _ _ _ xg52 (all_cons_intro _ _ _ xg54 (all_cons_intro _ _ _ xg58 (all_nil_true _)))))

theorem xg60 : xGuar 6 [Cell.X, Cell.O, Cell.X, Cell.E, Cell.E, Cell.E, Cell.O, Cell.E, Cell.E] humanPlayer = true :=
  xGuar_any_intro 5 _ 4 (by decide) (by decide) (by decide) xg59

theorem xg61 : xGuar 4 [Cell.X, Cell.O, Cell.X, Cell.E, Cell.X, Cell.O, Cell.E, Cell.O, Cell.E] humanPlayer = true :=
  xGuar_any_intro 3 _ 3 (by decide) (by decide) (by decide) xg46

theorem xg62 : xGuar 3 [Cell.X, Cell.O, Cell.X, Cell.E, Cell.X, Cell.E, Cell.X, Cell.O, Cell.O] aiPlayer = true :=
  xGuar_winX_intro 2 _ _ (by decide)

theorem xg63 : xGuar 4 [Cell.X, Cell.O, Cell.X, Cell.E, Cell.X, Cell.E, Cell.E, Cell.O, Cell.O] humanPlayer = true :=
  xGuar_any_intro 3 _ 6 (by decide) (by decide) (by decide) xg62

theorem xg64 : xGuar 5 [Cell.X, Cell.O, Cell.X, Cell.E, Cell.X, Cell.E, Cell.E, Cell.O, Cell.E] aiPlayer = true :=
  xGuar_all_intro 4 _ (by decide) (by decide)
    (all_cons_intro _ _ _ xg11 (all_cons_intro _ _ _ xg61 (all_cons_intro _ _ _ xg54 (all_cons_intro _ _ _ xg63 (all_nil_true _)))))

theorem xg65 : xGuar 6 [Cell.X, Cell.O, Cell.X, Cell.E, Cell.E, Cell.E, Cell.E, Cell.O, Cell.E] humanPlayer = true :=
  xGuar_any_intro 5 _ 4 (by decide) (by decide) (by decide) xg64

theorem xg66 : xGuar 3 [Cell.X, Cell.O, Cell.X, Cell.X, Cell.O, Cell.E, Cell.X, Cell.E, Cell.O] aiPlayer = true :=
  xGuar_winX_intro 2 _ _ (by decide)

theorem xg67 : xGuar 4 [Cell.X, Cell.O, Cell.X, Cell.X, Cell.O, Cell.E, Cell.E, Cell.E, Cell.O] humanPlayer = true :=
  xGuar_any_intro 3 _ 6 (by decide) (by decide) (by decide) xg66

theorem xg68 : xGuar 2 [Cell.X, Cell.O, Cell.X, Cell.X, Cell.E, Cell.O, Cell.O, Cell.X, Cell.O] humanPlayer = true :=
  xGuar_any_intro 1 _ 4 (by decide) (by decide) (by decide) xg40

theorem xg69 : xGuar 3 [Cell.X, Cell.O, Cell.X, Cell.X, Cell.E, Cell.E, Cell.O, Cell.X, Cell.O] aiPlayer = true :=
  xGuar_all_intro 2 _ (by decide) (by decide)
    (all_cons_intro _ _ _ xg29 (all_cons_intro _ _ _ xg68 (all_nil_true _)))

theorem xg70 : xGuar 4 [Cell.X, Cell.O, Cell.X, Cell.X, Cell.E, Cell.E, Cell.O, Cell.E, Cell.O] humanPlayer = true :=
  xGuar_any_intro 3 _ 7 (by decide) (by decide) (by decide) xg69

theorem xg71 : xGuar 3 [Cell.X, Cell.O, Cell.X, Cell.X, Cell.E, Cell.E, Cell.X, Cell.O, Cell.O] aiPlayer = true :=
  xGuar_winX_intro 2 _ _ (by decide)

theorem xg72 : xGuar 4 [Cell.X, Cell.O, Cell.X, Cell.X, Cell.E, Cell.E, Cell.E, Cell.O, Cell.O] humanPlayer = true :=
  xGuar_any_intro 3 _ 6 (by decide) (by decide) (by decide) xg71

theorem xg73 : xGuar 5 [Cell.X, Cell.O, Cell.X, Cell.X, Cell.E, Cell.E, Cell.E, Cell.E, Cell.O] aiPlayer = true :=
  xGuar_all_intro 4 _ (by decide) (by decide)
    (all_cons_intro _ _ _ xg67 (all_cons_intro _ _ _ xg49 (all_cons_intro _ _ _ xg70 (all_cons_intro _ _ _ xg72 (all_nil_true _)))))

theorem xg74 : xGuar 6 [Cell.X, Cell.O, Cell.X, Cell.E, Cell.E, Cell.E, Cell.E, Cell.E, Cell.O] humanPlayer = true :=
  xGuar_any_intro 5 _ 3 (by decide) (by decide) (by decide) xg73

theorem xg75 : xGuar 7 [Cell.X, Cell.O, Cell.X, Cell.E, Cell.E, Cell.E, Cell.E, Cell.E, Cell.E] aiPlayer = true :=
  xGuar_all_intro 6 _ (by decide) (by decide)
    (all_cons_intro _ _ _ xg15 (all_cons_intro _ _ _ xg35 (all_cons_intro _ _ _ xg51 (all_cons_intro _ _ _ xg60 (all_cons_intro _ _ _ xg65 (all_cons_intro _ _ _ xg74 (all_nil_true _)))))))

theorem xg76 : xGuar 8 [Cell.X, Cell.O, Cell.E, Cell.E, Cell.E, Cell.E, Cell.E, Cell.E, Cell.E] humanPlayer = true :=
  xGuar_any_intro 7 _ 2 (by decide) (by decide) (by decide) xg75

theorem xg77 : xGuar 3 [Cell.X, Cell.O, Cell.O, Cell.X, Cell.X, Cell.O, Cell.X, Cell.E, Cell.E] aiPlayer = true :=
  xGuar_winX_intro 2 _ _ (by decide)

theorem xg78 : xGuar 4 [Cell.X, Cell.O, Cell.O, Cell.X, Cell.X, Cell.O, Cell.E, Cell.E, Cell.E] humanPlayer = true :=
  xGuar_any_intro 3 _ 6 (by decide) (by decide) (by decide) xg77

theorem xg79 : xGuar 3 [Cell.X, Cell.O, Cell.O, Cell.X, Cell.X, Cell.X, Cell.O, Cell.E, Cell.E] aiPlayer = true :=
  xGuar_winX_intro 2 _ _ (by decide)

theorem xg80 : xGuar 4 [Cell.X, Cell.O, Cell.O, Cell.X, Cell.X, Cell.E, Cell.O, Cell.E, Cell.E] humanPlayer = true :=
  xGuar_any_intro 3 _ 5 (by decide) (by decide) (by decide) xg79

theorem xg81 : xGuar 3 [Cell.X, Cell.O, Cell.O, Cell.X, Cell.X, Cell.X, Cell.E, Cell.O, Cell.E] aiPlayer = true :=
  xGuar_winX_intro 2 _ _ (by decide)

theorem xg82 : xGuar 4 [Cell.X, Cell.O, Cell.O, Cell.X, Cell.X, Cell.E, Cell.E, Cell.O, Cell.E] humanPlayer = true :=
  xGuar_any_intro 3 _ 5 (by decide) (by decide) (by decide) xg81

theorem xg83 : xGuar 3 [Cell.X, Cell.O, Cell.O, Cell.X, Cell.X, Cell.X, Cell.E, Cell.E, Cell.O] aiPlayer = true :=
  xGuar_winX_intro 2 _ _ (by decide)

theorem xg84 : xGuar 4 [Cell.X, Cell.O, Cell.O, Cell.X, Cell.X, Cell.E, Cell.E, Cell.E, Cell.O] humanPlayer = true :=
  xGuar_any_intro 3 _ 5 (by decide) (by decide) (by decide) xg83

theorem xg85 : xGuar 5 [Cell.X, Cell.O, Cell.O, Cell.X, Cell.X, Cell.E, Cell.E, Cell.E, Cell.E] aiPlayer = true :=
  xGuar_all_intro 4 _ (by decide) (by decide)
    (all_cons_intro _ _ _ xg78 (all_cons_intro _ _ _ xg80 (all_cons_intro _ _ _ xg82 (all_cons_intro _ _ _ xg84 (all_nil_true _)))))

theorem xg86 : xGuar 6 [Cell.X, Cell.O, Cell.O, Cell.X, Cell.E, Cell.E, Cell.E, Cell.E, Cell.E] humanPlayer = true :=
  xGuar_any_intro 5 _ 4 (by decide) (by decide) (by decide) xg85

theorem xg87 : xGuar 5 [Cell.X, Cell.E, Cell.O, Cell.X, Cell.O, Cell.E, Cell.X, Cell.E, Cell.E] aiPlayer = true :=
  xGuar_winX_intro 4 _ _ (by decide)

theorem xg88 : xGuar 6 [Cell.X, Cell.E, Cell.O, Cell.X, Cell.O, Cell.E, Cell.E, Cell.E, Cell.E] humanPlayer = true :=
  xGuar_any_intro 5 _ 6 (by decide) (by decide) (by decide) xg87

theorem xg89 : xGuar 5 [Cell.X, Cell.E, Cell.O, Cell.X, Cell.E, Cell.O, Cell.X, Cell.E, Cell.E] aiPlayer = true :=
  xGuar_winX_intro 4 _ _ (by decide)

theorem xg90 : xGuar 6 [Cell.X, Cell.E, Cell.O, Cell.X, Cell.E, Cell.O, Cell.E, Cell.E, Cell.E] humanPlayer = true :=
  xGuar_any_intro 5 _ 6 (by decide) (by decide) (by decide) xg89

theorem xg91 : xGuar 3 [Cell.X, Cell.E, Cell.O, Cell.X, Cell.X, Cell.O, Cell.O, Cell.E, Cell.X] aiPlayer = true :=
  xGuar_winX_intro 2 _ _ (by decide)

theorem xg92 : xGuar 4 [Cell.X, Cell.E, Cell.O, Cell.X, Cell.X, Cell.O, Cell.O, Cell.E, Cell.E] humanPlayer = true :=
  xGuar_any_intro 3 _ 8 (by decide) (by decide) (by decide) xg91

theorem xg93 : xGuar 3 [Cell.X, Cell.E, Cell.O, Cell.X, Cell.X, Cell.X, Cell.O, Cell.O, Cell.E] aiPlayer = true :=
  xGuar_winX_intro 2 _ _ (by decide)

theorem xg94 : xGuar 4 [Cell.X, Cell.E, Cell.O, Cell.X, Cell.X, Cell.E, Cell.O, Cell.O, Cell.E] humanPlayer = true :=
  xGuar_any_intro 3 _ 5 (by decide) (by decide) (by decide) xg93

theorem xg95 : xGuar 3 [Cell.X, Cell.E, Cell.O, Cell.X, Cell.X, Cell.X, Cell.O, Cell.E, Cell.O] aiPlayer = true :=
  xGuar_winX_intro 2 _ _ (by decide)

theorem xg96 : xGuar 4 [Cell.X, Cell.E, Cell.O, Cell.X, Cell.X, Cell.E, Cell.O, Cell.E, Cell.O] humanPlayer = true :=
  xGuar_any_intro 3 _ 5 (by decide) (by decide) (by decide) xg95

theorem xg97 : xGuar 5 [Cell.X, Cell.E, Cell.O, Cell.X, Cell.X, Cell.E, Cell.O, Cell.E, Cell.E] aiPlayer = true :=
  xGuar_all_intro 4 _ (by decide) (by decide)
    (all_cons_intro _ _ _ xg80 (all_cons_intro _ _ _ xg92 (all_cons_intro _ _ _ xg94 (all_cons_intro _ _ _ xg96 (all_nil_true _)))))

theorem xg98 : xGuar 6 [Cell.X, Cell.E, Cell.O, Cell.X, Cell.E, Cell.E, Cell.O, Cell.E, Cell.E] humanPlayer = true :=
  xGuar_any_intro 5 _ 4 (by decide) (by decide) (by decide) xg97

theorem xg99 : xGuar 3 [Cell.X, Cell.E, Cell.O, Cell.X, Cell.X, Cell.O, Cell.X, Cell.O, Cell.E] aiPlayer = true :=
  xGuar_winX_intro 2 _ _ (by decide)

theorem xg100 : xGuar 4 [Cell.X, Cell.E, Cell.O, Cell.X, Cell.X, Cell.O, Cell.E, Cell.O, Cell.E] humanPlayer = true :=
  xGuar_any_intro 3 _ 6 (by decide) (by decide) (by decide) xg99

theorem xg101 : xGuar 3 [Cell.X, Cell.E, Cell.O, Cell.X, Cell.X, Cell.X, Cell.E, Cell.O, Cell.O] aiPlayer = true :=
  xGuar_winX_intro 2 _ _ (by decide)

theorem xg102 : xGuar 4 [Cell.X, Cell.E, Cell.O, Cell.X, Cell.X, Cell.E, Cell.E, Cell.O, Cell.O] humanPlayer = true :=
  xGuar_any_intro 3 _ 5 (by decide) (by decide) (by decide) xg101

theorem xg103 : xGuar 5 [Cell.X, Cell.E, Cell.O, Cell.X, Cell.X, Cell.E, Cell.E, Cell.O, Cell.E] aiPlayer = true :=
  xGuar_all_intro 4 _ (by decide) (by decide)
    (all_cons_intro _ _ _ xg82 (all_cons_intro _ _ _ xg100 (all_cons_intro _ _ _ xg94 (all_cons_intro _ _ _ xg102 (all_nil_true _)))))

theorem xg104 : xGuar 6 [Cell.X, Cell.E, Cell.O, Cell.X, Cell.E, Cell.E, Cell.E, Cell.O, Cell.E] humanPlayer = true :=
  xGuar_any_intro 5 _ 4 (by decide) (by decide) (by decide) xg103

theorem xg105 : xGuar 4 [Cell.X, Cell.O, Cell.O, Cell.X, Cell.E, Cell.X, Cell.E, Cell.E, Cell.O] humanPlayer = true :=
  xGuar_any_intro 3 _ 4 (by decide) (by decide) (by decide) xg83

theorem xg106 : xGuar 3 [Cell.X, Cell.E, Cell.O, Cell.X, Cell.O, Cell.X, Cell.X, Cell.E, Cell.O] aiPlayer = true :=
  xGuar_winX_intro 2 _ _ (by decide)

theorem xg107 : xGuar 4 [Cell.X, Cell.E, Cell.O, Cell.X, Cell.O, Cell.X, Cell.E, Cell.E, Cell.O] humanPlayer = true :=
  xGuar_any_intro 3 _ 6 (by decide) (by decide) (by decide) xg106

theorem xg108 : xGuar 4 [Cell.X, Cell.E, Cell.O, Cell.X, Cell.E, Cell.X, Cell.O, Cell.E, Cell.O] humanPlayer = true :=
  xGuar_any_intro 3 _ 4 (by decide) (by decide) (by decide) xg95

theorem xg109 : xGuar 4 [Cell.X, Cell.E, Cell.O, Cell.X, Cell.E, Cell.X, Cell.E, Cell.O, Cell.O] humanPlayer = true :=
  xGuar_any_intro 3 _ 4 (by decide) (by decide) (by decide) xg101

theorem xg110 : xGuar 5 [Cell.X, Cell.E, Cell.O, Cell.X, Cell.E, Cell.X, Cell.E, Cell.E, Cell.O] aiPlayer = true :=
  xGuar_all_intro 4 _ (by decide) (by decide)
    (all_cons_intro _ _ _ xg105 (all_cons_intro _ _ _ xg107 (all_cons_intro _ _ _ xg108 (all_cons_intro _ _ _ xg109 (all_nil_true _)))))

theorem xg111 : xGuar 6 [Cell.X, Cell.E, Cell.O, Cell.X, Cell.E, Cell.E, Cell.E, Cell.E, Cell.O] humanPlayer = true :=
  xGuar_any_intro 5 _ 5 (by decide) (by decide) (by decide) xg110

theorem xg112 : xGuar 7 [Cell.X, Cell.E, Cell.O, Cell.X, Cell.E, Cell.E, Cell.E, Cell.E, Cell.E] aiPlayer = true :=
  xGuar_all_intro 6 _ (by decide) (by decide)
    (all_cons_intro _ _ _ xg86 (all_cons_intro _ _ _ xg88 (all_cons_intro _ _ _ xg90 (all_cons_intro _ _ _ xg98 (all_cons_intro _ _ _ xg104 (all_cons_intro _ _ _ xg111 (all_nil_true _)))))))

theorem xg113 : xGuar 8 [Cell.X, Cell.E, Cell.O, Cell.E, Cell.E, Cell.E, Cell.E, Cell.E, Cell.E] humanPlayer = true :=
  xGuar_any_intro 7 _ 3 (by decide) (by decide) (by decide) xg112

theorem xg114 : xGuar 3 [Cell.X, Cell.X, Cell.O, Cell.O, Cell.X, Cell.O, Cell.E, Cell.X, Cell.E] aiPlayer = true :=
  xGuar_winX_intro 2 _ _ (by decide)

theorem xg115 : xGuar 4 [Cell.X, Cell.X, Cell.O, Cell.O, Cell.X, Cell.O, Cell.E, Cell.E, Cell.E] humanPlayer = true :=
  xGuar_any_intro 3 _ 7 (by decide) (by decide) (by decide) xg114

theorem xg116 : xGuar 1 [Cell.X, Cell.X, Cell.O, Cell.O, Cell.X, Cell.X, Cell.O, Cell.O, Cell.X] aiPlayer = true :=
  xGuar_winX_intro 0 _ _ (by decide)

theorem xg117 : xGuar 2 [Cell.X, Cell.X, Cell.O, Cell.O, Cell.X, Cell.X, Cell.O, Cell.O, Cell.E] humanPlayer = true :=
  xGuar_any_intro 1 _ 8 (by decide) (by decide) (by decide) xg116

theorem xg118 : xGuar 1 [Cell.X, Cell.X, Cell.O, Cell.O, Cell.X, Cell.X, Cell.O, Cell.X, Cell.O] aiPlayer = true :=
  xGuar_winX_intro 0 _ _ (by decide)

theorem xg119 : xGuar 2 [Cell.X, Cell.X, Cell.O, Cell.O, Cell.X, Cell.X, Cell.O, Cell.E, Cell.O] humanPlayer = true :=
  xGuar_any_intro 1 _ 7 (by decide) (by decide) (by decide) xg118

theorem xg120 : xGuar 3 [Cell.X, Cell.X, Cell.O, Cell.O, Cell.X, Cell.X, Cell.O, Cell.E, Cell.E] aiPlayer = true :=
  xGuar_all_intro 2 _ (by decide) (by decide)
    (all_cons_intro _ _ _ xg117 (all_cons_intro _ _ _ xg119 (all_nil_true _)))

theorem xg121 : xGuar 4 [Cell.X, Cell.X, Cell.O, Cell.O, Cell.X, Cell.E, Cell.O, Cell.E, Cell.E] humanPlayer = true :=
  xGuar_any_intro 3 _ 5 (by decide) (by decide) (by decide) xg120

theorem xg122 : xGuar 1 [Cell.X, Cell.X, Cell.O, Cell.O, Cell.X, Cell.X, Cell.X, Cell.O, Cell.O] aiPlayer = true :=
  xGuar_draw_intro 0 _ _ (by decide) (by decide) (by decide)

theorem xg123 : xGuar 2 [Cell.X, Cell.X, Cell.O, Cell.O, Cell.X, Cell.X, Cell.E, Cell.O, Cell.O] humanPlayer = true :=
  xGuar_any_intro 1 _ 6 (by decide) (by decide) (by decide) xg122

theorem xg124 : xGuar 3 [Cell.X, Cell.X, Cell.O, Cell.O, Cell.X, Cell.X, Cell.E, Cell.O, Cell.E] aiPlayer = true :=
  xGuar_all_intro 2 _ (by decide) (by decide)
    (all_cons_intro _ _ _ xg117 (all_cons_intro _ _ _ xg123 (all_nil_true _)))

theorem xg125 : xGuar 4 [Cell.X, Cell.X, Cell.O, Cell.O, Cell.X, Cell.E, Cell.E, Cell.O, Cell.E] humanPlayer = true :=
  xGuar_any_intro 3 _ 5 (by decide) (by decide) (by decide) xg124

theorem xg126 : xGuar 3 [Cell.X, Cell.X, Cell.O, Cell.O, Cell.X, Cell.X, Cell.E, Cell.E, Cell.O] aiPlayer = true :=
  xGuar_all_intro 2 _ (by decide) (by decide)
    (all_cons_intro _ _ _ xg119 (all_cons_intro _ _ _ xg123 (all_nil_true _)))

theorem xg127 : xGuar 4 [Cell.X, Cell.X, Cell.O, Cell.O, Cell.X, Cell.E, Cell.E, Cell.E, Cell.O] humanPlayer = true :=
  xGuar_any_intro 3 _ 5 (by decide) (by decide) (by decide) xg126

theorem xg128 : xGuar 5 [Cell.X, Cell.X, Cell.O, Cell.O, Cell.X, Cell.E, Cell.E, Cell.E, Cell.E] aiPlayer = true :=
  xGuar_all_intro 4 _ (by decide) (by decide)
    (all_cons_intro _ _ _ xg115 (all_cons_intro _ _ _ xg121 (all_cons_intro _ _ _ xg125 (all_cons_intro _ _ _ xg127 (all_nil_true _)))))

theorem xg129 : xGuar 6 [Cell.X, Cell.X, Cell.O, Cell.O, Cell.E, Cell.E, Cell.E, Cell.E, Cell.E] humanPlayer = true :=
  xGuar_any_intro 5 _ 4 (by decide) (by decide) (by decide) xg128

theorem xg130 : xGuar 5 [Cell.X, Cell.X, Cell.X, Cell.O, Cell.O, Cell.E, Cell.E, Cell.E, Cell.E] aiPlayer = true :=
  xGuar_winX_intro 4 _ _ (by decide)

theorem xg131 : xGuar 6 [Cell.X, Cell.X, Cell.E, Cell.O, Cell.O, Cell.E, Cell.E, Cell.E, Cell.E] humanPlayer = true :=
  xGuar_any_intro 5 _ 2 (by decide) (by decide) (by decide) xg130

theorem xg132 : xGuar 5 [Cell.X, Cell.X, Cell.X, Cell.O, Cell.E, Cell.O, Cell.E, Cell.E, Cell.E] aiPlayer = true :=
  xGuar_winX_intro 4 _ _ (by decide)

theorem xg133 : xGuar 6 [Cell.X, Cell.X, Cell.E, Cell.O, Cell.E, Cell.O, Cell.E, Cell.E, Cell.E] humanPlayer = true :=
  xGuar_any_intro 5 _ 2 (by decide) (by decide) (by decide) xg132

theorem xg134 : xGuar 5 [Cell.X, Cell.X, Cell.X, Cell.O, Cell.E, Cell.E, Cell.O, Cell.E, Cell.E] aiPlayer = true :=
  xGuar_winX_intro 4 _ _ (by decide)

theorem xg135 : xGuar 6 [Cell.X, Cell.X, Cell.E, Cell.O, Cell.E, Cell.E, Cell.O, Cell.E, Cell.E] humanPlayer = true :=
  xGuar_any_intro 5 _ 2 (by decide) (by decide) (by decide) xg134

theorem xg136 : xGuar 5 [Cell.X, Cell.X, Cell.X, Cell.O, Cell.E, Cell.E, Cell.E, Cell.O, Cell.E] aiPlayer = true :=
  xGuar_winX_intro 4 _ _ (by decide)

theorem xg137 : xGuar 6 [Cell.X, Cell.X, Cell.E, Cell.O, Cell.E, Cell.E, Cell.E, Cell.O, Cell.E] humanPlayer = true :=
  xGuar_any_intro 5 _ 2 (by decide) (by decide) (by decide) xg136

theorem xg138 : xGuar 5 [Cell.X, Cell.X, Cell.X, Cell.O, Cell.E, Cell.E, Cell.E, Cell.E, Cell.O] aiPlayer = true :=
  xGuar_winX_intro 4 _ _ (by decide)

theorem xg139 : xGuar 6 [Cell.X, Cell.X, Cell.E, Cell.O, Cell.E, Cell.E, Cell.E, Cell.E, Cell.O] humanPlayer = true :=
  xGuar_any_intro 5 _ 2 (by decide) (by decide) (by decide) xg138

theorem xg140 : xGuar 7 [Cell.X, Cell.X, Cell.E, Cell.O, Cell.E, Cell.E, Cell.E, Cell.E, Cell.E] aiPlayer = true :=
  xGuar_all_intro 6 _ (by decide) (by decide)
    (all_cons_intro _ _ _ xg129 (all_cons_intro _ _ _ xg131 (all_cons_intro _ _ _ xg133 (all_cons_intro _ _ _ xg135 (all_cons_intro _ _ _ xg137 (all_cons_intro _ _ _ xg139 (all_nil_true _)))))))

theorem xg141 : xGuar 8 [Cell.X, Cell.E, Cell.E, Cell.O, Cell.E, Cell.E, Cell.E, Cell.E, Cell.E] humanPlayer = true :=
  xGuar_any_intro 7 _ 1 (by decide) (by decide) (by decide) xg140

theorem xg142 : xGuar 1 [Cell.X, Cell.X, Cell.O, Cell.O, Cell.O, Cell.X, Cell.X, Cell.O, Cell.X] aiPlayer = true :=
  xGuar_draw_intro 0 _ _ (by decide) (by decide) (by decide)

theorem xg143 : xGuar 2 [Cell.X, Cell.X, Cell.O, Cell.O, Cell.O, Cell.X, Cell.X, Cell.O, Cell.E] humanPlayer = true :=
  xGuar_any_intro 1 _ 8 (by decide) (by decide) (by decide) xg142

theorem xg144 : xGuar 1 [Cell.X, Cell.X, Cell.O, Cell.O, Cell.O, Cell.X, Cell.X, Cell.X, Cell.O] aiPlayer = true :=
  xGuar_draw_intro 0 _ _ (by decide) (by decide) (by decide)

theorem xg145 : xGuar 2 [Cell.X, Cell.X, Cell.O, Cell.O, Cell.O, Cell.X, Cell.X, Cell.E, Cell.O] humanPlayer = true :=
  xGuar_any_intro 1 _ 7 (by decide) (by decide) (by decide) xg144

theorem xg146 : xGuar 3 [Cell.X, Cell.X, Cell.O, Cell.O, Cell.O, Cell.X, Cell.X, Cell.E, Cell.E] aiPlayer = true :=
  xGuar_all_intro 2 _ (by decide) (by decide)
    (all_cons_intro _ _ _ xg143 (all_cons_intro _ _ _ xg145 (all_nil_true _)))

theorem xg147 : xGuar 4 [Cell.X, Cell.X, Cell.O, Cell.O, Cell.O, Cell.E, Cell.X, Cell.E, Cell.E] humanPlayer = true :=
  xGuar_any_intro 3 _ 5 (by decide) (by decide) (by decide) xg146

theorem xg148 : xGuar 3 [Cell.X, Cell.X, Cell.O, Cell.X, Cell.O, Cell.O, Cell.X, Cell.E, Cell.E] aiPlayer = true :=
  xGuar_winX_intro 2 _ _ (by decide)

theorem xg149 : xGuar 4 [Cell.X, Cell.X, Cell.O, Cell.E, Cell.O, Cell.O, Cell.X, Cell.E, Cell.E] humanPlayer = true :=
  xGuar_any_intro 3 _ 3 (by decide) (by decide) (by decide) xg148

theorem xg150 : xGuar 3 [Cell.X, Cell.X, Cell.O, Cell.X, Cell.O, Cell.E, Cell.X, Cell.O, Cell.E] aiPlayer = true :=
  xGuar_winX_intro 2 _ _ (by decide)

theorem xg151 : xGuar 4 [Cell.X, Cell.X, Cell.O, Cell.E, Cell.O, Cell.E, Cell.X, Cell.O, Cell.E] humanPlayer = true :=
  xGuar_any_intro 3 _ 3 (by decide) (by decide) (by decide) xg150

theorem xg152 : xGuar 3 [Cell.X, Cell.X, Cell.O, Cell.X, Cell.O, Cell.E, Cell.X, Cell.E, Cell.O] aiPlayer = true :=
  xGuar_winX_intro 2 _ _ (by decide)

theorem xg153 : xGuar 4 [Cell.X, Cell.X, Cell.O, Cell.E, Cell.O, Cell.E, Cell.X, Cell.E, Cell.O] humanPlayer = true :=
  xGuar_any_intro 3 _ 3 (by decide) (by decide) (by decide) xg152

theorem xg154 : xGuar 5 [Cell.X, Cell.X, Cell.O, Cell.E, Cell.O, Cell.E, Cell.X, Cell.E, Cell.E] aiPlayer = true :=
  xGuar_all_intro 4 _ (by decide) (by decide)
    (all_cons_intro _ _ _ xg147 (all_cons_intro _ _ _ xg149 (all_cons_intro _ _ _ xg151 (all_cons_intro _ _ _ xg153 (all_nil_true _)))))

theorem xg155 : xGuar 6 [Cell.X, Cell.X, Cell.O, Cell.E, Cell.O, Cell.E, Cell.E, Cell.E, Cell.E] humanPlayer = true :=
  xGuar_any_intro 5 _ 6 (by decide) (by decide) (by decide) xg154

theorem xg156 : xGuar 5 [Cell.X, Cell.X, Cell.X, Cell.E, Cell.O, Cell.O, Cell.E, Cell.E, Cell.E] aiPlayer = true :=
  xGuar_winX_intro 4 _ _ (by decide)

theorem xg157 : xGuar 6 [Cell.X, Cell.X, Cell.E, Cell.E, Cell.O, Cell.O, Cell.E, Cell.E, Cell.E] humanPlayer = true :=
  xGuar_any_intro 5 _ 2 (by decide) (by decide) (by decide) xg156

theorem xg158 : xGuar 5 [Cell.X, Cell.X, Cell.X, Cell.E, Cell.O, Cell.E, Cell.O, Cell.E, Cell.E] aiPlayer = true :=
  xGuar_winX_intro 4 _ _ (by decide)

theorem xg159 : xGuar 6 [Cell.X, Cell.X, Cell.E, Cell.E, Cell.O, Cell.E, Cell.O, Cell.E, Cell.E] humanPlayer = true :=
  xGuar_any_intro 5 _ 2 (by decide) (by decide) (by decide) xg158

theorem xg160 : xGuar 5 [Cell.X, Cell.X, Cell.X, Cell.E, Cell.O, Cell.E, Cell.E, Cell.O, Cell.E] aiPlayer = true :=
  xGuar_winX_intro 4 _ _ (by decide)

theorem xg161 : xGuar 6 [Cell.X, Cell.X, Cell.E, Cell.E, Cell.O, Cell.E, Cell.E, Cell.O, Cell.E] humanPlayer = true :=
  xGuar_any_intro 5 _ 2 (by decide) (by decide) (by decide) xg160

theorem xg162 : xGuar 5 [Cell.X, Cell.X, Cell.X, Cell.E, Cell.O, Cell.E, Cell.E, Cell.E, Cell.O] aiPlayer = true :=
  xGuar_winX_intro 4 _ _ (by decide)

theorem xg163 : xGuar 6 [Cell.X, Cell.X, Cell.E, Cell.E, Cell.O, Cell.E, Cell.E, Cell.E, Cell.O] humanPlayer = true :=
  xGuar_any_intro 5 _ 2 (by decide) (by decide) (by decide) xg162

theorem xg164 : xGuar 7 [Cell.X, Cell.X, Cell.E, Cell.E, Cell.O, Cell.E, Cell.E, Cell.E, Cell.E] aiPlayer = true :=
  xGuar_all_intro 6 _ (by decide) (by decide)
    (all_cons_intro _ _ _ xg155 (all_cons_intro _ _ _ xg131 (all_cons_intro _ _ _ xg157 (all_cons_intro _ _ _ xg159 (all_cons_intro _ _ _ xg161 (all_cons_intro _ _ _ xg163 (all_nil_true _)))))))

theorem xg165 : xGuar 8 [Cell.X, Cell.E, Cell.E, Cell.E, Cell.O, Cell.E, Cell.E, Cell.E, Cell.E] humanPlayer = true :=
  xGuar_any_intro 7 _ 1 (by decide) (by decide) (by decide) xg164

theorem xg166 : xGuar 6 [Cell.X, Cell.E, Cell.X, Cell.O, Cell.E, Cell.O, Cell.E, Cell.E, Cell.E] humanPlayer = true :=
  xGuar_any_intro 5 _ 1 (by decide) (by decide) (by decide) xg132

theorem xg167 : xGuar 6 [Cell.X, Cell.E, Cell.X, Cell.E, Cell.O, Cell.O, Cell.E, Cell.E, Cell.E] humanPlayer = true :=
  xGuar_any_intro 5 _ 1 (by decide) (by decide) (by decide) xg156

theorem xg168 : xGuar 5 [Cell.X, Cell.X, Cell.X, Cell.E, Cell.E, Cell.O, Cell.O, Cell.E, Cell.E] aiPlayer = true :=
  xGuar_winX_intro 4 _ _ (by decide)

theorem xg169 : xGuar 6 [Cell.X, Cell.E, Cell.X, Cell.E, Cell.E, Cell.O, Cell.O, Cell.E, Cell.E] humanPlayer = true :=
  xGuar_any_intro 5 _ 1 (by decide) (by decide) (by decide) xg168

theorem xg170 : xGuar 5 [Cell.X, Cell.X, Cell.X, Cell.E, Cell.E, Cell.O, Cell.E, Cell.O, Cell.E] aiPlayer = true :=
  xGuar_winX_intro 4 _ _ (by decide)

theorem xg171 : xGuar 6 [Cell.X, Cell.E, Cell.X, Cell.E, Cell.E, Cell.O, Cell.E, Cell.O, Cell.E] humanPlayer = true :=
  xGuar_any_intro 5 _ 1 (by decide) (by decide) (by decide) xg170

theorem xg172 : xGuar 5 [Cell.X, Cell.X, Cell.X, Cell.E, Cell.E, Cell.O, Cell.E, Cell.E, Cell.O] aiPlayer = true :=
  xGuar_winX_intro 4 _ _ (by decide)

theorem xg173 : xGuar 6 [Cell.X, Cell.E, Cell.X, Cell.E, Cell.E, Cell.O, Cell.E, Cell.E, Cell.O] humanPlayer = true :=
  xGuar_any_intro 5 _ 1 (by decide) (by decide) (by decide) xg172

theorem xg174 : xGuar 7 [Cell.X, Cell.E, Cell.X, Cell.E, Cell.E, Cell.O, Cell.E, Cell.E, Cell.E] aiPlayer = true :=
  xGuar_all_intro 6 _ (by decide) (by decide)
    (all_cons_intro _ _ _ xg51 (all_cons_intro _ _ _ xg166 (all_cons_intro _ _ _ xg167 (all_cons_intro _ _ _ xg169 (all_cons_intro _ _ _ xg171 (all_cons_intro _ _ _ xg173 (all_nil_true _)))))))

theorem xg175 : xGuar 8 [Cell.X, Cell.E, Cell.E, Cell.E, Cell.E, Cell.O, Cell.E, Cell.E, Cell.E] humanPlayer = true :=
  xGuar_any_intro 7 _ 2 (by decide) (by decide) (by decide) xg174

theorem xg176 : xGuar 3 [Cell.X, Cell.X, Cell.O, Cell.E, Cell.X, Cell.O, Cell.O, Cell.X, Cell.E] aiPlayer = true :=
  xGuar_winX_intro 2 _ _ (by decide)

theorem xg177 : xGuar 4 [Cell.X, Cell.X, Cell.O, Cell.E, Cell.X, Cell.O, Cell.O, Cell.E, Cell.E] humanPlayer = true :=
  xGuar_any_intro 3 _ 7 (by decide) (by decide) (by decide) xg176

theorem xg178 : xGuar 3 [Cell.X, Cell.X, Cell.O, Cell.E, Cell.X, Cell.E, Cell.O, Cell.O, Cell.X] aiPlayer = true :=
  xGuar_winX_intro 2 _ _ (by decide)

theorem xg179 : xGuar 4 [Cell.X, Cell.X, Cell.O, Cell.E, Cell.X, Cell.E, Cell.O, Cell.O, Cell.E] humanPlayer = true :=
  xGuar_any_intro 3 _ 8 (by decide) (by decide) (by decide) xg178

theorem xg180 : xGuar 3 [Cell.X, Cell.X, Cell.O, Cell.E, Cell.X, Cell.E, Cell.O, Cell.X, Cell.O] aiPlayer = true :=
  xGuar_winX_intro 2 _ _ (by decide)

theorem xg181 : xGuar 4 [Cell.X, Cell.X, Cell.O, Cell.E, Cell.X, Cell.E, Cell.O, Cell.E, Cell.O] humanPlayer = true :=
  xGuar_any_intro 3 _ 7 (by decide) (by decide) (by decide) xg180

theorem xg182 : xGuar 5 [Cell.X, Cell.X, Cell.O, Cell.E, Cell.X, Cell.E, Cell.O, Cell.E, Cell.E] aiPlayer = true :=
  xGuar_all_intro 4 _ (by decide) (by decide)
    (all_cons_intro _ _ _ xg121 (all_cons_intro _ _ _ xg177 (all_cons_intro _ _ _ xg179 (all_cons_intro _ _ _ xg181 (all_nil_true _)))))

theorem xg183 : xGuar 6 [Cell.X, Cell.X, Cell.O, Cell.E, Cell.E, Cell.E, Cell.O, Cell.E, Cell.E] humanPlayer = true :=
  xGuar_any_intro 5 _ 4 (by decide) (by decide) (by decide) xg182

theorem xg184 : xGuar 6 [Cell.X, Cell.X, Cell.E, Cell.E, Cell.E, Cell.O, Cell.O, Cell.E, Cell.E] humanPlayer = true :=
  xGuar_any_intro 5 _ 2 (by decide) (by decide) (by decide) xg168

theorem xg185 : xGuar 5 [Cell.X, Cell.X, Cell.X, Cell.E, Cell.E, Cell.E, Cell.O, Cell.O, Cell.E] aiPlayer = true :=
  xGuar_winX_intro 4 _ _ (by decide)

theorem xg186 : xGuar 6 [Cell.X, Cell.X, Cell.E, Cell.E, Cell.E, Cell.E, Cell.O, Cell.O, Cell.E] humanPlayer = true :=
  xGuar_any_intro 5 _ 2 (by decide) (by decide) (by decide) xg185

theorem xg187 : xGuar 5 [Cell.X, Cell.X, Cell.X, Cell.E, Cell.E, Cell.E, Cell.O, Cell.E, Cell.O] aiPlayer = true :=
  xGuar_winX_intro 4 _ _ (by decide)

theorem xg188 : xGuar 6 [Cell.X, Cell.X, Cell.E, Cell.E, Cell.E, Cell.E, Cell.O, Cell.E, Cell.O] humanPlayer = true :=
  xGuar_any_intro 5 _ 2 (by decide) (by decide) (by decide) xg187

theorem xg189 : xGuar 7 [Cell.X, Cell.X, Cell.E, Cell.E, Cell.E, Cell.E, Cell.O, Cell.E, Cell.E] aiPlayer = true :=
  xGuar_all_intro 6 _ (by decide) (by decide)
    (all_cons_intro _ _ _ xg183 (all_cons_intro _ _ _ xg135 (all_cons_intro _ _ _ xg159 (all_cons_intro _ _ _ xg184 (all_cons_intro _ _ _ xg186 (all_cons_intro _ _ _ xg188 (all_nil_true _)))))))

theorem xg190 : xGuar 8 [Cell.X, Cell.E, Cell.E, Cell.E, Cell.E, Cell.E, Cell.O, Cell.E, Cell.E] humanPlayer = true :=
  xGuar_any_intro 7 _ 1 (by decide) (by decide) (by decide) xg189

theorem xg191 : xGuar 1 [Cell.X, Cell.X, Cell.O, Cell.O, Cell.X, Cell.O, Cell.X, Cell.O, Cell.X] aiPlayer = true :=
  xGuar_winX_intro 0 _ _ (by decide)

theorem xg192 : xGuar 2 [Cell.X, Cell.X, Cell.O, Cell.O, Cell.X, Cell.O, Cell.X, Cell.O, Cell.E] humanPlayer = true :=
  xGuar_any_intro 1 _ 8 (by decide) (by decide) (by decide) xg191

theorem xg193 : xGuar 2 [Cell.X, Cell.X, Cell.O, Cell.O, Cell.X, Cell.E, Cell.X, Cell.O, Cell.O] humanPlayer = true :=
  xGuar_any_intro 1 _ 5 (by decide) (by decide) (by decide) xg122

theorem xg194 : xGuar 3 [Cell.X, Cell.X, Cell.O, Cell.O, Cell.X, Cell.E, Cell.X, Cell.O, Cell.E] aiPlayer = true :=
  xGuar_all_intro 2 _ (by decide) (by decide)
    (all_cons_intro _ _ _ xg192 (all_cons_intro _ _ _ xg193 (all_nil_true _)))

theorem xg195 : xGuar 4 [Cell.X, Cell.X, Cell.O, Cell.O, Cell.E, Cell.E, Cell.X, Cell.O, Cell.E] humanPlayer = true :=
  xGuar_any_intro 3 _ 4 (by decide) (by decide) (by decide) xg194

theorem xg196 : xGuar 3 [Cell.X, Cell.X, Cell.O, Cell.X, Cell.E, Cell.O, Cell.X, Cell.O, Cell.E] aiPlayer = true :=
  xGuar_winX_intro 2 _ _ (by decide)

theorem xg197 : xGuar 4 [Cell.X, Cell.X, Cell.O, Cell.E, Cell.E, Cell.O, Cell.X, Cell.O, Cell.E] humanPlayer = true :=
  xGuar_any_intro 3 _ 3 (by decide) (by decide) (by decide) xg196

theorem xg198 : xGuar 3 [Cell.X, Cell.X, Cell.O, Cell.X, Cell.E, Cell.E, Cell.X, Cell.O, Cell.O] aiPlayer = true :=
  xGuar_winX_intro 2 _ _ (by decide)

theorem xg199 : xGuar 4 [Cell.X, Cell.X, Cell.O, Cell.E, Cell.E, Cell.E, Cell.X, Cell.O, Cell.O] humanPlayer = true :=
  xGuar_any_intro 3 _ 3 (by decide) (by decide) (by decide) xg198

theorem xg200 : xGuar 5 [Cell.X, Cell.X, Cell.O, Cell.E, Cell.E, Cell.E, Cell.X, Cell.O, Cell.E] aiPlayer = true :=
  xGuar_all_intro 4 _ (by decide) (by decide)
    (all_cons_intro _ _ _ xg195 (all_cons_intro _ _ _ xg151 (all_cons_intro _ _ _ xg197 (all_cons_intro _ _ _ xg199 (all_nil_true _)))))

theorem xg201 : xGuar 6 [Cell.X, Cell.X, Cell.O, Cell.E, Cell.E, Cell.E, Cell.E, Cell.O, Cell.E] humanPlayer = true :=
  xGuar_any_intro 5 _ 6 (by decide) (by decide) (by decide) xg200

theorem xg202 : xGuar 6 [Cell.X, Cell.X, Cell.E, Cell.E, Cell.E, Cell.O, Cell.E, Cell.O, Cell.E] humanPlayer = true :=
  xGuar_any_intro 5 _ 2 (by decide) (by decide) (by decide) xg170

theorem xg203 : xGuar 5 [Cell.X, Cell.X, Cell.X, Cell.E, Cell.E, Cell.E, Cell.E, Cell.O, Cell.O] aiPlayer = true :=
  xGuar_winX_intro 4 _ _ (by decide)

theorem xg204 : xGuar 6 [Cell.X, Cell.X, Cell.E, Cell.E, Cell.E, Cell.E, Cell.E, Cell.O, Cell.O] humanPlayer = true :=
  xGuar_any_intro 5 _ 2 (by decide) (by decide) (by decide) xg203

theorem xg205 : xGuar 7 [Cell.X, Cell.X, Cell.E, Cell.E, Cell.E, Cell.E, Cell.E, Cell.O, Cell.E] aiPlayer = true :=
  xGuar_all_intro 6 _ (by decide) (by decide)
    (all_cons_intro _ _ _ xg201 (all_cons_intro _ _ _ xg137 (all_cons_intro _ _ _ xg161 (all_cons_intro _ _ _ xg202 (all_cons_intro _ _ _ xg186 (all_cons_intro _ _ _ xg204 (all_nil_true _)))))))

theorem xg206 : xGuar 8 [Cell.X, Cell.E, Cell.E, Cell.E, Cell.E, Cell.E, Cell.E, Cell.O, Cell.E] humanPlayer = true :=
  xGuar_any_intro 7 _ 1 (by decide) (by decide) (by decide) xg205

theorem xg207 : xGuar 6 [Cell.X, Cell.E, Cell.X, Cell.O, Cell.E, Cell.E, Cell.E, Cell.E, Cell.O] humanPlayer = true :=
  xGuar_any_intro 5 _ 1 (by decide) (by decide) (by decide) xg138

theorem xg208 : xGuar 6 [Cell.X, Cell.E, Cell.X, Cell.E, Cell.O, Cell.E, Cell.E, Cell.E, Cell.O] humanPlayer = true :=
  xGuar_any_intro 5 _ 1 (by decide) (by decide) (by decide) xg162

theorem xg209 : xGuar 6 [Cell.X, Cell.E, Cell.X, Cell.E, Cell.E, Cell.E, Cell.O, Cell.E, Cell.O] humanPlayer = true :=
  xGuar_any_intro 5 _ 1 (by decide) (by decide) (by decide) xg187

theorem xg210 : xGuar 6 [Cell.X, Cell.E, Cell.X, Cell.E, Cell.E, Cell.E, Cell.E, Cell.O, Cell.O] humanPlayer = true :=
  xGuar_any_intro 5 _ 1 (by decide) (by decide) (by decide) xg203

theorem xg211 : xGuar 7 [Cell.X, Cell.E, Cell.X, Cell.E, Cell.E, Cell.E, Cell.E, Cell.E, Cell.O] aiPlayer = true :=
  xGuar_all_intro 6 _ (by decide) (by decide)
    (all_cons_intro _ _ _ xg74 (all_cons_intro _ _ _ xg207 (all_cons_intro _ _ _ xg208 (all_cons_intro _ _ _ xg173 (all_cons_intro _ _ _ xg209 (all_cons_intro _ _ _ xg210 (all_nil_true _)))))))

theorem xg212 : xGuar 8 [Cell.X, Cell.E, Cell.E, Cell.E, Cell.E, Cell.E, Cell.E, Cell.E, Cell.O] humanPlayer = true :=
  xGuar_any_intro 7 _ 2 (by decide) (by decide) (by decide) xg211

theorem xg213 : xGuar 9 [Cell.X, Cell.E, Cell.E, Cell.E, Cell.E, Cell.E, Cell.E, Cell.E, Cell.E] aiPlayer = true :=
  xGuar_all_intro 8 _ (by decide) (by decide)
    (all_cons_intro _ _ _ xg76 (all_cons_intro _ _ _ xg113 (all_cons_intro _ _ _ xg141 (all_cons_intro _ _ _ xg165 (all_cons_intro _ _ _ xg175 (all_cons_intro _ _ _ xg190 (all_cons_intro _ _ _ xg206 (all_cons_intro _ _ _ xg212 (all_nil_true _)))))))))

theorem xg214 : xGuar 10 [Cell.E, Cell.E, Cell.E, Cell.E, Cell.E, Cell.E, Cell.E, Cell.E, Cell.E] humanPlayer = true :=
  xGuar_any_intro 9 _ 0 (by decide) (by decide) (by decide) xg213

theorem xg215 : xGuar 4 [Cell.O, Cell.O, Cell.X, Cell.O, Cell.X, Cell.E, Cell.X, Cell.E, Cell.E] aiPlayer = true :=
  xGuar_winX_intro 3 _ _ (by decide)

theorem xg216 : xGuar 5 [Cell.O, Cell.O, Cell.X, Cell.O, Cell.X, Cell.E, Cell.E, Cell.E, Cell.E] humanPlayer = true :=
  xGuar_any_intro 4 _ 6 (by decide) (by decide) (by decide) xg215

theorem xg217 : xGuar 1 [Cell.O, Cell.O, Cell.X, Cell.X, Cell.X, Cell.O, Cell.O, Cell.X, Cell.O] humanPlayer = true :=
  xGuar_draw_intro 0 _ _ (by decide) (by decide) (by decide)

theorem xg218 : xGuar 2 [Cell.O, Cell.O, Cell.X, Cell.X, Cell.X, Cell.O, Cell.O, Cell.X, Cell.E] aiPlayer = true :=
  xGuar_all_intro 1 _ (by decide) (by decide)
    (all_cons_intro _ _ _ xg217 (all_nil_true _))

theorem xg219 : xGuar 3 [Cell.O, Cell.O, Cell.X, Cell.X, Cell.X, Cell.O, Cell.O, Cell.E, Cell.E] humanPlayer = true :=
  xGuar_any_intro 2 _ 7 (by decide) (by decide) (by decide) xg218

theorem xg220 : xGuar 2 [Cell.O, Cell.O, Cell.X, Cell.X, Cell.X, Cell.O, Cell.X, Cell.O, Cell.E] aiPlayer = true :=
  xGuar_winX_intro 1 _ _ (by decide)

theorem xg221 : xGuar 3 [Cell.O, Cell.O, Cell.X, Cell.X, Cell.X, Cell.O, Cell.E, Cell.O, Cell.E] humanPlayer = true :=
  xGuar_any_intro 2 _ 6 (by decide) (by decide) (by decide) xg220

theorem xg222 : xGuar 2 [Cell.O, Cell.O, Cell.X, Cell.X, Cell.X, Cell.O, Cell.X, Cell.E, Cell.O] aiPlayer = true :=
  xGuar_winX_intro 1 _ _ (by decide)

theorem xg223 : xGuar 3 [Cell.O, Cell.O, Cell.X, Cell.X, Cell.X, Cell.O, Cell.E, Cell.E, Cell.O] humanPlayer = true :=
  xGuar_any_intro 2 _ 6 (by decide) (by decide) (by decide) xg222

theorem xg224 : xGuar 4 [Cell.O, Cell.O, Cell.X, Cell.X, Cell.X, Cell.O, Cell.E, Cell.E, Cell.E] aiPlayer = true :=
  xGuar_all_intro 3 _ (by decide) (by decide)
    (all_cons_intro _ _ _ xg219 (all_cons_intro _ _ _ xg221 (all_cons_intro _ _ _ xg223 (all_nil_true _))))

theorem xg225 : xGuar 5 [Cell.O, Cell.O, Cell.X, Cell.E, Cell.X, Cell.O, Cell.E, Cell.E, Cell.E] humanPlayer = true :=
  xGuar_any_intro 4 _ 3 (by decide) (by decide) (by decide) xg224

theorem xg226 : xGuar 2 [Cell.O, Cell.O, Cell.X, Cell.X, Cell.X, Cell.X, Cell.O, Cell.O, Cell.E] aiPlayer = true :=
  xGuar_winX_intro 1 _ _ (by decide)

theorem xg227 : xGuar 3 [Cell.O, Cell.O, Cell.X, Cell.X, Cell.X, Cell.E, Cell.O, Cell.O, Cell.E] humanPlayer = true :=
  xGuar_any_intro 2 _ 5 (by decide) (by decide) (by decide) xg226

theorem xg228 : xGuar 2 [Cell.O, Cell.O, Cell.X, Cell.X, Cell.X, Cell.X, Cell.O, Cell.E, Cell.O] aiPlayer = true :=
  xGuar_winX_intro 1 _ _ (by decide)

theorem xg229 : xGuar 3 [Cell.O, Cell.O, Cell.X, Cell.X, Cell.X, Cell.E, Cell.O, Cell.E, Cell.O] humanPlayer = true :=
  xGuar_any_intro 2 _ 5 (by decide) (by decide) (by decide) xg228

theorem xg230 : xGuar 4 [Cell.O, Cell.O, Cell.X, Cell.X, Cell.X, Cell.E, Cell.O, Cell.E, Cell.E] aiPlayer = true :=
  xGuar_all_intro 3 _ (by decide) (by decide)
    (all_cons_intro _ _ _ xg219 (all_cons_intro _ _ _ xg227 (all_cons_intro _ _ _ xg229 (all_nil_true _))))

theorem xg231 : xGuar 5 [Cell.O, Cell.O, Cell.X, Cell.E, Cell.X, Cell.E, Cell.O, Cell.E, Cell.E] humanPlayer = true :=
  xGuar_any_intro 4 _ 3 (by decide) (by decide) (by decide) xg230

theorem xg232 : xGuar 2 [Cell.O, Cell.O, Cell.X, Cell.X, Cell.X, Cell.X, Cell.E, Cell.O, Cell.O] aiPlayer = true :=
  xGuar_winX_intro 1 _ _ (by decide)

theorem xg233 : xGuar 3 [Cell.O, Cell.O, Cell.X, Cell.X, Cell.X, Cell.E, Cell.E, Cell.O, Cell.O] humanPlayer = true :=
  xGuar_any_intro 2 _ 5 (by decide) (by decide) (by decide) xg232

theorem xg234 : xGuar 4 [Cell.O, Cell.O, Cell.X, Cell.X, Cell.X, Cell.E, Cell.E, Cell.O, Cell.E] aiPlayer = true :=
  xGuar_all_intro 3 _ (by decide) (by decide)
    (all_cons_intro _ _ _ xg221 (all_cons_intro _ _ _ xg227 (all_cons_intro _ _ _ xg233 (all_nil_true _))))

theorem xg235 : xGuar 5 [Cell.O, Cell.O, Cell.X, Cell.E, Cell.X, Cell.E, Cell.E, Cell.O, Cell.E] humanPlayer = true :=
  xGuar_any_intro 4 _ 3 (by decide) (by decide) (by decide) xg234

theorem xg236 : xGuar 4 [Cell.O, Cell.O, Cell.X, Cell.X, Cell.X, Cell.E, Cell.E, Cell.E, Cell.O] aiPlayer = true :=
  xGuar_all_intro 3 _ (by decide) (by decide)
    (all_cons_intro _ _ _ xg223 (all_cons_intro _ _ _ xg229 (all_cons_intro _ _ _ xg233 (all_nil_true _))))

theorem xg237 : xGuar 5 [Cell.O, Cell.O, Cell.X, Cell.E, Cell.X, Cell.E, Cell.E, Cell.E, Cell.O] humanPlayer = true :=
  xGuar_any_intro 4 _ 3 (by decide) (by decide) (by decide) xg236

theorem xg238 : xGuar 6 [Cell.O, Cell.O, Cell.X, Cell.E, Cell.X, Cell.E, Cell.E, Cell.E, Cell.E] aiPlayer = true :=
  xGuar_all_intro 5 _ (by decide) (by decide)
    (all_cons_intro _ _ _ xg216 (all_cons_intro _ _ _ xg225 (all_cons_intro _ _ _ xg231 (all_cons_intro _ _ _ xg235 (all_cons_intro _ _ _ xg237 (all_nil_true _))))))

theorem xg239 : xGuar 7 [Cell.O, Cell.O, Cell.E, Cell.E, Cell.X, Cell.E, Cell.E, Cell.E, Cell.E] humanPlayer = true :=
  xGuar_any_intro 6 _ 2 (by decide) (by decide) (by decide) xg238

theorem xg240 : xGuar 2 [Cell.O, Cell.X, Cell.O, Cell.O, Cell.X, Cell.O, Cell.X, Cell.X, Cell.E] aiPlayer = true :=
  xGuar_winX_intro 1 _ _ (by decide)

theorem xg241 : xGuar 3 [Cell.O, Cell.X, Cell.O, Cell.O, Cell.X, Cell.O, Cell.X, Cell.E, Cell.E] humanPlayer = true :=
  xGuar_any_intro 2 _ 7 (by decide) (by decide) (by decide) xg240

theorem xg242 : xGuar 1 [Cell.O, Cell.X, Cell.O, Cell.O, Cell.X, Cell.X, Cell.X, Cell.O, Cell.O] humanPlayer = true :=
  xGuar_draw_intro 0 _ _ (by decide) (by decide) (by decide)

theorem xg243 : xGuar 2 [Cell.O, Cell.X, Cell.O, Cell.O, Cell.X, Cell.X, Cell.X, Cell.O, Cell.E] aiPlayer = true :=
  xGuar_all_intro 1 _ (by decide) (by decide)
    (all_cons_intro _ _ _ xg242 (all_nil_true _))

theorem xg244 : xGuar 3 [Cell.O, Cell.X, Cell.O, Cell.O, Cell.X, Cell.E, Cell.X, Cell.O, Cell.E] humanPlayer = true :=
  xGuar_any_intro 2 _ 5 (by decide) (by decide) (by decide) xg243

theorem xg245 : xGuar 2 [Cell.O, Cell.X, Cell.O, Cell.O, Cell.X, Cell.X, Cell.X, Cell.E, Cell.O] aiPlayer = true :=
  xGuar_all_intro 1 _ (by decide) (by decide)
    (all_cons_intro _ _ _ xg242 (all_nil_true _))

theorem xg246 : xGuar 3 [Cell.O, Cell.X, Cell.O, Cell.O, Cell.X, Cell.E, Cell.X, Cell.E, Cell.O] humanPlayer = true :=
  xGuar_any_intro 2 _ 5 (by decide) (by decide) (by decide) xg245

theorem xg247 : xGuar 4 [Cell.O, Cell.X, Cell.O, Cell.O, Cell.X, Cell.E, Cell.X, Cell.E, Cell.E] aiPlayer = true :=
  xGuar_all_intro 3 _ (by decide) (by decide)
    (all_cons_intro _ _ _ xg241 (all_cons_intro _ _ _ xg244 (all_cons_intro _ _ _ xg246 (all_nil_true _))))

theorem xg248 : xGuar 5 [Cell.O, Cell.X, Cell.O, Cell.O, Cell.X, Cell.E, Cell.E, Cell.E, Cell.E] humanPlayer = true :=
  xGuar_any_intro 4 _ 6 (by decide) (by decide) (by decide) xg247

theorem xg249 : xGuar 4 [Cell.O, Cell.X, Cell.O, Cell.E, Cell.X, Cell.O, Cell.E, Cell.X, Cell.E] aiPlayer = true :=
  xGuar_winX_intro 3 _ _ (by decide)

theorem xg250 : xGuar 5 [Cell.O, Cell.X, Cell.O, Cell.E, Cell.X, Cell.O, Cell.E, Cell.E, Cell.E] humanPlayer = true :=
  xGuar_any_intro 4 _ 7 (by decide) (by decide) (by decide) xg249

theorem xg251 : xGuar 2 [Cell.O, Cell.X, Cell.O, Cell.X, Cell.X, Cell.O, Cell.O, Cell.X, Cell.E] aiPlayer = true :=
  xGuar_winX_intro 1 _ _ (by decide)

theorem xg252 : xGuar 3 [Cell.O, Cell.X, Cell.O, Cell.X, Cell.X, Cell.O, Cell.O, Cell.E, Cell.E] humanPlayer = true :=
  xGuar_any_intro 2 _ 7 (by decide) (by decide) (by decide) xg251

theorem xg253 : xGuar 2 [Cell.O, Cell.X, Cell.O, Cell.X, Cell.X, Cell.X, Cell.O, Cell.O, Cell.E] aiPlayer = true :=
  xGuar_winX_intro 1 _ _ (by decide)

theorem xg254 : xGuar 3 [Cell.O, Cell.X, Cell.O, Cell.X, Cell.X, Cell.E, Cell.O, Cell.O, Cell.E] humanPlayer = true :=
  xGuar_any_intro 2 _ 5 (by decide) (by decide) (by decide) xg253

theorem xg255 : xGuar 2 [Cell.O, Cell.X, Cell.O, Cell.X, Cell.X, Cell.X, Cell.O, Cell.E, Cell.O] aiPlayer = true :=
  xGuar_winX_intro 1 _ _ (by decide)

theorem xg256 : xGuar 3 [Cell.O, Cell.X, Cell.O, Cell.X, Cell.X, Cell.E, Cell.O, Cell.E, Cell.O] humanPlayer = true :=
  xGuar_any_intro 2 _ 5 (by decide) (by decide) (by decide) xg255

theorem xg257 : xGuar 4 [Cell.O, Cell.X, Cell.O, Cell.X, Cell.X, Cell.E, Cell.O, Cell.E, Cell.E] aiPlayer = true :=
  xGuar_all_intro 3 _ (by decide) (by decide)
    (all_cons_intro _ _ _ xg252 (all_cons_intro _ _ _ xg254 (all_cons_intro _ _ _ xg256 (all_nil_true _))))

theorem xg258 : xGuar 5 [Cell.O, Cell.X, Cell.O, Cell.E, Cell.X, Cell.E, Cell.O, Cell.E, Cell.E] humanPlayer = true :=
  xGuar_any_intro 4 _ 3 (by decide) (by decide) (by decide) xg257

theorem xg259 : xGuar 1 [Cell.O, Cell.X, Cell.O, Cell.X, Cell.X, Cell.O, Cell.O, Cell.O, Cell.X] humanPlayer = true :=
  xGuar_draw_intro 0 _ _ (by decide) (by decide) (by decide)

theorem xg260 : xGuar 2 [Cell.O, Cell.X, Cell.O, Cell.X, Cell.X, Cell.O, Cell.E, Cell.O, Cell.X] aiPlayer = true :=
  xGuar_all_intro 1 _ (by decide) (by decide)
    (all_cons_intro _ _ _ xg259 (all_nil_true _))

theorem xg261 : xGuar 3 [Cell.O, Cell.X, Cell.O, Cell.X, Cell.X, Cell.O, Cell.E, Cell.O, Cell.E] humanPlayer = true :=
  xGuar_any_intro 2 _ 8 (by decide) (by decide) (by decide) xg260

theorem xg262 : xGuar 2 [Cell.O, Cell.X, Cell.O, Cell.X, Cell.X, Cell.X, Cell.E, Cell.O, Cell.O] aiPlayer = true :=
  xGuar_winX_intro 1 _ _ (by decide)

theorem xg263 : xGuar 3 [Cell.O, Cell.X, Cell.O, Cell.X, Cell.X, Cell.E, Cell.E, Cell.O, Cell.O] humanPlayer = true :=
  xGuar_any_intro 2 _ 5 (by decide) (by decide) (by decide) xg262

theorem xg264 : xGuar 4 [Cell.O, Cell.X, Cell.O, Cell.X, Cell.X, Cell.E, Cell.E, Cell.O, Cell.E] aiPlayer = true :=
  xGuar_all_intro 3 _ (by decide) (by decide)
    (all_cons_intro _ _ _ xg261 (all_cons_intro _ _ _ xg254 (all_cons_intro _ _ _ xg263 (all_nil_true _))))

theorem xg265 : xGuar 5 [Cell.O, Cell.X, Cell.O, Cell.E, Cell.X, Cell.E, Cell.E, Cell.O, Cell.E] humanPlayer = true :=
  xGuar_any_intro 4 _ 3 (by decide) (by decide) (by decide) xg264

theorem xg266 : xGuar 3 [Cell.O, Cell.X, Cell.O, Cell.O, Cell.X, Cell.X, Cell.E, Cell.E, Cell.O] humanPlayer = true :=
  xGuar_any_intro 2 _ 6 (by decide) (by decide) (by decide) xg245

theorem xg267 : xGuar 3 [Cell.O, Cell.X, Cell.O, Cell.E, Cell.X, Cell.X, Cell.O, Cell.E, Cell.O] humanPlayer = true :=
  xGuar_any_intro 2 _ 3 (by decide) (by decide) (by decide) xg255

theorem xg268 : xGuar 3 [Cell.O, Cell.X, Cell.O, Cell.E, Cell.X, Cell.X, Cell.E, Cell.O, Cell.O] humanPlayer = true :=
  xGuar_any_intro 2 _ 3 (by decide) (by decide) (by decide) xg262

theorem xg269 : xGuar 4 [Cell.O, Cell.X, Cell.O, Cell.E, Cell.X, Cell.X, Cell.E, Cell.E, Cell.O] aiPlayer = true :=
  xGuar_all_intro 3 _ (by decide) (by decide)
    (all_cons_intro _ _ _ xg266 (all_cons_intro _ _ _ xg267 (all_cons_intro _ _ _ xg268 (all_nil_true _))))

theorem xg270 : xGuar 5 [Cell.O, Cell.X, Cell.O, Cell.E, Cell.X, Cell.E, Cell.E, Cell.E, Cell.O] humanPlayer = true :=
  xGuar_any_intro 4 _ 5 (by decide) (by decide) (by decide) xg269

theorem xg271 : xGuar 6 [Cell.O, Cell.X, Cell.O, Cell.E, Cell.X, Cell.E, Cell.E, Cell.E, Cell.E] aiPlayer = true :=
  xGuar_all_intro 5 _ (by decide) (by decide)
    (all_cons_intro _ _ _ xg248 (all_cons_intro _ _ _ xg250 (all_cons_intro _ _ _ xg258 (all_cons_intro _ _ _ xg265 (all_cons_intro _ _ _ xg270 (all_nil_true _))))))

theorem xg272 : xGuar 7 [Cell.O, Cell.E, Cell.O, Cell.E, Cell.X, Cell.E, Cell.E, Cell.E, Cell.E] humanPlayer = true :=
  xGuar_any_intro 6 _ 1 (by decide) (by decide) (by decide) xg271

theorem xg273 : xGuar 5 [Cell.O, Cell.O, Cell.E, Cell.O, Cell.X, Cell.E, Cell.X, Cell.E, Cell.E] humanPlayer = true :=
  xGuar_any_intro 4 _ 2 (by decide) (by decide) (by decide) xg215

theorem xg274 : xGuar 5 [Cell.O, Cell.E, Cell.O, Cell.O, Cell.X, Cell.E, Cell.X, Cell.E, Cell.E] humanPlayer = true :=
  xGuar_any_intro 4 _ 1 (by decide) (by decide) (by decide) xg247

theorem xg275 : xGuar 2 [Cell.O, Cell.X, Cell.X, Cell.O, Cell.X, Cell.O, Cell.X, Cell.O, Cell.E] aiPlayer = true :=
  xGuar_winX_intro 1 _ _ (by decide)

theorem xg276 : xGuar 3 [Cell.O, Cell.X, Cell.E, Cell.O, Cell.X, Cell.O, Cell.X, Cell.O, Cell.E] humanPlayer = true :=
  xGuar_any_intro 2 _ 2 (by decide) (by decide) (by decide) xg275

theorem xg277 : xGuar 2 [Cell.O, Cell.X, Cell.X, Cell.O, Cell.X, Cell.O, Cell.X, Cell.E, Cell.O] aiPlayer = true :=
  xGuar_winX_intro 1 _ _ (by decide)

theorem xg278 : xGuar 3 [Cell.O, Cell.X, Cell.E, Cell.O, Cell.X, Cell.O, Cell.X, Cell.E, Cell.O] humanPlayer = true :=
  xGuar_any_intro 2 _ 2 (by decide) (by decide) (by decide) xg277

theorem xg279 : xGuar 4 [Cell.O, Cell.X, Cell.E, Cell.O, Cell.X, Cell.O, Cell.X, Cell.E, Cell.E] aiPlayer = true :=
  xGuar_all_intro 3 _ (by decide) (by decide)
    (all_cons_intro _ _ _ xg241 (all_cons_intro _ _ _ xg276 (all_cons_intro _ _ _ xg278 (all_nil_true _))))

theorem xg280 : xGuar 5 [Cell.O, Cell.E, Cell.E, Cell.O, Cell.X, Cell.O, Cell.X, Cell.E, Cell.E] humanPlayer = true :=
  xGuar_any_intro 4 _ 1 (by decide) (by decide) (by decide) xg279

theorem xg281 : xGuar 2 [Cell.O, Cell.X, Cell.X, Cell.O, Cell.X, Cell.E, Cell.X, Cell.O, Cell.O] aiPlayer = true :=
  xGuar_winX_intro 1 _ _ (by decide)

theorem xg282 : xGuar 3 [Cell.O, Cell.X, Cell.E, Cell.O, Cell.X, Cell.E, Cell.X, Cell.O, Cell.O] humanPlayer = true :=
  xGuar_any_intro 2 _ 2 (by decide) (by decide) (by decide) xg281

theorem xg283 : xGuar 4 [Cell.O, Cell.X, Cell.E, Cell.O, Cell.X, Cell.E, Cell.X, Cell.O, Cell.E] aiPlayer = true :=
  xGuar_all_intro 3 _ (by decide) (by decide)
    (all_cons_intro _ _ _ xg244 (all_cons_intro _ _ _ xg276 (all_cons_intro _ _ _ xg282 (all_nil_true _))))

theorem xg284 : xGuar 5 [Cell.O, Cell.E, Cell.E, Cell.O, Cell.X, Cell.E, Cell.X, Cell.O, Cell.E] humanPlayer = true :=
  xGuar_any_intro 4 _ 1 (by decide) (by decide) (by decide) xg283

theorem xg285 : xGuar 4 [Cell.O, Cell.X, Cell.E, Cell.O, Cell.X, Cell.E, Cell.X, Cell.E, Cell.O] aiPlayer = true :=
  xGuar_all_intro 3 _ (by decide) (by decide)
    (all_cons_intro _ _ _ xg246 (all_cons_intro _ _ _ xg278 (all_cons_intro _ _ _ xg282 (all_nil_true _))))

theorem xg286 : xGuar 5 [Cell.O, Cell.E, Cell.E, Cell.O, Cell.X, Cell.E, Cell.X, Cell.E, Cell.O] humanPlayer = true :=
  xGuar_any_intro 4 _ 1 (by decide) (by decide) (by decide) xg285

theorem xg287 : xGuar 6 [Cell.O, Cell.E, Cell.E, Cell.O, Cell.X, Cell.E, Cell.X, Cell.E, Cell.E] aiPlayer = true :=
  xGuar_all_intro 5 _ (by decide) (by decide)
    (all_cons_intro _ _ _ xg273 (all_cons_intro _ _ _ xg274 (all_cons_intro _ _ _ xg280 (all_cons_intro _ _ _ xg284 (all_cons_intro _ _ _ xg286 (all_nil_true _))))))

theorem xg288 : xGuar 7 [Cell.O, Cell.E, Cell.E, Cell.O, Cell.X, Cell.E, Cell.E, Cell.E, Cell.E] humanPlayer = true :=
  xGuar_any_intro 6 _ 6 (by decide) (by decide) (by decide) xg287

theorem xg289 : xGuar 5 [Cell.O, Cell.X, Cell.E, Cell.O, Cell.X, Cell.O, Cell.E, Cell.E, Cell.E] humanPlayer = true :=
  xGuar_any_intro 4 _ 6 (by decide) (by decide) (by decide) xg279

theorem xg290 : xGuar 2 [Cell.O, Cell.X, Cell.E, Cell.X, Cell.X, Cell.O, Cell.O, Cell.O, Cell.X] aiPlayer = true :=
  xGuar_all_intro 1 _ (by decide) (by decide)
    (all_cons_intro _ _ _ xg259 (all_nil_true _))

theorem xg291 : xGuar 3 [Cell.O, Cell.X, Cell.E, Cell.X, Cell.X, Cell.O, Cell.O, Cell.O, Cell.E] humanPlayer = true :=
  xGuar_any_intro 2 _ 8 (by decide) (by decide) (by decide) xg290

theorem xg292 : xGuar 2 [Cell.O, Cell.X, Cell.E, Cell.X, Cell.X, Cell.O, Cell.O, Cell.X, Cell.O] aiPlayer = true :=
  xGuar_winX_intro 1 _ _ (by decide)

theorem xg293 : xGuar 3 [Cell.O, Cell.X, Cell.E, Cell.X, Cell.X, Cell.O, Cell.O, Cell.E, Cell.O] humanPlayer = true :=
  xGuar_any_intro 2 _ 7 (by decide) (by decide) (by decide) xg292

theorem xg294 : xGuar 4 [Cell.O, Cell.X, Cell.E, Cell.X, Cell.X, Cell.O, Cell.O, Cell.E, Cell.E] aiPlayer = true :=
  xGuar_all_intro 3 _ (by decide) (by decide)
    (all_cons_intro _ _ _ xg252 (all_cons_intro _ _ _ xg291 (all_cons_intro _ _ _ xg293 (all_nil_true _))))

theorem xg295 : xGuar 5 [Cell.O, Cell.X, Cell.E, Cell.E, Cell.X, Cell.O, Cell.O, Cell.E, Cell.E] humanPlayer = true :=
  xGuar_any_intro 4 _ 3 (by decide) (by decide) (by decide) xg294

theorem xg296 : xGuar 1 [Cell.O, Cell.X, Cell.O, Cell.O, Cell.X, Cell.O, Cell.X, Cell.O, Cell.X] humanPlayer = true :=
  xGuar_draw_intro 0 _ _ (by decide) (by decide) (by decide)

theorem xg297 : xGuar 2 [Cell.O, Cell.X, Cell.O, Cell.E, Cell.X, Cell.O, Cell.X, Cell.O, Cell.X] aiPlayer = true :=
  xGuar_all_intro 1 _ (by decide) (by decide)
    (all_cons_intro _ _ _ xg296 (all_nil_true _))

theorem xg298 : xGuar 3 [Cell.O, Cell.X, Cell.O, Cell.E, Cell.X, Cell.O, Cell.X, Cell.O, Cell.E] humanPlayer = true :=
  xGuar_any_intro 2 _ 8 (by decide) (by decide) (by decide) xg297

theorem xg299 : xGuar 2 [Cell.O, Cell.X, Cell.X, Cell.E, Cell.X, Cell.O, Cell.X, Cell.O, Cell.O] aiPlayer = true :=
  xGuar_winX_intro 1 _ _ (by decide)

theorem xg300 : xGuar 3 [Cell.O, Cell.X, Cell.E, Cell.E, Cell.X, Cell.O, Cell.X, Cell.O, Cell.O] humanPlayer = true :=
  xGuar_any_intro 2 _ 2 (by decide) (by decide) (by decide) xg299

theorem xg301 : xGuar 4 [Cell.O, Cell.X, Cell.E, Cell.E, Cell.X, Cell.O, Cell.X, Cell.O, Cell.E] aiPlayer = true :=
  xGuar_all_intro 3 _ (by decide) (by decide)
    (all_cons_intro _ _ _ xg298 (all_cons_intro _ _ _ xg276 (all_cons_intro _ _ _ xg300 (all_nil_true _))))

theorem xg302 : xGuar 5 [Cell.O, Cell.X, Cell.E, Cell.E, Cell.X, Cell.O, Cell.E, Cell.O, Cell.E] humanPlayer = true :=
  xGuar_any_intro 4 _ 6 (by decide) (by decide) (by decide) xg301

theorem xg303 : xGuar 3 [Cell.O, Cell.X, Cell.X, Cell.O, Cell.X, Cell.O, Cell.E, Cell.E, Cell.O] humanPlayer = true :=
  xGuar_any_intro 2 _ 6 (by decide) (by decide) (by decide) xg277

theorem xg304 : xGuar 2 [Cell.O, Cell.X, Cell.X, Cell.E, Cell.X, Cell.O, Cell.O, Cell.X, Cell.O] aiPlayer = true :=
  xGuar_winX_intro 1 _ _ (by decide)

theorem xg305 : xGuar 3 [Cell.O, Cell.X, Cell.X, Cell.E, Cell.X, Cell.O, Cell.O, Cell.E, Cell.O] humanPlayer = true :=
  xGuar_any_intro 2 _ 7 (by decide) (by decide) (by decide) xg304

theorem xg306 : xGuar 3 [Cell.O, Cell.X, Cell.X, Cell.E, Cell.X, Cell.O, Cell.E, Cell.O, Cell.O] humanPlayer = true :=
  xGuar_any_intro 2 _ 6 (by decide) (by decide) (by decide) xg299

theorem xg307 : xGuar 4 [Cell.O, Cell.X, Cell.X, Cell.E, Cell.X, Cell.O, Cell.E, Cell.E, Cell.O] aiPlayer = true :=
  xGuar_all_intro 3 _ (by decide) (by decide)
    (all_cons_intro _ _ _ xg303 (all_cons_intro _ _ _ xg305 (all_cons_intro _ _ _ xg306 (all_nil_true _))))

theorem xg308 : xGuar 5 [Cell.O, Cell.X, Cell.E, Cell.E, Cell.X, Cell.O, Cell.E, Cell.E, Cell.O] humanPlayer = true :=
  xGuar_any_intro 4 _ 2 (by decide) (by decide) (by decide) xg307

theorem xg309 : xGuar 6 [Cell.O, Cell.X, Cell.E, Cell.E, Cell.X, Cell.O, Cell.E, Cell.E, Cell.E] aiPlayer = true :=
  xGuar_all_intro 5 _ (by decide) (by decide)
    (all_cons_intro _ _ _ xg250 (all_cons_intro _ _ _ xg289 (all_cons_intro _ _ _ xg295 (all_cons_intro _ _ _ xg302 (all_cons_intro _ _ _ xg308 (all_nil_true _))))))

theorem xg310 : xGuar 7 [Cell.O, Cell.E, Cell.E, Cell.E, Cell.X, Cell.O, Cell.E, Cell.E, Cell.E] humanPlayer = true :=
  xGuar_any_intro 6 _ 1 (by decide) (by decide) (by decide) xg309

theorem xg311 : xGuar 5 [Cell.O, Cell.O, Cell.E, Cell.X, Cell.X, Cell.E, Cell.O, Cell.E, Cell.E] humanPlayer = true :=
  xGuar_any_intro 4 _ 2 (by decide) (by decide) (by decide) xg230

theorem xg312 : xGuar 5 [Cell.O, Cell.E, Cell.O, Cell.X, Cell.X, Cell.E, Cell.O, Cell.E, Cell.E] humanPlayer = true :=
  xGuar_any_intro 4 _ 1 (by decide) (by decide) (by decide) xg257

theorem xg313 : xGuar 5 [Cell.O, Cell.E, Cell.E, Cell.X, Cell.X, Cell.O, Cell.O, Cell.E, Cell.E] humanPlayer = true :=
  xGuar_any_intro 4 _ 1 (by decide) (by decide) (by decide) xg294

theorem xg314 : xGuar 4 [Cell.O, Cell.E, Cell.E, Cell.X, Cell.X, Cell.X, Cell.O, Cell.O, Cell.E] aiPlayer = true :=
  xGuar_winX_intro 3 _ _ (by decide)

theorem xg315 : xGuar 5 [Cell.O, Cell.E, Cell.E, Cell.X, Cell.X, Cell.E, Cell.O, Cell.O, Cell.E] humanPlayer = true :=
  xGuar_any_intro 4 _ 5 (by decide) (by decide) (by decide) xg314

theorem xg316 : xGuar 4 [Cell.O, Cell.E, Cell.E, Cell.X, Cell.X, Cell.X, Cell.O, Cell.E, Cell.O] aiPlayer = true :=
  xGuar_winX_intro 3 _ _ (by decide)

theorem xg317 : xGuar 5 [Cell.O, Cell.E, Cell.E, Cell.X, Cell.X, Cell.E, Cell.O, Cell.E, Cell.O] humanPlayer = true :=
  xGuar_any_intro 4 _ 5 (by decide) (by decide) (by decide) xg316

theorem xg318 : xGuar 6 [Cell.O, Cell.E, Cell.E, Cell.X, Cell.X, Cell.E, Cell.O, Cell.E, Cell.E] aiPlayer = true :=
  xGuar_all_intro 5 _ (by decide) (by decide)
    (all_cons_intro _ _ _ xg311 (all_cons_intro _ _ _ xg312 (all_cons_intro _ _ _ xg313 (all_cons_intro _ _ _ xg315 (all_cons_intro _ _ _ xg317 (all_nil_true _))))))

theorem xg319 : xGuar 7 [Cell.O, Cell.E, Cell.E, Cell.E, Cell.X, Cell.E, Cell.O, Cell.E, Cell.E] humanPlayer = true :=
  xGuar_any_intro 6 _ 3 (by decide) (by decide) (by decide) xg318

theorem xg320 : xGuar 5 [Cell.O, Cell.O, Cell.E, Cell.X, Cell.X, Cell.E, Cell.E, Cell.O, Cell.E] humanPlayer = true :=
  xGuar_any_intro 4 _ 2 (by decide) (by decide) (by decide) xg234

theorem xg321 : xGuar 5 [Cell.O, Cell.E, Cell.O, Cell.X, Cell.X, Cell.E, Cell.E, Cell.O, Cell.E] humanPlayer = true :=
  xGuar_any_intro 4 _ 1 (by decide) (by decide) (by decide) xg264

theorem xg322 : xGuar 1 [Cell.O, Cell.O, Cell.X, Cell.X, Cell.X, Cell.O, Cell.O, Cell.O, Cell.X] humanPlayer = true :=
  xGuar_draw_intro 0 _ _ (by decide) (by decide) (by decide)

theorem xg323 : xGuar 2 [Cell.O, Cell.E, Cell.X, Cell.X, Cell.X, Cell.O, Cell.O, Cell.O, Cell.X] aiPlayer = true :=
  xGuar_all_intro 1 _ (by decide) (by decide)
    (all_cons_intro _ _ _ xg322 (all_nil_true _))

theorem xg324 : xGuar 3 [Cell.O, Cell.E, Cell.X, Cell.X, Cell.X, Cell.O, Cell.O, Cell.O, Cell.E] humanPlayer = true :=
  xGuar_any_intro 2 _ 8 (by decide) (by decide) (by decide) xg323

theorem xg325 : xGuar 2 [Cell.O, Cell.E, Cell.X, Cell.X, Cell.X, Cell.O, Cell.X, Cell.O, Cell.O] aiPlayer = true :=
  xGuar_winX_intro 1 _ _ (by decide)

theorem xg326 : xGuar 3 [Cell.O, Cell.E, Cell.X, Cell.X, Cell.X, Cell.O, Cell.E, Cell.O, Cell.O] humanPlayer = true :=
  xGuar_any_intro 2 _ 6 (by decide) (by decide) (by decide) xg325

theorem xg327 : xGuar 4 [Cell.O, Cell.E, Cell.X, Cell.X, Cell.X, Cell.O, Cell.E, Cell.O, Cell.E] aiPlayer = true :=
  xGuar_all_intro 3 _ (by decide) (by decide)
    (all_cons_intro _ _ _ xg221 (all_cons_intro _ _ _ xg324 (all_cons_intro _ _ _ xg326 (all_nil_true _))))

theorem xg328 : xGuar 5 [Cell.O, Cell.E, Cell.E, Cell.X, Cell.X, Cell.O, Cell.E, Cell.O, Cell.E] humanPlayer = true :=
  xGuar_any_intro 4 _ 2 (by decide) (by decide) (by decide) xg327

theorem xg329 : xGuar 4 [Cell.O, Cell.E, Cell.E, Cell.X, Cell.X, Cell.X, Cell.E, Cell.O, Cell.O] aiPlayer = true :=
  xGuar_winX_intro 3 _ _ (by decide)

theorem xg330 : xGuar 5 [Cell.O, Cell.E, Cell.E, Cell.X, Cell.X, Cell.E, Cell.E, Cell.O, Cell.O] humanPlayer = true :=
  xGuar_any_intro 4 _ 5 (by decide) (by decide) (by decide) xg329

theorem xg331 : xGuar 6 [Cell.O, Cell.E, Cell.E, Cell.X, Cell.X, Cell.E, Cell.E, Cell.O, Cell.E] aiPlayer = true :=
  xGuar_all_intro 5 _ (by decide) (by decide)
    (all_cons_intro _ _ _ xg320 (all_cons_intro _ _ _ xg321 (all_cons_intro _ _ _ xg328 (all_cons_intro _ _ _ xg315 (all_cons_intro _ _ _ xg330 (all_nil_true _))))))

theorem xg332 : xGuar 7 [Cell.O, Cell.E, Cell.E, Cell.E, Cell.X, Cell.E, Cell.E, Cell.O, Cell.E] humanPlayer = true :=
  xGuar_any_intro 6 _ 3 (by decide) (by decide) (by decide) xg331

theorem xg333 : xGuar 5 [Cell.O, Cell.X, Cell.E, Cell.O, Cell.X, Cell.E, Cell.E, Cell.E, Cell.O] humanPlayer = true :=
  xGuar_any_intro 4 _ 6 (by decide) (by decide) (by decide) xg285

theorem xg334 : xGuar 4 [Cell.O, Cell.X, Cell.E, Cell.E, Cell.X, Cell.E, Cell.O, Cell.X, Cell.O] aiPlayer = true :=
  xGuar_winX_intro 3 _ _ (by decide)

theorem xg335 : xGuar 5 [Cell.O, Cell.X, Cell.E, Cell.E, Cell.X, Cell.E, Cell.O, Cell.E, Cell.O] humanPlayer = true :=
  xGuar_any_intro 4 _ 7 (by decide) (by decide) (by decide) xg334

theorem xg336 : xGuar 2 [Cell.O, Cell.X, Cell.O, Cell.E, Cell.X, Cell.X, Cell.X, Cell.O, Cell.O] aiPlayer = true :=
  xGuar_all_intro 1 _ (by decide) (by decide)
    (all_cons_intro _ _ _ xg242 (all_nil_true _))

theorem xg337 : xGuar 3 [Cell.O, Cell.X, Cell.O, Cell.E, Cell.X, Cell.E, Cell.X, Cell.O, Cell.O] humanPlayer = true :=
  xGuar_any_intro 2 _ 5 (by decide) (by decide) (by decide) xg336

theorem xg338 : xGuar 4 [Cell.O, Cell.X, Cell.E, Cell.E, Cell.X, Cell.E, Cell.X, Cell.O, Cell.O] aiPlayer = true :=
  xGuar_all_intro 3 _ (by decide) (by decide)
    (all_cons_intro _ _ _ xg337 (all_cons_intro _ _ _ xg282 (all_cons_intro _ _ _ xg300 (all_nil_true _))))

theorem xg339 : xGuar 5 [Cell.O, Cell.X, Cell.E, Cell.E, Cell.X, Cell.E, Cell.E, Cell.O, Cell.O] humanPlayer = true :=
  xGuar_any_intro 4 _ 6 (by decide) (by decide) (by decide) xg338

theorem xg340 : xGuar 6 [Cell.O, Cell.X, Cell.E, Cell.E, Cell.X, Cell.E, Cell.E, Cell.E, Cell.O] aiPlayer = true :=
  xGuar_all_intro 5 _ (by decide) (by decide)
    (all_cons_intro _ _ _ xg270 (all_cons_intro _ _ _ xg333 (all_cons_intro _ _ _ xg308 (all_cons_intro _ _ _ xg335 (all_cons_intro _ _ _ xg339 (all_nil_true _))))))

theorem xg341 : xGuar 7 [Cell.O, Cell.E, Cell.E, Cell.E, Cell.X, Cell.E, Cell.E, Cell.E, Cell.O] humanPlayer = true :=
  xGuar_any_intro 6 _ 1 (by decide) (by decide) (by decide) xg340

theorem xg342 : xGuar 8 [Cell.O, Cell.E, Cell.E, Cell.E, Cell.X, Cell.E, Cell.E, Cell.E, Cell.E] aiPlayer = true :=
  xGuar_all_intro 7 _ (by decide) (by decide)
    (all_cons_intro _ _ _ xg239 (all_cons_intro _ _ _ xg272 (all_cons_intro _ _ _ xg288 (all_cons_intro _ _ _ xg310 (all_cons_intro _ _ _ xg319 (all_cons_intro _ _ _ xg332 (all_cons_intro _ _ _ xg341 (all_nil_true _))))))))

theorem xg343 : xGuar 9 [Cell.O, Cell.E, Cell.E, Cell.E, Cell.E, Cell.E, Cell.E, Cell.E, Cell.E] humanPlayer = true :=
  xGuar_any_intro 8 _ 4 (by decide) (by decide) (by decide) xg342

theorem xg344 : xGuar 4 [Cell.X, Cell.O, Cell.O, Cell.X, Cell.O, Cell.E, Cell.X, Cell.E, Cell.E] aiPlayer = true :=
  xGuar_winX_intro 3 _ _ (by decide)

theorem xg345 : xGuar 5 [Cell.X, Cell.O, Cell.O, Cell.X, Cell.O, Cell.E, Cell.E, Cell.E, Cell.E] humanPlayer = true :=
  xGuar_any_intro 4 _ 6 (by decide) (by decide) (by decide) xg344

theorem xg346 : xGuar 4 [Cell.X, Cell.O, Cell.O, Cell.X, Cell.E, Cell.O, Cell.X, Cell.E, Cell.E] aiPlayer = true :=
  xGuar_winX_intro 3 _ _ (by decide)

theorem xg347 : xGuar 5 [Cell.X, Cell.O, Cell.O, Cell.X, Cell.E, Cell.O, Cell.E, Cell.E, Cell.E] humanPlayer = true :=
  xGuar_any_intro 4 _ 6 (by decide) (by decide) (by decide) xg346

theorem xg348 : xGuar 2 [Cell.X, Cell.O, Cell.O, Cell.X, Cell.X, Cell.O, Cell.O, Cell.E, Cell.X] aiPlayer = true :=
  xGuar_winX_intro 1 _ _ (by decide)

theorem xg349 : xGuar 3 [Cell.X, Cell.O, Cell.O, Cell.X, Cell.X, Cell.O, Cell.O, Cell.E, Cell.E] humanPlayer = true :=
  xGuar_any_intro 2 _ 8 (by decide) (by decide) (by decide) xg348

theorem xg350 : xGuar 2 [Cell.X, Cell.O, Cell.O, Cell.X, Cell.X, Cell.X, Cell.O, Cell.O, Cell.E] aiPlayer = true :=
  xGuar_winX_intro 1 _ _ (by decide)

theorem xg351 : xGuar 3 [Cell.X, Cell.O, Cell.O, Cell.X, Cell.X, Cell.E, Cell.O, Cell.O, Cell.E] humanPlayer = true :=
  xGuar_any_intro 2 _ 5 (by decide) (by decide) (by decide) xg350

theorem xg352 : xGuar 2 [Cell.X, Cell.O, Cell.O, Cell.X, Cell.X, Cell.X, Cell.O, Cell.E, Cell.O] aiPlayer = true :=
  xGuar_winX_intro 1 _ _ (by decide)

theorem xg353 : xGuar 3 [Cell.X, Cell.O, Cell.O, Cell.X, Cell.X, Cell.E, Cell.O, Cell.E, Cell.O] humanPlayer = true :=
  xGuar_any_intro 2 _ 5 (by decide) (by decide) (by decide) xg352

theorem xg354 : xGuar 4 [Cell.X, Cell.O, Cell.O, Cell.X, Cell.X, Cell.E, Cell.O, Cell.E, Cell.E] aiPlayer = true :=
  xGuar_all_intro 3 _ (by decide) (by decide)
    (all_cons_intro _ _ _ xg349 (all_cons_intro _ _ _ xg351 (all_cons_intro _ _ _ xg353 (all_nil_true _))))

theorem xg355 : xGuar 5 [Cell.X, Cell.O, Cell.O, Cell.X, Cell.E, Cell.E, Cell.O, Cell.E, Cell.E] humanPlayer = true :=
  xGuar_any_intro 4 _ 4 (by decide) (by decide) (by decide) xg354

theorem xg356 : xGuar 2 [Cell.X, Cell.O, Cell.O, Cell.X, Cell.X, Cell.O, Cell.X, Cell.O, Cell.E] aiPlayer = true :=
  xGuar_winX_intro 1 _ _ (by decide)

theorem xg357 : xGuar 3 [Cell.X, Cell.O, Cell.O, Cell.X, Cell.X, Cell.O, Cell.E, Cell.O, Cell.E] humanPlayer = true :=
  xGuar_any_intro 2 _ 6 (by decide) (by decide) (by decide) xg356

theorem xg358 : xGuar 2 [Cell.X, Cell.O, Cell.O, Cell.X, Cell.X, Cell.X, Cell.E, Cell.O, Cell.O] aiPlayer = true :=
  xGuar_winX_intro 1 _ _ (by decide)

theorem xg359 : xGuar 3 [Cell.X, Cell.O, Cell.O, Cell.X, Cell.X, Cell.E, Cell.E, Cell.O, Cell.O] humanPlayer = true :=
  xGuar_any_intro 2 _ 5 (by decide) (by decide) (by decide) xg358

theorem xg360 : xGuar 4 [Cell.X, Cell.O, Cell.O, Cell.X, Cell.X, Cell.E, Cell.E, Cell.O, Cell.E] aiPlayer = true :=
  xGuar_all_intro 3 _ (by decide) (by decide)
    (all_cons_intro _ _ _ xg357 (all_cons_intro _ _ _ xg351 (all_cons_intro _ _ _ xg359 (all_nil_true _))))

theorem xg361 : xGuar 5 [Cell.X, Cell.O, Cell.O, Cell.X, Cell.E, Cell.E, Cell.E, Cell.O, Cell.E] humanPlayer = true :=
  xGuar_any_intro 4 _ 4 (by decide) (by decide) (by decide) xg360

theorem xg362 : xGuar 2 [Cell.X, Cell.O, Cell.O, Cell.X, Cell.O, Cell.X, Cell.X, Cell.E, Cell.O] aiPlayer = true :=
  xGuar_winX_intro 1 _ _ (by decide)

theorem xg363 : xGuar 3 [Cell.X, Cell.O, Cell.O, Cell.X, Cell.O, Cell.X, Cell.E, Cell.E, Cell.O] humanPlayer = true :=
  xGuar_any_intro 2 _ 6 (by decide) (by decide) (by decide) xg362

theorem xg364 : xGuar 3 [Cell.X, Cell.O, Cell.O, Cell.X, Cell.E, Cell.X, Cell.O, Cell.E, Cell.O] humanPlayer = true :=
  xGuar_any_intro 2 _ 4 (by decide) (by decide) (by decide) xg352

theorem xg365 : xGuar 3 [Cell.X, Cell.O, Cell.O, Cell.X, Cell.E, Cell.X, Cell.E, Cell.O, Cell.O] humanPlayer = true :=
  xGuar_any_intro 2 _ 4 (by decide) (by decide) (by decide) xg358

theorem xg366 : xGuar 4 [Cell.X, Cell.O, Cell.O, Cell.X, Cell.E, Cell.X, Cell.E, Cell.E, Cell.O] aiPlayer = true :=
  xGuar_all_intro 3 _ (by decide) (by decide)
    (all_cons_intro _ _ _ xg363 (all_cons_intro _ _ _ xg364 (all_cons_intro _ _ _ xg365 (all_nil_true _))))

theorem xg367 : xGuar 5 [Cell.X, Cell.O, Cell.O, Cell.X, Cell.E, Cell.E, Cell.E, Cell.E, Cell.O] humanPlayer = true :=
  xGuar_any_intro 4 _ 5 (by decide) (by decide) (by decide) xg366

theorem xg368 : xGuar 6 [Cell.X, Cell.O, Cell.O, Cell.X, Cell.E, Cell.E, Cell.E, Cell.E, Cell.E] aiPlayer = true :=
  xGuar_all_intro 5 _ (by decide) (by decide)
    (all_cons_intro _ _ _ xg345 (all_cons_intro _ _ _ xg347 (all_cons_intro _ _ _ xg355 (all_cons_intro _ _ _ xg361 (all_cons_intro _ _ _ xg367 (all_nil_true _))))))

theorem xg369 : xGuar 7 [Cell.X, Cell.O, Cell.O, Cell.E, Cell.E, Cell.E, Cell.E, Cell.E, Cell.E] humanPlayer = true :=
  xGuar_any_intro 6 _ 3 (by decide) (by decide) (by decide) xg368

theorem xg370 : xGuar 1 [Cell.X, Cell.O, Cell.O, Cell.O, Cell.X, Cell.X, Cell.O, Cell.X, Cell.O] humanPlayer = true :=
  xGuar_draw_intro 0 _ _ (by decide) (by decide) (by decide)

theorem xg371 : xGuar 2 [Cell.X, Cell.O, Cell.O, Cell.O, Cell.X, Cell.X, Cell.O, Cell.X, Cell.E] aiPlayer = true :=
  xGuar_all_intro 1 _ (by decide) (by decide)
    (all_cons_intro _ _ _ xg370 (all_nil_true _))

theorem xg372 : xGuar 3 [Cell.X, Cell.O, Cell.O, Cell.O, Cell.X, Cell.X, Cell.O, Cell.E, Cell.E] humanPlayer = true :=
  xGuar_any_intro 2 _ 7 (by decide) (by decide) (by decide) xg371

theorem xg373 : xGuar 1 [Cell.X, Cell.O, Cell.O, Cell.O, Cell.X, Cell.X, Cell.X, Cell.O, Cell.O] humanPlayer = true :=
  xGuar_draw_intro 0 _ _ (by decide) (by decide) (by decide)

theorem xg374 : xGuar 2 [Cell.X, Cell.O, Cell.O, Cell.O, Cell.X, Cell.X, Cell.X, Cell.O, Cell.E] aiPlayer = true :=
  xGuar_all_intro 1 _ (by decide) (by decide)
    (all_cons_intro _ _ _ xg373 (all_nil_true _))

theorem xg375 : xGuar 3 [Cell.X, Cell.O, Cell.O, Cell.O, Cell.X, Cell.X, Cell.E, Cell.O, Cell.E] humanPlayer = true :=
  xGuar_any_intro 2 _ 6 (by decide) (by decide) (by decide) xg374

theorem xg376 : xGuar 2 [Cell.X, Cell.O, Cell.O, Cell.O, Cell.X, Cell.X, Cell.X, Cell.E, Cell.O] aiPlayer = true :=
  xGuar_all_intro 1 _ (by decide) (by decide)
    (all_cons_intro _ _ _ xg373 (all_nil_true _))

theorem xg377 : xGuar 3 [Cell.X, Cell.O, Cell.O, Cell.O, Cell.X, Cell.X, Cell.E, Cell.E, Cell.O] humanPlayer = true :=
  xGuar_any_intro 2 _ 6 (by decide) (by decide) (by decide) xg376

theorem xg378 : xGuar 4 [Cell.X, Cell.O, Cell.O, Cell.O, Cell.X, Cell.X, Cell.E, Cell.E, Cell.E] aiPlayer = true :=
  xGuar_all_intro 3 _ (by decide) (by decide)
    (all_cons_intro _ _ _ xg372 (all_cons_intro _ _ _ xg375 (all_cons_intro _ _ _ xg377 (all_nil_true _))))

theorem xg379 : xGuar 5 [Cell.X, Cell.O, Cell.O, Cell.O, Cell.X, Cell.E, Cell.E, Cell.E, Cell.E] humanPlayer = true :=
  xGuar_any_intro 4 _ 5 (by decide) (by decide) (by decide) xg378

theorem xg380 : xGuar 1 [Cell.X, Cell.O, Cell.X, Cell.O, Cell.X, Cell.O, Cell.O, Cell.X, Cell.O] humanPlayer = true :=
  xGuar_draw_intro 0 _ _ (by decide) (by decide) (by decide)

theorem xg381 : xGuar 2 [Cell.X, Cell.O, Cell.X, Cell.O, Cell.X, Cell.O, Cell.O, Cell.X, Cell.E] aiPlayer = true :=
  xGuar_all_intro 1 _ (by decide) (by decide)
    (all_cons_intro _ _ _ xg380 (all_nil_true _))

theorem xg382 : xGuar 3 [Cell.X, Cell.O, Cell.X, Cell.O, Cell.X, Cell.O, Cell.O, Cell.E, Cell.E] humanPlayer = true :=
  xGuar_any_intro 2 _ 7 (by decide) (by decide) (by decide) xg381

theorem xg383 : xGuar 2 [Cell.X, Cell.O, Cell.X, Cell.O, Cell.X, Cell.O, Cell.X, Cell.O, Cell.E] aiPlayer = true :=
  xGuar_winX_intro 1 _ _ (by decide)

theorem xg384 : xGuar 3 [Cell.X, Cell.O, Cell.X, Cell.O, Cell.X, Cell.O, Cell.E, Cell.O, Cell.E] humanPlayer = true :=
  xGuar_any_intro 2 _ 6 (by decide) (by decide) (by decide) xg383

theorem xg385 : xGuar 2 [Cell.X, Cell.O, Cell.X, Cell.O, Cell.X, Cell.O, Cell.X, Cell.E, Cell.O] aiPlayer = true :=
  xGuar_winX_intro 1 _ _ (by decide)

theorem xg386 : xGuar 3 [Cell.X, Cell.O, Cell.X, Cell.O, Cell.X, Cell.O, Cell.E, Cell.E, Cell.O] humanPlayer = true :=
  xGuar_any_intro 2 _ 6 (by decide) (by decide) (by decide) xg385

theorem xg387 : xGuar 4 [Cell.X, Cell.O, Cell.X, Cell.O, Cell.X, Cell.O, Cell.E, Cell.E, Cell.E] aiPlayer = true :=
  xGuar_all_intro 3 _ (by decide) (by decide)
    (all_cons_intro _ _ _ xg382 (all_cons_intro _ _ _ xg384 (all_cons_intro _ _ _ xg386 (all_nil_true _))))

theorem xg388 : xGuar 5 [Cell.X, Cell.O, Cell.E, Cell.O, Cell.X, Cell.O, Cell.E, Cell.E, Cell.E] humanPlayer = true :=
  xGuar_any_intro 4 _ 2 (by decide) (by decide) (by decide) xg387

theorem xg389 : xGuar 2 [Cell.X, Cell.O, Cell.X, Cell.O, Cell.X, Cell.E, Cell.O, Cell.O, Cell.X] aiPlayer = true :=
  xGuar_winX_intro 1 _ _ (by decide)

theorem xg390 : xGuar 3 [Cell.X, Cell.O, Cell.X, Cell.O, Cell.X, Cell.E, Cell.O, Cell.O, Cell.E] humanPlayer = true :=
  xGuar_any_intro 2 _ 8 (by decide) (by decide) (by decide) xg389

theorem xg391 : xGuar 2 [Cell.X, Cell.O, Cell.X, Cell.O, Cell.X, Cell.E, Cell.O, Cell.X, Cell.O] aiPlayer = true :=
  xGuar_all_intro 1 _ (by decide) (by decide)
    (all_cons_intro _ _ _ xg380 (all_nil_true _))

theorem xg392 : xGuar 3 [Cell.X, Cell.O, Cell.X, Cell.O, Cell.X, Cell.E, Cell.O, Cell.E, Cell.O] humanPlayer = true :=
  xGuar_any_intro 2 _ 7 (by decide) (by decide) (by decide) xg391

theorem xg393 : xGuar 4 [Cell.X, Cell.O, Cell.X, Cell.O, Cell.X, Cell.E, Cell.O, Cell.E, Cell.E] aiPlayer = true :=
  xGuar_all_intro 3 _ (by decide) (by decide)
    (all_cons_intro _ _ _ xg382 (all_cons_intro _ _ _ xg390 (all_cons_intro _ _ _ xg392 (all_nil_true _))))

theorem xg394 : xGuar 5 [Cell.X, Cell.O, Cell.E, Cell.O, Cell.X, Cell.E, Cell.O, Cell.E, Cell.E] humanPlayer = true :=
  xGuar_any_intro 4 _ 2 (by decide) (by decide) (by decide) xg393

theorem xg395 : xGuar 2 [Cell.X, Cell.O, Cell.X, Cell.O, Cell.X, Cell.E, Cell.X, Cell.O, Cell.O] aiPlayer = true :=
  xGuar_winX_intro 1 _ _ (by decide)

theorem xg396 : xGuar 3 [Cell.X, Cell.O, Cell.X, Cell.O, Cell.X, Cell.E, Cell.E, Cell.O, Cell.O] humanPlayer = true :=
  xGuar_any_intro 2 _ 6 (by decide) (by decide) (by decide) xg395

theorem xg397 : xGuar 4 [Cell.X, Cell.O, Cell.X, Cell.O, Cell.X, Cell.E, Cell.E, Cell.O, Cell.E] aiPlayer = true :=
  xGuar_all_intro 3 _ (by decide) (by decide)
    (all_cons_intro _ _ _ xg384 (all_cons_intro _ _ _ xg390 (all_cons_intro _ _ _ xg396 (all_nil_true _))))

theorem xg398 : xGuar 5 [Cell.X, Cell.O, Cell.E, Cell.O, Cell.X, Cell.E, Cell.E, Cell.O, Cell.E] humanPlayer = true :=
  xGuar_any_intro 4 _ 2 (by decide) (by decide) (by decide) xg397

theorem xg399 : xGuar 4 [Cell.X, Cell.O, Cell.X, Cell.O, Cell.X, Cell.E, Cell.E, Cell.E, Cell.O] aiPlayer = true :=
  xGuar_all_intro 3 _ (by decide) (by decide)
    (all_cons_intro _ _ _ xg386 (all_cons_intro _ _ _ xg392 (all_cons_intro _ _ _ xg396 (all_nil_true _))))

theorem xg400 : xGuar 5 [Cell.X, Cell.O, Cell.E, Cell.O, Cell.X, Cell.E, Cell.E, Cell.E, Cell.O] humanPlayer = true :=
  xGuar_any_intro 4 _ 2 (by decide) (by decide) (by decide) xg399

theorem xg401 : xGuar 6 [Cell.X, Cell.O, Cell.E, Cell.O, Cell.X, Cell.E, Cell.E, Cell.E, Cell.E] aiPlayer = true :=
  xGuar_all_intro 5 _ (by decide) (by decide)
    (all_cons_intro _ _ _ xg379 (all_cons_intro _ _ _ xg388 (all_cons_intro _ _ _ xg394 (all_cons_intro _ _ _ xg398 (all_cons_intro _ _ _ xg400 (all_nil_true _))))))

theorem xg402 : xGuar 7 [Cell.X, Cell.O, Cell.E, Cell.O, Cell.E, Cell.E, Cell.E, Cell.E, Cell.E] humanPlayer = true :=
  xGuar_any_intro 6 _ 4 (by decide) (by decide) (by decide) xg401

theorem xg403 : xGuar 1 [Cell.X, Cell.O, Cell.O, Cell.O, Cell.O, Cell.X, Cell.X, Cell.X, Cell.O] humanPlayer = true :=
  xGuar_draw_intro 0 _ _ (by decide) (by decide) (by decide)

theorem xg404 : xGuar 2 [Cell.X, Cell.O, Cell.O, Cell.O, Cell.O, Cell.X, Cell.X, Cell.X, Cell.E] aiPlayer = true :=
  xGuar_all_intro 1 _ (by decide) (by decide)
    (all_cons_intro _ _ _ xg403 (all_nil_true _))

theorem xg405 : xGuar 3 [Cell.X, Cell.O, Cell.O, Cell.O, Cell.O, Cell.E, Cell.X, Cell.X, Cell.E] humanPlayer = true :=
  xGuar_any_intro 2 _ 5 (by decide) (by decide) (by decide) xg404

theorem xg406 : xGuar 2 [Cell.X, Cell.O, Cell.O, Cell.X, Cell.O, Cell.O, Cell.X, Cell.X, Cell.E] aiPlayer = true :=
  xGuar_winX_intro 1 _ _ (by decide)

theorem xg407 : xGuar 3 [Cell.X, Cell.O, Cell.O, Cell.E, Cell.O, Cell.O, Cell.X, Cell.X, Cell.E] humanPlayer = true :=
  xGuar_any_intro 2 _ 3 (by decide) (by decide) (by decide) xg406

theorem xg408 : xGuar 2 [Cell.X, Cell.O, Cell.O, Cell.X, Cell.O, Cell.E, Cell.X, Cell.X, Cell.O] aiPlayer = true :=
  xGuar_winX_intro 1 _ _ (by decide)

theorem xg409 : xGuar 3 [Cell.X, Cell.O, Cell.O, Cell.E, Cell.O, Cell.E, Cell.X, Cell.X, Cell.O] humanPlayer = true :=
  xGuar_any_intro 2 _ 3 (by decide) (by decide) (by decide) xg408

theorem xg410 : xGuar 4 [Cell.X, Cell.O, Cell.O, Cell.E, Cell.O, Cell.E, Cell.X, Cell.X, Cell.E] aiPlayer = true :=
  xGuar_all_intro 3 _ (by decide) (by decide)
    (all_cons_intro _ _ _ xg405 (all_cons_intro _ _ _ xg407 (all_cons_intro _ _ _ xg409 (all_nil_true _))))

theorem xg411 : xGuar 5 [Cell.X, Cell.O, Cell.O, Cell.E, Cell.O, Cell.E, Cell.E, Cell.X, Cell.E] humanPlayer = true :=
  xGuar_any_intro 4 _ 6 (by decide) (by decide) (by decide) xg410

theorem xg412 : xGuar 3 [Cell.X, Cell.O, Cell.O, Cell.O, Cell.O, Cell.X, Cell.E, Cell.X, Cell.E] humanPlayer = true :=
  xGuar_any_intro 2 _ 6 (by decide) (by decide) (by decide) xg404

theorem xg413 : xGuar 1 [Cell.X, Cell.O, Cell.X, Cell.O, Cell.O, Cell.X, Cell.O, Cell.X, Cell.O] humanPlayer = true :=
  xGuar_draw_intro 0 _ _ (by decide) (by decide) (by decide)

theorem xg414 : xGuar 2 [Cell.X, Cell.O, Cell.X, Cell.O, Cell.O, Cell.X, Cell.O, Cell.X, Cell.E] aiPlayer = true :=
  xGuar_all_intro 1 _ (by decide) (by decide)
    (all_cons_intro _ _ _ xg413 (all_nil_true _))

theorem xg415 : xGuar 3 [Cell.X, Cell.O, Cell.E, Cell.O, Cell.O, Cell.X, Cell.O, Cell.X, Cell.E] humanPlayer = true :=
  xGuar_any_intro 2 _ 2 (by decide) (by decide) (by decide) xg414

theorem xg416 : xGuar 2 [Cell.X, Cell.O, Cell.X, Cell.O, Cell.O, Cell.X, Cell.E, Cell.X, Cell.O] aiPlayer = true :=
  xGuar_all_intro 1 _ (by decide) (by decide)
    (all_cons_intro _ _ _ xg413 (all_nil_true _))

theorem xg417 : xGuar 3 [Cell.X, Cell.O, Cell.E, Cell.O, Cell.O, Cell.X, Cell.E, Cell.X, Cell.O] humanPlayer = true :=
  xGuar_any_intro 2 _ 2 (by decide) (by decide) (by decide) xg416

theorem xg418 : xGuar 4 [Cell.X, Cell.O, Cell.E, Cell.O, Cell.O, Cell.X, Cell.E, Cell.X, Cell.E] aiPlayer = true :=
  xGuar_all_intro 3 _ (by decide) (by decide)
    (all_cons_intro _ _ _ xg412 (all_cons_intro _ _ _ xg415 (all_cons_intro _ _ _ xg417 (all_nil_true _))))

theorem xg419 : xGuar 5 [Cell.X, Cell.O, Cell.E, Cell.O, Cell.O, Cell.E, Cell.E, Cell.X, Cell.E] humanPlayer = true :=
  xGuar_any_intro 4 _ 5 (by decide) (by decide) (by decide) xg418

theorem xg420 : xGuar 3 [Cell.X, Cell.O, Cell.O, Cell.X, Cell.O, Cell.O, Cell.E, Cell.X, Cell.E] humanPlayer = true :=
  xGuar_any_intro 2 _ 6 (by decide) (by decide) (by decide) xg406

theorem xg421 : xGuar 1 [Cell.X, Cell.O, Cell.X, Cell.X, Cell.O, Cell.O, Cell.O, Cell.X, Cell.O] humanPlayer = true :=
  xGuar_draw_intro 0 _ _ (by decide) (by decide) (by decide)

theorem xg422 : xGuar 2 [Cell.X, Cell.O, Cell.X, Cell.X, Cell.O, Cell.O, Cell.O, Cell.X, Cell.E] aiPlayer = true :=
  xGuar_all_intro 1 _ (by decide) (by decide)
    (all_cons_intro _ _ _ xg421 (all_nil_true _))

theorem xg423 : xGuar 3 [Cell.X, Cell.O, Cell.E, Cell.X, Cell.O, Cell.O, Cell.O, Cell.X, Cell.E] humanPlayer = true :=
  xGuar_any_intro 2 _ 2 (by decide) (by decide) (by decide) xg422

theorem xg424 : xGuar 2 [Cell.X, Cell.O, Cell.X, Cell.X, Cell.O, Cell.O, Cell.E, Cell.X, Cell.O] aiPlayer = true :=
  xGuar_all_intro 1 _ (by decide) (by decide)
    (all_cons_intro _ _ _ xg421 (all_nil_true _))

theorem xg425 : xGuar 3 [Cell.X, Cell.O, Cell.E, Cell.X, Cell.O, Cell.O, Cell.E, Cell.X, Cell.O] humanPlayer = true :=
  xGuar_any_intro 2 _ 2 (by decide) (by decide) (by decide) xg424

theorem xg426 : xGuar 4 [Cell.X, Cell.O, Cell.E, Cell.X, Cell.O, Cell.O, Cell.E, Cell.X, Cell.E] aiPlayer = true :=
  xGuar_all_intro 3 _ (by decide) (by decide)
    (all_cons_intro _ _ _ xg420 (all_cons_intro _ _ _ xg423 (all_cons_intro _ _ _ xg425 (all_nil_true _))))

theorem xg427 : xGuar 5 [Cell.X, Cell.O, Cell.E, Cell.E, Cell.O, Cell.O, Cell.E, Cell.X, Cell.E] humanPlayer = true :=
  xGuar_any_intro 4 _ 3 (by decide) (by decide) (by decide) xg426

theorem xg428 : xGuar 3 [Cell.X, Cell.O, Cell.X, Cell.O, Cell.O, Cell.E, Cell.O, Cell.X, Cell.E] humanPlayer = true :=
  xGuar_any_intro 2 _ 5 (by decide) (by decide) (by decide) xg414

theorem xg429 : xGuar 3 [Cell.X, Cell.O, Cell.X, Cell.E, Cell.O, Cell.O, Cell.O, Cell.X, Cell.E] humanPlayer = true :=
  xGuar_any_intro 2 _ 3 (by decide) (by decide) (by decide) xg422

theorem xg430 : xGuar 2 [Cell.X, Cell.O, Cell.X, Cell.X, Cell.O, Cell.E, Cell.O, Cell.X, Cell.O] aiPlayer = true :=
  xGuar_all_intro 1 _ (by decide) (by decide)
    (all_cons_intro _ _ _ xg421 (all_nil_true _))

theorem xg431 : xGuar 3 [Cell.X, Cell.O, Cell.X, Cell.E, Cell.O, Cell.E, Cell.O, Cell.X, Cell.O] humanPlayer = true :=
  xGuar_any_intro 2 _ 3 (by decide) (by decide) (by decide) xg430

theorem xg432 : xGuar 4 [Cell.X, Cell.O, Cell.X, Cell.E, Cell.O, Cell.E, Cell.O, Cell.X, Cell.E] aiPlayer = true :=
  xGuar_all_intro 3 _ (by decide) (by decide)
    (all_cons_intro _ _ _ xg428 (all_cons_intro _ _ _ xg429 (all_cons_intro _ _ _ xg431 (all_nil_true _))))

theorem xg433 : xGuar 5 [Cell.X, Cell.O, Cell.E, Cell.E, Cell.O, Cell.E, Cell.O, Cell.X, Cell.E] humanPlayer = true :=
  xGuar_any_intro 4 _ 2 (by decide) (by decide) (by decide) xg432

theorem xg434 : xGuar 3 [Cell.X, Cell.O, Cell.X, Cell.O, Cell.O, Cell.E, Cell.E, Cell.X, Cell.O] humanPlayer = true :=
  xGuar_any_intro 2 _ 5 (by decide) (by decide) (by decide) xg416

theorem xg435 : xGuar 3 [Cell.X, Cell.O, Cell.X, Cell.E, Cell.O, Cell.O, Cell.E, Cell.X, Cell.O] humanPlayer = true :=
  xGuar_any_intro 2 _ 3 (by decide) (by decide) (by decide) xg424

theorem xg436 : xGuar 4 [Cell.X, Cell.O, Cell.X, Cell.E, Cell.O, Cell.E, Cell.E, Cell.X, Cell.O] aiPlayer = true :=
  xGuar_all_intro 3 _ (by decide) (by decide)
    (all_cons_intro _ _ _ xg434 (all_cons_intro _ _ _ xg435 (all_cons_intro _ _ _ xg431 (all_nil_true _))))

theorem xg437 : xGuar 5 [Cell.X, Cell.O, Cell.E, Cell.E, Cell.O, Cell.E, Cell.E, Cell.X, Cell.O] humanPlayer = true :=
  xGuar_any_intro 4 _ 2 (by decide) (by decide) (by decide) xg436

theorem xg438 : xGuar 6 [Cell.X, Cell.O, Cell.E, Cell.E, Cell.O, Cell.E, Cell.E, Cell.X, Cell.E] aiPlayer = true :=
  xGuar_all_intro 5 _ (by decide) (by decide)
    (all_cons_intro _ _ _ xg411 (all_cons_intro _ _ _ xg419 (all_cons_intro _ _ _ xg427 (all_cons_intro _ _ _ xg433 (all_cons_intro _ _ _ xg437 (all_nil_true _))))))

theorem xg439 : xGuar 7 [Cell.X, Cell.O, Cell.E, Cell.E, Cell.O, Cell.E, Cell.E, Cell.E, Cell.E] humanPlayer = true :=
  xGuar_any_intro 6 _ 7 (by decide) (by decide) (by decide) xg438

theorem xg440 : xGuar 4 [Cell.X, Cell.O, Cell.O, Cell.E, Cell.X, Cell.O, Cell.E, Cell.E, Cell.X] aiPlayer = true :=
  xGuar_winX_intro 3 _ _ (by decide)

theorem xg441 : xGuar 5 [Cell.X, Cell.O, Cell.O, Cell.E, Cell.X, Cell.O, Cell.E, Cell.E, Cell.E] humanPlayer = true :=
  xGuar_any_intro 4 _ 8 (by decide) (by decide) (by decide) xg440

theorem xg442 : xGuar 2 [Cell.X, Cell.O, Cell.X, Cell.E, Cell.X, Cell.O, Cell.O, Cell.O, Cell.X] aiPlayer = true :=
  xGuar_winX_intro 1 _ _ (by decide)

theorem xg443 : xGuar 3 [Cell.X, Cell.O, Cell.X, Cell.E, Cell.X, Cell.O, Cell.O, Cell.O, Cell.E] humanPlayer = true :=
  xGuar_any_intro 2 _ 8 (by decide) (by decide) (by decide) xg442

theorem xg444 : xGuar 2 [Cell.X, Cell.O, Cell.X, Cell.E, Cell.X, Cell.O, Cell.O, Cell.X, Cell.O] aiPlayer = true :=
  xGuar_all_intro 1 _ (by decide) (by decide)
    (all_cons_intro _ _ _ xg380 (all_nil_true _))

theorem xg445 : xGuar 3 [Cell.X, Cell.O, Cell.X, Cell.E, Cell.X, Cell.O, Cell.O, Cell.E, Cell.O] humanPlayer = true :=
  xGuar_any_intro 2 _ 7 (by decide) (by decide) (by decide) xg444

theorem xg446 : xGuar 4 [Cell.X, Cell.O, Cell.X, Cell.E, Cell.X, Cell.O, Cell.O, Cell.E, Cell.E] aiPlayer = true :=
  xGuar_all_intro 3 _ (by decide) (by decide)
    (all_cons_intro _ _ _ xg382 (all_cons_intro _ _ _ xg443 (all_cons_intro _ _ _ xg445 (all_nil_true _))))

theorem xg447 : xGuar 5 [Cell.X, Cell.O, Cell.E, Cell.E, Cell.X, Cell.O, Cell.O, Cell.E, Cell.E] humanPlayer = true :=
  xGuar_any_intro 4 _ 2 (by decide) (by decide) (by decide) xg446

theorem xg448 : xGuar 2 [Cell.X, Cell.O, Cell.X, Cell.E, Cell.X, Cell.O, Cell.X, Cell.O, Cell.O] aiPlayer = true :=
  xGuar_winX_intro 1 _ _ (by decide)

theorem xg449 : xGuar 3 [Cell.X, Cell.O, Cell.X, Cell.E, Cell.X, Cell.O, Cell.E, Cell.O, Cell.O] humanPlayer = true :=
  xGuar_any_intro 2 _ 6 (by decide) (by decide) (by decide) xg448

theorem xg450 : xGuar 4 [Cell.X, Cell.O, Cell.X, Cell.E, Cell.X, Cell.O, Cell.E, Cell.O, Cell.E] aiPlayer = true :=
  xGuar_all_intro 3 _ (by decide) (by decide)
    (all_cons_intro _ _ _ xg384 (all_cons_intro _ _ _ xg443 (all_cons_intro _ _ _ xg449 (all_nil_true _))))

theorem xg451 : xGuar 5 [Cell.X, Cell.O, Cell.E, Cell.E, Cell.X, Cell.O, Cell.E, Cell.O, Cell.E] humanPlayer = true :=
  xGuar_any_intro 4 _ 2 (by decide) (by decide) (by decide) xg450

theorem xg452 : xGuar 4 [Cell.X, Cell.O, Cell.X, Cell.E, Cell.X, Cell.O, Cell.E, Cell.E, Cell.O] aiPlayer = true :=
  xGuar_all_intro 3 _ (by decide) (by decide)
    (all_cons_intro _ _ _ xg386 (all_cons_intro _ _ _ xg445 (all_cons_intro _ _ _ xg449 (all_nil_true _))))

theorem xg453 : xGuar 5 [Cell.X, Cell.O, Cell.E, Cell.E, Cell.X, Cell.O, Cell.E, Cell.E, Cell.O] humanPlayer = true :=
  xGuar_any_intro 4 _ 2 (by decide) (by decide) (by decide) xg452

theorem xg454 : xGuar 6 [Cell.X, Cell.O, Cell.E, Cell.E, Cell.X, Cell.O, Cell.E, Cell.E, Cell.E] aiPlayer = true :=
  xGuar_all_intro 5 _ (by decide) (by decide)
    (all_cons_intro _ _ _ xg441 (all_cons_intro _ _ _ xg388 (all_cons_intro _ _ _ xg447 (all_cons_intro _ _ _ xg451 (all_cons_intro _ _ _ xg453 (all_nil_true _))))))

theorem xg455 : xGuar 7 [Cell.X, Cell.O, Cell.E, Cell.E, Cell.E, Cell.O, Cell.E, Cell.E, Cell.E] humanPlayer = true :=
  xGuar_any_intro 6 _ 4 (by decide) (by decide) (by decide) xg454

theorem xg456 : xGuar 5 [Cell.X, Cell.O, Cell.O, Cell.E, Cell.X, Cell.E, Cell.O, Cell.E, Cell.E] humanPlayer = true :=
  xGuar_any_intro 4 _ 3 (by decide) (by decide) (by decide) xg354

theorem xg457 : xGuar 4 [Cell.X, Cell.O, Cell.E, Cell.E, Cell.X, Cell.E, Cell.O, Cell.O, Cell.X] aiPlayer = true :=
  xGuar_winX_intro 3 _ _ (by decide)

theorem xg458 : xGuar 5 [Cell.X, Cell.O, Cell.E, Cell.E, Cell.X, Cell.E, Cell.O, Cell.O, Cell.E] humanPlayer = true :=
  xGuar_any_intro 4 _ 8 (by decide) (by decide) (by decide) xg457

theorem xg459 : xGuar 2 [Cell.X, Cell.O, Cell.O, Cell.E, Cell.X, Cell.X, Cell.O, Cell.X, Cell.O] aiPlayer = true :=
  xGuar_all_intro 1 _ (by decide) (by decide)
    (all_cons_intro _ _ _ xg370 (all_nil_true _))

theorem xg460 : xGuar 3 [Cell.X, Cell.O, Cell.O, Cell.E, Cell.X, Cell.E, Cell.O, Cell.X, Cell.O] humanPlayer = true :=
  xGuar_any_intro 2 _ 5 (by decide) (by decide) (by decide) xg459

theorem xg461 : xGuar 3 [Cell.X, Cell.O, Cell.E, Cell.O, Cell.X, Cell.E, Cell.O, Cell.X, Cell.O] humanPlayer = true :=
  xGuar_any_intro 2 _ 2 (by decide) (by decide) (by decide) xg391

theorem xg462 : xGuar 3 [Cell.X, Cell.O, Cell.E, Cell.E, Cell.X, Cell.O, Cell.O, Cell.X, Cell.O] humanPlayer = true :=
  xGuar_any_intro 2 _ 2 (by decide) (by decide) (by decide) xg444

theorem xg463 : xGuar 4 [Cell.X, Cell.O, Cell.E, Cell.E, Cell.X, Cell.E, Cell.O, Cell.X, Cell.O] aiPlayer = true :=
  xGuar_all_intro 3 _ (by decide) (by decide)
    (all_cons_intro _ _ _ xg460 (all_cons_intro _ _ _ xg461 (all_cons_intro _ _ _ xg462 (all_nil_true _))))

theorem xg464 : xGuar 5 [Cell.X, Cell.O, Cell.E, Cell.E, Cell.X, Cell.E, Cell.O, Cell.E, Cell.O] humanPlayer = true :=
  xGuar_any_intro 4 _ 7 (by decide) (by decide) (by decide) xg463

theorem xg465 : xGuar 6 [Cell.X, Cell.O, Cell.E, Cell.E, Cell.X, Cell.E, Cell.O, Cell.E, Cell.E] aiPlayer = true :=
  xGuar_all_intro 5 _ (by decide) (by decide)
    (all_cons_intro _ _ _ xg456 (all_cons_intro _ _ _ xg394 (all_cons_intro _ _ _ xg447 (all_cons_intro _ _ _ xg458 (all_cons_intro _ _ _ xg464 (all_nil_true _))))))

theorem xg466 : xGuar 7 [Cell.X, Cell.O, Cell.E, Cell.E, Cell.E, Cell.E, Cell.O, Cell.E, Cell.E] humanPlayer = true :=
  xGuar_any_intro 6 _ 4 (by decide) (by decide) (by decide) xg465

theorem xg467 : xGuar 5 [Cell.X, Cell.O, Cell.O, Cell.E, Cell.X, Cell.E, Cell.E, Cell.O, Cell.E] humanPlayer = true :=
  xGuar_any_intro 4 _ 3 (by decide) (by decide) (by decide) xg360

theorem xg468 : xGuar 2 [Cell.X, Cell.O, Cell.O, Cell.X, Cell.X, Cell.E, Cell.X, Cell.O, Cell.O] aiPlayer = true :=
  xGuar_winX_intro 1 _ _ (by decide)

theorem xg469 : xGuar 3 [Cell.X, Cell.O, Cell.O, Cell.E, Cell.X, Cell.E, Cell.X, Cell.O, Cell.O] humanPlayer = true :=
  xGuar_any_intro 2 _ 3 (by decide) (by decide) (by decide) xg468

theorem xg470 : xGuar 3 [Cell.X, Cell.O, Cell.E, Cell.O, Cell.X, Cell.E, Cell.X, Cell.O, Cell.O] humanPlayer = true :=
  xGuar_any_intro 2 _ 2 (by decide) (by decide) (by decide) xg395

theorem xg471 : xGuar 3 [Cell.X, Cell.O, Cell.E, Cell.E, Cell.X, Cell.O, Cell.X, Cell.O, Cell.O] humanPlayer = true :=
  xGuar_any_intro 2 _ 2 (by decide) (by decide) (by decide) xg448

theorem xg472 : xGuar 4 [Cell.X, Cell.O, Cell.E, Cell.E, Cell.X, Cell.E, Cell.X, Cell.O, Cell.O] aiPlayer = true :=
  xGuar_all_intro 3 _ (by decide) (by decide)
    (all_cons_intro _ _ _ xg469 (all_cons_intro _ _ _ xg470 (all_cons_intro _ _ _ xg471 (all_nil_true _))))

theorem xg473 : xGuar 5 [Cell.X, Cell.O, Cell.E, Cell.E, Cell.X, Cell.E, Cell.E, Cell.O, Cell.O] humanPlayer = true :=
  xGuar_any_intro 4 _ 6 (by decide) (by decide) (by decide) xg472

theorem xg474 : xGuar 6 [Cell.X, Cell.O, Cell.E, Cell.E, Cell.X, Cell.E, Cell.E, Cell.O, Cell.E] aiPlayer = true :=
  xGuar_all_intro 5 _ (by decide) (by decide)
    (all_cons_intro _ _ _ xg467 (all_cons_intro _ _ _ xg398 (all_cons_intro _ _ _ xg451 (all_cons_intro _ _ _ xg458 (all_cons_intro _ _ _ xg473 (all_nil_true _))))))

theorem xg475 : xGuar 7 [Cell.X, Cell.O, Cell.E, Cell.E, Cell.E, Cell.E, Cell.E, Cell.O, Cell.E] humanPlayer = true :=
  xGuar_any_intro 6 _ 4 (by decide) (by decide) (by decide) xg474

theorem xg476 : xGuar 3 [Cell.X, Cell.O, Cell.O, Cell.E, Cell.X, Cell.X, Cell.O, Cell.E, Cell.O] humanPlayer = true :=
  xGuar_any_intro 2 _ 3 (by decide) (by decide) (by decide) xg352

theorem xg477 : xGuar 3 [Cell.X, Cell.O, Cell.O, Cell.E, Cell.X, Cell.X, Cell.E, Cell.O, Cell.O] humanPlayer = true :=
  xGuar_any_intro 2 _ 3 (by decide) (by decide) (by decide) xg358

theorem xg478 : xGuar 4 [Cell.X, Cell.O, Cell.O, Cell.E, Cell.X, Cell.X, Cell.E, Cell.E, Cell.O] aiPlayer = true :=
  xGuar_all_intro 3 _ (by decide) (by decide)
    (all_cons_intro _ _ _ xg377 (all_cons_intro _ _ _ xg476 (all_cons_intro _ _ _ xg477 (all_nil_true _))))

theorem xg479 : xGuar 5 [Cell.X, Cell.O, Cell.O, Cell.E, Cell.X, Cell.E, Cell.E, Cell.E, Cell.O] humanPlayer = true :=
  xGuar_any_intro 4 _ 5 (by decide) (by decide) (by decide) xg478

theorem xg480 : xGuar 6 [Cell.X, Cell.O, Cell.E, Cell.E, Cell.X, Cell.E, Cell.E, Cell.E, Cell.O] aiPlayer = true :=
  xGuar_all_intro 5 _ (by decide) (by decide)
    (all_cons_intro _ _ _ xg479 (all_cons_intro _ _ _ xg400 (all_cons_intro _ _ _ xg453 (all_cons_intro _ _ _ xg464 (all_cons_intro _ _ _ xg473 (all_nil_true _))))))

theorem xg481 : xGuar 7 [Cell.X, Cell.O, Cell.E, Cell.E, Cell.E, Cell.E, Cell.E, Cell.E, Cell.O] humanPlayer = true :=
  xGuar_any_intro 6 _ 4 (by decide) (by decide) (by decide) xg480

theorem xg482 : xGuar 8 [Cell.X, Cell.O, Cell.E, Cell.E, Cell.E, Cell.E, Cell.E, Cell.E, Cell.E] aiPlayer = true :=
  xGuar_all_intro 7 _ (by decide) (by decide)
    (all_cons_intro _ _ _ xg369 (all_cons_intro _ _ _ xg402 (all_cons_intro _ _ _ xg439 (all_cons_intro _ _ _ xg455 (all_cons_intro _ _ _ xg466 (all_cons_intro _ _ _ xg475 (all_cons_intro _ _ _ xg481 (all_nil_true _))))))))

theorem xg483 : xGuar 9 [Cell.E, Cell.O, Cell.E, Cell.E, Cell.E, Cell.E, Cell.E, Cell.E, Cell.E] humanPlayer = true :=
  xGuar_any_intro 8 _ 0 (by decide) (by decide) (by decide) xg482

theorem xg484 : xGuar 6 [Cell.X, Cell.O, Cell.O, Cell.E, Cell.X, Cell.E, Cell.E, Cell.E, Cell.E] aiPlayer = true :=
  xGuar_all_intro 5 _ (by decide) (by decide)
    (all_cons_intro _ _ _ xg379 (all_cons_intro _ _ _ xg441 (all_cons_intro _ _ _ xg456 (all_cons_intro _ _ _ xg467 (all_cons_intro _ _ _ xg479 (all_nil_true _))))))

theorem xg485 : xGuar 7 [Cell.E, Cell.O, Cell.O, Cell.E, Cell.X, Cell.E, Cell.E, Cell.E, Cell.E] humanPlayer = true :=
  xGuar_any_intro 6 _ 0 (by decide) (by decide) (by decide) xg484

theorem xg486 : xGuar 4 [Cell.X, Cell.E, Cell.O, Cell.O, Cell.X, Cell.O, Cell.E, Cell.E, Cell.X] aiPlayer = true :=
  xGuar_winX_intro 3 _ _ (by decide)

theorem xg487 : xGuar 5 [Cell.X, Cell.E, Cell.O, Cell.O, Cell.X, Cell.O, Cell.E, Cell.E, Cell.E] humanPlayer = true :=
  xGuar_any_intro 4 _ 8 (by decide) (by decide) (by decide) xg486

theorem xg488 : xGuar 2 [Cell.X, Cell.X, Cell.O, Cell.O, Cell.X, Cell.O, Cell.O, Cell.X, Cell.E] aiPlayer = true :=
  xGuar_winX_intro 1 _ _ (by decide)

theorem xg489 : xGuar 3 [Cell.X, Cell.X, Cell.O, Cell.O, Cell.X, Cell.O, Cell.O, Cell.E, Cell.E] humanPlayer = true :=
  xGuar_any_intro 2 _ 7 (by decide) (by decide) (by decide) xg488

theorem xg490 : xGuar 2 [Cell.X, Cell.X, Cell.O, Cell.O, Cell.X, Cell.E, Cell.O, Cell.O, Cell.X] aiPlayer = true :=
  xGuar_winX_intro 1 _ _ (by decide)

theorem xg491 : xGuar 3 [Cell.X, Cell.X, Cell.O, Cell.O, Cell.X, Cell.E, Cell.O, Cell.O, Cell.E] humanPlayer = true :=
  xGuar_any_intro 2 _ 8 (by decide) (by decide) (by decide) xg490

theorem xg492 : xGuar 2 [Cell.X, Cell.X, Cell.O, Cell.O, Cell.X, Cell.E, Cell.O, Cell.X, Cell.O] aiPlayer = true :=
  xGuar_winX_intro 1 _ _ (by decide)

theorem xg493 : xGuar 3 [Cell.X, Cell.X, Cell.O, Cell.O, Cell.X, Cell.E, Cell.O, Cell.E, Cell.O] humanPlayer = true :=
  xGuar_any_intro 2 _ 7 (by decide) (by decide) (by decide) xg492

theorem xg494 : xGuar 4 [Cell.X, Cell.X, Cell.O, Cell.O, Cell.X, Cell.E, Cell.O, Cell.E, Cell.E] aiPlayer = true :=
  xGuar_all_intro 3 _ (by decide) (by decide)
    (all_cons_intro _ _ _ xg489 (all_cons_intro _ _ _ xg491 (all_cons_intro _ _ _ xg493 (all_nil_true _))))

theorem xg495 : xGuar 5 [Cell.X, Cell.E, Cell.O, Cell.O, Cell.X, Cell.E, Cell.O, Cell.E, Cell.E] humanPlayer = true :=
  xGuar_any_intro 4 _ 1 (by decide) (by decide) (by decide) xg494

theorem xg496 : xGuar 2 [Cell.X, Cell.E, Cell.O, Cell.O, Cell.X, Cell.X, Cell.O, Cell.O, Cell.X] aiPlayer = true :=
  xGuar_winX_intro 1 _ _ (by decide)

theorem xg497 : xGuar 3 [Cell.X, Cell.E, Cell.O, Cell.O, Cell.X, Cell.X, Cell.O, Cell.O, Cell.E] humanPlayer = true :=
  xGuar_any_intro 2 _ 8 (by decide) (by decide) (by decide) xg496

theorem xg498 : xGuar 2 [Cell.X, Cell.E, Cell.O, Cell.O, Cell.X, Cell.X, Cell.X, Cell.O, Cell.O] aiPlayer = true :=
  xGuar_all_intro 1 _ (by decide) (by decide)
    (all_cons_intro _ _ _ xg373 (all_nil_true _))

theorem xg499 : xGuar 3 [Cell.X, Cell.E, Cell.O, Cell.O, Cell.X, Cell.X, Cell.E, Cell.O, Cell.O] humanPlayer = true :=
  xGuar_any_intro 2 _ 6 (by decide) (by decide) (by decide) xg498

theorem xg500 : xGuar 4 [Cell.X, Cell.E, Cell.O, Cell.O, Cell.X, Cell.X, Cell.E, Cell.O, Cell.E] aiPlayer = true :=
  xGuar_all_intro 3 _ (by decide) (by decide)
    (all_cons_intro _ _ _ xg375 (all_cons_intro _ _ _ xg497 (all_cons_intro _ _ _ xg499 (all_nil_true _))))

theorem xg501 : xGuar 5 [Cell.X, Cell.E, Cell.O, Cell.O, Cell.X, Cell.E, Cell.E, Cell.O, Cell.E] humanPlayer = true :=
  xGuar_any_intro 4 _ 5 (by decide) (by decide) (by decide) xg500

theorem xg502 : xGuar 2 [Cell.X, Cell.E, Cell.O, Cell.O, Cell.X, Cell.X, Cell.O, Cell.X, Cell.O] aiPlayer = true :=
  xGuar_all_intro 1 _ (by decide) (by decide)
    (all_cons_intro _ _ _ xg370 (all_nil_true _))

theorem xg503 : xGuar 3 [Cell.X, Cell.E, Cell.O, Cell.O, Cell.X, Cell.X, Cell.O, Cell.E, Cell.O] humanPlayer = true :=
  xGuar_any_intro 2 _ 7 (by decide) (by decide) (by decide) xg502

theorem xg504 : xGuar 4 [Cell.X, Cell.E, Cell.O, Cell.O, Cell.X, Cell.X, Cell.E, Cell.E, Cell.O] aiPlayer = true :=
  xGuar_all_intro 3 _ (by decide) (by decide)
    (all_cons_intro _ _ _ xg377 (all_cons_intro _ _ _ xg503 (all_cons_intro _ _ _ xg499 (all_nil_true _))))

theorem xg505 : xGuar 5 [Cell.X, Cell.E, Cell.O, Cell.O, Cell.X, Cell.E, Cell.E, Cell.E, Cell.O] humanPlayer = true :=
  xGuar_any_intro 4 _ 5 (by decide) (by decide) (by decide) xg504

theorem xg506 : xGuar 6 [Cell.X, Cell.E, Cell.O, Cell.O, Cell.X, Cell.E, Cell.E, Cell.E, Cell.E] aiPlayer = true :=
  xGuar_all_intro 5 _ (by decide) (by decide)
    (all_cons_intro _ _ _ xg379 (all_cons_intro _ _ _ xg487 (all_cons_intro _ _ _ xg495 (all_cons_intro _ _ _ xg501 (all_cons_intro _ _ _ xg505 (all_nil_true _))))))

theorem xg507 : xGuar 7 [Cell.E, Cell.E, Cell.O, Cell.O, Cell.X, Cell.E, Cell.E, Cell.E, Cell.E] humanPlayer = true :=
  xGuar_any_intro 6 _ 0 (by decide) (by decide) (by decide) xg506

theorem xg508 : xGuar 2 [Cell.O, Cell.X, Cell.O, Cell.O, Cell.X, Cell.O, Cell.X, Cell.E, Cell.X] aiPlayer = true :=
  xGuar_all_intro 1 _ (by decide) (by decide)
    (all_cons_intro _ _ _ xg296 (all_nil_true _))

theorem xg509 : xGuar 3 [Cell.O, Cell.X, Cell.O, Cell.O, Cell.X, Cell.O, Cell.E, Cell.E, Cell.X] humanPlayer = true :=
  xGuar_any_intro 2 _ 6 (by decide) (by decide) (by decide) xg508

theorem xg510 : xGuar 2 [Cell.O, Cell.X, Cell.O, Cell.X, Cell.X, Cell.O, Cell.O, Cell.E, Cell.X] aiPlayer = true :=
  xGuar_all_intro 1 _ (by decide) (by decide)
    (all_cons_intro _ _ _ xg259 (all_nil_true _))

theorem xg511 : xGuar 3 [Cell.O, Cell.X, Cell.O, Cell.E, Cell.X, Cell.O, Cell.O, Cell.E, Cell.X] humanPlayer = true :=
  xGuar_any_intro 2 _ 3 (by decide) (by decide) (by decide) xg510

theorem xg512 : xGuar 3 [Cell.O, Cell.X, Cell.O, Cell.E, Cell.X, Cell.O, Cell.E, Cell.O, Cell.X] humanPlayer = true :=
  xGuar_any_intro 2 _ 3 (by decide) (by decide) (by decide) xg260

theorem xg513 : xGuar 4 [Cell.O, Cell.X, Cell.O, Cell.E, Cell.X, Cell.O, Cell.E, Cell.E, Cell.X] aiPlayer = true :=
  xGuar_all_intro 3 _ (by decide) (by decide)
    (all_cons_intro _ _ _ xg509 (all_cons_intro _ _ _ xg511 (all_cons_intro _ _ _ xg512 (all_nil_true _))))

theorem xg514 : xGuar 5 [Cell.O, Cell.E, Cell.O, Cell.E, Cell.X, Cell.O, Cell.E, Cell.E, Cell.X] humanPlayer = true :=
  xGuar_any_intro 4 _ 1 (by decide) (by decide) (by decide) xg513

theorem xg515 : xGuar 5 [Cell.E, Cell.O, Cell.O, Cell.E, Cell.X, Cell.O, Cell.E, Cell.E, Cell.X] humanPlayer = true :=
  xGuar_any_intro 4 _ 0 (by decide) (by decide) (by decide) xg440

theorem xg516 : xGuar 5 [Cell.E, Cell.E, Cell.O, Cell.O, Cell.X, Cell.O, Cell.E, Cell.E, Cell.X] humanPlayer = true :=
  xGuar_any_intro 4 _ 0 (by decide) (by decide) (by decide) xg486

theorem xg517 : xGuar 4 [Cell.X, Cell.E, Cell.O, Cell.E, Cell.X, Cell.O, Cell.O, Cell.E, Cell.X] aiPlayer = true :=
  xGuar_winX_intro 3 _ _ (by decide)

theorem xg518 : xGuar 5 [Cell.E, Cell.E, Cell.O, Cell.E, Cell.X, Cell.O, Cell.O, Cell.E, Cell.X] humanPlayer = true :=
  xGuar_any_intro 4 _ 0 (by decide) (by decide) (by decide) xg517

theorem xg519 : xGuar 4 [Cell.X, Cell.E, Cell.O, Cell.E, Cell.X, Cell.O, Cell.E, Cell.O, Cell.X] aiPlayer = true :=
  xGuar_winX_intro 3 _ _ (by decide)

theorem xg520 : xGuar 5 [Cell.E, Cell.E, Cell.O, Cell.E, Cell.X, Cell.O, Cell.E, Cell.O, Cell.X] humanPlayer = true :=
  xGuar_any_intro 4 _ 0 (by decide) (by decide) (by decide) xg519

theorem xg521 : xGuar 6 [Cell.E, Cell.E, Cell.O, Cell.E, Cell.X, Cell.O, Cell.E, Cell.E, Cell.X] aiPlayer = true :=
  xGuar_all_intro 5 _ (by decide) (by decide)
    (all_cons_intro _ _ _ xg514 (all_cons_intro _ _ _ xg515 (all_cons_intro _ _ _ xg516 (all_cons_intro _ _ _ xg518 (all_cons_intro _ _ _ xg520 (all_nil_true _))))))

theorem xg522 : xGuar 7 [Cell.E, Cell.E, Cell.O, Cell.E, Cell.X, Cell.O, Cell.E, Cell.E, Cell.E] humanPlayer = true :=
  xGuar_any_intro 6 _ 8 (by decide) (by decide) (by decide) xg521

theorem xg523 : xGuar 5 [Cell.E, Cell.X, Cell.O, Cell.O, Cell.X, Cell.E, Cell.O, Cell.E, Cell.E] humanPlayer = true :=
  xGuar_any_intro 4 _ 0 (by decide) (by decide) (by decide) xg494

theorem xg524 : xGuar 4 [Cell.E, Cell.X, Cell.O, Cell.E, Cell.X, Cell.O, Cell.O, Cell.X, Cell.E] aiPlayer = true :=
  xGuar_winX_intro 3 _ _ (by decide)

theorem xg525 : xGuar 5 [Cell.E, Cell.X, Cell.O, Cell.E, Cell.X, Cell.O, Cell.O, Cell.E, Cell.E] humanPlayer = true :=
  xGuar_any_intro 4 _ 7 (by decide) (by decide) (by decide) xg524

theorem xg526 : xGuar 2 [Cell.O, Cell.X, Cell.O, Cell.X, Cell.X, Cell.E, Cell.O, Cell.O, Cell.X] aiPlayer = true :=
  xGuar_all_intro 1 _ (by decide) (by decide)
    (all_cons_intro _ _ _ xg259 (all_nil_true _))

theorem xg527 : xGuar 3 [Cell.O, Cell.X, Cell.O, Cell.E, Cell.X, Cell.E, Cell.O, Cell.O, Cell.X] humanPlayer = true :=
  xGuar_any_intro 2 _ 3 (by decide) (by decide) (by decide) xg526

theorem xg528 : xGuar 3 [Cell.E, Cell.X, Cell.O, Cell.O, Cell.X, Cell.E, Cell.O, Cell.O, Cell.X] humanPlayer = true :=
  xGuar_any_intro 2 _ 0 (by decide) (by decide) (by decide) xg490

theorem xg529 : xGuar 2 [Cell.X, Cell.X, Cell.O, Cell.E, Cell.X, Cell.O, Cell.O, Cell.O, Cell.X] aiPlayer = true :=
  xGuar_winX_intro 1 _ _ (by decide)

theorem xg530 : xGuar 3 [Cell.E, Cell.X, Cell.O, Cell.E, Cell.X, Cell.O, Cell.O, Cell.O, Cell.X] humanPlayer = true :=
  xGuar_any_intro 2 _ 0 (by decide) (by decide) (by decide) xg529

theorem xg531 : xGuar 4 [Cell.E, Cell.X, Cell.O, Cell.E, Cell.X, Cell.E, Cell.O, Cell.O, Cell.X] aiPlayer = true :=
  xGuar_all_intro 3 _ (by decide) (by decide)
    (all_cons_intro _ _ _ xg527 (all_cons_intro _ _ _ xg528 (all_cons_intro _ _ _ xg530 (all_nil_true _))))

theorem xg532 : xGuar 5 [Cell.E, Cell.X, Cell.O, Cell.E, Cell.X, Cell.E, Cell.O, Cell.O, Cell.E] humanPlayer = true :=
  xGuar_any_intro 4 _ 8 (by decide) (by decide) (by decide) xg531

theorem xg533 : xGuar 4 [Cell.E, Cell.X, Cell.O, Cell.E, Cell.X, Cell.E, Cell.O, Cell.X, Cell.O] aiPlayer = true :=
  xGuar_winX_intro 3 _ _ (by decide)

theorem xg534 : xGuar 5 [Cell.E, Cell.X, Cell.O, Cell.E, Cell.X, Cell.E, Cell.O, Cell.E, Cell.O] humanPlayer = true :=
  xGuar_any_intro 4 _ 7 (by decide) (by decide) (by decide) xg533

theorem xg535 : xGuar 6 [Cell.E, Cell.X, Cell.O, Cell.E, Cell.X, Cell.E, Cell.O, Cell.E, Cell.E] aiPlayer = true :=
  xGuar_all_intro 5 _ (by decide) (by decide)
    (all_cons_intro _ _ _ xg258 (all_cons_intro _ _ _ xg523 (all_cons_intro _ _ _ xg525 (all_cons_intro _ _ _ xg532 (all_cons_intro _ _ _ xg534 (all_nil_true _))))))

theorem xg536 : xGuar 7 [Cell.E, Cell.E, Cell.O, Cell.E, Cell.X, Cell.E, Cell.O, Cell.E, Cell.E] humanPlayer = true :=
  xGuar_any_intro 6 _ 1 (by decide) (by decide) (by decide) xg535

theorem xg537 : xGuar 5 [Cell.E, Cell.O, Cell.O, Cell.X, Cell.X, Cell.E, Cell.E, Cell.O, Cell.E] humanPlayer = true :=
  xGuar_any_intro 4 _ 0 (by decide) (by decide) (by decide) xg360

theorem xg538 : xGuar 3 [Cell.O, Cell.E, Cell.O, Cell.X, Cell.X, Cell.O, Cell.E, Cell.O, Cell.X] humanPlayer = true :=
  xGuar_any_intro 2 _ 1 (by decide) (by decide) (by decide) xg260

theorem xg539 : xGuar 2 [Cell.X, Cell.O, Cell.O, Cell.X, Cell.X, Cell.O, Cell.E, Cell.O, Cell.X] aiPlayer = true :=
  xGuar_winX_intro 1 _ _ (by decide)

theorem xg540 : xGuar 3 [Cell.E, Cell.O, Cell.O, Cell.X, Cell.X, Cell.O, Cell.E, Cell.O, Cell.X] humanPlayer = true :=
  xGuar_any_intro 2 _ 0 (by decide) (by decide) (by decide) xg539

theorem xg541 : xGuar 2 [Cell.X, Cell.E, Cell.O, Cell.X, Cell.X, Cell.O, Cell.O, Cell.O, Cell.X] aiPlayer = true :=
  xGuar_winX_intro 1 _ _ (by decide)

theorem xg542 : xGuar 3 [Cell.E, Cell.E, Cell.O, Cell.X, Cell.X, Cell.O, Cell.O, Cell.O, Cell.X] humanPlayer = true :=
  xGuar_any_intro 2 _ 0 (by decide) (by decide) (by decide) xg541

theorem xg543 : xGuar 4 [Cell.E, Cell.E, Cell.O, Cell.X, Cell.X, Cell.O, Cell.E, Cell.O, Cell.X] aiPlayer = true :=
  xGuar_all_intro 3 _ (by decide) (by decide)
    (all_cons_intro _ _ _ xg538 (all_cons_intro _ _ _ xg540 (all_cons_intro _ _ _ xg542 (all_nil_true _))))

theorem xg544 : xGuar 5 [Cell.E, Cell.E, Cell.O, Cell.X, Cell.X, Cell.O, Cell.E, Cell.O, Cell.E] humanPlayer = true :=
  xGuar_any_intro 4 _ 8 (by decide) (by decide) (by decide) xg543

theorem xg545 : xGuar 4 [Cell.E, Cell.E, Cell.O, Cell.X, Cell.X, Cell.X, Cell.O, Cell.O, Cell.E] aiPlayer = true :=
  xGuar_winX_intro 3 _ _ (by decide)

theorem xg546 : xGuar 5 [Cell.E, Cell.E, Cell.O, Cell.X, Cell.X, Cell.E, Cell.O, Cell.O, Cell.E] humanPlayer = true :=
  xGuar_any_intro 4 _ 5 (by decide) (by decide) (by decide) xg545

theorem xg547 : xGuar 4 [Cell.E, Cell.E, Cell.O, Cell.X, Cell.X, Cell.X, Cell.E, Cell.O, Cell.O] aiPlayer = true :=
  xGuar_winX_intro 3 _ _ (by decide)

theorem xg548 : xGuar 5 [Cell.E, Cell.E, Cell.O, Cell.X, Cell.X, Cell.E, Cell.E, Cell.O, Cell.O] humanPlayer = true :=
  xGuar_any_intro 4 _ 5 (by decide) (by decide) (by decide) xg547

theorem xg549 : xGuar 6 [Cell.E, Cell.E, Cell.O, Cell.X, Cell.X, Cell.E, Cell.E, Cell.O, Cell.E] aiPlayer = true :=
  xGuar_all_intro 5 _ (by decide) (by decide)
    (all_cons_intro _ _ _ xg321 (all_cons_intro _ _ _ xg537 (all_cons_intro _ _ _ xg544 (all_cons_intro _ _ _ xg546 (all_cons_intro _ _ _ xg548 (all_nil_true _))))))

theorem xg550 : xGuar 7 [Cell.E, Cell.E, Cell.O, Cell.E, Cell.X, Cell.E, Cell.E, Cell.O, Cell.E] humanPlayer = true :=
  xGuar_any_intro 6 _ 3 (by decide) (by decide) (by decide) xg549

theorem xg551 : xGuar 5 [Cell.O, Cell.E, Cell.O, Cell.E, Cell.X, Cell.X, Cell.E, Cell.E, Cell.O] humanPlayer = true :=
  xGuar_any_intro 4 _ 1 (by decide) (by decide) (by decide) xg269

theorem xg552 : xGuar 5 [Cell.E, Cell.O, Cell.O, Cell.E, Cell.X, Cell.X, Cell.E, Cell.E, Cell.O] humanPlayer = true :=
  xGuar_any_intro 4 _ 0 (by decide) (by decide) (by decide) xg478

theorem xg553 : xGuar 5 [Cell.E, Cell.E, Cell.O, Cell.O, Cell.X, Cell.X, Cell.E, Cell.E, Cell.O] humanPlayer = true :=
  xGuar_any_intro 4 _ 0 (by decide) (by decide) (by decide) xg504

theorem xg554 : xGuar 4 [Cell.E, Cell.E, Cell.O, Cell.X, Cell.X, Cell.X, Cell.O, Cell.E, Cell.O] aiPlayer = true :=
  xGuar_winX_intro 3 _ _ (by decide)

theorem xg555 : xGuar 5 [Cell.E, Cell.E, Cell.O, Cell.E, Cell.X, Cell.X, Cell.O, Cell.E, Cell.O] humanPlayer = true :=
  xGuar_any_intro 4 _ 3 (by decide) (by decide) (by decide) xg554

theorem xg556 : xGuar 5 [Cell.E, Cell.E, Cell.O, Cell.E, Cell.X, Cell.X, Cell.E, Cell.O, Cell.O] humanPlayer = true :=
  xGuar_any_intro 4 _ 3 (by decide) (by decide) (by decide) xg547

theorem xg557 : xGuar 6 [Cell.E, Cell.E, Cell.O, Cell.E, Cell.X, Cell.X, Cell.E, Cell.E, Cell.O] aiPlayer = true :=
  xGuar_all_intro 5 _ (by decide) (by decide)
    (all_cons_intro _ _ _ xg551 (all_cons_intro _ _ _ xg552 (all_cons_intro _ _ _ xg553 (all_cons_intro _ _ _ xg555 (all_cons_intro _ _ _ xg556 (all_nil_true _))))))

theorem xg558 : xGuar 7 [Cell.E, Cell.E, Cell.O, Cell.E, Cell.X, Cell.E, Cell.E, Cell.E, Cell.O] humanPlayer = true :=
  xGuar_any_intro 6 _ 5 (by decide) (by decide) (by decide) xg557

theorem xg559 : xGuar 8 [Cell.E, Cell.E, Cell.O, Cell.E, Cell.X, Cell.E, Cell.E, Cell.E, Cell.E] aiPlayer = true :=
  xGuar_all_intro 7 _ (by decide) (by decide)
    (all_cons_intro _ _ _ xg272 (all_cons_intro _ _ _ xg485 (all_cons_intro _ _ _ xg507 (all_cons_intro _ _ _ xg522 (all_cons_intro _ _ _ xg536 (all_cons_intro _ _ _ xg550 (all_cons_intro _ _ _ xg558 (all_nil_true _))))))))

theorem xg560 : xGuar 9 [Cell.E, Cell.E, Cell.O, Cell.E, Cell.E, Cell.E, Cell.E, Cell.E, Cell.E] humanPlayer = true :=
  xGuar_any_intro 8 _ 4 (by decide) (by decide) (by decide) xg559

theorem xg561 : xGuar 7 [Cell.X, Cell.E, Cell.O, Cell.O, Cell.E, Cell.E, Cell.E, Cell.E, Cell.E] humanPlayer = true :=
  xGuar_any_intro 6 _ 4 (by decide) (by decide) (by decide) xg506

theorem xg562 : xGuar 5 [Cell.X, Cell.O, Cell.E, Cell.O, Cell.O, Cell.X, Cell.E, Cell.E, Cell.E] humanPlayer = true :=
  xGuar_any_intro 4 _ 7 (by decide) (by decide) (by decide) xg418

theorem xg563 : xGuar 3 [Cell.X, Cell.O, Cell.O, Cell.O, Cell.O, Cell.X, Cell.X, Cell.E, Cell.E] humanPlayer = true :=
  xGuar_any_intro 2 _ 7 (by decide) (by decide) (by decide) xg404

theorem xg564 : xGuar 1 [Cell.X, Cell.X, Cell.O, Cell.O, Cell.O, Cell.X, Cell.X, Cell.O, Cell.O] humanPlayer = true :=
  xGuar_draw_intro 0 _ _ (by decide) (by decide) (by decide)

theorem xg565 : xGuar 2 [Cell.X, Cell.X, Cell.O, Cell.O, Cell.O, Cell.X, Cell.X, Cell.O, Cell.E] aiPlayer = true :=
  xGuar_all_intro 1 _ (by decide) (by decide)
    (all_cons_intro _ _ _ xg564 (all_nil_true _))

theorem xg566 : xGuar 3 [Cell.X, Cell.E, Cell.O, Cell.O, Cell.O, Cell.X, Cell.X, Cell.O, Cell.E] humanPlayer = true :=
  xGuar_any_intro 2 _ 1 (by decide) (by decide) (by decide) xg565

theorem xg567 : xGuar 2 [Cell.X, Cell.X, Cell.O, Cell.O, Cell.O, Cell.X, Cell.X, Cell.E, Cell.O] aiPlayer = true :=
  xGuar_all_intro 1 _ (by decide) (by decide)
    (all_cons_intro _ _ _ xg564 (all_nil_true _))

theorem xg568 : xGuar 3 [Cell.X, Cell.E, Cell.O, Cell.O, Cell.O, Cell.X, Cell.X, Cell.E, Cell.O] humanPlayer = true :=
  xGuar_any_intro 2 _ 1 (by decide) (by decide) (by decide) xg567

theorem xg569 : xGuar 4 [Cell.X, Cell.E, Cell.O, Cell.O, Cell.O, Cell.X, Cell.X, Cell.E, Cell.E] aiPlayer = true :=
  xGuar_all_intro 3 _ (by decide) (by decide)
    (all_cons_intro _ _ _ xg563 (all_cons_intro _ _ _ xg566 (all_cons_intro _ _ _ xg568 (all_nil_true _))))

theorem xg570 : xGuar 5 [Cell.X, Cell.E, Cell.O, Cell.O, Cell.O, Cell.X, Cell.E, Cell.E, Cell.E] humanPlayer = true :=
  xGuar_any_intro 4 _ 6 (by decide) (by decide) (by decide) xg569

theorem xg571 : xGuar 3 [Cell.X, Cell.O, Cell.X, Cell.O, Cell.O, Cell.X, Cell.O, Cell.E, Cell.E] humanPlayer = true :=
  xGuar_any_intro 2 _ 7 (by decide) (by decide) (by decide) xg414

theorem xg572 : xGuar 2 [Cell.X, Cell.X, Cell.X, Cell.O, Cell.O, Cell.X, Cell.O, Cell.O, Cell.E] aiPlayer = true :=
  xGuar_winX_intro 1 _ _ (by decide)

theorem xg573 : xGuar 3 [Cell.X, Cell.E, Cell.X, Cell.O, Cell.O, Cell.X, Cell.O, Cell.O, Cell.E] humanPlayer = true :=
  xGuar_any_intro 2 _ 1 (by decide) (by decide) (by decide) xg572

theorem xg574 : xGuar 2 [Cell.X, Cell.X, Cell.X, Cell.O, Cell.O, Cell.X, Cell.O, Cell.E, Cell.O] aiPlayer = true :=
  xGuar_winX_intro 1 _ _ (by decide)

theorem xg575 : xGuar 3 [Cell.X, Cell.E, Cell.X, Cell.O, Cell.O, Cell.X, Cell.O, Cell.E, Cell.O] humanPlayer = true :=
  xGuar_any_intro 2 _ 1 (by decide) (by decide) (by decide) xg574

theorem xg576 : xGuar 4 [Cell.X, Cell.E, Cell.X, Cell.O, Cell.O, Cell.X, Cell.O, Cell.E, Cell.E] aiPlayer = true :=
  xGuar_all_intro 3 _ (by decide) (by decide)
    (all_cons_intro _ _ _ xg571 (all_cons_intro _ _ _ xg573 (all_cons_intro _ _ _ xg575 (all_nil_true _))))

theorem xg577 : xGuar 5 [Cell.X, Cell.E, Cell.E, Cell.O, Cell.O, Cell.X, Cell.O, Cell.E, Cell.E] humanPlayer = true :=
  xGuar_any_intro 4 _ 2 (by decide) (by decide) (by decide) xg576

theorem xg578 : xGuar 3 [Cell.X, Cell.X, Cell.O, Cell.O, Cell.O, Cell.X, Cell.E, Cell.O, Cell.E] humanPlayer = true :=
  xGuar_any_intro 2 _ 6 (by decide) (by decide) (by decide) xg565

theorem xg579 : xGuar 3 [Cell.X, Cell.X, Cell.E, Cell.O, Cell.O, Cell.X, Cell.O, Cell.O, Cell.E] humanPlayer = true :=
  xGuar_any_intro 2 _ 2 (by decide) (by decide) (by decide) xg572

theorem xg580 : xGuar 2 [Cell.X, Cell.X, Cell.X, Cell.O, Cell.O, Cell.X, Cell.E, Cell.O, Cell.O] aiPlayer = true :=
  xGuar_winX_intro 1 _ _ (by decide)

theorem xg581 : xGuar 3 [Cell.X, Cell.X, Cell.E, Cell.O, Cell.O, Cell.X, Cell.E, Cell.O, Cell.O] humanPlayer = true :=
  xGuar_any_intro 2 _ 2 (by decide) (by decide) (by decide) xg580

theorem xg582 : xGuar 4 [Cell.X, Cell.X, Cell.E, Cell.O, Cell.O, Cell.X, Cell.E, Cell.O, Cell.E] aiPlayer = true :=
  xGuar_all_intro 3 _ (by decide) (by decide)
    (all_cons_intro _ _ _ xg578 (all_cons_intro _ _ _ xg579 (all_cons_intro _ _ _ xg581 (all_nil_true _))))

theorem xg583 : xGuar 5 [Cell.X, Cell.E, Cell.E, Cell.O, Cell.O, Cell.X, Cell.E, Cell.O, Cell.E] humanPlayer = true :=
  xGuar_any_intro 4 _ 1 (by decide) (by decide) (by decide) xg582

theorem xg584 : xGuar 3 [Cell.X, Cell.X, Cell.O, Cell.O, Cell.O, Cell.X, Cell.E, Cell.E, Cell.O] humanPlayer = true :=
  xGuar_any_intro 2 _ 6 (by decide) (by decide) (by decide) xg567

theorem xg585 : xGuar 3 [Cell.X, Cell.X, Cell.E, Cell.O, Cell.O, Cell.X, Cell.O, Cell.E, Cell.O] humanPlayer = true :=
  xGuar_any_intro 2 _ 2 (by decide) (by decide) (by decide) xg574

theorem xg586 : xGuar 4 [Cell.X, Cell.X, Cell.E, Cell.O, Cell.O, Cell.X, Cell.E, Cell.E, Cell.O] aiPlayer = true :=
  xGuar_all_intro 3 _ (by decide) (by decide)
    (all_cons_intro _ _ _ xg584 (all_cons_intro _ _ _ xg585 (all_cons_intro _ _ _ xg581 (all_nil_true _))))

theorem xg587 : xGuar 5 [Cell.X, Cell.E, Cell.E, Cell.O, Cell.O, Cell.X, Cell.E, Cell.E, Cell.O] humanPlayer = true :=
  xGuar_any_intro 4 _ 1 (by decide) (by decide) (by decide) xg586

theorem xg588 : xGuar 6 [Cell.X, Cell.E, Cell.E, Cell.O, Cell.O, Cell.X, Cell.E, Cell.E, Cell.E] aiPlayer = true :=
  xGuar_all_intro 5 _ (by decide) (by decide)
    (all_cons_intro _ _ _ xg562 (all_cons_intro _ _ _ xg570 (all_cons_intro _ _ _ xg577 (all_cons_intro _ _ _ xg583 (all_cons_intro _ _ _ xg587 (all_nil_true _))))))

theorem xg589 : xGuar 7 [Cell.X, Cell.E, Cell.E, Cell.O, Cell.O, Cell.E, Cell.E, Cell.E, Cell.E] humanPlayer = true :=
  xGuar_any_intro 6 _ 5 (by decide) (by decide) (by decide) xg588

theorem xg590 : xGuar 2 [Cell.X, Cell.X, Cell.X, Cell.O, Cell.X, Cell.O, Cell.O, Cell.O, Cell.E] aiPlayer = true :=
  xGuar_winX_intro 1 _ _ (by decide)

theorem xg591 : xGuar 3 [Cell.X, Cell.X, Cell.E, Cell.O, Cell.X, Cell.O, Cell.O, Cell.O, Cell.E] humanPlayer = true :=
  xGuar_any_intro 2 _ 2 (by decide) (by decide) (by decide) xg590

theorem xg592 : xGuar 2 [Cell.X, Cell.X, Cell.X, Cell.O, Cell.X, Cell.O, Cell.O, Cell.E, Cell.O] aiPlayer = true :=
  xGuar_winX_intro 1 _ _ (by decide)

theorem xg593 : xGuar 3 [Cell.X, Cell.X, Cell.E, Cell.O, Cell.X, Cell.O, Cell.O, Cell.E, Cell.O] humanPlayer = true :=
  xGuar_any_intro 2 _ 2 (by decide) (by decide) (by decide) xg592

theorem xg594 : xGuar 4 [Cell.X, Cell.X, Cell.E, Cell.O, Cell.X, Cell.O, Cell.O, Cell.E, Cell.E] aiPlayer = true :=
  xGuar_all_intro 3 _ (by decide) (by decide)
    (all_cons_intro _ _ _ xg489 (all_cons_intro _ _ _ xg591 (all_cons_intro _ _ _ xg593 (all_nil_true _))))

theorem xg595 : xGuar 5 [Cell.X, Cell.E, Cell.E, Cell.O, Cell.X, Cell.O, Cell.O, Cell.E, Cell.E] humanPlayer = true :=
  xGuar_any_intro 4 _ 1 (by decide) (by decide) (by decide) xg594

theorem xg596 : xGuar 2 [Cell.X, Cell.X, Cell.O, Cell.O, Cell.X, Cell.O, Cell.E, Cell.O, Cell.X] aiPlayer = true :=
  xGuar_winX_intro 1 _ _ (by decide)

theorem xg597 : xGuar 3 [Cell.X, Cell.X, Cell.O, Cell.O, Cell.X, Cell.O, Cell.E, Cell.O, Cell.E] humanPlayer = true :=
  xGuar_any_intro 2 _ 8 (by decide) (by decide) (by decide) xg596

theorem xg598 : xGuar 2 [Cell.X, Cell.X, Cell.X, Cell.O, Cell.X, Cell.O, Cell.E, Cell.O, Cell.O] aiPlayer = true :=
  xGuar_winX_intro 1 _ _ (by decide)

theorem xg599 : xGuar 3 [Cell.X, Cell.X, Cell.E, Cell.O, Cell.X, Cell.O, Cell.E, Cell.O, Cell.O] humanPlayer = true :=
  xGuar_any_intro 2 _ 2 (by decide) (by decide) (by decide) xg598

theorem xg600 : xGuar 4 [Cell.X, Cell.X, Cell.E, Cell.O, Cell.X, Cell.O, Cell.E, Cell.O, Cell.E] aiPlayer = true :=
  xGuar_all_intro 3 _ (by decide) (by decide)
    (all_cons_intro _ _ _ xg597 (all_cons_intro _ _ _ xg591 (all_cons_intro _ _ _ xg599 (all_nil_true _))))

theorem xg601 : xGuar 5 [Cell.X, Cell.E, Cell.E, Cell.O, Cell.X, Cell.O, Cell.E, Cell.O, Cell.E] humanPlayer = true :=
  xGuar_any_intro 4 _ 1 (by decide) (by decide) (by decide) xg600

theorem xg602 : xGuar 3 [Cell.X, Cell.E, Cell.X, Cell.O, Cell.X, Cell.O, Cell.O, Cell.E, Cell.O] humanPlayer = true :=
  xGuar_any_intro 2 _ 1 (by decide) (by decide) (by decide) xg592

theorem xg603 : xGuar 3 [Cell.X, Cell.E, Cell.X, Cell.O, Cell.X, Cell.O, Cell.E, Cell.O, Cell.O] humanPlayer = true :=
  xGuar_any_intro 2 _ 1 (by decide) (by decide) (by decide) xg598

theorem xg604 : xGuar 4 [Cell.X, Cell.E, Cell.X, Cell.O, Cell.X, Cell.O, Cell.E, Cell.E, Cell.O] aiPlayer = true :=
  xGuar_all_intro 3 _ (by decide) (by decide)
    (all_cons_intro _ _ _ xg386 (all_cons_intro _ _ _ xg602 (all_cons_intro _ _ _ xg603 (all_nil_true _))))

theorem xg605 : xGuar 5 [Cell.X, Cell.E, Cell.E, Cell.O, Cell.X, Cell.O, Cell.E, Cell.E, Cell.O] humanPlayer = true :=
  xGuar_any_intro 4 _ 2 (by decide) (by decide) (by decide) xg604

theorem xg606 : xGuar 6 [Cell.X, Cell.E, Cell.E, Cell.O, Cell.X, Cell.O, Cell.E, Cell.E, Cell.E] aiPlayer = true :=
  xGuar_all_intro 5 _ (by decide) (by decide)
    (all_cons_intro _ _ _ xg388 (all_cons_intro _ _ _ xg487 (all_cons_intro _ _ _ xg595 (all_cons_intro _ _ _ xg601 (all_cons_intro _ _ _ xg605 (all_nil_true _))))))

theorem xg607 : xGuar 7 [Cell.X, Cell.E, Cell.E, Cell.O, Cell.E, Cell.O, Cell.E, Cell.E, Cell.E] humanPlayer = true :=
  xGuar_any_intro 6 _ 4 (by decide) (by decide) (by decide) xg606

theorem xg608 : xGuar 5 [Cell.X, Cell.X, Cell.O, Cell.O, Cell.E, Cell.E, Cell.O, Cell.E, Cell.E] humanPlayer = true :=
  xGuar_any_intro 4 _ 4 (by decide) (by decide) (by decide) xg494

theorem xg609 : xGuar 4 [Cell.X, Cell.X, Cell.X, Cell.O, Cell.O, Cell.E, Cell.O, Cell.E, Cell.E] aiPlayer = true :=
  xGuar_winX_intro 3 _ _ (by decide)

theorem xg610 : xGuar 5 [Cell.X, Cell.X, Cell.E, Cell.O, Cell.O, Cell.E, Cell.O, Cell.E, Cell.E] humanPlayer = true :=
  xGuar_any_intro 4 _ 2 (by decide) (by decide) (by decide) xg609

theorem xg611 : xGuar 4 [Cell.X, Cell.X, Cell.X, Cell.O, Cell.E, Cell.O, Cell.O, Cell.E, Cell.E] aiPlayer = true :=
  xGuar_winX_intro 3 _ _ (by decide)

theorem xg612 : xGuar 5 [Cell.X, Cell.X, Cell.E, Cell.O, Cell.E, Cell.O, Cell.O, Cell.E, Cell.E] humanPlayer = true :=
  xGuar_any_intro 4 _ 2 (by decide) (by decide) (by decide) xg611

theorem xg613 : xGuar 4 [Cell.X, Cell.X, Cell.X, Cell.O, Cell.E, Cell.E, Cell.O, Cell.O, Cell.E] aiPlayer = true :=
  xGuar_winX_intro 3 _ _ (by decide)

theorem xg614 : xGuar 5 [Cell.X, Cell.X, Cell.E, Cell.O, Cell.E, Cell.E, Cell.O, Cell.O, Cell.E] humanPlayer = true :=
  xGuar_any_intro 4 _ 2 (by decide) (by decide) (by decide) xg613

theorem xg615 : xGuar 4 [Cell.X, Cell.X, Cell.X, Cell.O, Cell.E, Cell.E, Cell.O, Cell.E, Cell.O] aiPlayer = true :=
  xGuar_winX_intro 3 _ _ (by decide)

theorem xg616 : xGuar 5 [Cell.X, Cell.X, Cell.E, Cell.O, Cell.E, Cell.E, Cell.O, Cell.E, Cell.O] humanPlayer = true :=
  xGuar_any_intro 4 _ 2 (by decide) (by decide) (by decide) xg615

theorem xg617 : xGuar 6 [Cell.X, Cell.X, Cell.E, Cell.O, Cell.E, Cell.E, Cell.O, Cell.E, Cell.E] aiPlayer = true :=
  xGuar_all_intro 5 _ (by decide) (by decide)
    (all_cons_intro _ _ _ xg608 (all_cons_intro _ _ _ xg610 (all_cons_intro _ _ _ xg612 (all_cons_intro _ _ _ xg614 (all_cons_intro _ _ _ xg616 (all_nil_true _))))))

theorem xg618 : xGuar 7 [Cell.X, Cell.E, Cell.E, Cell.O, Cell.E, Cell.E, Cell.O, Cell.E, Cell.E] humanPlayer = true :=
  xGuar_any_intro 6 _ 1 (by decide) (by decide) (by decide) xg617

theorem xg619 : xGuar 5 [Cell.X, Cell.O, Cell.X, Cell.O, Cell.E, Cell.E, Cell.E, Cell.O, Cell.E] humanPlayer = true :=
  xGuar_any_intro 4 _ 4 (by decide) (by decide) (by decide) xg397

theorem xg620 : xGuar 4 [Cell.X, Cell.X, Cell.X, Cell.O, Cell.O, Cell.E, Cell.E, Cell.O, Cell.E] aiPlayer = true :=
  xGuar_winX_intro 3 _ _ (by decide)

theorem xg621 : xGuar 5 [Cell.X, Cell.E, Cell.X, Cell.O, Cell.O, Cell.E, Cell.E, Cell.O, Cell.E] humanPlayer = true :=
  xGuar_any_intro 4 _ 1 (by decide) (by decide) (by decide) xg620

theorem xg622 : xGuar 4 [Cell.X, Cell.X, Cell.X, Cell.O, Cell.E, Cell.O, Cell.E, Cell.O, Cell.E] aiPlayer = true :=
  xGuar_winX_intro 3 _ _ (by decide)

theorem xg623 : xGuar 5 [Cell.X, Cell.E, Cell.X, Cell.O, Cell.E, Cell.O, Cell.E, Cell.O, Cell.E] humanPlayer = true :=
  xGuar_any_intro 4 _ 1 (by decide) (by decide) (by decide) xg622

theorem xg624 : xGuar 5 [Cell.X, Cell.E, Cell.X, Cell.O, Cell.E, Cell.E, Cell.O, Cell.O, Cell.E] humanPlayer = true :=
  xGuar_any_intro 4 _ 1 (by decide) (by decide) (by decide) xg613

theorem xg625 : xGuar 4 [Cell.X, Cell.X, Cell.X, Cell.O, Cell.E, Cell.E, Cell.E, Cell.O, Cell.O] aiPlayer = true :=
  xGuar_winX_intro 3 _ _ (by decide)

theorem xg626 : xGuar 5 [Cell.X, Cell.E, Cell.X, Cell.O, Cell.E, Cell.E, Cell.E, Cell.O, Cell.O] humanPlayer = true :=
  xGuar_any_intro 4 _ 1 (by decide) (by decide) (by decide) xg625

theorem xg627 : xGuar 6 [Cell.X, Cell.E, Cell.X, Cell.O, Cell.E, Cell.E, Cell.E, Cell.O, Cell.E] aiPlayer = true :=
  xGuar_all_intro 5 _ (by decide) (by decide)
    (all_cons_intro _ _ _ xg619 (all_cons_intro _ _ _ xg621 (all_cons_intro _ _ _ xg623 (all_cons_intro _ _ _ xg624 (all_cons_intro _ _ _ xg626 (all_nil_true _))))))

theorem xg628 : xGuar 7 [Cell.X, Cell.E, Cell.E, Cell.O, Cell.E, Cell.E, Cell.E, Cell.O, Cell.E] humanPlayer = true :=
  xGuar_any_intro 6 _ 2 (by decide) (by decide) (by decide) xg627

theorem xg629 : xGuar 5 [Cell.X, Cell.O, Cell.X, Cell.O, Cell.E, Cell.E, Cell.E, Cell.E, Cell.O] humanPlayer = true :=
  xGuar_any_intro 4 _ 4 (by decide) (by decide) (by decide) xg399

theorem xg630 : xGuar 4 [Cell.X, Cell.X, Cell.X, Cell.O, Cell.O, Cell.E, Cell.E, Cell.E, Cell.O] aiPlayer = true :=
  xGuar_winX_intro 3 _ _ (by decide)

theorem xg631 : xGuar 5 [Cell.X, Cell.E, Cell.X, Cell.O, Cell.O, Cell.E, Cell.E, Cell.E, Cell.O] humanPlayer = true :=
  xGuar_any_intro 4 _ 1 (by decide) (by decide) (by decide) xg630

theorem xg632 : xGuar 4 [Cell.X, Cell.X, Cell.X, Cell.O, Cell.E, Cell.O, Cell.E, Cell.E, Cell.O] aiPlayer = true :=
  xGuar_winX_intro 3 _ _ (by decide)

theorem xg633 : xGuar 5 [Cell.X, Cell.E, Cell.X, Cell.O, Cell.E, Cell.O, Cell.E, Cell.E, Cell.O] humanPlayer = true :=
  xGuar_any_intro 4 _ 1 (by decide) (by decide) (by decide) xg632

theorem xg634 : xGuar 5 [Cell.X, Cell.E, Cell.X, Cell.O, Cell.E, Cell.E, Cell.O, Cell.E, Cell.O] humanPlayer = true :=
  xGuar_any_intro 4 _ 1 (by decide) (by decide) (by decide) xg615

theorem xg635 : xGuar 6 [Cell.X, Cell.E, Cell.X, Cell.O, Cell.E, Cell.E, Cell.E, Cell.E, Cell.O] aiPlayer = true :=
  xGuar_all_intro 5 _ (by decide) (by decide)
    (all_cons_intro _ _ _ xg629 (all_cons_intro _ _ _ xg631 (all_cons_intro _ _ _ xg633 (all_cons_intro _ _ _ xg634 (all_cons_intro _ _ _ xg626 (all_nil_true _))))))

theorem xg636 : xGuar 7 [Cell.X, Cell.E, Cell.E, Cell.O, Cell.E, Cell.E, Cell.E, Cell.E, Cell.O] humanPlayer = true :=
  xGuar_any_intro 6 _ 2 (by decide) (by decide) (by decide) xg635

theorem xg637 : xGuar 8 [Cell.X, Cell.E, Cell.E, Cell.O, Cell.E, Cell.E, Cell.E, Cell.E, Cell.E] aiPlayer = true :=
  xGuar_all_intro 7 _ (by decide) (by decide)
    (all_cons_intro _ _ _ xg402 (all_cons_intro _ _ _ xg561 (all_cons_intro _ _ _ xg589 (all_cons_intro _ _ _ xg607 (all_cons_intro _ _ _ xg618 (all_cons_intro _ _ _ xg628 (all_cons_intro _ _ _ xg636 (all_nil_true _))))))))

theorem xg638 : xGuar 9 [Cell.E, Cell.E, Cell.E, Cell.O, Cell.E, Cell.E, Cell.E, Cell.E, Cell.E] humanPlayer = true :=
  xGuar_any_intro 8 _ 0 (by decide) (by decide) (by decide) xg637

theorem xg639 : xGuar 5 [Cell.X, Cell.O, Cell.O, Cell.E, Cell.O, Cell.E, Cell.X, Cell.E, Cell.E] humanPlayer = true :=
  xGuar_any_intro 4 _ 3 (by decide) (by decide) (by decide) xg344

theorem xg640 : xGuar 5 [Cell.X, Cell.E, Cell.O, Cell.O, Cell.O, Cell.E, Cell.X, Cell.E, Cell.E] humanPlayer = true :=
  xGuar_any_intro 4 _ 5 (by decide) (by decide) (by decide) xg569

theorem xg641 : xGuar 4 [Cell.X, Cell.E, Cell.O, Cell.X, Cell.O, Cell.O, Cell.X, Cell.E, Cell.E] aiPlayer = true :=
  xGuar_winX_intro 3 _ _ (by decide)

theorem xg642 : xGuar 5 [Cell.X, Cell.E, Cell.O, Cell.E, Cell.O, Cell.O, Cell.X, Cell.E, Cell.E] humanPlayer = true :=
  xGuar_any_intro 4 _ 3 (by decide) (by decide) (by decide) xg641

theorem xg643 : xGuar 3 [Cell.X, Cell.X, Cell.O, Cell.O, Cell.O, Cell.E, Cell.X, Cell.O, Cell.E] humanPlayer = true :=
  xGuar_any_intro 2 _ 5 (by decide) (by decide) (by decide) xg565

theorem xg644 : xGuar 2 [Cell.X, Cell.X, Cell.O, Cell.X, Cell.O, Cell.O, Cell.X, Cell.O, Cell.E] aiPlayer = true :=
  xGuar_winX_intro 1 _ _ (by decide)

theorem xg645 : xGuar 3 [Cell.X, Cell.X, Cell.O, Cell.E, Cell.O, Cell.O, Cell.X, Cell.O, Cell.E] humanPlayer = true :=
  xGuar_any_intro 2 _ 3 (by decide) (by decide) (by decide) xg644

theorem xg646 : xGuar 2 [Cell.X, Cell.X, Cell.O, Cell.X, Cell.O, Cell.E, Cell.X, Cell.O, Cell.O] aiPlayer = true :=
  xGuar_winX_intro 1 _ _ (by decide)

theorem xg647 : xGuar 3 [Cell.X, Cell.X, Cell.O, Cell.E, Cell.O, Cell.E, Cell.X, Cell.O, Cell.O] humanPlayer = true :=
  xGuar_any_intro 2 _ 3 (by decide) (by decide) (by decide) xg646

theorem xg648 : xGuar 4 [Cell.X, Cell.X, Cell.O, Cell.E, Cell.O, Cell.E, Cell.X, Cell.O, Cell.E] aiPlayer = true :=
  xGuar_all_intro 3 _ (by decide) (by decide)
    (all_cons_intro _ _ _ xg643 (all_cons_intro _ _ _ xg645 (all_cons_intro _ _ _ xg647 (all_nil_true _))))

theorem xg649 : xGuar 5 [Cell.X, Cell.E, Cell.O, Cell.E, Cell.O, Cell.E, Cell.X, Cell.O, Cell.E] humanPlayer = true :=
  xGuar_any_intro 4 _ 1 (by decide) (by decide) (by decide) xg648

theorem xg650 : xGuar 4 [Cell.X, Cell.E, Cell.O, Cell.X, Cell.O, Cell.E, Cell.X, Cell.E, Cell.O] aiPlayer = true :=
  xGuar_winX_intro 3 _ _ (by decide)

theorem xg651 : xGuar 5 [Cell.X, Cell.E, Cell.O, Cell.E, Cell.O, Cell.E, Cell.X, Cell.E, Cell.O] humanPlayer = true :=
  xGuar_any_intro 4 _ 3 (by decide) (by decide) (by decide) xg650

theorem xg652 : xGuar 6 [Cell.X, Cell.E, Cell.O, Cell.E, Cell.O, Cell.E, Cell.X, Cell.E, Cell.E] aiPlayer = true :=
  xGuar_all_intro 5 _ (by decide) (by decide)
    (all_cons_intro _ _ _ xg639 (all_cons_intro _ _ _ xg640 (all_cons_intro _ _ _ xg642 (all_cons_intro _ _ _ xg649 (all_cons_intro _ _ _ xg651 (all_nil_true _))))))

theorem xg653 : xGuar 7 [Cell.X, Cell.E, Cell.O, Cell.E, Cell.O, Cell.E, Cell.E, Cell.E, Cell.E] humanPlayer = true :=
  xGuar_any_intro 6 _ 6 (by decide) (by decide) (by decide) xg652

theorem xg654 : xGuar 4 [Cell.X, Cell.O, Cell.E, Cell.X, Cell.O, Cell.O, Cell.X, Cell.E, Cell.E] aiPlayer = true :=
  xGuar_winX_intro 3 _ _ (by decide)

theorem xg655 : xGuar 5 [Cell.X, Cell.O, Cell.E, Cell.X, Cell.O, Cell.O, Cell.E, Cell.E, Cell.E] humanPlayer = true :=
  xGuar_any_intro 4 _ 6 (by decide) (by decide) (by decide) xg654

theorem xg656 : xGuar 5 [Cell.X, Cell.E, Cell.O, Cell.X, Cell.O, Cell.O, Cell.E, Cell.E, Cell.E] humanPlayer = true :=
  xGuar_any_intro 4 _ 6 (by decide) (by decide) (by decide) xg641

theorem xg657 : xGuar 3 [Cell.X, Cell.O, Cell.X, Cell.X, Cell.O, Cell.O, Cell.O, Cell.E, Cell.E] humanPlayer = true :=
  xGuar_any_intro 2 _ 7 (by decide) (by decide) (by decide) xg422

theorem xg658 : xGuar 2 [Cell.X, Cell.X, Cell.X, Cell.X, Cell.O, Cell.O, Cell.O, Cell.O, Cell.E] aiPlayer = true :=
  xGuar_winX_intro 1 _ _ (by decide)

theorem xg659 : xGuar 3 [Cell.X, Cell.E, Cell.X, Cell.X, Cell.O, Cell.O, Cell.O, Cell.O, Cell.E] humanPlayer = true :=
  xGuar_any_intro 2 _ 1 (by decide) (by decide) (by decide) xg658

theorem xg660 : xGuar 2 [Cell.X, Cell.X, Cell.X, Cell.X, Cell.O, Cell.O, Cell.O, Cell.E, Cell.O] aiPlayer = true :=
  xGuar_winX_intro 1 _ _ (by decide)

theorem xg661 : xGuar 3 [Cell.X, Cell.E, Cell.X, Cell.X, Cell.O, Cell.O, Cell.O, Cell.E, Cell.O] humanPlayer = true :=
  xGuar_any_intro 2 _ 1 (by decide) (by decide) (by decide) xg660

theorem xg662 : xGuar 4 [Cell.X, Cell.E, Cell.X, Cell.X, Cell.O, Cell.O, Cell.O, Cell.E, Cell.E] aiPlayer = true :=
  xGuar_all_intro 3 _ (by decide) (by decide)
    (all_cons_intro _ _ _ xg657 (all_cons_intro _ _ _ xg659 (all_cons_intro _ _ _ xg661 (all_nil_true _))))

theorem xg663 : xGuar 5 [Cell.X, Cell.E, Cell.E, Cell.X, Cell.O, Cell.O, Cell.O, Cell.E, Cell.E] humanPlayer = true :=
  xGuar_any_intro 4 _ 2 (by decide) (by decide) (by decide) xg662

theorem xg664 : xGuar 3 [Cell.X, Cell.X, Cell.O, Cell.X, Cell.O, Cell.O, Cell.E, Cell.O, Cell.E] humanPlayer = true :=
  xGuar_any_intro 2 _ 6 (by decide) (by decide) (by decide) xg644

theorem xg665 : xGuar 3 [Cell.X, Cell.X, Cell.E, Cell.X, Cell.O, Cell.O, Cell.O, Cell.O, Cell.E] humanPlayer = true :=
  xGuar_any_intro 2 _ 2 (by decide) (by decide) (by decide) xg658

theorem xg666 : xGuar 2 [Cell.X, Cell.X, Cell.X, Cell.X, Cell.O, Cell.O, Cell.E, Cell.O, Cell.O] aiPlayer = true :=
  xGuar_winX_intro 1 _ _ (by decide)

theorem xg667 : xGuar 3 [Cell.X, Cell.X, Cell.E, Cell.X, Cell.O, Cell.O, Cell.E, Cell.O, Cell.O] humanPlayer = true :=
  xGuar_any_intro 2 _ 2 (by decide) (by decide) (by decide) xg666

theorem xg668 : xGuar 4 [Cell.X, Cell.X, Cell.E, Cell.X, Cell.O, Cell.O, Cell.E, Cell.O, Cell.E] aiPlayer = true :=
  xGuar_all_intro 3 _ (by decide) (by decide)
    (all_cons_intro _ _ _ xg664 (all_cons_intro _ _ _ xg665 (all_cons_intro _ _ _ xg667 (all_nil_true _))))

theorem xg669 : xGuar 5 [Cell.X, Cell.E, Cell.E, Cell.X, Cell.O, Cell.O, Cell.E, Cell.O, Cell.E] humanPlayer = true :=
  xGuar_any_intro 4 _ 1 (by decide) (by decide) (by decide) xg668

theorem xg670 : xGuar 2 [Cell.X, Cell.O, Cell.X, Cell.X, Cell.O, Cell.O, Cell.X, Cell.E, Cell.O] aiPlayer = true :=
  xGuar_winX_intro 1 _ _ (by decide)

theorem xg671 : xGuar 3 [Cell.X, Cell.O, Cell.X, Cell.X, Cell.O, Cell.O, Cell.E, Cell.E, Cell.O] humanPlayer = true :=
  xGuar_any_intro 2 _ 6 (by decide) (by decide) (by decide) xg670

theorem xg672 : xGuar 3 [Cell.X, Cell.E, Cell.X, Cell.X, Cell.O, Cell.O, Cell.E, Cell.O, Cell.O] humanPlayer = true :=
  xGuar_any_intro 2 _ 1 (by decide) (by decide) (by decide) xg666

theorem xg673 : xGuar 4 [Cell.X, Cell.E, Cell.X, Cell.X, Cell.O, Cell.O, Cell.E, Cell.E, Cell.O] aiPlayer = true :=
  xGuar_all_intro 3 _ (by decide) (by decide)
    (all_cons_intro _ _ _ xg671 (all_cons_intro _ _ _ xg661 (all_cons_intro _ _ _ xg672 (all_nil_true _))))

theorem xg674 : xGuar 5 [Cell.X, Cell.E, Cell.E, Cell.X, Cell.O, Cell.O, Cell.E, Cell.E, Cell.O] humanPlayer = true :=
  xGuar_any_intro 4 _ 2 (by decide) (by decide) (by decide) xg673

theorem xg675 : xGuar 6 [Cell.X, Cell.E, Cell.E, Cell.X, Cell.O, Cell.O, Cell.E, Cell.E, Cell.E] aiPlayer = true :=
  xGuar_all_intro 5 _ (by decide) (by decide)
    (all_cons_intro _ _ _ xg655 (all_cons_intro _ _ _ xg656 (all_cons_intro _ _ _ xg663 (all_cons_intro _ _ _ xg669 (all_cons_intro _ _ _ xg674 (all_nil_true _))))))

theorem xg676 : xGuar 7 [Cell.X, Cell.E, Cell.E, Cell.E, Cell.O, Cell.O, Cell.E, Cell.E, Cell.E] humanPlayer = true :=
  xGuar_any_intro 6 _ 3 (by decide) (by decide) (by decide) xg675

theorem xg677 : xGuar 5 [Cell.X, Cell.O, Cell.X, Cell.E, Cell.O, Cell.E, Cell.O, Cell.E, Cell.E] humanPlayer = true :=
  xGuar_any_intro 4 _ 7 (by decide) (by decide) (by decide) xg432

theorem xg678 : xGuar 5 [Cell.X, Cell.E, Cell.X, Cell.O, Cell.O, Cell.E, Cell.O, Cell.E, Cell.E] humanPlayer = true :=
  xGuar_any_intro 4 _ 1 (by decide) (by decide) (by decide) xg609

theorem xg679 : xGuar 4 [Cell.X, Cell.X, Cell.X, Cell.E, Cell.O, Cell.O, Cell.O, Cell.E, Cell.E] aiPlayer = true :=
  xGuar_winX_intro 3 _ _ (by decide)

theorem xg680 : xGuar 5 [Cell.X, Cell.E, Cell.X, Cell.E, Cell.O, Cell.O, Cell.O, Cell.E, Cell.E] humanPlayer = true :=
  xGuar_any_intro 4 _ 1 (by decide) (by decide) (by decide) xg679

theorem xg681 : xGuar 4 [Cell.X, Cell.X, Cell.X, Cell.E, Cell.O, Cell.E, Cell.O, Cell.O, Cell.E] aiPlayer = true :=
  xGuar_winX_intro 3 _ _ (by decide)

theorem xg682 : xGuar 5 [Cell.X, Cell.E, Cell.X, Cell.E, Cell.O, Cell.E, Cell.O, Cell.O, Cell.E] humanPlayer = true :=
  xGuar_any_intro 4 _ 1 (by decide) (by decide) (by decide) xg681

theorem xg683 : xGuar 4 [Cell.X, Cell.X, Cell.X, Cell.E, Cell.O, Cell.E, Cell.O, Cell.E, Cell.O] aiPlayer = true :=
  xGuar_winX_intro 3 _ _ (by decide)

theorem xg684 : xGuar 5 [Cell.X, Cell.E, Cell.X, Cell.E, Cell.O, Cell.E, Cell.O, Cell.E, Cell.O] humanPlayer = true :=
  xGuar_any_intro 4 _ 1 (by decide) (by decide) (by decide) xg683

theorem xg685 : xGuar 6 [Cell.X, Cell.E, Cell.X, Cell.E, Cell.O, Cell.E, Cell.O, Cell.E, Cell.E] aiPlayer = true :=
  xGuar_all_intro 5 _ (by decide) (by decide)
    (all_cons_intro _ _ _ xg677 (all_cons_intro _ _ _ xg678 (all_cons_intro _ _ _ xg680 (all_cons_intro _ _ _ xg682 (all_cons_intro _ _ _ xg684 (all_nil_true _))))))

theorem xg686 : xGuar 7 [Cell.X, Cell.E, Cell.E, Cell.E, Cell.O, Cell.E, Cell.O, Cell.E, Cell.E] humanPlayer = true :=
  xGuar_any_intro 6 _ 2 (by decide) (by decide) (by decide) xg685

theorem xg687 : xGuar 5 [Cell.X, Cell.X, Cell.O, Cell.E, Cell.O, Cell.E, Cell.E, Cell.O, Cell.E] humanPlayer = true :=
  xGuar_any_intro 4 _ 6 (by decide) (by decide) (by decide) xg648

theorem xg688 : xGuar 5 [Cell.X, Cell.X, Cell.E, Cell.O, Cell.O, Cell.E, Cell.E, Cell.O, Cell.E] humanPlayer = true :=
  xGuar_any_intro 4 _ 2 (by decide) (by decide) (by decide) xg620

theorem xg689 : xGuar 4 [Cell.X, Cell.X, Cell.X, Cell.E, Cell.O, Cell.O, Cell.E, Cell.O, Cell.E] aiPlayer = true :=
  xGuar_winX_intro 3 _ _ (by decide)

theorem xg690 : xGuar 5 [Cell.X, Cell.X, Cell.E, Cell.E, Cell.O, Cell.O, Cell.E, Cell.O, Cell.E] humanPlayer = true :=
  xGuar_any_intro 4 _ 2 (by decide) (by decide) (by decide) xg689

theorem xg691 : xGuar 5 [Cell.X, Cell.X, Cell.E, Cell.E, Cell.O, Cell.E, Cell.O, Cell.O, Cell.E] humanPlayer = true :=
  xGuar_any_intro 4 _ 2 (by decide) (by decide) (by decide) xg681

theorem xg692 : xGuar 4 [Cell.X, Cell.X, Cell.X, Cell.E, Cell.O, Cell.E, Cell.E, Cell.O, Cell.O] aiPlayer = true :=
  xGuar_winX_intro 3 _ _ (by decide)

theorem xg693 : xGuar 5 [Cell.X, Cell.X, Cell.E, Cell.E, Cell.O, Cell.E, Cell.E, Cell.O, Cell.O] humanPlayer = true :=
  xGuar_any_intro 4 _ 2 (by decide) (by decide) (by decide) xg692

theorem xg694 : xGuar 6 [Cell.X, Cell.X, Cell.E, Cell.E, Cell.O, Cell.E, Cell.E, Cell.O, Cell.E] aiPlayer = true :=
  xGuar_all_intro 5 _ (by decide) (by decide)
    (all_cons_intro _ _ _ xg687 (all_cons_intro _ _ _ xg688 (all_cons_intro _ _ _ xg690 (all_cons_intro _ _ _ xg691 (all_cons_intro _ _ _ xg693 (all_nil_true _))))))

theorem xg695 : xGuar 7 [Cell.X, Cell.E, Cell.E, Cell.E, Cell.O, Cell.E, Cell.E, Cell.O, Cell.E] humanPlayer = true :=
  xGuar_any_intro 6 _ 1 (by decide) (by decide) (by decide) xg694

theorem xg696 : xGuar 5 [Cell.X, Cell.O, Cell.X, Cell.E, Cell.O, Cell.E, Cell.E, Cell.E, Cell.O] humanPlayer = true :=
  xGuar_any_intro 4 _ 7 (by decide) (by decide) (by decide) xg436

theorem xg697 : xGuar 4 [Cell.X, Cell.X, Cell.X, Cell.E, Cell.O, Cell.O, Cell.E, Cell.E, Cell.O] aiPlayer = true :=
  xGuar_winX_intro 3 _ _ (by decide)

theorem xg698 : xGuar 5 [Cell.X, Cell.E, Cell.X, Cell.E, Cell.O, Cell.O, Cell.E, Cell.E, Cell.O] humanPlayer = true :=
  xGuar_any_intro 4 _ 1 (by decide) (by decide) (by decide) xg697

theorem xg699 : xGuar 5 [Cell.X, Cell.E, Cell.X, Cell.E, Cell.O, Cell.E, Cell.E, Cell.O, Cell.O] humanPlayer = true :=
  xGuar_any_intro 4 _ 1 (by decide) (by decide) (by decide) xg692

theorem xg700 : xGuar 6 [Cell.X, Cell.E, Cell.X, Cell.E, Cell.O, Cell.E, Cell.E, Cell.E, Cell.O] aiPlayer = true :=
  xGuar_all_intro 5 _ (by decide) (by decide)
    (all_cons_intro _ _ _ xg696 (all_cons_intro _ _ _ xg631 (all_cons_intro _ _ _ xg698 (all_cons_intro _ _ _ xg684 (all_cons_intro _ _ _ xg699 (all_nil_true _))))))

theorem xg701 : xGuar 7 [Cell.X, Cell.E, Cell.E, Cell.E, Cell.O, Cell.E, Cell.E, Cell.E, Cell.O] humanPlayer = true :=
  xGuar_any_intro 6 _ 2 (by decide) (by decide) (by decide) xg700

theorem xg702 : xGuar 8 [Cell.X, Cell.E, Cell.E, Cell.E, Cell.O, Cell.E, Cell.E, Cell.E, Cell.E] aiPlayer = true :=
  xGuar_all_intro 7 _ (by decide) (by decide)
    (all_cons_intro _ _ _ xg439 (all_cons_intro _ _ _ xg653 (all_cons_intro _ _ _ xg589 (all_cons_intro _ _ _ xg676 (all_cons_intro _ _ _ xg686 (all_cons_intro _ _ _ xg695 (all_cons_intro _ _ _ xg701 (all_nil_true _))))))))

theorem xg703 : xGuar 9 [Cell.E, Cell.E, Cell.E, Cell.E, Cell.O, Cell.E, Cell.E, Cell.E, Cell.E] humanPlayer = true :=
  xGuar_any_intro 8 _ 0 (by decide) (by decide) (by decide) xg702

theorem xg704 : xGuar 5 [Cell.O, Cell.O, Cell.X, Cell.X, Cell.E, Cell.O, Cell.E, Cell.E, Cell.E] humanPlayer = true :=
  xGuar_any_intro 4 _ 4 (by decide) (by decide) (by decide) xg224

theorem xg705 : xGuar 1 [Cell.O, Cell.O, Cell.X, Cell.X, Cell.O, Cell.O, Cell.O, Cell.X, Cell.X] humanPlayer = true :=
  xGuar_draw_intro 0 _ _ (by decide) (by decide) (by decide)

theorem xg706 : xGuar 2 [Cell.O, Cell.O, Cell.X, Cell.X, Cell.O, Cell.O, Cell.E, Cell.X, Cell.X] aiPlayer = true :=
  xGuar_all_intro 1 _ (by decide) (by decide)
    (all_cons_intro _ _ _ xg705 (all_nil_true _))

theorem xg707 : xGuar 3 [Cell.O, Cell.O, Cell.X, Cell.X, Cell.O, Cell.O, Cell.E, Cell.E, Cell.X] humanPlayer = true :=
  xGuar_any_intro 2 _ 7 (by decide) (by decide) (by decide) xg706

theorem xg708 : xGuar 1 [Cell.O, Cell.X, Cell.X, Cell.X, Cell.O, Cell.O, Cell.O, Cell.O, Cell.X] humanPlayer = true :=
  xGuar_draw_intro 0 _ _ (by decide) (by decide) (by decide)

theorem xg709 : xGuar 2 [Cell.O, Cell.X, Cell.X, Cell.X, Cell.O, Cell.O, Cell.O, Cell.E, Cell.X] aiPlayer = true :=
  xGuar_all_intro 1 _ (by decide) (by decide)
    (all_cons_intro _ _ _ xg708 (all_nil_true _))

theorem xg710 : xGuar 3 [Cell.O, Cell.E, Cell.X, Cell.X, Cell.O, Cell.O, Cell.O, Cell.E, Cell.X] humanPlayer = true :=
  xGuar_any_intro 2 _ 1 (by decide) (by decide) (by decide) xg709

theorem xg711 : xGuar 2 [Cell.O, Cell.X, Cell.X, Cell.X, Cell.O, Cell.O, Cell.E, Cell.O, Cell.X] aiPlayer = true :=
  xGuar_all_intro 1 _ (by decide) (by decide)
    (all_cons_intro _ _ _ xg708 (all_nil_true _))

theorem xg712 : xGuar 3 [Cell.O, Cell.E, Cell.X, Cell.X, Cell.O, Cell.O, Cell.E, Cell.O, Cell.X] humanPlayer = true :=
  xGuar_any_intro 2 _ 1 (by decide) (by decide) (by decide) xg711

theorem xg713 : xGuar 4 [Cell.O, Cell.E, Cell.X, Cell.X, Cell.O, Cell.O, Cell.E, Cell.E, Cell.X] aiPlayer = true :=
  xGuar_all_intro 3 _ (by decide) (by decide)
    (all_cons_intro _ _ _ xg707 (all_cons_intro _ _ _ xg710 (all_cons_intro _ _ _ xg712 (all_nil_true _))))

theorem xg714 : xGuar 5 [Cell.O, Cell.E, Cell.X, Cell.X, Cell.O, Cell.O, Cell.E, Cell.E, Cell.E] humanPlayer = true :=
  xGuar_any_intro 4 _ 8 (by decide) (by decide) (by decide) xg713

theorem xg715 : xGuar 2 [Cell.O, Cell.E, Cell.X, Cell.X, Cell.X, Cell.O, Cell.O, Cell.X, Cell.O] aiPlayer = true :=
  xGuar_all_intro 1 _ (by decide) (by decide)
    (all_cons_intro _ _ _ xg217 (all_nil_true _))

theorem xg716 : xGuar 3 [Cell.O, Cell.E, Cell.X, Cell.X, Cell.X, Cell.O, Cell.O, Cell.E, Cell.O] humanPlayer = true :=
  xGuar_any_intro 2 _ 7 (by decide) (by decide) (by decide) xg715

theorem xg717 : xGuar 4 [Cell.O, Cell.E, Cell.X, Cell.X, Cell.X, Cell.O, Cell.O, Cell.E, Cell.E] aiPlayer = true :=
  xGuar_all_intro 3 _ (by decide) (by decide)
    (all_cons_intro _ _ _ xg219 (all_cons_intro _ _ _ xg324 (all_cons_intro _ _ _ xg716 (all_nil_true _))))

theorem xg718 : xGuar 5 [Cell.O, Cell.E, Cell.X, Cell.X, Cell.E, Cell.O, Cell.O, Cell.E, Cell.E] humanPlayer = true :=
  xGuar_any_intro 4 _ 4 (by decide) (by decide) (by decide) xg717

theorem xg719 : xGuar 5 [Cell.O, Cell.E, Cell.X, Cell.X, Cell.E, Cell.O, Cell.E, Cell.O, Cell.E] humanPlayer = true :=
  xGuar_any_intro 4 _ 4 (by decide) (by decide) (by decide) xg327

theorem xg720 : xGuar 4 [Cell.O, Cell.E, Cell.X, Cell.X, Cell.X, Cell.O, Cell.E, Cell.E, Cell.O] aiPlayer = true :=
  xGuar_all_intro 3 _ (by decide) (by decide)
    (all_cons_intro _ _ _ xg223 (all_cons_intro _ _ _ xg716 (all_cons_intro _ _ _ xg326 (all_nil_true _))))

theorem xg721 : xGuar 5 [Cell.O, Cell.E, Cell.X, Cell.X, Cell.E, Cell.O, Cell.E, Cell.E, Cell.O] humanPlayer = true :=
  xGuar_any_intro 4 _ 4 (by decide) (by decide) (by decide) xg720

theorem xg722 : xGuar 6 [Cell.O, Cell.E, Cell.X, Cell.X, Cell.E, Cell.O, Cell.E, Cell.E, Cell.E] aiPlayer = true :=
  xGuar_all_intro 5 _ (by decide) (by decide)
    (all_cons_intro _ _ _ xg704 (all_cons_intro _ _ _ xg714 (all_cons_intro _ _ _ xg718 (all_cons_intro _ _ _ xg719 (all_cons_intro _ _ _ xg721 (all_nil_true _))))))

theorem xg723 : xGuar 7 [Cell.O, Cell.E, Cell.X, Cell.E, Cell.E, Cell.O, Cell.E, Cell.E, Cell.E] humanPlayer = true :=
  xGuar_any_intro 6 _ 3 (by decide) (by decide) (by decide) xg722

theorem xg724 : xGuar 3 [Cell.O, Cell.O, Cell.X, Cell.X, Cell.O, Cell.O, Cell.E, Cell.X, Cell.E] humanPlayer = true :=
  xGuar_any_intro 2 _ 8 (by decide) (by decide) (by decide) xg706

theorem xg725 : xGuar 3 [Cell.E, Cell.O, Cell.X, Cell.X, Cell.O, Cell.O, Cell.O, Cell.X, Cell.E] humanPlayer = true :=
  xGuar_any_intro 2 _ 0 (by decide) (by decide) (by decide) xg422

theorem xg726 : xGuar 3 [Cell.E, Cell.O, Cell.X, Cell.X, Cell.O, Cell.O, Cell.E, Cell.X, Cell.O] humanPlayer = true :=
  xGuar_any_intro 2 _ 0 (by decide) (by decide) (by decide) xg424

theorem xg727 : xGuar 4 [Cell.E, Cell.O, Cell.X, Cell.X, Cell.O, Cell.O, Cell.E, Cell.X, Cell.E] aiPlayer = true :=
  xGuar_all_intro 3 _ (by decide) (by decide)
    (all_cons_intro _ _ _ xg724 (all_cons_intro _ _ _ xg725 (all_cons_intro _ _ _ xg726 (all_nil_true _))))

theorem xg728 : xGuar 5 [Cell.E, Cell.O, Cell.X, Cell.X, Cell.O, Cell.O, Cell.E, Cell.E, Cell.E] humanPlayer = true :=
  xGuar_any_intro 4 _ 7 (by decide) (by decide) (by decide) xg727

theorem xg729 : xGuar 2 [Cell.E, Cell.O, Cell.X, Cell.X, Cell.X, Cell.O, Cell.O, Cell.O, Cell.X] aiPlayer = true :=
  xGuar_all_intro 1 _ (by decide) (by decide)
    (all_cons_intro _ _ _ xg322 (all_nil_true _))

theorem xg730 : xGuar 3 [Cell.E, Cell.O, Cell.X, Cell.X, Cell.X, Cell.O, Cell.O, Cell.O, Cell.E] humanPlayer = true :=
  xGuar_any_intro 2 _ 8 (by decide) (by decide) (by decide) xg729

theorem xg731 : xGuar 2 [Cell.E, Cell.O, Cell.X, Cell.X, Cell.X, Cell.O, Cell.O, Cell.X, Cell.O] aiPlayer = true :=
  xGuar_all_intro 1 _ (by decide) (by decide)
    (all_cons_intro _ _ _ xg217 (all_nil_true _))

theorem xg732 : xGuar 3 [Cell.E, Cell.O, Cell.X, Cell.X, Cell.X, Cell.O, Cell.O, Cell.E, Cell.O] humanPlayer = true :=
  xGuar_any_intro 2 _ 7 (by decide) (by decide) (by decide) xg731

theorem xg733 : xGuar 4 [Cell.E, Cell.O, Cell.X, Cell.X, Cell.X, Cell.O, Cell.O, Cell.E, Cell.E] aiPlayer = true :=
  xGuar_all_intro 3 _ (by decide) (by decide)
    (all_cons_intro _ _ _ xg219 (all_cons_intro _ _ _ xg730 (all_cons_intro _ _ _ xg732 (all_nil_true _))))

theorem xg734 : xGuar 5 [Cell.E, Cell.O, Cell.X, Cell.X, Cell.E, Cell.O, Cell.O, Cell.E, Cell.E] humanPlayer = true :=
  xGuar_any_intro 4 _ 4 (by decide) (by decide) (by decide) xg733

theorem xg735 : xGuar 2 [Cell.E, Cell.O, Cell.X, Cell.X, Cell.X, Cell.O, Cell.X, Cell.O, Cell.O] aiPlayer = true :=
  xGuar_winX_intro 1 _ _ (by decide)

theorem xg736 : xGuar 3 [Cell.E, Cell.O, Cell.X, Cell.X, Cell.X, Cell.O, Cell.E, Cell.O, Cell.O] humanPlayer = true :=
  xGuar_any_intro 2 _ 6 (by decide) (by decide) (by decide) xg735

theorem xg737 : xGuar 4 [Cell.E, Cell.O, Cell.X, Cell.X, Cell.X, Cell.O, Cell.E, Cell.O, Cell.E] aiPlayer = true :=
  xGuar_all_intro 3 _ (by decide) (by decide)
    (all_cons_intro _ _ _ xg221 (all_cons_intro _ _ _ xg730 (all_cons_intro _ _ _ xg736 (all_nil_true _))))

theorem xg738 : xGuar 5 [Cell.E, Cell.O, Cell.X, Cell.X, Cell.E, Cell.O, Cell.E, Cell.O, Cell.E] humanPlayer = true :=
  xGuar_any_intro 4 _ 4 (by decide) (by decide) (by decide) xg737

theorem xg739 : xGuar 2 [Cell.X, Cell.O, Cell.X, Cell.X, Cell.E, Cell.O, Cell.O, Cell.X, Cell.O] aiPlayer = true :=
  xGuar_all_intro 1 _ (by decide) (by decide)
    (all_cons_intro _ _ _ xg421 (all_nil_true _))

theorem xg740 : xGuar 3 [Cell.X, Cell.O, Cell.X, Cell.X, Cell.E, Cell.O, Cell.O, Cell.E, Cell.O] humanPlayer = true :=
  xGuar_any_intro 2 _ 7 (by decide) (by decide) (by decide) xg739

theorem xg741 : xGuar 2 [Cell.X, Cell.O, Cell.X, Cell.X, Cell.E, Cell.O, Cell.X, Cell.O, Cell.O] aiPlayer = true :=
  xGuar_winX_intro 1 _ _ (by decide)

theorem xg742 : xGuar 3 [Cell.X, Cell.O, Cell.X, Cell.X, Cell.E, Cell.O, Cell.E, Cell.O, Cell.O] humanPlayer = true :=
  xGuar_any_intro 2 _ 6 (by decide) (by decide) (by decide) xg741

theorem xg743 : xGuar 4 [Cell.X, Cell.O, Cell.X, Cell.X, Cell.E, Cell.O, Cell.E, Cell.E, Cell.O] aiPlayer = true :=
  xGuar_all_intro 3 _ (by decide) (by decide)
    (all_cons_intro _ _ _ xg671 (all_cons_intro _ _ _ xg740 (all_cons_intro _ _ _ xg742 (all_nil_true _))))

theorem xg744 : xGuar 5 [Cell.E, Cell.O, Cell.X, Cell.X, Cell.E, Cell.O, Cell.E, Cell.E, Cell.O] humanPlayer = true :=
  xGuar_any_intro 4 _ 0 (by decide) (by decide) (by decide) xg743

theorem xg745 : xGuar 6 [Cell.E, Cell.O, Cell.X, Cell.X, Cell.E, Cell.O, Cell.E, Cell.E, Cell.E] aiPlayer = true :=
  xGuar_all_intro 5 _ (by decide) (by decide)
    (all_cons_intro _ _ _ xg704 (all_cons_intro _ _ _ xg728 (all_cons_intro _ _ _ xg734 (all_cons_intro _ _ _ xg738 (all_cons_intro _ _ _ xg744 (all_nil_true _))))))

theorem xg746 : xGuar 7 [Cell.E, Cell.O, Cell.X, Cell.E, Cell.E, Cell.O, Cell.E, Cell.E, Cell.E] humanPlayer = true :=
  xGuar_any_intro 6 _ 3 (by decide) (by decide) (by decide) xg745

theorem xg747 : xGuar 4 [Cell.O, Cell.E, Cell.X, Cell.O, Cell.X, Cell.O, Cell.X, Cell.E, Cell.E] aiPlayer = true :=
  xGuar_winX_intro 3 _ _ (by decide)

theorem xg748 : xGuar 5 [Cell.O, Cell.E, Cell.X, Cell.O, Cell.X, Cell.O, Cell.E, Cell.E, Cell.E] humanPlayer = true :=
  xGuar_any_intro 4 _ 6 (by decide) (by decide) (by decide) xg747

theorem xg749 : xGuar 5 [Cell.E, Cell.O, Cell.X, Cell.O, Cell.X, Cell.O, Cell.E, Cell.E, Cell.E] humanPlayer = true :=
  xGuar_any_intro 4 _ 0 (by decide) (by decide) (by decide) xg387

theorem xg750 : xGuar 3 [Cell.X, Cell.E, Cell.X, Cell.O, Cell.X, Cell.O, Cell.O, Cell.O, Cell.E] humanPlayer = true :=
  xGuar_any_intro 2 _ 1 (by decide) (by decide) (by decide) xg590

theorem xg751 : xGuar 4 [Cell.X, Cell.E, Cell.X, Cell.O, Cell.X, Cell.O, Cell.O, Cell.E, Cell.E] aiPlayer = true :=
  xGuar_all_intro 3 _ (by decide) (by decide)
    (all_cons_intro _ _ _ xg382 (all_cons_intro _ _ _ xg750 (all_cons_intro _ _ _ xg602 (all_nil_true _))))

theorem xg752 : xGuar 5 [Cell.E, Cell.E, Cell.X, Cell.O, Cell.X, Cell.O, Cell.O, Cell.E, Cell.E] humanPlayer = true :=
  xGuar_any_intro 4 _ 0 (by decide) (by decide) (by decide) xg751

theorem xg753 : xGuar 4 [Cell.X, Cell.E, Cell.X, Cell.O, Cell.X, Cell.O, Cell.E, Cell.O, Cell.E] aiPlayer = true :=
  xGuar_all_intro 3 _ (by decide) (by decide)
    (all_cons_intro _ _ _ xg384 (all_cons_intro _ _ _ xg750 (all_cons_intro _ _ _ xg603 (all_nil_true _))))

theorem xg754 : xGuar 5 [Cell.E, Cell.E, Cell.X, Cell.O, Cell.X, Cell.O, Cell.E, Cell.O, Cell.E] humanPlayer = true :=
  xGuar_any_intro 4 _ 0 (by decide) (by decide) (by decide) xg753

theorem xg755 : xGuar 5 [Cell.E, Cell.E, Cell.X, Cell.O, Cell.X, Cell.O, Cell.E, Cell.E, Cell.O] humanPlayer = true :=
  xGuar_any_intro 4 _ 0 (by decide) (by decide) (by decide) xg604

theorem xg756 : xGuar 6 [Cell.E, Cell.E, Cell.X, Cell.O, Cell.X, Cell.O, Cell.E, Cell.E, Cell.E] aiPlayer = true :=
  xGuar_all_intro 5 _ (by decide) (by decide)
    (all_cons_intro _ _ _ xg748 (all_cons_intro _ _ _ xg749 (all_cons_intro _ _ _ xg752 (all_cons_intro _ _ _ xg754 (all_cons_intro _ _ _ xg755 (all_nil_true _))))))

theorem xg757 : xGuar 7 [Cell.E, Cell.E, Cell.X, Cell.O, Cell.E, Cell.O, Cell.E, Cell.E, Cell.E] humanPlayer = true :=
  xGuar_any_intro 6 _ 4 (by decide) (by decide) (by decide) xg756

theorem xg758 : xGuar 5 [Cell.E, Cell.E, Cell.X, Cell.X, Cell.O, Cell.O, Cell.O, Cell.E, Cell.E] humanPlayer = true :=
  xGuar_any_intro 4 _ 0 (by decide) (by decide) (by decide) xg662

theorem xg759 : xGuar 3 [Cell.O, Cell.X, Cell.X, Cell.X, Cell.O, Cell.O, Cell.E, Cell.O, Cell.E] humanPlayer = true :=
  xGuar_any_intro 2 _ 8 (by decide) (by decide) (by decide) xg711

theorem xg760 : xGuar 3 [Cell.E, Cell.X, Cell.X, Cell.X, Cell.O, Cell.O, Cell.O, Cell.O, Cell.E] humanPlayer = true :=
  xGuar_any_intro 2 _ 0 (by decide) (by decide) (by decide) xg658

theorem xg761 : xGuar 3 [Cell.E, Cell.X, Cell.X, Cell.X, Cell.O, Cell.O, Cell.E, Cell.O, Cell.O] humanPlayer = true :=
  xGuar_any_intro 2 _ 0 (by decide) (by decide) (by decide) xg666

theorem xg762 : xGuar 4 [Cell.E, Cell.X, Cell.X, Cell.X, Cell.O, Cell.O, Cell.E, Cell.O, Cell.E] aiPlayer = true :=
  xGuar_all_intro 3 _ (by decide) (by decide)
    (all_cons_intro _ _ _ xg759 (all_cons_intro _ _ _ xg760 (all_cons_intro _ _ _ xg761 (all_nil_true _))))

theorem xg763 : xGuar 5 [Cell.E, Cell.E, Cell.X, Cell.X, Cell.O, Cell.O, Cell.E, Cell.O, Cell.E] humanPlayer = true :=
  xGuar_any_intro 4 _ 1 (by decide) (by decide) (by decide) xg762

theorem xg764 : xGuar 5 [Cell.E, Cell.E, Cell.X, Cell.X, Cell.O, Cell.O, Cell.E, Cell.E, Cell.O] humanPlayer = true :=
  xGuar_any_intro 4 _ 0 (by decide) (by decide) (by decide) xg673

theorem xg765 : xGuar 6 [Cell.E, Cell.E, Cell.X, Cell.X, Cell.O, Cell.O, Cell.E, Cell.E, Cell.E] aiPlayer = true :=
  xGuar_all_intro 5 _ (by decide) (by decide)
    (all_cons_intro _ _ _ xg714 (all_cons_intro _ _ _ xg728 (all_cons_intro _ _ _ xg758 (all_cons_intro _ _ _ xg763 (all_cons_intro _ _ _ xg764 (all_nil_true _))))))

theorem xg766 : xGuar 7 [Cell.E, Cell.E, Cell.X, Cell.E, Cell.O, Cell.O, Cell.E, Cell.E, Cell.E] humanPlayer = true :=
  xGuar_any_intro 6 _ 3 (by decide) (by decide) (by decide) xg765

theorem xg767 : xGuar 5 [Cell.X, Cell.O, Cell.X, Cell.E, Cell.E, Cell.O, Cell.O, Cell.E, Cell.E] humanPlayer = true :=
  xGuar_any_intro 4 _ 4 (by decide) (by decide) (by decide) xg446

theorem xg768 : xGuar 5 [Cell.X, Cell.E, Cell.X, Cell.O, Cell.E, Cell.O, Cell.O, Cell.E, Cell.E] humanPlayer = true :=
  xGuar_any_intro 4 _ 1 (by decide) (by decide) (by decide) xg611

theorem xg769 : xGuar 4 [Cell.X, Cell.X, Cell.X, Cell.E, Cell.E, Cell.O, Cell.O, Cell.O, Cell.E] aiPlayer = true :=
  xGuar_winX_intro 3 _ _ (by decide)

theorem xg770 : xGuar 5 [Cell.X, Cell.E, Cell.X, Cell.E, Cell.E, Cell.O, Cell.O, Cell.O, Cell.E] humanPlayer = true :=
  xGuar_any_intro 4 _ 1 (by decide) (by decide) (by decide) xg769

theorem xg771 : xGuar 4 [Cell.X, Cell.X, Cell.X, Cell.E, Cell.E, Cell.O, Cell.O, Cell.E, Cell.O] aiPlayer = true :=
  xGuar_winX_intro 3 _ _ (by decide)

theorem xg772 : xGuar 5 [Cell.X, Cell.E, Cell.X, Cell.E, Cell.E, Cell.O, Cell.O, Cell.E, Cell.O] humanPlayer = true :=
  xGuar_any_intro 4 _ 1 (by decide) (by decide) (by decide) xg771

theorem xg773 : xGuar 6 [Cell.X, Cell.E, Cell.X, Cell.E, Cell.E, Cell.O, Cell.O, Cell.E, Cell.E] aiPlayer = true :=
  xGuar_all_intro 5 _ (by decide) (by decide)
    (all_cons_intro _ _ _ xg767 (all_cons_intro _ _ _ xg768 (all_cons_intro _ _ _ xg680 (all_cons_intro _ _ _ xg770 (all_cons_intro _ _ _ xg772 (all_nil_true _))))))

theorem xg774 : xGuar 7 [Cell.E, Cell.E, Cell.X, Cell.E, Cell.E, Cell.O, Cell.O, Cell.E, Cell.E] humanPlayer = true :=
  xGuar_any_intro 6 _ 0 (by decide) (by decide) (by decide) xg773

theorem xg775 : xGuar 5 [Cell.X, Cell.O, Cell.X, Cell.E, Cell.E, Cell.O, Cell.E, Cell.O, Cell.E] humanPlayer = true :=
  xGuar_any_intro 4 _ 4 (by decide) (by decide) (by decide) xg450

theorem xg776 : xGuar 5 [Cell.X, Cell.E, Cell.X, Cell.E, Cell.O, Cell.O, Cell.E, Cell.O, Cell.E] humanPlayer = true :=
  xGuar_any_intro 4 _ 1 (by decide) (by decide) (by decide) xg689

theorem xg777 : xGuar 4 [Cell.X, Cell.X, Cell.X, Cell.E, Cell.E, Cell.O, Cell.E, Cell.O, Cell.O] aiPlayer = true :=
  xGuar_winX_intro 3 _ _ (by decide)

theorem xg778 : xGuar 5 [Cell.X, Cell.E, Cell.X, Cell.E, Cell.E, Cell.O, Cell.E, Cell.O, Cell.O] humanPlayer = true :=
  xGuar_any_intro 4 _ 1 (by decide) (by decide) (by decide) xg777

theorem xg779 : xGuar 6 [Cell.X, Cell.E, Cell.X, Cell.E, Cell.E, Cell.O, Cell.E, Cell.O, Cell.E] aiPlayer = true :=
  xGuar_all_intro 5 _ (by decide) (by decide)
    (all_cons_intro _ _ _ xg775 (all_cons_intro _ _ _ xg623 (all_cons_intro _ _ _ xg776 (all_cons_intro _ _ _ xg770 (all_cons_intro _ _ _ xg778 (all_nil_true _))))))

theorem xg780 : xGuar 7 [Cell.E, Cell.E, Cell.X, Cell.E, Cell.E, Cell.O, Cell.E, Cell.O, Cell.E] humanPlayer = true :=
  xGuar_any_intro 6 _ 0 (by decide) (by decide) (by decide) xg779

theorem xg781 : xGuar 5 [Cell.X, Cell.O, Cell.X, Cell.E, Cell.E, Cell.O, Cell.E, Cell.E, Cell.O] humanPlayer = true :=
  xGuar_any_intro 4 _ 3 (by decide) (by decide) (by decide) xg743

theorem xg782 : xGuar 6 [Cell.X, Cell.E, Cell.X, Cell.E, Cell.E, Cell.O, Cell.E, Cell.E, Cell.O] aiPlayer = true :=
  xGuar_all_intro 5 _ (by decide) (by decide)
    (all_cons_intro _ _ _ xg781 (all_cons_intro _ _ _ xg633 (all_cons_intro _ _ _ xg698 (all_cons_intro _ _ _ xg772 (all_cons_intro _ _ _ xg778 (all_nil_true _))))))

theorem xg783 : xGuar 7 [Cell.E, Cell.E, Cell.X, Cell.E, Cell.E, Cell.O, Cell.E, Cell.E, Cell.O] humanPlayer = true :=
  xGuar_any_intro 6 _ 0 (by decide) (by decide) (by decide) xg782

theorem xg784 : xGuar 8 [Cell.E, Cell.E, Cell.X, Cell.E, Cell.E, Cell.O, Cell.E, Cell.E, Cell.E] aiPlayer = true :=
  xGuar_all_intro 7 _ (by decide) (by decide)
    (all_cons_intro _ _ _ xg723 (all_cons_intro _ _ _ xg746 (all_cons_intro _ _ _ xg757 (all_cons_intro _ _ _ xg766 (all_cons_intro _ _ _ xg774 (all_cons_intro _ _ _ xg780 (all_cons_intro _ _ _ xg783 (all_nil_true _))))))))

theorem xg785 : xGuar 9 [Cell.E, Cell.E, Cell.E, Cell.E, Cell.E, Cell.O, Cell.E, Cell.E, Cell.E] humanPlayer = true :=
  xGuar_any_intro 8 _ 2 (by decide) (by decide) (by decide) xg784

theorem xg786 : xGuar 7 [Cell.E, Cell.O, Cell.E, Cell.E, Cell.X, Cell.E, Cell.O, Cell.E, Cell.E] humanPlayer = true :=
  xGuar_any_intro 6 _ 0 (by decide) (by decide) (by decide) xg465

theorem xg787 : xGuar 4 [Cell.X, Cell.E, Cell.E, Cell.O, Cell.X, Cell.E, Cell.O, Cell.O, Cell.X] aiPlayer = true :=
  xGuar_winX_intro 3 _ _ (by decide)

theorem xg788 : xGuar 5 [Cell.X, Cell.E, Cell.E, Cell.O, Cell.X, Cell.E, Cell.O, Cell.O, Cell.E] humanPlayer = true :=
  xGuar_any_intro 4 _ 8 (by decide) (by decide) (by decide) xg787

theorem xg789 : xGuar 3 [Cell.X, Cell.E, Cell.O, Cell.O, Cell.X, Cell.E, Cell.O, Cell.X, Cell.O] humanPlayer = true :=
  xGuar_any_intro 2 _ 1 (by decide) (by decide) (by decide) xg492

theorem xg790 : xGuar 2 [Cell.X, Cell.X, Cell.E, Cell.O, Cell.X, Cell.O, Cell.O, Cell.X, Cell.O] aiPlayer = true :=
  xGuar_winX_intro 1 _ _ (by decide)

theorem xg791 : xGuar 3 [Cell.X, Cell.E, Cell.E, Cell.O, Cell.X, Cell.O, Cell.O, Cell.X, Cell.O] humanPlayer = true :=
  xGuar_any_intro 2 _ 1 (by decide) (by decide) (by decide) xg790

theorem xg792 : xGuar 4 [Cell.X, Cell.E, Cell.E, Cell.O, Cell.X, Cell.E, Cell.O, Cell.X, Cell.O] aiPlayer = true :=
  xGuar_all_intro 3 _ (by decide) (by decide)
    (all_cons_intro _ _ _ xg461 (all_cons_intro _ _ _ xg789 (all_cons_intro _ _ _ xg791 (all_nil_true _))))

theorem xg793 : xGuar 5 [Cell.X, Cell.E, Cell.E, Cell.O, Cell.X, Cell.E, Cell.O, Cell.E, Cell.O] humanPlayer = true :=
  xGuar_any_intro 4 _ 7 (by decide) (by decide) (by decide) xg792

theorem xg794 : xGuar 6 [Cell.X, Cell.E, Cell.E, Cell.O, Cell.X, Cell.E, Cell.O, Cell.E, Cell.E] aiPlayer = true :=
  xGuar_all_intro 5 _ (by decide) (by decide)
    (all_cons_intro _ _ _ xg394 (all_cons_intro _ _ _ xg495 (all_cons_intro _ _ _ xg595 (all_cons_intro _ _ _ xg788 (all_cons_intro _ _ _ xg793 (all_nil_true _))))))

theorem xg795 : xGuar 7 [Cell.E, Cell.E, Cell.E, Cell.O, Cell.X, Cell.E, Cell.O, Cell.E, Cell.E] humanPlayer = true :=
  xGuar_any_intro 6 _ 0 (by decide) (by decide) (by decide) xg794

theorem xg796 : xGuar 5 [Cell.E, Cell.X, Cell.E, Cell.O, Cell.X, Cell.O, Cell.O, Cell.E, Cell.E] humanPlayer = true :=
  xGuar_any_intro 4 _ 0 (by decide) (by decide) (by decide) xg594

theorem xg797 : xGuar 3 [Cell.O, Cell.X, Cell.E, Cell.E, Cell.X, Cell.O, Cell.O, Cell.O, Cell.X] humanPlayer = true :=
  xGuar_any_intro 2 _ 3 (by decide) (by decide) (by decide) xg290

theorem xg798 : xGuar 2 [Cell.X, Cell.X, Cell.E, Cell.O, Cell.X, Cell.O, Cell.O, Cell.O, Cell.X] aiPlayer = true :=
  xGuar_winX_intro 1 _ _ (by decide)

theorem xg799 : xGuar 3 [Cell.E, Cell.X, Cell.E, Cell.O, Cell.X, Cell.O, Cell.O, Cell.O, Cell.X] humanPlayer = true :=
  xGuar_any_intro 2 _ 0 (by decide) (by decide) (by decide) xg798

theorem xg800 : xGuar 4 [Cell.E, Cell.X, Cell.E, Cell.E, Cell.X, Cell.O, Cell.O, Cell.O, Cell.X] aiPlayer = true :=
  xGuar_all_intro 3 _ (by decide) (by decide)
    (all_cons_intro _ _ _ xg797 (all_cons_intro _ _ _ xg530 (all_cons_intro _ _ _ xg799 (all_nil_true _))))

theorem xg801 : xGuar 5 [Cell.E, Cell.X, Cell.E, Cell.E, Cell.X, Cell.O, Cell.O, Cell.O, Cell.E] humanPlayer = true :=
  xGuar_any_intro 4 _ 8 (by decide) (by decide) (by decide) xg800

theorem xg802 : xGuar 4 [Cell.E, Cell.X, Cell.E, Cell.E, Cell.X, Cell.O, Cell.O, Cell.X, Cell.O] aiPlayer = true :=
  xGuar_winX_intro 3 _ _ (by decide)

theorem xg803 : xGuar 5 [Cell.E, Cell.X, Cell.E, Cell.E, Cell.X, Cell.O, Cell.O, Cell.E, Cell.O] humanPlayer = true :=
  xGuar_any_intro 4 _ 7 (by decide) (by decide) (by decide) xg802

theorem xg804 : xGuar 6 [Cell.E, Cell.X, Cell.E, Cell.E, Cell.X, Cell.O, Cell.O, Cell.E, Cell.E] aiPlayer = true :=
  xGuar_all_intro 5 _ (by decide) (by decide)
    (all_cons_intro _ _ _ xg295 (all_cons_intro _ _ _ xg525 (all_cons_intro _ _ _ xg796 (all_cons_intro _ _ _ xg801 (all_cons_intro _ _ _ xg803 (all_nil_true _))))))

theorem xg805 : xGuar 7 [Cell.E, Cell.E, Cell.E, Cell.E, Cell.X, Cell.O, Cell.O, Cell.E, Cell.E] humanPlayer = true :=
  xGuar_any_intro 6 _ 1 (by decide) (by decide) (by decide) xg804

theorem xg806 : xGuar 2 [Cell.O, Cell.O, Cell.X, Cell.X, Cell.X, Cell.E, Cell.O, Cell.O, Cell.X] aiPlayer = true :=
  xGuar_all_intro 1 _ (by decide) (by decide)
    (all_cons_intro _ _ _ xg322 (all_nil_true _))

theorem xg807 : xGuar 3 [Cell.O, Cell.O, Cell.E, Cell.X, Cell.X, Cell.E, Cell.O, Cell.O, Cell.X] humanPlayer = true :=
  xGuar_any_intro 2 _ 2 (by decide) (by decide) (by decide) xg806

theorem xg808 : xGuar 3 [Cell.O, Cell.E, Cell.O, Cell.X, Cell.X, Cell.E, Cell.O, Cell.O, Cell.X] humanPlayer = true :=
  xGuar_any_intro 2 _ 1 (by decide) (by decide) (by decide) xg526

theorem xg809 : xGuar 3 [Cell.O, Cell.E, Cell.E, Cell.X, Cell.X, Cell.O, Cell.O, Cell.O, Cell.X] humanPlayer = true :=
  xGuar_any_intro 2 _ 1 (by decide) (by decide) (by decide) xg290

theorem xg810 : xGuar 4 [Cell.O, Cell.E, Cell.E, Cell.X, Cell.X, Cell.E, Cell.O, Cell.O, Cell.X] aiPlayer = true :=
  xGuar_all_intro 3 _ (by decide) (by decide)
    (all_cons_intro _ _ _ xg807 (all_cons_intro _ _ _ xg808 (all_cons_intro _ _ _ xg809 (all_nil_true _))))

theorem xg811 : xGuar 5 [Cell.O, Cell.E, Cell.E, Cell.E, Cell.X, Cell.E, Cell.O, Cell.O, Cell.X] humanPlayer = true :=
  xGuar_any_intro 4 _ 3 (by decide) (by decide) (by decide) xg810

theorem xg812 : xGuar 5 [Cell.E, Cell.O, Cell.E, Cell.E, Cell.X, Cell.E, Cell.O, Cell.O, Cell.X] humanPlayer = true :=
  xGuar_any_intro 4 _ 0 (by decide) (by decide) (by decide) xg457

theorem xg813 : xGuar 4 [Cell.X, Cell.E, Cell.O, Cell.E, Cell.X, Cell.E, Cell.O, Cell.O, Cell.X] aiPlayer = true :=
  xGuar_winX_intro 3 _ _ (by decide)

theorem xg814 : xGuar 5 [Cell.E, Cell.E, Cell.O, Cell.E, Cell.X, Cell.E, Cell.O, Cell.O, Cell.X] humanPlayer = true :=
  xGuar_any_intro 4 _ 0 (by decide) (by decide) (by decide) xg813

theorem xg815 : xGuar 5 [Cell.E, Cell.E, Cell.E, Cell.O, Cell.X, Cell.E, Cell.O, Cell.O, Cell.X] humanPlayer = true :=
  xGuar_any_intro 4 _ 0 (by decide) (by decide) (by decide) xg787

theorem xg816 : xGuar 4 [Cell.X, Cell.E, Cell.E, Cell.E, Cell.X, Cell.O, Cell.O, Cell.O, Cell.X] aiPlayer = true :=
  xGuar_winX_intro 3 _ _ (by decide)

theorem xg817 : xGuar 5 [Cell.E, Cell.E, Cell.E, Cell.E, Cell.X, Cell.O, Cell.O, Cell.O, Cell.X] humanPlayer = true :=
  xGuar_any_intro 4 _ 0 (by decide) (by decide) (by decide) xg816

theorem xg818 : xGuar 6 [Cell.E, Cell.E, Cell.E, Cell.E, Cell.X, Cell.E, Cell.O, Cell.O, Cell.X] aiPlayer = true :=
  xGuar_all_intro 5 _ (by decide) (by decide)
    (all_cons_intro _ _ _ xg811 (all_cons_intro _ _ _ xg812 (all_cons_intro _ _ _ xg814 (all_cons_intro _ _ _ xg815 (all_cons_intro _ _ _ xg817 (all_nil_true _))))))

theorem xg819 : xGuar 7 [Cell.E, Cell.E, Cell.E, Cell.E, Cell.X, Cell.E, Cell.O, Cell.O, Cell.E] humanPlayer = true :=
  xGuar_any_intro 6 _ 8 (by decide) (by decide) (by decide) xg818

theorem xg820 : xGuar 5 [Cell.O, Cell.E, Cell.E, Cell.E, Cell.X, Cell.E, Cell.O, Cell.X, Cell.O] humanPlayer = true :=
  xGuar_any_intro 4 _ 1 (by decide) (by decide) (by decide) xg334

theorem xg821 : xGuar 5 [Cell.E, Cell.O, Cell.E, Cell.E, Cell.X, Cell.E, Cell.O, Cell.X, Cell.O] humanPlayer = true :=
  xGuar_any_intro 4 _ 0 (by decide) (by decide) (by decide) xg463

theorem xg822 : xGuar 5 [Cell.E, Cell.E, Cell.O, Cell.E, Cell.X, Cell.E, Cell.O, Cell.X, Cell.O] humanPlayer = true :=
  xGuar_any_intro 4 _ 1 (by decide) (by decide) (by decide) xg533

theorem xg823 : xGuar 5 [Cell.E, Cell.E, Cell.E, Cell.O, Cell.X, Cell.E, Cell.O, Cell.X, Cell.O] humanPlayer = true :=
  xGuar_any_intro 4 _ 0 (by decide) (by decide) (by decide) xg792

theorem xg824 : xGuar 5 [Cell.E, Cell.E, Cell.E, Cell.E, Cell.X, Cell.O, Cell.O, Cell.X, Cell.O] humanPlayer = true :=
  xGuar_any_intro 4 _ 1 (by decide) (by decide) (by decide) xg802

theorem xg825 : xGuar 6 [Cell.E, Cell.E, Cell.E, Cell.E, Cell.X, Cell.E, Cell.O, Cell.X, Cell.O] aiPlayer = true :=
  xGuar_all_intro 5 _ (by decide) (by decide)
    (all_cons_intro _ _ _ xg820 (all_cons_intro _ _ _ xg821 (all_cons_intro _ _ _ xg822 (all_cons_intro _ _ _ xg823 (all_cons_intro _ _ _ xg824 (all_nil_true _))))))

theorem xg826 : xGuar 7 [Cell.E, Cell.E, Cell.E, Cell.E, Cell.X, Cell.E, Cell.O, Cell.E, Cell.O] humanPlayer = true :=
  xGuar_any_intro 6 _ 7 (by decide) (by decide) (by decide) xg825

theorem xg827 : xGuar 8 [Cell.E, Cell.E, Cell.E, Cell.E, Cell.X, Cell.E, Cell.O, Cell.E, Cell.E] aiPlayer = true :=
  xGuar_all_intro 7 _ (by decide) (by decide)
    (all_cons_intro _ _ _ xg319 (all_cons_intro _ _ _ xg786 (all_cons_intro _ _ _ xg536 (all_cons_intro _ _ _ xg795 (all_cons_intro _ _ _ xg805 (all_cons_intro _ _ _ xg819 (all_cons_intro _ _ _ xg826 (all_nil_true _))))))))

theorem xg828 : xGuar 9 [Cell.E, Cell.E, Cell.E, Cell.E, Cell.E, Cell.E, Cell.O, Cell.E, Cell.E] humanPlayer = true :=
  xGuar_any_intro 8 _ 4 (by decide) (by decide) (by decide) xg827

theorem xg829 : xGuar 4 [Cell.O, Cell.X, Cell.O, Cell.E, Cell.X, Cell.E, Cell.X, Cell.O, Cell.E] aiPlayer = true :=
  xGuar_all_intro 3 _ (by decide) (by decide)
    (all_cons_intro _ _ _ xg244 (all_cons_intro _ _ _ xg298 (all_cons_intro _ _ _ xg337 (all_nil_true _))))

theorem xg830 : xGuar 5 [Cell.O, Cell.X, Cell.O, Cell.E, Cell.E, Cell.E, Cell.X, Cell.O, Cell.E] humanPlayer = true :=
  xGuar_any_intro 4 _ 4 (by decide) (by decide) (by decide) xg829

theorem xg831 : xGuar 5 [Cell.O, Cell.X, Cell.E, Cell.O, Cell.E, Cell.E, Cell.X, Cell.O, Cell.E] humanPlayer = true :=
  xGuar_any_intro 4 _ 4 (by decide) (by decide) (by decide) xg283

theorem xg832 : xGuar 1 [Cell.O, Cell.X, Cell.O, Cell.X, Cell.O, Cell.O, Cell.X, Cell.O, Cell.X] humanPlayer = true :=
  xGuar_draw_intro 0 _ _ (by decide) (by decide) (by decide)

theorem xg833 : xGuar 2 [Cell.O, Cell.X, Cell.O, Cell.X, Cell.O, Cell.E, Cell.X, Cell.O, Cell.X] aiPlayer = true :=
  xGuar_all_intro 1 _ (by decide) (by decide)
    (all_cons_intro _ _ _ xg832 (all_nil_true _))

theorem xg834 : xGuar 3 [Cell.O, Cell.X, Cell.O, Cell.E, Cell.O, Cell.E, Cell.X, Cell.O, Cell.X] humanPlayer = true :=
  xGuar_any_intro 2 _ 3 (by decide) (by decide) (by decide) xg833

theorem xg835 : xGuar 1 [Cell.O, Cell.X, Cell.O, Cell.O, Cell.O, Cell.X, Cell.X, Cell.O, Cell.X] humanPlayer = true :=
  xGuar_draw_intro 0 _ _ (by decide) (by decide) (by decide)

theorem xg836 : xGuar 2 [Cell.O, Cell.X, Cell.E, Cell.O, Cell.O, Cell.X, Cell.X, Cell.O, Cell.X] aiPlayer = true :=
  xGuar_all_intro 1 _ (by decide) (by decide)
    (all_cons_intro _ _ _ xg835 (all_nil_true _))

theorem xg837 : xGuar 3 [Cell.O, Cell.X, Cell.E, Cell.O, Cell.O, Cell.E, Cell.X, Cell.O, Cell.X] humanPlayer = true :=
  xGuar_any_intro 2 _ 5 (by decide) (by decide) (by decide) xg836

theorem xg838 : xGuar 2 [Cell.O, Cell.X, Cell.E, Cell.X, Cell.O, Cell.O, Cell.X, Cell.O, Cell.X] aiPlayer = true :=
  xGuar_all_intro 1 _ (by decide) (by decide)
    (all_cons_intro _ _ _ xg832 (all_nil_true _))

theorem xg839 : xGuar 3 [Cell.O, Cell.X, Cell.E, Cell.E, Cell.O, Cell.O, Cell.X, Cell.O, Cell.X] humanPlayer = true :=
  xGuar_any_intro 2 _ 3 (by decide) (by decide) (by decide) xg838

theorem xg840 : xGuar 4 [Cell.O, Cell.X, Cell.E, Cell.E, Cell.O, Cell.E, Cell.X, Cell.O, Cell.X] aiPlayer = true :=
  xGuar_all_intro 3 _ (by decide) (by decide)
    (all_cons_intro _ _ _ xg834 (all_cons_intro _ _ _ xg837 (all_cons_intro _ _ _ xg839 (all_nil_true _))))

theorem xg841 : xGuar 5 [Cell.O, Cell.X, Cell.E, Cell.E, Cell.O, Cell.E, Cell.X, Cell.O, Cell.E] humanPlayer = true :=
  xGuar_any_intro 4 _ 8 (by decide) (by decide) (by decide) xg840

theorem xg842 : xGuar 5 [Cell.O, Cell.X, Cell.E, Cell.E, Cell.E, Cell.O, Cell.X, Cell.O, Cell.E] humanPlayer = true :=
  xGuar_any_intro 4 _ 4 (by decide) (by decide) (by decide) xg301

theorem xg843 : xGuar 5 [Cell.O, Cell.X, Cell.E, Cell.E, Cell.E, Cell.E, Cell.X, Cell.O, Cell.O] humanPlayer = true :=
  xGuar_any_intro 4 _ 4 (by decide) (by decide) (by decide) xg338

theorem xg844 : xGuar 6 [Cell.O, Cell.X, Cell.E, Cell.E, Cell.E, Cell.E, Cell.X, Cell.O, Cell.E] aiPlayer = true :=
  xGuar_all_intro 5 _ (by decide) (by decide)
    (all_cons_intro _ _ _ xg830 (all_cons_intro _ _ _ xg831 (all_cons_intro _ _ _ xg841 (all_cons_intro _ _ _ xg842 (all_cons_intro _ _ _ xg843 (all_nil_true _))))))

theorem xg845 : xGuar 7 [Cell.O, Cell.X, Cell.E, Cell.E, Cell.E, Cell.E, Cell.E, Cell.O, Cell.E] humanPlayer = true :=
  xGuar_any_intro 6 _ 6 (by decide) (by decide) (by decide) xg844

theorem xg846 : xGuar 2 [Cell.E, Cell.X, Cell.O, Cell.O, Cell.X, Cell.O, Cell.X, Cell.O, Cell.X] aiPlayer = true :=
  xGuar_all_intro 1 _ (by decide) (by decide)
    (all_cons_intro _ _ _ xg296 (all_nil_true _))

theorem xg847 : xGuar 3 [Cell.E, Cell.X, Cell.O, Cell.O, Cell.X, Cell.O, Cell.X, Cell.O, Cell.E] humanPlayer = true :=
  xGuar_any_intro 2 _ 8 (by decide) (by decide) (by decide) xg846

theorem xg848 : xGuar 2 [Cell.E, Cell.X, Cell.O, Cell.O, Cell.X, Cell.X, Cell.X, Cell.O, Cell.O] aiPlayer = true :=
  xGuar_all_intro 1 _ (by decide) (by decide)
    (all_cons_intro _ _ _ xg242 (all_nil_true _))

theorem xg849 : xGuar 3 [Cell.E, Cell.X, Cell.O, Cell.O, Cell.X, Cell.E, Cell.X, Cell.O, Cell.O] humanPlayer = true :=
  xGuar_any_intro 2 _ 5 (by decide) (by decide) (by decide) xg848

theorem xg850 : xGuar 4 [Cell.E, Cell.X, Cell.O, Cell.O, Cell.X, Cell.E, Cell.X, Cell.O, Cell.E] aiPlayer = true :=
  xGuar_all_intro 3 _ (by decide) (by decide)
    (all_cons_intro _ _ _ xg244 (all_cons_intro _ _ _ xg847 (all_cons_intro _ _ _ xg849 (all_nil_true _))))

theorem xg851 : xGuar 5 [Cell.E, Cell.X, Cell.O, Cell.O, Cell.E, Cell.E, Cell.X, Cell.O, Cell.E] humanPlayer = true :=
  xGuar_any_intro 4 _ 4 (by decide) (by decide) (by decide) xg850

theorem xg852 : xGuar 5 [Cell.E, Cell.X, Cell.O, Cell.E, Cell.O, Cell.E, Cell.X, Cell.O, Cell.E] humanPlayer = true :=
  xGuar_any_intro 4 _ 0 (by decide) (by decide) (by decide) xg648

theorem xg853 : xGuar 2 [Cell.O, Cell.X, Cell.O, Cell.X, Cell.E, Cell.O, Cell.X, Cell.O, Cell.X] aiPlayer = true :=
  xGuar_all_intro 1 _ (by decide) (by decide)
    (all_cons_intro _ _ _ xg832 (all_nil_true _))

theorem xg854 : xGuar 3 [Cell.O, Cell.X, Cell.O, Cell.E, Cell.E, Cell.O, Cell.X, Cell.O, Cell.X] humanPlayer = true :=
  xGuar_any_intro 2 _ 3 (by decide) (by decide) (by decide) xg853

theorem xg855 : xGuar 3 [Cell.E, Cell.X, Cell.O, Cell.O, Cell.E, Cell.O, Cell.X, Cell.O, Cell.X] humanPlayer = true :=
  xGuar_any_intro 2 _ 4 (by decide) (by decide) (by decide) xg846

theorem xg856 : xGuar 2 [Cell.E, Cell.X, Cell.O, Cell.X, Cell.O, Cell.O, Cell.X, Cell.O, Cell.X] aiPlayer = true :=
  xGuar_all_intro 1 _ (by decide) (by decide)
    (all_cons_intro _ _ _ xg832 (all_nil_true _))

theorem xg857 : xGuar 3 [Cell.E, Cell.X, Cell.O, Cell.E, Cell.O, Cell.O, Cell.X, Cell.O, Cell.X] humanPlayer = true :=
  xGuar_any_intro 2 _ 3 (by decide) (by decide) (by decide) xg856

theorem xg858 : xGuar 4 [Cell.E, Cell.X, Cell.O, Cell.E, Cell.E, Cell.O, Cell.X, Cell.O, Cell.X] aiPlayer = true :=
  xGuar_all_intro 3 _ (by decide) (by decide)
    (all_cons_intro _ _ _ xg854 (all_cons_intro _ _ _ xg855 (all_cons_intro _ _ _ xg857 (all_nil_true _))))

theorem xg859 : xGuar 5 [Cell.E, Cell.X, Cell.O, Cell.E, Cell.E, Cell.O, Cell.X, Cell.O, Cell.E] humanPlayer = true :=
  xGuar_any_intro 4 _ 8 (by decide) (by decide) (by decide) xg858

theorem xg860 : xGuar 3 [Cell.O, Cell.X, Cell.O, Cell.E, Cell.E, Cell.X, Cell.X, Cell.O, Cell.O] humanPlayer = true :=
  xGuar_any_intro 2 _ 4 (by decide) (by decide) (by decide) xg336

theorem xg861 : xGuar 2 [Cell.X, Cell.X, Cell.O, Cell.O, Cell.E, Cell.X, Cell.X, Cell.O, Cell.O] aiPlayer = true :=
  xGuar_all_intro 1 _ (by decide) (by decide)
    (all_cons_intro _ _ _ xg564 (all_nil_true _))

theorem xg862 : xGuar 3 [Cell.E, Cell.X, Cell.O, Cell.O, Cell.E, Cell.X, Cell.X, Cell.O, Cell.O] humanPlayer = true :=
  xGuar_any_intro 2 _ 0 (by decide) (by decide) (by decide) xg861

theorem xg863 : xGuar 2 [Cell.X, Cell.X, Cell.O, Cell.E, Cell.O, Cell.X, Cell.X, Cell.O, Cell.O] aiPlayer = true :=
  xGuar_all_intro 1 _ (by decide) (by decide)
    (all_cons_intro _ _ _ xg564 (all_nil_true _))

theorem xg864 : xGuar 3 [Cell.E, Cell.X, Cell.O, Cell.E, Cell.O, Cell.X, Cell.X, Cell.O, Cell.O] humanPlayer = true :=
  xGuar_any_intro 2 _ 0 (by decide) (by decide) (by decide) xg863

theorem xg865 : xGuar 4 [Cell.E, Cell.X, Cell.O, Cell.E, Cell.E, Cell.X, Cell.X, Cell.O, Cell.O] aiPlayer = true :=
  xGuar_all_intro 3 _ (by decide) (by decide)
    (all_cons_intro _ _ _ xg860 (all_cons_intro _ _ _ xg862 (all_cons_intro _ _ _ xg864 (all_nil_true _))))

theorem xg866 : xGuar 5 [Cell.E, Cell.X, Cell.O, Cell.E, Cell.E, Cell.E, Cell.X, Cell.O, Cell.O] humanPlayer = true :=
  xGuar_any_intro 4 _ 5 (by decide) (by decide) (by decide) xg865

theorem xg867 : xGuar 6 [Cell.E, Cell.X, Cell.O, Cell.E, Cell.E, Cell.E, Cell.X, Cell.O, Cell.E] aiPlayer = true :=
  xGuar_all_intro 5 _ (by decide) (by decide)
    (all_cons_intro _ _ _ xg830 (all_cons_intro _ _ _ xg851 (all_cons_intro _ _ _ xg852 (all_cons_intro _ _ _ xg859 (all_cons_intro _ _ _ xg866 (all_nil_true _))))))

theorem xg868 : xGuar 7 [Cell.E, Cell.X, Cell.O, Cell.E, Cell.E, Cell.E, Cell.E, Cell.O, Cell.E] humanPlayer = true :=
  xGuar_any_intro 6 _ 6 (by decide) (by decide) (by decide) xg867

theorem xg869 : xGuar 3 [Cell.O, Cell.X, Cell.E, Cell.O, Cell.O, Cell.X, Cell.X, Cell.O, Cell.E] humanPlayer = true :=
  xGuar_any_intro 2 _ 8 (by decide) (by decide) (by decide) xg836

theorem xg870 : xGuar 3 [Cell.E, Cell.X, Cell.O, Cell.O, Cell.O, Cell.X, Cell.X, Cell.O, Cell.E] humanPlayer = true :=
  xGuar_any_intro 2 _ 0 (by decide) (by decide) (by decide) xg565

theorem xg871 : xGuar 2 [Cell.X, Cell.X, Cell.E, Cell.O, Cell.O, Cell.X, Cell.X, Cell.O, Cell.O] aiPlayer = true :=
  xGuar_all_intro 1 _ (by decide) (by decide)
    (all_cons_intro _ _ _ xg564 (all_nil_true _))

theorem xg872 : xGuar 3 [Cell.E, Cell.X, Cell.E, Cell.O, Cell.O, Cell.X, Cell.X, Cell.O, Cell.O] humanPlayer = true :=
  xGuar_any_intro 2 _ 0 (by decide) (by decide) (by decide) xg871

theorem xg873 : xGuar 4 [Cell.E, Cell.X, Cell.E, Cell.O, Cell.O, Cell.X, Cell.X, Cell.O, Cell.E] aiPlayer = true :=
  xGuar_all_intro 3 _ (by decide) (by decide)
    (all_cons_intro _ _ _ xg869 (all_cons_intro _ _ _ xg870 (all_cons_intro _ _ _ xg872 (all_nil_true _))))

theorem xg874 : xGuar 5 [Cell.E, Cell.X, Cell.E, Cell.O, Cell.O, Cell.E, Cell.X, Cell.O, Cell.E] humanPlayer = true :=
  xGuar_any_intro 4 _ 5 (by decide) (by decide) (by decide) xg873

theorem xg875 : xGuar 2 [Cell.E, Cell.X, Cell.X, Cell.O, Cell.X, Cell.O, Cell.X, Cell.O, Cell.O] aiPlayer = true :=
  xGuar_winX_intro 1 _ _ (by decide)

theorem xg876 : xGuar 3 [Cell.E, Cell.X, Cell.E, Cell.O, Cell.X, Cell.O, Cell.X, Cell.O, Cell.O] humanPlayer = true :=
  xGuar_any_intro 2 _ 2 (by decide) (by decide) (by decide) xg875

theorem xg877 : xGuar 4 [Cell.E, Cell.X, Cell.E, Cell.O, Cell.X, Cell.O, Cell.X, Cell.O, Cell.E] aiPlayer = true :=
  xGuar_all_intro 3 _ (by decide) (by decide)
    (all_cons_intro _ _ _ xg276 (all_cons_intro _ _ _ xg847 (all_cons_intro _ _ _ xg876 (all_nil_true _))))

theorem xg878 : xGuar 5 [Cell.E, Cell.X, Cell.E, Cell.O, Cell.E, Cell.O, Cell.X, Cell.O, Cell.E] humanPlayer = true :=
  xGuar_any_intro 4 _ 4 (by decide) (by decide) (by decide) xg877

theorem xg879 : xGuar 3 [Cell.X, Cell.X, Cell.O, Cell.O, Cell.E, Cell.E, Cell.X, Cell.O, Cell.O] humanPlayer = true :=
  xGuar_any_intro 2 _ 5 (by decide) (by decide) (by decide) xg861

theorem xg880 : xGuar 2 [Cell.X, Cell.X, Cell.X, Cell.O, Cell.O, Cell.E, Cell.X, Cell.O, Cell.O] aiPlayer = true :=
  xGuar_winX_intro 1 _ _ (by decide)

theorem xg881 : xGuar 3 [Cell.X, Cell.X, Cell.E, Cell.O, Cell.O, Cell.E, Cell.X, Cell.O, Cell.O] humanPlayer = true :=
  xGuar_any_intro 2 _ 2 (by decide) (by decide) (by decide) xg880

theorem xg882 : xGuar 2 [Cell.X, Cell.X, Cell.X, Cell.O, Cell.E, Cell.O, Cell.X, Cell.O, Cell.O] aiPlayer = true :=
  xGuar_winX_intro 1 _ _ (by decide)

theorem xg883 : xGuar 3 [Cell.X, Cell.X, Cell.E, Cell.O, Cell.E, Cell.O, Cell.X, Cell.O, Cell.O] humanPlayer = true :=
  xGuar_any_intro 2 _ 2 (by decide) (by decide) (by decide) xg882

theorem xg884 : xGuar 4 [Cell.X, Cell.X, Cell.E, Cell.O, Cell.E, Cell.E, Cell.X, Cell.O, Cell.O] aiPlayer = true :=
  xGuar_all_intro 3 _ (by decide) (by decide)
    (all_cons_intro _ _ _ xg879 (all_cons_intro _ _ _ xg881 (all_cons_intro _ _ _ xg883 (all_nil_true _))))

theorem xg885 : xGuar 5 [Cell.E, Cell.X, Cell.E, Cell.O, Cell.E, Cell.E, Cell.X, Cell.O, Cell.O] humanPlayer = true :=
  xGuar_any_intro 4 _ 0 (by decide) (by decide) (by decide) xg884

theorem xg886 : xGuar 6 [Cell.E, Cell.X, Cell.E, Cell.O, Cell.E, Cell.E, Cell.X, Cell.O, Cell.E] aiPlayer = true :=
  xGuar_all_intro 5 _ (by decide) (by decide)
    (all_cons_intro _ _ _ xg831 (all_cons_intro _ _ _ xg851 (all_cons_intro _ _ _ xg874 (all_cons_intro _ _ _ xg878 (all_cons_intro _ _ _ xg885 (all_nil_true _))))))

theorem xg887 : xGuar 7 [Cell.E, Cell.X, Cell.E, Cell.O, Cell.E, Cell.E, Cell.E, Cell.O, Cell.E] humanPlayer = true :=
  xGuar_any_intro 6 _ 6 (by decide) (by decide) (by decide) xg886

theorem xg888 : xGuar 7 [Cell.E, Cell.X, Cell.E, Cell.E, Cell.O, Cell.E, Cell.E, Cell.O, Cell.E] humanPlayer = true :=
  xGuar_any_intro 6 _ 0 (by decide) (by decide) (by decide) xg694

theorem xg889 : xGuar 3 [Cell.O, Cell.X, Cell.E, Cell.X, Cell.O, Cell.O, Cell.X, Cell.O, Cell.E] humanPlayer = true :=
  xGuar_any_intro 2 _ 8 (by decide) (by decide) (by decide) xg838

theorem xg890 : xGuar 3 [Cell.E, Cell.X, Cell.O, Cell.X, Cell.O, Cell.O, Cell.X, Cell.O, Cell.E] humanPlayer = true :=
  xGuar_any_intro 2 _ 0 (by decide) (by decide) (by decide) xg644

theorem xg891 : xGuar 2 [Cell.X, Cell.X, Cell.E, Cell.X, Cell.O, Cell.O, Cell.X, Cell.O, Cell.O] aiPlayer = true :=
  xGuar_winX_intro 1 _ _ (by decide)

theorem xg892 : xGuar 3 [Cell.E, Cell.X, Cell.E, Cell.X, Cell.O, Cell.O, Cell.X, Cell.O, Cell.O] humanPlayer = true :=
  xGuar_any_intro 2 _ 0 (by decide) (by decide) (by decide) xg891

theorem xg893 : xGuar 4 [Cell.E, Cell.X, Cell.E, Cell.X, Cell.O, Cell.O, Cell.X, Cell.O, Cell.E] aiPlayer = true :=
  xGuar_all_intro 3 _ (by decide) (by decide)
    (all_cons_intro _ _ _ xg889 (all_cons_intro _ _ _ xg890 (all_cons_intro _ _ _ xg892 (all_nil_true _))))

theorem xg894 : xGuar 5 [Cell.E, Cell.X, Cell.E, Cell.E, Cell.O, Cell.O, Cell.X, Cell.O, Cell.E] humanPlayer = true :=
  xGuar_any_intro 4 _ 3 (by decide) (by decide) (by decide) xg893

theorem xg895 : xGuar 3 [Cell.O, Cell.X, Cell.X, Cell.E, Cell.E, Cell.O, Cell.X, Cell.O, Cell.O] humanPlayer = true :=
  xGuar_any_intro 2 _ 4 (by decide) (by decide) (by decide) xg299

theorem xg896 : xGuar 3 [Cell.E, Cell.X, Cell.X, Cell.O, Cell.E, Cell.O, Cell.X, Cell.O, Cell.O] humanPlayer = true :=
  xGuar_any_intro 2 _ 0 (by decide) (by decide) (by decide) xg882

theorem xg897 : xGuar 2 [Cell.X, Cell.X, Cell.X, Cell.E, Cell.O, Cell.O, Cell.X, Cell.O, Cell.O] aiPlayer = true :=
  xGuar_winX_intro 1 _ _ (by decide)

theorem xg898 : xGuar 3 [Cell.E, Cell.X, Cell.X, Cell.E, Cell.O, Cell.O, Cell.X, Cell.O, Cell.O] humanPlayer = true :=
  xGuar_any_intro 2 _ 0 (by decide) (by decide) (by decide) xg897

theorem xg899 : xGuar 4 [Cell.E, Cell.X, Cell.X, Cell.E, Cell.E, Cell.O, Cell.X, Cell.O, Cell.O] aiPlayer = true :=
  xGuar_all_intro 3 _ (by decide) (by decide)
    (all_cons_intro _ _ _ xg895 (all_cons_intro _ _ _ xg896 (all_cons_intro _ _ _ xg898 (all_nil_true _))))

theorem xg900 : xGuar 5 [Cell.E, Cell.X, Cell.E, Cell.E, Cell.E, Cell.O, Cell.X, Cell.O, Cell.O] humanPlayer = true :=
  xGuar_any_intro 4 _ 2 (by decide) (by decide) (by decide) xg899

theorem xg901 : xGuar 6 [Cell.E, Cell.X, Cell.E, Cell.E, Cell.E, Cell.O, Cell.X, Cell.O, Cell.E] aiPlayer = true :=
  xGuar_all_intro 5 _ (by decide) (by decide)
    (all_cons_intro _ _ _ xg842 (all_cons_intro _ _ _ xg859 (all_cons_intro _ _ _ xg878 (all_cons_intro _ _ _ xg894 (all_cons_intro _ _ _ xg900 (all_nil_true _))))))

theorem xg902 : xGuar 7 [Cell.E, Cell.X, Cell.E, Cell.E, Cell.E, Cell.O, Cell.E, Cell.O, Cell.E] humanPlayer = true :=
  xGuar_any_intro 6 _ 6 (by decide) (by decide) (by decide) xg901

theorem xg903 : xGuar 3 [Cell.O, Cell.X, Cell.O, Cell.X, Cell.E, Cell.E, Cell.O, Cell.O, Cell.X] humanPlayer = true :=
  xGuar_any_intro 2 _ 4 (by decide) (by decide) (by decide) xg526

theorem xg904 : xGuar 2 [Cell.O, Cell.X, Cell.X, Cell.X, Cell.O, Cell.E, Cell.O, Cell.O, Cell.X] aiPlayer = true :=
  xGuar_all_intro 1 _ (by decide) (by decide)
    (all_cons_intro _ _ _ xg708 (all_nil_true _))

theorem xg905 : xGuar 3 [Cell.O, Cell.X, Cell.E, Cell.X, Cell.O, Cell.E, Cell.O, Cell.O, Cell.X] humanPlayer = true :=
  xGuar_any_intro 2 _ 2 (by decide) (by decide) (by decide) xg904

theorem xg906 : xGuar 2 [Cell.O, Cell.X, Cell.X, Cell.X, Cell.E, Cell.O, Cell.O, Cell.O, Cell.X] aiPlayer = true :=
  xGuar_all_intro 1 _ (by decide) (by decide)
    (all_cons_intro _ _ _ xg708 (all_nil_true _))

theorem xg907 : xGuar 3 [Cell.O, Cell.X, Cell.E, Cell.X, Cell.E, Cell.O, Cell.O, Cell.O, Cell.X] humanPlayer = true :=
  xGuar_any_intro 2 _ 2 (by decide) (by decide) (by decide) xg906

theorem xg908 : xGuar 4 [Cell.O, Cell.X, Cell.E, Cell.X, Cell.E, Cell.E, Cell.O, Cell.O, Cell.X] aiPlayer = true :=
  xGuar_all_intro 3 _ (by decide) (by decide)
    (all_cons_intro _ _ _ xg903 (all_cons_intro _ _ _ xg905 (all_cons_intro _ _ _ xg907 (all_nil_true _))))

theorem xg909 : xGuar 5 [Cell.O, Cell.X, Cell.E, Cell.E, Cell.E, Cell.E, Cell.O, Cell.O, Cell.X] humanPlayer = true :=
  xGuar_any_intro 4 _ 3 (by decide) (by decide) (by decide) xg908

theorem xg910 : xGuar 5 [Cell.E, Cell.X, Cell.O, Cell.E, Cell.E, Cell.E, Cell.O, Cell.O, Cell.X] humanPlayer = true :=
  xGuar_any_intro 4 _ 4 (by decide) (by decide) (by decide) xg531

theorem xg911 : xGuar 3 [Cell.X, Cell.X, Cell.O, Cell.O, Cell.E, Cell.E, Cell.O, Cell.O, Cell.X] humanPlayer = true :=
  xGuar_any_intro 2 _ 4 (by decide) (by decide) (by decide) xg490

theorem xg912 : xGuar 2 [Cell.X, Cell.X, Cell.X, Cell.O, Cell.O, Cell.E, Cell.O, Cell.O, Cell.X] aiPlayer = true :=
  xGuar_winX_intro 1 _ _ (by decide)

theorem xg913 : xGuar 3 [Cell.X, Cell.X, Cell.E, Cell.O, Cell.O, Cell.E, Cell.O, Cell.O, Cell.X] humanPlayer = true :=
  xGuar_any_intro 2 _ 2 (by decide) (by decide) (by decide) xg912

theorem xg914 : xGuar 2 [Cell.X, Cell.X, Cell.X, Cell.O, Cell.E, Cell.O, Cell.O, Cell.O, Cell.X] aiPlayer = true :=
  xGuar_winX_intro 1 _ _ (by decide)

theorem xg915 : xGuar 3 [Cell.X, Cell.X, Cell.E, Cell.O, Cell.E, Cell.O, Cell.O, Cell.O, Cell.X] humanPlayer = true :=
  xGuar_any_intro 2 _ 2 (by decide) (by decide) (by decide) xg914

theorem xg916 : xGuar 4 [Cell.X, Cell.X, Cell.E, Cell.O, Cell.E, Cell.E, Cell.O, Cell.O, Cell.X] aiPlayer = true :=
  xGuar_all_intro 3 _ (by decide) (by decide)
    (all_cons_intro _ _ _ xg911 (all_cons_intro _ _ _ xg913 (all_cons_intro _ _ _ xg915 (all_nil_true _))))

theorem xg917 : xGuar 5 [Cell.E, Cell.X, Cell.E, Cell.O, Cell.E, Cell.E, Cell.O, Cell.O, Cell.X] humanPlayer = true :=
  xGuar_any_intro 4 _ 0 (by decide) (by decide) (by decide) xg916

theorem xg918 : xGuar 3 [Cell.O, Cell.X, Cell.X, Cell.E, Cell.O, Cell.E, Cell.O, Cell.O, Cell.X] humanPlayer = true :=
  xGuar_any_intro 2 _ 3 (by decide) (by decide) (by decide) xg904

theorem xg919 : xGuar 3 [Cell.E, Cell.X, Cell.X, Cell.O, Cell.O, Cell.E, Cell.O, Cell.O, Cell.X] humanPlayer = true :=
  xGuar_any_intro 2 _ 0 (by decide) (by decide) (by decide) xg912

theorem xg920 : xGuar 2 [Cell.X, Cell.X, Cell.X, Cell.E, Cell.O, Cell.O, Cell.O, Cell.O, Cell.X] aiPlayer = true :=
  xGuar_winX_intro 1 _ _ (by decide)

theorem xg921 : xGuar 3 [Cell.E, Cell.X, Cell.X, Cell.E, Cell.O, Cell.O, Cell.O, Cell.O, Cell.X] humanPlayer = true :=
  xGuar_any_intro 2 _ 0 (by decide) (by decide) (by decide) xg920

theorem xg922 : xGuar 4 [Cell.E, Cell.X, Cell.X, Cell.E, Cell.O, Cell.E, Cell.O, Cell.O, Cell.X] aiPlayer = true :=
  xGuar_all_intro 3 _ (by decide) (by decide)
    (all_cons_intro _ _ _ xg918 (all_cons_intro _ _ _ xg919 (all_cons_intro _ _ _ xg921 (all_nil_true _))))

theorem xg923 : xGuar 5 [Cell.E, Cell.X, Cell.E, Cell.E, Cell.O, Cell.E, Cell.O, Cell.O, Cell.X] humanPlayer = true :=
  xGuar_any_intro 4 _ 2 (by decide) (by decide) (by decide) xg922

theorem xg924 : xGuar 3 [Cell.X, Cell.X, Cell.O, Cell.E, Cell.E, Cell.O, Cell.O, Cell.O, Cell.X] humanPlayer = true :=
  xGuar_any_intro 2 _ 4 (by decide) (by decide) (by decide) xg529

theorem xg925 : xGuar 3 [Cell.X, Cell.X, Cell.E, Cell.E, Cell.O, Cell.O, Cell.O, Cell.O, Cell.X] humanPlayer = true :=
  xGuar_any_intro 2 _ 2 (by decide) (by decide) (by decide) xg920

theorem xg926 : xGuar 4 [Cell.X, Cell.X, Cell.E, Cell.E, Cell.E, Cell.O, Cell.O, Cell.O, Cell.X] aiPlayer = true :=
  xGuar_all_intro 3 _ (by decide) (by decide)
    (all_cons_intro _ _ _ xg924 (all_cons_intro _ _ _ xg915 (all_cons_intro _ _ _ xg925 (all_nil_true _))))

theorem xg927 : xGuar 5 [Cell.E, Cell.X, Cell.E, Cell.E, Cell.E, Cell.O, Cell.O, Cell.O, Cell.X] humanPlayer = true :=
  xGuar_any_intro 4 _ 0 (by decide) (by decide) (by decide) xg926

theorem xg928 : xGuar 6 [Cell.E, Cell.X, Cell.E, Cell.E, Cell.E, Cell.E, Cell.O, Cell.O, Cell.X] aiPlayer = true :=
  xGuar_all_intro 5 _ (by decide) (by decide)
    (all_cons_intro _ _ _ xg909 (all_cons_intro _ _ _ xg910 (all_cons_intro _ _ _ xg917 (all_cons_intro _ _ _ xg923 (all_cons_intro _ _ _ xg927 (all_nil_true _))))))

theorem xg929 : xGuar 7 [Cell.E, Cell.X, Cell.E, Cell.E, Cell.E, Cell.E, Cell.O, Cell.O, Cell.E] humanPlayer = true :=
  xGuar_any_intro 6 _ 8 (by decide) (by decide) (by decide) xg928

theorem xg930 : xGuar 3 [Cell.X, Cell.X, Cell.E, Cell.E, Cell.O, Cell.O, Cell.X, Cell.O, Cell.O] humanPlayer = true :=
  xGuar_any_intro 2 _ 2 (by decide) (by decide) (by decide) xg897

theorem xg931 : xGuar 4 [Cell.X, Cell.X, Cell.E, Cell.E, Cell.O, Cell.E, Cell.X, Cell.O, Cell.O] aiPlayer = true :=
  xGuar_all_intro 3 _ (by decide) (by decide)
    (all_cons_intro _ _ _ xg647 (all_cons_intro _ _ _ xg881 (all_cons_intro _ _ _ xg930 (all_nil_true _))))

theorem xg932 : xGuar 5 [Cell.E, Cell.X, Cell.E, Cell.E, Cell.O, Cell.E, Cell.X, Cell.O, Cell.O] humanPlayer = true :=
  xGuar_any_intro 4 _ 0 (by decide) (by decide) (by decide) xg931

theorem xg933 : xGuar 6 [Cell.E, Cell.X, Cell.E, Cell.E, Cell.E, Cell.E, Cell.X, Cell.O, Cell.O] aiPlayer = true :=
  xGuar_all_intro 5 _ (by decide) (by decide)
    (all_cons_intro _ _ _ xg843 (all_cons_intro _ _ _ xg866 (all_cons_intro _ _ _ xg885 (all_cons_intro _ _ _ xg932 (all_cons_intro _ _ _ xg900 (all_nil_true _))))))

theorem xg934 : xGuar 7 [Cell.E, Cell.X, Cell.E, Cell.E, Cell.E, Cell.E, Cell.E, Cell.O, Cell.O] humanPlayer = true :=
  xGuar_any_intro 6 _ 6 (by decide) (by decide) (by decide) xg933

theorem xg935 : xGuar 8 [Cell.E, Cell.X, Cell.E, Cell.E, Cell.E, Cell.E, Cell.E, Cell.O, Cell.E] aiPlayer = true :=
  xGuar_all_intro 7 _ (by decide) (by decide)
    (all_cons_intro _ _ _ xg845 (all_cons_intro _ _ _ xg868 (all_cons_intro _ _ _ xg887 (all_cons_intro _ _ _ xg888 (all_cons_intro _ _ _ xg902 (all_cons_intro _ _ _ xg929 (all_cons_intro _ _ _ xg934 (all_nil_true _))))))))

theorem xg936 : xGuar 9 [Cell.E, Cell.E, Cell.E, Cell.E, Cell.E, Cell.E, Cell.E, Cell.O, Cell.E] humanPlayer = true :=
  xGuar_any_intro 8 _ 1 (by decide) (by decide) (by decide) xg935

theorem xg937 : xGuar 7 [Cell.E, Cell.O, Cell.E, Cell.E, Cell.X, Cell.E, Cell.E, Cell.E, Cell.O] humanPlayer = true :=
  xGuar_any_intro 6 _ 0 (by decide) (by decide) (by decide) xg480

theorem xg938 : xGuar 3 [Cell.X, Cell.E, Cell.O, Cell.O, Cell.X, Cell.E, Cell.X, Cell.O, Cell.O] humanPlayer = true :=
  xGuar_any_intro 2 _ 5 (by decide) (by decide) (by decide) xg498

theorem xg939 : xGuar 2 [Cell.X, Cell.E, Cell.X, Cell.O, Cell.X, Cell.O, Cell.X, Cell.O, Cell.O] aiPlayer = true :=
  xGuar_winX_intro 1 _ _ (by decide)

theorem xg940 : xGuar 3 [Cell.X, Cell.E, Cell.E, Cell.O, Cell.X, Cell.O, Cell.X, Cell.O, Cell.O] humanPlayer = true :=
  xGuar_any_intro 2 _ 2 (by decide) (by decide) (by decide) xg939

theorem xg941 : xGuar 4 [Cell.X, Cell.E, Cell.E, Cell.O, Cell.X, Cell.E, Cell.X, Cell.O, Cell.O] aiPlayer = true :=
  xGuar_all_intro 3 _ (by decide) (by decide)
    (all_cons_intro _ _ _ xg470 (all_cons_intro _ _ _ xg938 (all_cons_intro _ _ _ xg940 (all_nil_true _))))

theorem xg942 : xGuar 5 [Cell.X, Cell.E, Cell.E, Cell.O, Cell.X, Cell.E, Cell.E, Cell.O, Cell.O] humanPlayer = true :=
  xGuar_any_intro 4 _ 6 (by decide) (by decide) (by decide) xg941

theorem xg943 : xGuar 6 [Cell.X, Cell.E, Cell.E, Cell.O, Cell.X, Cell.E, Cell.E, Cell.E, Cell.O] aiPlayer = true :=
  xGuar_all_intro 5 _ (by decide) (by decide)
    (all_cons_intro _ _ _ xg400 (all_cons_intro _ _ _ xg505 (all_cons_intro _ _ _ xg605 (all_cons_intro _ _ _ xg793 (all_cons_intro _ _ _ xg942 (all_nil_true _))))))

theorem xg944 : xGuar 7 [Cell.E, Cell.E, Cell.E, Cell.O, Cell.X, Cell.E, Cell.E, Cell.E, Cell.O] humanPlayer = true :=
  xGuar_any_intro 6 _ 0 (by decide) (by decide) (by decide) xg943

theorem xg945 : xGuar 5 [Cell.O, Cell.E, Cell.X, Cell.E, Cell.X, Cell.O, Cell.E, Cell.E, Cell.O] humanPlayer = true :=
  xGuar_any_intro 4 _ 1 (by decide) (by decide) (by decide) xg307

theorem xg946 : xGuar 5 [Cell.E, Cell.O, Cell.X, Cell.E, Cell.X, Cell.O, Cell.E, Cell.E, Cell.O] humanPlayer = true :=
  xGuar_any_intro 4 _ 0 (by decide) (by decide) (by decide) xg452

theorem xg947 : xGuar 3 [Cell.O, Cell.E, Cell.X, Cell.E, Cell.X, Cell.O, Cell.O, Cell.X, Cell.O] humanPlayer = true :=
  xGuar_any_intro 2 _ 1 (by decide) (by decide) (by decide) xg304

theorem xg948 : xGuar 3 [Cell.E, Cell.O, Cell.X, Cell.E, Cell.X, Cell.O, Cell.O, Cell.X, Cell.O] humanPlayer = true :=
  xGuar_any_intro 2 _ 0 (by decide) (by decide) (by decide) xg444

theorem xg949 : xGuar 2 [Cell.X, Cell.E, Cell.X, Cell.O, Cell.X, Cell.O, Cell.O, Cell.X, Cell.O] aiPlayer = true :=
  xGuar_all_intro 1 _ (by decide) (by decide)
    (all_cons_intro _ _ _ xg380 (all_nil_true _))

theorem xg950 : xGuar 3 [Cell.E, Cell.E, Cell.X, Cell.O, Cell.X, Cell.O, Cell.O, Cell.X, Cell.O] humanPlayer = true :=
  xGuar_any_intro 2 _ 0 (by decide) (by decide) (by decide) xg949

theorem xg951 : xGuar 4 [Cell.E, Cell.E, Cell.X, Cell.E, Cell.X, Cell.O, Cell.O, Cell.X, Cell.O] aiPlayer = true :=
  xGuar_all_intro 3 _ (by decide) (by decide)
    (all_cons_intro _ _ _ xg947 (all_cons_intro _ _ _ xg948 (all_cons_intro _ _ _ xg950 (all_nil_true _))))

theorem xg952 : xGuar 5 [Cell.E, Cell.E, Cell.X, Cell.E, Cell.X, Cell.O, Cell.O, Cell.E, Cell.O] humanPlayer = true :=
  xGuar_any_intro 4 _ 7 (by decide) (by decide) (by decide) xg951

theorem xg953 : xGuar 4 [Cell.E, Cell.E, Cell.X, Cell.E, Cell.X, Cell.O, Cell.X, Cell.O, Cell.O] aiPlayer = true :=
  xGuar_winX_intro 3 _ _ (by decide)

theorem xg954 : xGuar 5 [Cell.E, Cell.E, Cell.X, Cell.E, Cell.X, Cell.O, Cell.E, Cell.O, Cell.O] humanPlayer = true :=
  xGuar_any_intro 4 _ 6 (by decide) (by decide) (by decide) xg953

theorem xg955 : xGuar 6 [Cell.E, Cell.E, Cell.X, Cell.E, Cell.X, Cell.O, Cell.E, Cell.E, Cell.O] aiPlayer = true :=
  xGuar_all_intro 5 _ (by decide) (by decide)
    (all_cons_intro _ _ _ xg945 (all_cons_intro _ _ _ xg946 (all_cons_intro _ _ _ xg755 (all_cons_intro _ _ _ xg952 (all_cons_intro _ _ _ xg954 (all_nil_true _))))))

theorem xg956 : xGuar 7 [Cell.E, Cell.E, Cell.E, Cell.E, Cell.X, Cell.O, Cell.E, Cell.E, Cell.O] humanPlayer = true :=
  xGuar_any_intro 6 _ 2 (by decide) (by decide) (by decide) xg955

theorem xg957 : xGuar 5 [Cell.O, Cell.E, Cell.E, Cell.E, Cell.X, Cell.E, Cell.X, Cell.O, Cell.O] humanPlayer = true :=
  xGuar_any_intro 4 _ 1 (by decide) (by decide) (by decide) xg338

theorem xg958 : xGuar 5 [Cell.E, Cell.O, Cell.E, Cell.E, Cell.X, Cell.E, Cell.X, Cell.O, Cell.O] humanPlayer = true :=
  xGuar_any_intro 4 _ 0 (by decide) (by decide) (by decide) xg472

theorem xg959 : xGuar 3 [Cell.O, Cell.E, Cell.O, Cell.E, Cell.X, Cell.X, Cell.X, Cell.O, Cell.O] humanPlayer = true :=
  xGuar_any_intro 2 _ 1 (by decide) (by decide) (by decide) xg336

theorem xg960 : xGuar 2 [Cell.X, Cell.O, Cell.O, Cell.E, Cell.X, Cell.X, Cell.X, Cell.O, Cell.O] aiPlayer = true :=
  xGuar_all_intro 1 _ (by decide) (by decide)
    (all_cons_intro _ _ _ xg373 (all_nil_true _))

theorem xg961 : xGuar 3 [Cell.E, Cell.O, Cell.O, Cell.E, Cell.X, Cell.X, Cell.X, Cell.O, Cell.O] humanPlayer = true :=
  xGuar_any_intro 2 _ 0 (by decide) (by decide) (by decide) xg960

theorem xg962 : xGuar 3 [Cell.E, Cell.E, Cell.O, Cell.O, Cell.X, Cell.X, Cell.X, Cell.O, Cell.O] humanPlayer = true :=
  xGuar_any_intro 2 _ 0 (by decide) (by decide) (by decide) xg498

theorem xg963 : xGuar 4 [Cell.E, Cell.E, Cell.O, Cell.E, Cell.X, Cell.X, Cell.X, Cell.O, Cell.O] aiPlayer = true :=
  xGuar_all_intro 3 _ (by decide) (by decide)
    (all_cons_intro _ _ _ xg959 (all_cons_intro _ _ _ xg961 (all_cons_intro _ _ _ xg962 (all_nil_true _))))

theorem xg964 : xGuar 5 [Cell.E, Cell.E, Cell.O, Cell.E, Cell.X, Cell.E, Cell.X, Cell.O, Cell.O] humanPlayer = true :=
  xGuar_any_intro 4 _ 5 (by decide) (by decide) (by decide) xg963

theorem xg965 : xGuar 5 [Cell.E, Cell.E, Cell.E, Cell.O, Cell.X, Cell.E, Cell.X, Cell.O, Cell.O] humanPlayer = true :=
  xGuar_any_intro 4 _ 0 (by decide) (by decide) (by decide) xg941

theorem xg966 : xGuar 5 [Cell.E, Cell.E, Cell.E, Cell.E, Cell.X, Cell.O, Cell.X, Cell.O, Cell.O] humanPlayer = true :=
  xGuar_any_intro 4 _ 2 (by decide) (by decide) (by decide) xg953

theorem xg967 : xGuar 6 [Cell.E, Cell.E, Cell.E, Cell.E, Cell.X, Cell.E, Cell.X, Cell.O, Cell.O] aiPlayer = true :=
  xGuar_all_intro 5 _ (by decide) (by decide)
    (all_cons_intro _ _ _ xg957 (all_cons_intro _ _ _ xg958 (all_cons_intro _ _ _ xg964 (all_cons_intro _ _ _ xg965 (all_cons_intro _ _ _ xg966 (all_nil_true _))))))

theorem xg968 : xGuar 7 [Cell.E, Cell.E, Cell.E, Cell.E, Cell.X, Cell.E, Cell.E, Cell.O, Cell.O] humanPlayer = true :=
  xGuar_any_intro 6 _ 6 (by decide) (by decide) (by decide) xg967

theorem xg969 : xGuar 8 [Cell.E, Cell.E, Cell.E, Cell.E, Cell.X, Cell.E, Cell.E, Cell.E, Cell.O] aiPlayer = true :=
  xGuar_all_intro 7 _ (by decide) (by decide)
    (all_cons_intro _ _ _ xg341 (all_cons_intro _ _ _ xg937 (all_cons_intro _ _ _ xg558 (all_cons_intro _ _ _ xg944 (all_cons_intro _ _ _ xg956 (all_cons_intro _ _ _ xg826 (all_cons_intro _ _ _ xg968 (all_nil_true _))))))))

theorem xg970 : xGuar 9 [Cell.E, Cell.E, Cell.E, Cell.E, Cell.E, Cell.E, Cell.E, Cell.E, Cell.O] humanPlayer = true :=
  xGuar_any_intro 8 _ 4 (by decide) (by decide) (by decide) xg969

theorem xg971 : xGuar 10 [Cell.E, Cell.E, Cell.E, Cell.E, Cell.E, Cell.E, Cell.E, Cell.E, Cell.E] aiPlayer = true :=
  xGuar_all_intro 9 _ (by decide) (by decide)
    (all_cons_intro _ _ _ xg343 (all_cons_intro _ _ _ xg483 (all_cons_intro _ _ _ xg560 (all_cons_intro _ _ _ xg638 (all_cons_intro _ _ _ xg703 (all_cons_intro _ _ _ xg785 (all_cons_intro _ _ _ xg828 (all_cons_intro _ _ _ xg936 (all_cons_intro _ _ _ xg970 (all_nil_true _))))))))))

theorem oGuar_root_x : oGuar 10 board humanPlayer = true := og756

theorem oGuar_root_o : oGuar 10 board aiPlayer = true := og971

theorem xGuar_root_x : xGuar 10 board humanPlayer = true := xg214

theorem xGuar_root_o : xGuar 10 board aiPlayer = true := xg971


end TicTacToe

namespace TicTacToe

theorem minimax_board_score_zero_x :
    ∀ (r : SearchResult) (b2 : Board), minimax board humanPlayer = some (r, b2) →
      r.score = 0 := by
  intro r b2 h
  have hb2 : b2 = board := minimaxF_restores _ _ _ _ _ h
  rw [hb2] at h
  have hfuel : emptyCount board + 1 = 10 := by decide
  rw [minimax_eq_minimaxF, hfuel] at h
  have hlo := oGuar_bound 10 board humanPlayer (Or.inl rfl) oGuar_root_x r board h
  have hhi := xGuar_bound 10 board humanPlayer (Or.inl rfl) xGuar_root_x r board h
  omega

theorem minimax_board_score_zero_o :
    ∀ (r : SearchResult) (b2 : Board), minimax board aiPlayer = some (r, b2) →
      r.score = 0 := by
  intro r b2 h
  have hb2 : b2 = board := minimaxF_restores _ _ _ _ _ h
  rw [hb2] at h
  have hfuel : emptyCount board + 1 = 10 := by decide
  rw [minimax_eq_minimaxF, hfuel] at h
  have hlo := oGuar_bound 10 board aiPlayer (Or.inr rfl) oGuar_root_o r board h
  have hhi := xGuar_bound 10 board aiPlayer (Or.inr rfl) xGuar_root_o r board h
  omega

/-- C2: minimax optimality and perfect self-play.  First, on every
non-terminal board the Move returned by `minimax` never allows the opponent,
playing optimally afterwards, to reach a strictly better outcome than any
alternative Move: no available spot has a child value strictly better (for
the searching player) than the child value of the returned Move.  Second,
self-play of `minimax` against itself from the empty board — with either
side moving first — ends in a DRAW (a full board with no winner). -/
theorem claim_C2_optimality_selfplay_draw :
    (∀ (b : Board) (p : Cell) (r : SearchResult) (b2 : Board),
      (p = humanPlayer ∨ p = aiPlayer) →
      checkWin b humanPlayer = false → checkWin b aiPlayer = false →
      availableSpots b ≠ [] → minimax b p = some (r, b2) →
      ∃ m, r.index = some m ∧ m ∈ availableSpots b ∧
        ∀ s ∈ availableSpots b,
          isBetter p (childScore b p s) (childScore b p m) = false) ∧
    (checkWin (selfPlay 9 board humanPlayer) humanPlayer = false ∧
      checkWin (selfPlay 9 board humanPlayer) aiPlayer = false ∧
      availableSpots (selfPlay 9 board humanPlayer) = []) ∧
    (checkWin (selfPlay 9 board aiPlayer) humanPlayer = false ∧
      checkWin (selfPlay 9 board aiPlayer) aiPlayer = false ∧
      availableSpots (selfPlay 9 board aiPlayer) = []) := by
  refine ⟨?_, ?_, ?_⟩
  · intro b p r b2 hp h1 h2 h3 h
    obtain ⟨m0, hsel, hr⟩ := minimax_select b p r b2 hp h1 h2 h3 h
    have hmem := selectBest_mem _ _ m0 hsel
    obtain ⟨m, hm, hseq⟩ := List.mem_map.mp hmem
    obtain ⟨pre, post, heq, hpre, hall⟩ := selectBest_split _ _ m0 hsel
    refine ⟨m, by rw [hr, ← hseq], hm, ?_⟩
    intro s hs
    have hsmem := List.mem_map_of_mem (fun s => (⟨s, childScore b p s⟩ : ScoredMove)) hs
    have hbet := hall _ hsmem
    rw [← hseq] at hbet
    exact hbet
  · exact selfPlay_draw 9 board humanPlayer (Or.inl rfl) (by decide) minimax_board_score_zero_x
  · exact selfPlay_draw 9 board aiPlayer (Or.inr rfl) (by decide) minimax_board_score_zero_o

/-- C2 witness: the optimality conjunct at a concrete position (`'X'` to
move with an immediate winning move at index 6). -/
theorem claim_C2_optimality_selfplay_draw_witness :
    (humanPlayer = humanPlayer ∨ humanPlayer = aiPlayer) ∧
    checkWin [Cell.O, Cell.O, Cell.X, Cell.X, Cell.X, Cell.O, Cell.E, Cell.E, Cell.E]
      humanPlayer = false ∧
    checkWin [Cell.O, Cell.O, Cell.X, Cell.X, Cell.X, Cell.O, Cell.E, Cell.E, Cell.E]
      aiPlayer = false ∧
    availableSpots
      [Cell.O, Cell.O, Cell.X, Cell.X, Cell.X, Cell.O, Cell.E, Cell.E, Cell.E] ≠ [] ∧
    minimax [Cell.O, Cell.O, Cell.X, Cell.X, Cell.X, Cell.O, Cell.E, Cell.E, Cell.E]
        humanPlayer =
      some (⟨some 6, -10⟩,
        [Cell.O, Cell.O, Cell.X, Cell.X, Cell.X, Cell.O, Cell.E, Cell.E, Cell.E]) ∧
    (∃ m, (⟨some 6, -10⟩ : SearchResult).index = some m ∧
      m ∈ availableSpots
        [Cell.O, Cell.O, Cell.X, Cell.X, Cell.X, Cell.O, Cell.E, Cell.E, Cell.E] ∧
      ∀ s ∈ availableSpots
          [Cell.O, Cell.O, Cell.X, Cell.X, Cell.X, Cell.O, Cell.E, Cell.E, Cell.E],
        isBetter humanPlayer
          (childScore [Cell.O, Cell.O, Cell.X, Cell.X, Cell.X, Cell.O, Cell.E, Cell.E, Cell.E]
            humanPlayer s)
          (childScore [Cell.O, Cell.O, Cell.X, Cell.X, Cell.X, Cell.O, Cell.E, Cell.E, Cell.E]
            humanPlayer m) = false) :=
  ⟨Or.inl rfl, by decide, by decide, by decide, by decide,
    claim_C2_optimality_selfplay_draw.1
      [Cell.O, Cell.O, Cell.X, Cell.X, Cell.X, Cell.O, Cell.E, Cell.E, Cell.E]
      humanPlayer ⟨some 6, -10⟩
      [Cell.O, Cell.O, Cell.X, Cell.X, Cell.X, Cell.O, Cell.E, Cell.E, Cell.E]
      (Or.inl rfl) (by decide) (by decide) (by decide) (by decide)⟩

/-- C5 witness: a concrete position where both available spots tie at the
extremal child score and the first-enumerated spot (index 7) is returned. -/
theorem claim_C5_first_tiebreak_witness :
    (aiPlayer = humanPlayer ∨ aiPlayer = aiPlayer) ∧
    checkWin [Cell.X, Cell.X, Cell.O, Cell.O, Cell.O, Cell.X, Cell.X, Cell.E, Cell.E]
      humanPlayer = false ∧
    checkWin [Cell.X, Cell.X, Cell.O, Cell.O, Cell.O, Cell.X, Cell.X, Cell.E, Cell.E]
      aiPlayer = false ∧
    availableSpots
      [Cell.X, Cell.X, Cell.O, Cell.O, Cell.O, Cell.X, Cell.X, Cell.E, Cell.E] ≠ [] ∧
    minimax [Cell.X, Cell.X, Cell.O, Cell.O, Cell.O, Cell.X, Cell.X, Cell.E, Cell.E]
        aiPlayer =
      some (⟨some 7, 0⟩,
        [Cell.X, Cell.X, Cell.O, Cell.O, Cell.O, Cell.X, Cell.X, Cell.E, Cell.E]) ∧
    (∃ m pre post,
      (⟨some 7, 0⟩ : SearchResult) =
        ⟨some m, childScore
          [Cell.X, Cell.X, Cell.O, Cell.O, Cell.O, Cell.X, Cell.X, Cell.E, Cell.E]
          aiPlayer m⟩ ∧
      availableSpots
          [Cell.X, Cell.X, Cell.O, Cell.O, Cell.O, Cell.X, Cell.X, Cell.E, Cell.E] =
        pre ++ m :: post ∧
      (∀ s ∈ pre, isBetter aiPlayer
        (childScore [Cell.X, Cell.X, Cell.O, Cell.O, Cell.O, Cell.X, Cell.X, Cell.E, Cell.E]
          aiPlayer m)
        (childScore [Cell.X, Cell.X, Cell.O, Cell.O, Cell.O, Cell.X, Cell.X, Cell.E, Cell.E]
          aiPlayer s) = true) ∧
      (∀ s ∈ availableSpots
          [Cell.X, Cell.X, Cell.O, Cell.O, Cell.O, Cell.X, Cell.X, Cell.E, Cell.E],
        isBetter aiPlayer
          (childScore [Cell.X, Cell.X, Cell.O, Cell.O, Cell.O, Cell.X, Cell.X, Cell.E, Cell.E]
            aiPlayer s)
          (childScore [Cell.X, Cell.X, Cell.O, Cell.O, Cell.O, Cell.X, Cell.X, Cell.E, Cell.E]
            aiPlayer m) = false)) :=
  ⟨Or.inr rfl, by decide, by decide, by decide, by decide,
    claim_C5_first_tiebreak
      [Cell.X, Cell.X, Cell.O, Cell.O, Cell.O, Cell.X, Cell.X, Cell.E, Cell.E]
      aiPlayer ⟨some 7, 0⟩
      [Cell.X, Cell.X, Cell.O, Cell.O, Cell.O, Cell.X, Cell.X, Cell.E, Cell.E]
      (Or.inr rfl) (by decide) (by decide) (by decide) (by decide)⟩

end TicTacToe
